import Mathlib

/-!
# wined3d surface manager: a shallow embedding of `dlls/wined3d/surface.c`

The definitions below follow the C source function by function and keep its
names.  Machine integers are natural numbers or integers; where the C code
computes in an unsigned 32-bit type the result is reduced with `u32`.

Part 1 holds the definitions (data model, conversion engine, lock manager),
part 2 the lemmas and the theorems about them.
-/

namespace Wine

/-! ## Part 1: definitions -/

/-! ### Machine integers and byte memory -/

/-- Reduction of a natural number to an unsigned 32-bit value (UINT, DWORD). -/
def u32 (n : Nat) : Nat := n % 4294967296

/-- One byte of memory. -/
abbrev BYTE := Fin 256

/-- Truncation of an unsigned value to a byte, as in an assignment to a BYTE. -/
def toBYTE (n : Nat) : BYTE := ⟨n % 256, Nat.mod_lt n (by decide)⟩

/-- Truncation of a signed value to a byte, as in an assignment of a long to an unsigned char. -/
def intToBYTE (i : Int) : BYTE := ⟨(i % 256).toNat, by omega⟩

/-- Byte-addressed memory of one buffer; an address is the offset from the buffer's base pointer. -/
abbrev Mem := Nat → BYTE

/-- Store of one byte. -/
def Mem.store (m : Mem) (a : Nat) (v : BYTE) : Mem := fun i => if i = a then v else m i

/-- Load of a little-endian 16-bit value (WORD). -/
def Mem.read16 (m : Mem) (a : Nat) : Nat := (m a).val + 256 * (m (a + 1)).val

/-- Store of a little-endian 16-bit value (WORD); the value is truncated to 16 bits. -/
def Mem.write16 (m : Mem) (a : Nat) (v : Nat) : Mem :=
  (m.store a (toBYTE v)).store (a + 1) (toBYTE (v / 256))

/-- Load of a little-endian 32-bit value (DWORD). -/
def Mem.read32 (m : Mem) (a : Nat) : Nat :=
  (m a).val + 256 * (m (a + 1)).val + 65536 * (m (a + 2)).val + 16777216 * (m (a + 3)).val

/-- Conversion of a 16-bit pattern to the value of a C short (sign extension). -/
def toShort (w : Nat) : Int := if w % 65536 < 32768 then ((w % 65536 : Nat) : Int) else ((w % 65536 : Nat) : Int) - 65536

/-- Conversion of a 32-bit pattern to the value of a 32-bit C long. -/
def toLong (d : Nat) : Int := if u32 d < 2147483648 then ((u32 d : Nat) : Int) else ((u32 d : Nat) : Int) - 4294967296

/-! ### Result codes, formats, conversion modes -/

/-- Result codes used by the surface code. -/
inductive HRESULT
  | WINED3D_OK
  | WINED3DERR_INVALIDCALL
  | WINED3DERR_OUTOFVIDEOMEMORY
deriving DecidableEq, Repr

/-- The conversion modes of surface.c, lines 35-53. -/
inductive CONVERT_TYPES
  | NO_CONVERSION
  | CONVERT_PALETTED
  | CONVERT_PALETTED_CK
  | CONVERT_CK_565
  | CONVERT_CK_5551
  | CONVERT_CK_4444
  | CONVERT_CK_4444_ARGB
  | CONVERT_CK_1555
  | CONVERT_555
  | CONVERT_CK_RGB24
  | CONVERT_CK_8888
  | CONVERT_CK_8888_ARGB
  | CONVERT_RGB32_888
  | CONVERT_V8U8
  | CONVERT_X8L8V8U8
  | CONVERT_Q8W8V8U8
  | CONVERT_V16U16
deriving DecidableEq, Repr

/-- The pixel formats that surface.c names; OTHER stands for every format it does not name. -/
inductive WINED3DFORMAT
  | UNKNOWN
  | R8G8B8
  | A8R8G8B8
  | X8R8G8B8
  | R5G6B5
  | X1R5G5B5
  | A1R5G5B5
  | A4R4G4B4
  | R3G3B2
  | A8R3G3B2
  | X4R4G4B4
  | A2B10G10R10
  | A8B8G8R8
  | X8B8G8R8
  | A2R10G10B10
  | A16B16G16R16
  | A8P8
  | P8
  | V8U8
  | X8L8V8U8
  | Q8W8V8U8
  | V16U16
  | DXT1
  | DXT2
  | DXT3
  | DXT4
  | DXT5
  | D16_LOCKABLE
  | D16
  | OTHER
deriving DecidableEq, Repr

/-- Resource pools that surface.c distinguishes. -/
inductive WINED3DPOOL
  | DEFAULT
  | MANAGED
  | SYSTEMMEM
  | SCRATCH
deriving DecidableEq, Repr

/-- One palette entry (PALETTEENTRY). -/
structure PALETTEENTRY where
  peRed : BYTE
  peGreen : BYTE
  peBlue : BYTE
  peFlags : BYTE
deriving DecidableEq

/-- A palette of 256 entries. -/
abbrev Palette := Fin 256 → PALETTEENTRY

/-- An inclusive colour key range (WINEDDCOLORKEY). -/
structure WINEDDCOLORKEY where
  dwColorSpaceLowValue : Nat
  dwColorSpaceHighValue : Nat
deriving DecidableEq, Repr

/-- A rectangle (RECT) of signed coordinates. -/
structure RECT where
  left : Int
  top : Int
  right : Int
  bottom : Int
deriving DecidableEq, Repr

/-! ### The surface and its environment -/

/-- Modelled from the spec: the SFLAG_* bit values are declared in wined3d_private.h, which is
not part of the sources.  Following the design notes of the spec every flag is an independent
boolean; the record lists the flags that surface.c names. -/
structure SFlags where
  OVERSIZE : Bool := false
  CONVERTED : Bool := false
  DIBSECTION : Bool := false
  LOCKABLE : Bool := false
  LOCKED : Bool := false
  INTEXTURE : Bool := false
  INDRAWABLE : Bool := false
  INSYSMEM : Bool := false
  NONPOW2 : Bool := false
  DYNLOCK : Bool := false
  DCINUSE : Bool := false
  LOST : Bool := false
  GLCKEY : Bool := false
  USERPTR : Bool := false
  CLIENT : Bool := false
  ALLOCATED : Bool := false
deriving DecidableEq, Repr

/-- Test of a flag word against a mask: some flag of the mask is set in the word. -/
def SFlags.anyOf (f mask : SFlags) : Bool :=
  (f.OVERSIZE && mask.OVERSIZE) || (f.CONVERTED && mask.CONVERTED) ||
  (f.DIBSECTION && mask.DIBSECTION) || (f.LOCKABLE && mask.LOCKABLE) ||
  (f.LOCKED && mask.LOCKED) || (f.INTEXTURE && mask.INTEXTURE) ||
  (f.INDRAWABLE && mask.INDRAWABLE) || (f.INSYSMEM && mask.INSYSMEM) ||
  (f.NONPOW2 && mask.NONPOW2) || (f.DYNLOCK && mask.DYNLOCK) ||
  (f.DCINUSE && mask.DCINUSE) || (f.LOST && mask.LOST) ||
  (f.GLCKEY && mask.GLCKEY) || (f.USERPTR && mask.USERPTR) ||
  (f.CLIENT && mask.CLIENT) || (f.ALLOCATED && mask.ALLOCATED)

/-- The statement Flags &= SFLAG_CLIENT: every flag but SFLAG_CLIENT is cleared. -/
def SFlags.andCLIENT (f : SFlags) : SFlags := { CLIENT := f.CLIENT }

/-- What the container pointer of a surface refers to, as far as GetContainer can tell. -/
inductive Container
  | none
  | swapchain
  | baseTexture
  | other
deriving DecidableEq, Repr

/-- The values of wined3d_settings.rendertargetlock_mode. -/
inductive RTL
  | RTL_DISABLE
  | RTL_AUTO
  | RTL_READDRAW
  | RTL_READTEX
  | RTL_TEXDRAW
  | RTL_TEXTEX
deriving DecidableEq, Repr

/-- The OpenGL capabilities that surface.c queries with GL_SUPPORT. -/
structure GLInfo where
  EXT_PALETTED_TEXTURE : Bool := false
  APPLE_CLIENT_STORAGE : Bool := false
  EXT_TEXTURE_COMPRESSION_S3TC : Bool := false
  NV_TEXTURE_SHADER3 : Bool := false
  ATI_ENVMAP_BUMPMAP : Bool := false
  ARB_MULTITEXTURE : Bool := false
  EXT_FRAMEBUFFER_BLIT : Bool := false
deriving DecidableEq, Repr

/-- The OpenGL calls that move pixel data; the surface keeps a trace of them. -/
inductive GLCall
  | glTexImage2D
  | glTexSubImage2D
  | glCompressedTexImage2DARB
  | glCopyTexSubImage2D
  | glGetTexImage
  | glGetCompressedTexImageARB
  | glReadPixels
  | glDrawPixels
  | glColorTableEXT
  | drawQuad
deriving DecidableEq, Repr

/-- A call that the container texture makes on one of its surfaces. -/
inductive ContainerCall
  | SetGlTextureDesc (textureName : Nat)
  | LoadTexture
deriving DecidableEq, Repr

/-- The flags argument of LockRect (WINED3DLOCK_*). -/
structure LockFlags where
  DISCARD : Bool := false
  NO_DIRTY_UPDATE : Bool := false
  READONLY : Bool := false
deriving DecidableEq, Repr

/-- The caller's WINED3DLOCKED_RECT: the pitch and the address of the first locked byte. -/
structure WINED3DLOCKED_RECT where
  Pitch : Nat
  pBits : Int
deriving DecidableEq, Repr

/-- The values of wined3d_settings.offscreen_rendering_mode. -/
inductive ORM
  | ORM_BACKBUFFER
  | ORM_PBUFFER
  | ORM_FBO
deriving DecidableEq, Repr

/-- One entry of the pixel format table (PixelFormatDesc), as far as surface.c reads it. -/
structure PixelFormatDesc where
  bpp : Nat := 0
  glFormat : Nat := 0
  glInternal : Nat := 0
  glType : Nat := 0
deriving DecidableEq, Repr

/-- Everything a surface operation reads from outside the surface: constants of
wined3d_private.h (SURFACE_ALIGNMENT, MAXLOCKCOUNT, the SFLAG_DONOTFREE mask), the settings,
the GL capabilities, the device state, the heap and the container texture.  These are
parameters of the model, since none of them is defined in the sources; the theorems hold for
every value of them.  The calls into the context manager (ActivateContext), the state manager
(MarkStateDirty), the swapchain and OpenGL are taken to leave the fields of the surface alone. -/
structure Env where
  SURFACE_ALIGNMENT : Nat := 4
  MAXLOCKCOUNT : Nat := 50
  SFLAG_DONOTFREE : SFlags :=
    { OVERSIZE := true, CONVERTED := true, DIBSECTION := true, LOCKED := true, DYNLOCK := true,
      USERPTR := true, CLIENT := true }
  gl_info : GLInfo := {}
  rendertargetlock_mode : RTL := RTL.RTL_AUTO
  /-- The surface is myDevice->render_targets[0]. -/
  isRenderTarget0 : Bool := false
  /-- The surface is myDevice->stencilBufferTarget. -/
  isStencilBufferTarget : Bool := false
  /-- The palette device->palettes[device->currentPalette]. -/
  devicePalette : Palette := fun _ => ⟨0, 0, 0, 0⟩
  /-- The address HeapAlloc returns for a request of the given size; 0 is NULL. -/
  HeapAlloc : Nat → Nat := fun _ => 4096
  /-- The texture name glGenTextures hands out. -/
  glGenTextures : Nat := 1
  /-- The calls IWineD3DBaseTexture_PreLoad makes on this surface. -/
  containerPreLoad : List ContainerCall := []
  /-- The pixel format table behind getFormatDescEntry. -/
  getFormatDescEntry : WINED3DFORMAT → PixelFormatDesc := fun _ => { bpp := 4 }
  offscreen_rendering_mode : ORM := ORM.ORM_BACKBUFFER
  /-- The flag myDevice->inScene. -/
  inScene : Bool := false

/-- Modelled from the spec: the type renderbuffer_entry_t of the private header, with the
three fields that surface.c reads and writes. -/
structure renderbuffer_entry_t where
  width : Nat
  height : Nat
  id : Nat
  deriving DecidableEq, Repr

/-- The fields of IWineD3DSurfaceImpl that the modelled functions read or write.
Width and Height are UINT values that also fit a LONG, so that the conversions between the two
types in the code are exact.  The field gl is a trace of the GL data transfers issued for
the surface. -/
structure Surface where
  Flags : SFlags := {}
  format : WINED3DFORMAT := WINED3DFORMAT.UNKNOWN
  pool : WINED3DPOOL := WINED3DPOOL.DEFAULT
  bytesPerPixel : Nat := 0
  size : Nat := 0
  /-- The pointer resource.allocatedMemory; 0 is NULL. -/
  allocatedMemory : Nat := 0
  Width : Nat := 0
  Height : Nat := 0
  pow2Width : Nat := 0
  pow2Height : Nat := 0
  lockedRect : RECT := ⟨0, 0, 0, 0⟩
  dirtyRect : RECT := ⟨0, 0, 0, 0⟩
  lockCount : Nat := 0
  textureName : Nat := 0
  level : Nat := 0
  container : Container := Container.none
  /-- The bit WINEDDSD_CKSRCBLT of CKeyFlags. -/
  CKSRCBLT : Bool := false
  SrcBltCKey : WINEDDCOLORKEY := ⟨0, 0⟩
  glCKey : WINEDDCOLORKEY := ⟨0, 0⟩
  palette : Option Palette := none
  palette9 : Option Palette := none
  /-- The bit WINED3DUSAGE_RENDERTARGET of resource.usage. -/
  usageRenderTarget : Bool := false
  /-- The device context handle hDC; 0 is NULL. -/
  hDC : Nat := 0
  /-- The fields glFormat, glFormatInternal and glType of glDescription. -/
  glFormat : Nat := 0
  glFormatInternal : Nat := 0
  glType : Nat := 0
  /-- The surface has a clipper and the clipper has a window. -/
  clipperWindow : Bool := false
  gl : List GLCall := []
  /-- The list renderbuffers, head first. -/
  renderbuffers : List renderbuffer_entry_t := []
  /-- The pointer current_renderbuffer, as the entry it points at; none is NULL. -/
  current_renderbuffer : Option renderbuffer_entry_t := none

/-- The DXT2..DXT5 test that surface.c repeats. -/
def WINED3DFORMAT.isDXT2345 (f : WINED3DFORMAT) : Bool :=
  f = WINED3DFORMAT.DXT2 || f = WINED3DFORMAT.DXT3 || f = WINED3DFORMAT.DXT4 || f = WINED3DFORMAT.DXT5

/-- The DXT1..DXT5 test that surface.c repeats. -/
def WINED3DFORMAT.isDXT (f : WINED3DFORMAT) : Bool :=
  f = WINED3DFORMAT.DXT1 || f.isDXT2345

/-- The expression (x + SURFACE_ALIGNMENT - 1) & ~(SURFACE_ALIGNMENT - 1) in unsigned 32-bit arithmetic. -/
def alignUp (env : Env) (x : Nat) : Nat :=
  u32 (x + env.SURFACE_ALIGNMENT + 4294967295) &&& (4294967295 - u32 (env.SURFACE_ALIGNMENT + 4294967295))

/-- IWineD3DSurfaceImpl_GetPitch, surface.c lines 3386-3406. -/
def IWineD3DSurfaceImpl_GetPitch (env : Env) (This : Surface) : Nat :=
  if This.format = WINED3DFORMAT.DXT1 then
    u32 ((u32 (This.Width + 3) >>> 2) <<< 3)
  else if This.format.isDXT2345 then
    u32 ((u32 (This.Width + 3) >>> 2) <<< 4)
  else
    alignUp env (u32 (This.bytesPerPixel * This.Width))

/-! ### Format conversion engine -/

/-- The call memcpy(dst, src, n): the first n bytes of dst become those of src. -/
def memcpy (dst src : Mem) (n : Nat) : Mem := fun i => if i < n then src i else dst i

/-- A pixel loop for (x = 0; x < width; x++): each of the n iterations handles the pixel at
source offset s and destination offset d and then advances the two pointers. -/
def pixelLoop (pixel : Nat → Nat → Mem → Mem) (sstep dstep : Nat) : Nat → Nat → Nat → Mem → Mem
  | 0, _, _, dst => dst
  | n + 1, s, d, dst => pixelLoop pixel sstep dstep n (s + sstep) (d + dstep) (pixel s d dst)

/-- A row loop for (y = 0; y < height; y++): n iterations starting at row y. -/
def rowLoop (row : Nat → Mem → Mem) : Nat → Nat → Mem → Mem
  | 0, _, dst => dst
  | n + 1, y, dst => rowLoop row n (y + 1) (row y dst)

/-- The loop nest of one conversion mode: row y starts at src + pitch * y and dst + outpitch * y,
both products computed in unsigned 32-bit arithmetic. -/
def convertLoops (pixel : Nat → Nat → Mem → Mem) (sstep dstep : Nat)
    (pitch width height outpitch : Nat) (dst : Mem) : Mem :=
  rowLoop (fun y m => pixelLoop pixel sstep dstep width (u32 (pitch * y)) (u32 (outpitch * y)) m)
    height 0 dst

/-- The entry table[i][k] built by the palette loops of d3dfmt_convert_surface
(lines 1634-1668) from the palette pal. -/
def paletteTable (pal : Palette) (convert : CONVERT_TYPES) (key : WINEDDCOLORKEY)
    (i : Fin 256) (k : Nat) : BYTE :=
  match k with
  | 0 => (pal i).peRed
  | 1 => (pal i).peGreen
  | 2 => (pal i).peBlue
  | _ =>
    if convert = CONVERT_TYPES.CONVERT_PALETTED_CK ∧ i.val ≥ key.dwColorSpaceLowValue ∧
        i.val ≤ key.dwColorSpaceHighValue then 0x00 else 0xFF

/-- Loop body of the paletted modes, lines 1677-1681. -/
def pixel_PALETTED (table : Fin 256 → Nat → BYTE) (src : Mem) (s d : Nat) (dst : Mem) : Mem :=
  let color := src s
  (((dst.store d (table color 0)).store (d + 1) (table color 1)).store (d + 2)
    (table color 2)).store (d + 3) (table color 3)

/-- Loop body of CONVERT_CK_565, lines 1709-1714. -/
def pixel_CK_565 (key : WINEDDCOLORKEY) (src : Mem) (s d : Nat) (dst : Mem) : Mem :=
  let color := src.read16 s
  let dst1 := dst.write16 d ((color &&& 0xFFC0) ||| ((color &&& 0x1F) <<< 1))
  if color < key.dwColorSpaceLowValue ∨ color > key.dwColorSpaceHighValue then
    dst1.write16 d (dst1.read16 d ||| 0x0001)
  else dst1

/-- Loop body of CONVERT_V8U8, lines 1730-1733. -/
def pixel_V8U8 (src : Mem) (s d : Nat) (dst : Mem) : Mem :=
  let color : Int := toShort (src.read16 s)
  ((dst.store d 0xff).store (d + 1) (intToBYTE ((color >>> (8 : Nat)) + 128))).store (d + 2)
    (intToBYTE (color + 128))

/-- Loop body of CONVERT_Q8W8V8U8, lines 1749-1753. -/
def pixel_Q8W8V8U8 (src : Mem) (s d : Nat) (dst : Mem) : Mem :=
  let color : Int := toLong (src.read32 s)
  (((dst.store d (intToBYTE (Int.land (color >>> (16 : Nat)) 0xff + 128))).store (d + 1)
    (intToBYTE (Int.land (color >>> (8 : Nat)) 0xff + 128))).store (d + 2)
    (intToBYTE (Int.land color 0xff + 128))).store (d + 3)
    (intToBYTE (Int.land (color >>> (24 : Nat)) 0xff + 128))

/-- The palette that the paletted modes use: the palette attached to the surface, else the
current palette of the device (lines 1622-1669). -/
def conversionPalette (env : Env) (surf : Surface) : Palette :=
  match surf.palette with
  | none => env.devicePalette
  | some pal => pal

/-- d3dfmt_convert_surface, surface.c lines 1609-1764.  src and dst are distinct buffers; the
result is the status and the destination buffer after the call. -/
def d3dfmt_convert_surface (env : Env) (src dst : Mem) (pitch width height outpitch : Nat)
    (convert : CONVERT_TYPES) (surf : Surface) : HRESULT × Mem :=
  match convert with
  | CONVERT_TYPES.NO_CONVERSION =>
    (HRESULT.WINED3D_OK, memcpy dst src (u32 (pitch * height)))
  | CONVERT_TYPES.CONVERT_PALETTED | CONVERT_TYPES.CONVERT_PALETTED_CK =>
    let table := paletteTable (conversionPalette env surf) convert surf.SrcBltCKey
    (HRESULT.WINED3D_OK, convertLoops (pixel_PALETTED table src) 1 4 pitch width height outpitch dst)
  | CONVERT_TYPES.CONVERT_CK_565 =>
    (HRESULT.WINED3D_OK, convertLoops (pixel_CK_565 surf.SrcBltCKey src) 2 2 pitch width height outpitch dst)
  | CONVERT_TYPES.CONVERT_V8U8 =>
    (HRESULT.WINED3D_OK, convertLoops (pixel_V8U8 src) 2 3 pitch width height outpitch dst)
  | CONVERT_TYPES.CONVERT_Q8W8V8U8 =>
    (HRESULT.WINED3D_OK, convertLoops (pixel_Q8W8V8U8 src) 4 4 pitch width height outpitch dst)
  | _ =>
    (HRESULT.WINED3D_OK, dst)

/-- The conversion modes for which d3dfmt_convert_surface has a case of its own (surface.c
lines 1614-1757); every other mode takes the default branch. -/
def CONVERT_TYPES.implemented (c : CONVERT_TYPES) : Bool :=
  match c with
  | CONVERT_TYPES.NO_CONVERSION | CONVERT_TYPES.CONVERT_PALETTED
  | CONVERT_TYPES.CONVERT_PALETTED_CK | CONVERT_TYPES.CONVERT_CK_565
  | CONVERT_TYPES.CONVERT_V8U8 | CONVERT_TYPES.CONVERT_Q8W8V8U8 => true
  | _ => false

/-! ### Storage-tier state machine -/

/-- IWineD3DSurfaceImpl_AddDirtyRect, surface.c lines 2166-2190.  The call on the container
texture (SetDirty) does not touch the surface. -/
def IWineD3DSurfaceImpl_AddDirtyRect (This : Surface) (pDirtyRect : Option RECT) : HRESULT × Surface :=
  let This := { This with Flags := { This.Flags with INTEXTURE := false, INDRAWABLE := false } }
  match pDirtyRect with
  | some r =>
    (HRESULT.WINED3D_OK, { This with dirtyRect :=
      { left := min This.dirtyRect.left r.left
        top := min This.dirtyRect.top r.top
        right := max This.dirtyRect.right r.right
        bottom := max This.dirtyRect.bottom r.bottom } })
  | none =>
    (HRESULT.WINED3D_OK, { This with dirtyRect :=
      { left := 0, top := 0, right := (This.Width : Int), bottom := (This.Height : Int) } })

/-- IWineD3DSurfaceImpl_SetGlTextureDesc, surface.c lines 552-561 (the target is not modelled). -/
def IWineD3DSurfaceImpl_SetGlTextureDesc (This : Surface) (textureName : Nat) : Surface :=
  let This :=
    if This.textureName = 0 ∧ textureName ≠ 0 then
      (IWineD3DSurfaceImpl_AddDirtyRect
        { This with Flags := { This.Flags with INTEXTURE := false } } none).2
    else This
  { This with textureName := textureName, Flags := { This.Flags with ALLOCATED := false } }

/-- surface_allocate_surface, surface.c lines 195-241. -/
def surface_allocate_surface (env : Env) (This : Surface) : Surface :=
  if This.format.isDXT then This
  else
    let This :=
      if env.gl_info.APPLE_CLIENT_STORAGE then
        if (This.Flags.NONPOW2 || This.Flags.DIBSECTION || This.Flags.OVERSIZE ||
            This.Flags.CONVERTED) || This.allocatedMemory = 0 then
          { This with Flags := This.Flags.andCLIENT }
        else
          { This with Flags := { This.Flags with CLIENT := true } }
      else This
    { This with gl := This.gl ++ [GLCall.glTexImage2D],
                Flags := { This.Flags with ALLOCATED := true } }

/-- surface_upload_data, surface.c lines 163-193. -/
def surface_upload_data (env : Env) (This : Surface) : Surface :=
  if This.format.isDXT then
    if !env.gl_info.EXT_TEXTURE_COMPRESSION_S3TC then This
    else
      let This :=
        if env.gl_info.APPLE_CLIENT_STORAGE then
          { This with Flags := { This.Flags with CLIENT := true } }
        else This
      { This with gl := This.gl ++ [GLCall.glCompressedTexImage2DARB] }
  else
    { This with gl := This.gl ++ [GLCall.glTexSubImage2D] }

/-- surface_download_data, surface.c lines 57-161, without the contents of the host buffer. -/
def surface_download_data (env : Env) (This : Surface) : Surface :=
  if This.format.isDXT then
    if !env.gl_info.EXT_TEXTURE_COMPRESSION_S3TC then This
    else { This with gl := This.gl ++ [GLCall.glGetCompressedTexImageARB] }
  else if This.Flags.CONVERTED then This
  else { This with gl := This.gl ++ [GLCall.glGetTexImage] }

/-- read_from_framebuffer, surface.c lines 580-684, without the contents of the host buffer. -/
def read_from_framebuffer (env : Env) (This : Surface) : Surface :=
  if This.format = WINED3DFORMAT.P8 ∧ env.HeapAlloc (u32 (This.size * 3)) = 0 then This
  else { This with gl := This.gl ++ [GLCall.glReadPixels] }

/-- palette9_changed, surface.c lines 1818-1837: the answer and the surface with its
palette snapshot updated. -/
def palette9_changed (env : Env) (This : Surface) : Bool × Surface :=
  if This.palette.isSome ∨
      (This.format ≠ WINED3DFORMAT.P8 ∧ This.format ≠ WINED3DFORMAT.A8P8) then
    (false, This)
  else
    match This.palette9 with
    | some p9 =>
      if p9 = env.devicePalette then (false, This)
      else (true, { This with palette9 := some env.devicePalette })
    | none => (true, { This with palette9 := some env.devicePalette })

/-- d3dfmt_get_conv, surface.c lines 1481-1607: the conversion mode and the target bytes per
pixel (the GL format, internal format and type are not modelled). -/
def d3dfmt_get_conv (env : Env) (This : Surface) (need_alpha_ck use_texturing : Bool) :
    CONVERT_TYPES × Nat :=
  let colorkey_active := need_alpha_ck && This.CKSRCBLT
  match This.format with
  | WINED3DFORMAT.P8 =>
    if !env.gl_info.EXT_PALETTED_TEXTURE || colorkey_active ||
        (!use_texturing && env.gl_info.EXT_PALETTED_TEXTURE) then
      if colorkey_active then (CONVERT_TYPES.CONVERT_PALETTED_CK, 4)
      else (CONVERT_TYPES.CONVERT_PALETTED, 4)
    else (CONVERT_TYPES.NO_CONVERSION, This.bytesPerPixel)
  | WINED3DFORMAT.R5G6B5 =>
    if colorkey_active then (CONVERT_TYPES.CONVERT_CK_565, This.bytesPerPixel)
    else (CONVERT_TYPES.NO_CONVERSION, This.bytesPerPixel)
  | WINED3DFORMAT.R8G8B8 =>
    if colorkey_active then (CONVERT_TYPES.CONVERT_CK_RGB24, 4)
    else (CONVERT_TYPES.NO_CONVERSION, This.bytesPerPixel)
  | WINED3DFORMAT.X8R8G8B8 =>
    if colorkey_active then (CONVERT_TYPES.CONVERT_RGB32_888, This.bytesPerPixel)
    else (CONVERT_TYPES.NO_CONVERSION, This.bytesPerPixel)
  | WINED3DFORMAT.V8U8 =>
    if env.gl_info.NV_TEXTURE_SHADER3 then (CONVERT_TYPES.NO_CONVERSION, This.bytesPerPixel)
    else if env.gl_info.ATI_ENVMAP_BUMPMAP then (CONVERT_TYPES.NO_CONVERSION, This.bytesPerPixel)
    else (CONVERT_TYPES.CONVERT_V8U8, 3)
  | WINED3DFORMAT.X8L8V8U8 =>
    if env.gl_info.NV_TEXTURE_SHADER3 then (CONVERT_TYPES.NO_CONVERSION, This.bytesPerPixel)
    else (CONVERT_TYPES.CONVERT_X8L8V8U8, 4)
  | WINED3DFORMAT.Q8W8V8U8 =>
    if env.gl_info.NV_TEXTURE_SHADER3 then (CONVERT_TYPES.NO_CONVERSION, This.bytesPerPixel)
    else (CONVERT_TYPES.CONVERT_Q8W8V8U8, 4)
  | WINED3DFORMAT.V16U16 =>
    if env.gl_info.NV_TEXTURE_SHADER3 then (CONVERT_TYPES.NO_CONVERSION, This.bytesPerPixel)
    else (CONVERT_TYPES.CONVERT_V16U16, 6)
  | _ => (CONVERT_TYPES.NO_CONVERSION, This.bytesPerPixel)

/-- The upload at the end of IWineD3DSurfaceImpl_LoadTexture, surface.c lines 1961-2015; mem is
the buffer to upload, 0 when there is none. -/
def LoadTexture_upload (env : Env) (This : Surface) (mem : Nat) : HRESULT × Surface :=
  let This := if !This.Flags.ALLOCATED then surface_allocate_surface env This else This
  let This := if mem ≠ 0 then surface_upload_data env This else This
  if !This.Flags.anyOf env.SFLAG_DONOTFREE then
    (HRESULT.WINED3D_OK,
      { This with allocatedMemory := 0, Flags := { This.Flags with INSYSMEM := false } })
  else (HRESULT.WINED3D_OK, This)

/-- The branch of IWineD3DSurfaceImpl_LoadTexture for a surface whose drawable is up to date,
surface.c lines 1881-1917. -/
def LoadTexture_fromDrawable (env : Env) (This : Surface) : HRESULT × Surface :=
  if This.level ≠ 0 then (HRESULT.WINED3D_OK, This)
  else if This.format = WINED3DFORMAT.P8 ∨ This.format = WINED3DFORMAT.A8P8 ∨
      This.format.isDXT then (HRESULT.WINED3D_OK, This)
  else
    let This := if !This.Flags.ALLOCATED then surface_allocate_surface env This else This
    (HRESULT.WINED3D_OK, { This with gl := This.gl ++ [GLCall.glCopyTexSubImage2D] })

/-- The branch of IWineD3DSurfaceImpl_LoadTexture that loads from the host buffer, surface.c
lines 1925-2015; conv is the result of d3dfmt_get_conv.  The pixels that the conversion
engine writes to the temporary buffer are not part of the surface state. -/
def LoadTexture_fromSysmem (env : Env) (This : Surface) (conv : CONVERT_TYPES × Nat) :
    HRESULT × Surface :=
  let This :=
    if This.CKSRCBLT then
      { This with Flags := { This.Flags with GLCKEY := true }, glCKey := This.SrcBltCKey }
    else { This with Flags := { This.Flags with GLCKEY := false } }
  if conv.1 ≠ CONVERT_TYPES.NO_CONVERSION ∧ This.allocatedMemory ≠ 0 then
    let outpitch := alignUp env (u32 (This.Width * conv.2))
    let mem := env.HeapAlloc (u32 (outpitch * This.Height))
    if mem = 0 then (HRESULT.WINED3DERR_OUTOFVIDEOMEMORY, This)
    else
      LoadTexture_upload env { This with Flags := { This.Flags with CONVERTED := true } } mem
  else if This.format = WINED3DFORMAT.P8 ∧ env.gl_info.EXT_PALETTED_TEXTURE then
    LoadTexture_upload env
      { This with gl := This.gl ++ [GLCall.glColorTableEXT],
                  Flags := { This.Flags with CONVERTED := false } } This.allocatedMemory
  else
    LoadTexture_upload env { This with Flags := { This.Flags with CONVERTED := false } }
      This.allocatedMemory

/-- The reload decision at the head of IWineD3DSurfaceImpl_LoadTexture, surface.c lines
1848-1864: whether the texture has to be loaded, and the surface after palette9_changed. -/
def LoadTexture_needsReload (env : Env) (This : Surface) : Bool × Surface :=
  if !This.Flags.INTEXTURE then (true, This)
  else if (This.Flags.GLCKEY && !This.CKSRCBLT) || (!This.Flags.GLCKEY && This.CKSRCBLT) ||
      (This.CKSRCBLT &&
        (This.glCKey.dwColorSpaceLowValue != This.SrcBltCKey.dwColorSpaceLowValue ||
         This.glCKey.dwColorSpaceHighValue != This.SrcBltCKey.dwColorSpaceHighValue)) then
    (true, This)
  else palette9_changed env This

/-- The load itself in IWineD3DSurfaceImpl_LoadTexture, once a reload is decided, surface.c
lines 1866-2015. -/
def LoadTexture_load (env : Env) (This : Surface) : HRESULT × Surface :=
  let This := { This with Flags := { This.Flags with INTEXTURE := true } }
  if This.pool = WINED3DPOOL.SCRATCH then (HRESULT.WINED3DERR_INVALIDCALL, This)
  else
    let conv := d3dfmt_get_conv env This true true
    if This.Flags.INDRAWABLE then LoadTexture_fromDrawable env This
    else LoadTexture_fromSysmem env This conv

/-- IWineD3DSurfaceImpl_LoadTexture, surface.c lines 1839-2016. -/
def IWineD3DSurfaceImpl_LoadTexture (env : Env) (This : Surface) : HRESULT × Surface :=
  let decision := LoadTexture_needsReload env This
  if !decision.1 then (HRESULT.WINED3D_OK, decision.2)
  else LoadTexture_load env decision.2

/-- One call that the container texture makes on the surface. -/
def ContainerCall.run (env : Env) (This : Surface) : ContainerCall → Surface
  | ContainerCall.SetGlTextureDesc textureName => IWineD3DSurfaceImpl_SetGlTextureDesc This textureName
  | ContainerCall.LoadTexture => (IWineD3DSurfaceImpl_LoadTexture env This).2

/-- IWineD3DSurfaceImpl_PreLoad, surface.c lines 453-492.  IWineD3DBaseTexture_PreLoad is not
part of the sources: it reaches the surface through SetGlTextureDesc and LoadTexture only, and
the calls it makes are the parameter containerPreLoad of the environment. -/
def IWineD3DSurfaceImpl_PreLoad (env : Env) (This : Surface) : Surface :=
  if This.container = Container.baseTexture then
    env.containerPreLoad.foldl (fun s c => c.run env s) This
  else if This.level = 0 then
    let This := if This.textureName = 0 then { This with textureName := env.glGenTextures } else This
    (IWineD3DSurfaceImpl_LoadTexture env This).2
  else This

/-! ### Lock manager -/

/-- The conversion of a LONG to an unsigned 32-bit value, as in a comparison with a UINT. -/
def longToU32 (i : Int) : Nat := (i % 4294967296).toNat

/-- The value of a LONG expression computed with 32-bit wrap-around. -/
def wrapLong (i : Int) : Int := toLong (longToU32 i)

/-- The label lock_end of IWineD3DSurfaceImpl_LockRect, surface.c lines 885-908. -/
def LockRect_lock_end (This : Surface) (Flags : LockFlags) : Surface :=
  if Flags.NO_DIRTY_UPDATE || Flags.READONLY then This
  else (IWineD3DSurfaceImpl_AddDirtyRect This (some This.lockedRect)).2

/-- The head of IWineD3DSurfaceImpl_LockRect, surface.c lines 703-710: the surface is marked
locked and the host buffer is allocated when there is none. -/
def LockRect_allocate (env : Env) (This : Surface) : Surface :=
  let This := { This with Flags := { This.Flags with LOCKED := true } }
  if This.allocatedMemory = 0 then
    { This with allocatedMemory := env.HeapAlloc (u32 (This.size + 4)),
                Flags := { This.Flags with INSYSMEM := false } }
  else This

/-- The start address that IWineD3DSurfaceImpl_LockRect reports in pBits, surface.c lines
712-737.  Pitch is the INT of the caller's WINED3DLOCKED_RECT and the fields of the rectangle
are LONG: the products Pitch * top and left * 2 (left * 4) are 32-bit signed products, the
first divided by 4 with the truncating division of C.  bytesPerPixel is a UINT, as the sizes
of the surface are, so the product left * bytesPerPixel is unsigned.  The sum with the pointer
is the address itself. -/
def LockRect_pBits (This : Surface) (Pitch : Nat) (pRect : Option RECT) : Int :=
  match pRect with
  | none => (This.allocatedMemory : Int)
  | some r =>
    if This.format = WINED3DFORMAT.DXT1 then
      (This.allocatedMemory : Int) + Int.tdiv (wrapLong (toLong Pitch * r.top)) 4 +
        wrapLong (r.left * 2)
    else if This.format.isDXT2345 then
      (This.allocatedMemory : Int) + Int.tdiv (wrapLong (toLong Pitch * r.top)) 4 +
        wrapLong (r.left * 4)
    else
      (This.allocatedMemory : Int) + wrapLong (toLong Pitch * r.top) +
        (longToU32 (r.left * (This.bytesPerPixel : Int)) : Int)

/-- The locked rectangle and the lock counter of IWineD3DSurfaceImpl_LockRect, surface.c lines
713-759. -/
def LockRect_record (env : Env) (This : Surface) (pRect : Option RECT) : Surface :=
  let This :=
    match pRect with
    | none => { This with lockedRect :=
        { left := 0, top := 0, right := (This.Width : Int), bottom := (This.Height : Int) } }
    | some r => { This with lockedRect := r }
  if !This.Flags.DYNLOCK then
    let This := { This with lockCount := This.lockCount + 1 }
    if This.lockCount > env.MAXLOCKCOUNT then
      { This with Flags := { This.Flags with DYNLOCK := true } }
    else This
  else This

/-- The download of the surface content in IWineD3DSurfaceImpl_LockRect, surface.c lines
761-883: the surface after it, and whether the function returns before the label lock_end. -/
def LockRect_download (env : Env) (This : Surface) (Flags : LockFlags) : Bool × Surface :=
  if Flags.DISCARD || This.Flags.INSYSMEM then (false, This)
  else if This.container = Container.swapchain ∨ env.isRenderTarget0 then
    if env.rendertargetlock_mode = RTL.RTL_DISABLE then (true, This)
    else
      let This := read_from_framebuffer env This
      if This.lockedRect.left = 0 ∧ This.lockedRect.top = 0 ∧
          longToU32 This.lockedRect.right = This.Width ∧
          longToU32 This.lockedRect.bottom = This.Height then
        (false, { This with Flags := { This.Flags with INSYSMEM := true } })
      else (false, This)
  else if env.isStencilBufferTarget then (false, This)
  else
    let This :=
      if This.textureName ≠ 0 then surface_download_data env (IWineD3DSurfaceImpl_PreLoad env This)
      else This
    (false, { This with Flags := { This.Flags with INSYSMEM := true } })

/-- IWineD3DSurfaceImpl_LockRect, surface.c lines 686-909.  The result is the status, the
caller's WINED3DLOCKED_RECT and the surface after the call. -/
def IWineD3DSurfaceImpl_LockRect (env : Env) (This : Surface) (pRect : Option RECT)
    (Flags : LockFlags) : HRESULT × WINED3DLOCKED_RECT × Surface :=
  let Pitch := IWineD3DSurfaceImpl_GetPitch env This
  let This := LockRect_allocate env This
  let locked : WINED3DLOCKED_RECT := { Pitch := Pitch, pBits := LockRect_pBits This Pitch pRect }
  let This := LockRect_record env This pRect
  let download := LockRect_download env This Flags
  if download.1 then (HRESULT.WINED3D_OK, locked, download.2)
  else (HRESULT.WINED3D_OK, locked, LockRect_lock_end download.2 Flags)

/-- flush_to_framebuffer_drawpixels, surface.c lines 911-1105, without the contents of the
host buffer. -/
def flush_to_framebuffer_drawpixels (env : Env) (This : Surface) : Surface :=
  if This.format = WINED3DFORMAT.P8 ∧ env.HeapAlloc (u32 (This.size * 4)) = 0 then This
  else { This with gl := This.gl ++ [GLCall.glDrawPixels] }

/-- flush_to_framebuffer_texture, surface.c lines 1108-1153. -/
def flush_to_framebuffer_texture (env : Env) (This : Surface) : Surface :=
  let This := IWineD3DSurfaceImpl_PreLoad env This
  { This with gl := This.gl ++ [GLCall.drawQuad] }

/-- The label unlock_end of IWineD3DSurfaceImpl_UnlockRect, surface.c lines 1248-1251. -/
def UnlockRect_unlock_end (This : Surface) : HRESULT × Surface :=
  (HRESULT.WINED3D_OK,
    { This with Flags := { This.Flags with LOCKED := false },
                lockedRect := { left := 0, top := 0, right := 0, bottom := 0 } })

/-- IWineD3DSurfaceImpl_UnlockRect, surface.c lines 1155-1252. -/
def IWineD3DSurfaceImpl_UnlockRect (env : Env) (This : Surface) : HRESULT × Surface :=
  if !This.Flags.LOCKED then (HRESULT.WINED3DERR_INVALIDCALL, This)
  else if This.Flags.INDRAWABLE || This.Flags.INTEXTURE then UnlockRect_unlock_end This
  else if This.container = Container.swapchain ∨ env.isRenderTarget0 then
    if env.rendertargetlock_mode = RTL.RTL_DISABLE then UnlockRect_unlock_end This
    else
      let This :=
        match env.rendertargetlock_mode with
        | RTL.RTL_AUTO | RTL.RTL_READDRAW | RTL.RTL_TEXDRAW => flush_to_framebuffer_drawpixels env This
        | RTL.RTL_READTEX | RTL.RTL_TEXTEX => flush_to_framebuffer_texture env This
        | RTL.RTL_DISABLE => This
      let This := { This with
        dirtyRect := { left := (This.Width : Int), top := (This.Height : Int), right := 0, bottom := 0 },
        Flags := { This.Flags with INDRAWABLE := true } }
      UnlockRect_unlock_end This
  else if env.isStencilBufferTarget then UnlockRect_unlock_end This
  else UnlockRect_unlock_end This

/-! ### Format, host memory and palette -/

/-- IWineD3DSurfaceImpl_SetFormat, surface.c lines 2205-2249. -/
def IWineD3DSurfaceImpl_SetFormat (env : Env) (This : Surface) (format : WINED3DFORMAT) :
    HRESULT × Surface :=
  let formatEntry := env.getFormatDescEntry format
  if This.format ≠ WINED3DFORMAT.UNKNOWN then (HRESULT.WINED3DERR_INVALIDCALL, This)
  else
    let size : Nat :=
      if format = WINED3DFORMAT.UNKNOWN then 0
      else if format = WINED3DFORMAT.DXT1 then
        u32 (u32 (max This.pow2Width 4 * formatEntry.bpp) * max This.pow2Height 4) >>> 1
      else if format.isDXT2345 then
        u32 (u32 (max This.pow2Width 4 * formatEntry.bpp) * max This.pow2Height 4)
      else
        u32 (alignUp env (u32 (This.pow2Width * formatEntry.bpp)) * This.pow2Height)
    (HRESULT.WINED3D_OK,
      { This with
        size := size
        glFormat := formatEntry.glFormat
        glFormatInternal := formatEntry.glInternal
        glType := formatEntry.glType
        bytesPerPixel := if format ≠ WINED3DFORMAT.UNKNOWN then formatEntry.bpp else 0
        Flags := { This.Flags with
          LOCKABLE := This.Flags.LOCKABLE || (format = WINED3DFORMAT.D16_LOCKABLE)
          ALLOCATED := false }
        format := format })

/-- The branch of IWineD3DSurfaceImpl_SetMem that takes over the pointer Mem, surface.c lines
2265-2300. -/
def SetMem_replace (env : Env) (This : Surface) (Mem : Nat) : Surface :=
  let This :=
    if This.Flags.DIBSECTION then
      { This with allocatedMemory := 0, hDC := 0,
                  Flags := { This.Flags with DIBSECTION := false } }
    else This
  let This := { This with
    allocatedMemory := Mem
    Flags := { This.Flags with USERPTR := true, INSYSMEM := true, INDRAWABLE := false,
                               INTEXTURE := false } }
  if This.Flags.CLIENT then
    IWineD3DSurfaceImpl_PreLoad env { This with Flags := { This.Flags with ALLOCATED := false } }
  else This

/-- The branch of IWineD3DSurfaceImpl_SetMem that gives up a user pointer, surface.c lines
2301-2310. -/
def SetMem_release (env : Env) (This : Surface) : Surface :=
  let This := { This with allocatedMemory := 0, Flags := { This.Flags with USERPTR := false } }
  if This.Flags.CLIENT then
    IWineD3DSurfaceImpl_PreLoad env { This with Flags := { This.Flags with ALLOCATED := false } }
  else This

/-- IWineD3DSurfaceImpl_SetMem, surface.c lines 2251-2312; Mem = 0 is the NULL pointer. -/
def IWineD3DSurfaceImpl_SetMem (env : Env) (This : Surface) (Mem : Nat) : HRESULT × Surface :=
  if This.usageRenderTarget then (HRESULT.WINED3DERR_INVALIDCALL, This)
  else if This.Flags.LOCKED || This.Flags.DCINUSE then (HRESULT.WINED3DERR_INVALIDCALL, This)
  else if Mem ≠ 0 ∧ Mem ≠ This.allocatedMemory then
    (HRESULT.WINED3D_OK, SetMem_replace env This Mem)
  else if This.Flags.USERPTR then
    (HRESULT.WINED3D_OK, SetMem_release env This)
  else (HRESULT.WINED3D_OK, This)

/-- A sequence of IWineD3DSurfaceImpl_SetFormat calls, each with its own environment and
format, applied one after the other to the same surface. -/
def setFormats (This : Surface) : List (Env × WINED3DFORMAT) → Surface
  | [] => This
  | c :: cs => setFormats (IWineD3DSurfaceImpl_SetFormat c.1 This c.2).2 cs

/-- IWineD3DSurfaceImpl_RealizePalette, surface.c lines 3221-3258.  The test of line 3231
guards only a diagnostic message, and the update of the colour table of the device context
does not touch the surface. -/
def IWineD3DSurfaceImpl_RealizePalette (This : Surface) : HRESULT × Surface :=
  if This.format = WINED3DFORMAT.P8 ∨ This.format = WINED3DFORMAT.A8P8 then
    (HRESULT.WINED3D_OK,
      { This with Flags := { This.Flags with INTEXTURE := false, INDRAWABLE := false } })
  else (HRESULT.WINED3D_OK, This)

/-! ### Blits to and from render targets -/

/-- Modelled from the spec: the WINEDDBLT_* bit values are declared in a header that is not
part of the sources.  The record lists the bits that surface.c names; OTHER stands for any
other bit of the Flags argument. -/
structure BltFlags where
  KEYDEST : Bool := false
  KEYDESTOVERRIDE : Bool := false
  KEYSRC : Bool := false
  KEYSRCOVERRIDE : Bool := false
  COLORFILL : Bool := false
  WAIT : Bool := false
  DONOTWAIT : Bool := false
  OTHER : Bool := false
deriving DecidableEq, Repr

/-- The fields of WINEDDBLTFX that surface.c reads: the source colour key and the fill
colour (a DWORD). -/
structure WINEDDBLTFX where
  ddckSrcColorkey : WINEDDCOLORKEY := ⟨0, 0⟩
  dwFillColor : Nat := 0
deriving DecidableEq, Repr

/-- A rectangle (WINED3DRECT) of signed coordinates. -/
structure WINED3DRECT where
  x1 : Int
  y1 : Int
  x2 : Int
  y2 : Int
deriving DecidableEq, Repr

/-- The calls that IWineD3DSurfaceImpl_BltOverride makes on the device and on the copy
helpers, with the arguments that matter: Present with the swap effect in force, Clear with its
rectangle count, rectangle and colour, the three copies from the frame buffer to a texture,
and the textured quad drawn to a render target. -/
inductive DeviceCall
  | Present (SwapEffect : Nat)
  | Clear (Count : Nat) (pRect : WINED3DRECT) (Color : Nat)
  | stretch_rect_fbo (srect drect : WINED3DRECT) (upsideDown : Bool)
  | fb_copy_to_texture_direct (srect drect : WINED3DRECT) (upsideDown : Bool)
  | fb_copy_to_texture_hwstretch (srect drect : WINED3DRECT) (upsideDown : Bool)
  | drawQuad (rect : WINED3DRECT) (colorKeyed : Bool)
deriving DecidableEq, Repr

/-- What a blit leaves behind: the status, the destination surface, the source surface, the
swap effect of the destination's swapchain and the calls made. -/
structure BltResult where
  hr : HRESULT
  This : Surface
  Src : Option Surface
  SwapEffect : Nat
  calls : List DeviceCall := []

/-- Everything a blit reads from outside the two surfaces.  The environments dst and src are
those of the destination and of the source (for a null source, src is not read, and a null
source is not render_targets[0]); the settings and GL capabilities are taken from dst.  The
relations between the surfaces and the swapchain are given as booleans.  GetClientRect,
MapWindowPoints, CalculateTexRect and IWineGDISurfaceImpl_Blt are not part of the sources and
are parameters. -/
structure BltWorld where
  dst : Env := {}
  src : Env := {}
  /-- Both surfaces are on a swapchain and it is the same one. -/
  sameSwapchain : Bool := false
  /-- The field backBuffer of the destination's swapchain is not null. -/
  hasBackBuffer : Bool := false
  /-- The destination is the front buffer of its swapchain. -/
  dstIsFrontBuffer : Bool := false
  /-- The destination is backBuffer[0] of its swapchain. -/
  dstIsBackBuffer0 : Bool := false
  /-- The source is backBuffer[0] of the destination's swapchain. -/
  srcIsBackBuffer0 : Bool := false
  /-- The field presentParms.SwapEffect of the destination's swapchain. -/
  SwapEffect : Nat := 1
  WINED3DSWAPEFFECT_COPY : Nat := 3
  /-- The client rectangle of the clipper window. -/
  clientRect : RECT := ⟨0, 0, 0, 0⟩
  /-- The map from desktop coordinates to those of the clipper window. -/
  MapWindowPoints : Int × Int → Int × Int := fun q => q
  CalculateTexRect : Surface → RECT → Bool := fun _ _ => true
  IWineGDISurfaceImpl_Blt : Surface → Option RECT → Option Surface → Option RECT → BltFlags →
    WINEDDBLTFX → BltResult := fun This _ Src _ _ _ =>
      { hr := HRESULT.WINED3D_OK, This := This, Src := Src, SwapEffect := 1 }

/-- The surface is on a swapchain: GetContainer with IID_IWineD3DSwapChain gives one. -/
def Surface.onSwapchain (s : Surface) : Bool := s.container = Container.swapchain

/-- The source is on a swapchain (false for a null source). -/
def srcOnSwapchain (Src : Option Surface) : Bool :=
  match Src with
  | none => false
  | some s => s.onSwapchain

/-- The test SrcSurface == myDevice->render_targets[0] (false for a null source). -/
def srcIsRenderTarget0 (world : BltWorld) (Src : Option Surface) : Bool :=
  match Src with
  | none => false
  | some _ => world.src.isRenderTarget0

/-- The destination rectangle of IWineD3DSurfaceImpl_BltOverride, surface.c lines 2633-2643. -/
def BltOverride_rect (This : Surface) (DestRect : Option RECT) : WINED3DRECT :=
  match DestRect with
  | some r => { x1 := r.left, y1 := r.top, x2 := r.right, y2 := r.bottom }
  | none => { x1 := 0, y1 := 0, x2 := (This.Width : Int), y2 := (This.Height : Int) }

/-- The first check before a Present, surface.c lines 2660-2666: the source rectangle is null
or the full source surface. -/
def BltOverride_srcFull (Src : Surface) (SrcRect : Option RECT) : Bool :=
  match SrcRect with
  | none => true
  | some r => !(r.left != 0 || r.top != 0 || longToU32 r.right != Src.Width ||
      longToU32 r.bottom != Src.Height)

/-- The second check before a Present, surface.c lines 2667-2677: no stretching. -/
def BltOverride_unstretched (Src : Surface) (rect : WINED3DRECT) : Bool :=
  !(toLong Src.Width != wrapLong (rect.x2 - rect.x1) ||
    toLong Src.Height != wrapLong (rect.y2 - rect.y1))

/-- The third check before a Present, surface.c lines 2679-2708: the destination rectangle
matches the client rectangle of the clipper window, or is the full destination surface. -/
def BltOverride_dstFull (world : BltWorld) (This : Surface) (rect : WINED3DRECT) : Bool :=
  if This.clipperWindow then
    let pos0 := world.MapWindowPoints (rect.x1, rect.y1)
    let pos1 := world.MapWindowPoints (rect.x2, rect.y2)
    !(pos0.1 != world.clientRect.left || pos0.2 != world.clientRect.top ||
      pos1.1 != world.clientRect.right || pos1.2 != world.clientRect.bottom)
  else
    !(rect.x1 != 0 || rect.y1 != 0 || longToU32 rect.x2 != This.Width ||
      longToU32 rect.y2 != This.Height)

/-- The rectangle checks before a Present, surface.c lines 2656-2708: true when none of them
leaves the loop. -/
def BltOverride_canPresent (world : BltWorld) (This Src : Surface) (rect : WINED3DRECT)
    (SrcRect : Option RECT) : Bool :=
  BltOverride_srcFull Src SrcRect && BltOverride_unstretched Src rect &&
    BltOverride_dstFull world This rect

/-- The test (Flags & ~(WINEDDBLT_DONOTWAIT | WINEDDBLT_WAIT)) == 0. -/
def BltFlags.onlyWait (f : BltFlags) : Bool :=
  !(f.KEYDEST || f.KEYDESTOVERRIDE || f.KEYSRC || f.KEYSRCOVERRIDE || f.COLORFILL || f.OTHER)

/-- The blit from the back buffer to the front buffer of the same swapchain, surface.c lines
2646-2745: a Present under the swap effect COPY, with the swap effect restored, or not
handled. -/
def BltOverride_flip (world : BltWorld) (This Src : Surface) (rect : WINED3DRECT)
    (SrcRect : Option RECT) (Flags : BltFlags) : BltResult :=
  if BltOverride_canPresent world This Src rect SrcRect && Flags.onlyWait then
    { hr := HRESULT.WINED3D_OK, This := This, Src := some Src,
      SwapEffect := world.SwapEffect,
      calls := [DeviceCall.Present world.WINED3DSWAPEFFECT_COPY] }
  else
    { hr := HRESULT.WINED3DERR_INVALIDCALL, This := This, Src := some Src,
      SwapEffect := world.SwapEffect }

/-- The effect of fb_copy_to_texture_hwstretch on the source surface, surface.c lines
2443-2461: unless the source is offscreen and offscreen rendering uses FBOs, the source is
preloaded when it has no texture name, and its texture copy is invalidated. -/
def fb_copy_to_texture_hwstretch_src (world : BltWorld) (Src : Surface) : Surface :=
  if !Src.onSwapchain && world.dst.offscreen_rendering_mode = ORM.ORM_FBO then Src
  else
    let Src := if Src.textureName = 0 then IWineD3DSurfaceImpl_PreLoad world.src Src else Src
    { Src with Flags := { Src.Flags with INTEXTURE := false } }

/-- The source rectangle and the upside-down flag of the blit from a render target to a
texture, surface.c lines 2775-2805, before the test of the source's swapchain. -/
def BltOverride_srect (Src : Surface) (SrcRect : Option RECT) : WINED3DRECT × Bool :=
  match SrcRect with
  | some r =>
    if r.top < r.bottom then
      ({ x1 := r.left, y1 := r.top, x2 := r.right, y2 := r.bottom }, false)
    else
      ({ x1 := r.left, y1 := r.bottom, x2 := r.right, y2 := r.top }, true)
  | none =>
    ({ x1 := 0, y1 := 0, x2 := (Src.Width : Int), y2 := (Src.Height : Int) }, false)

/-- The end of the blit from a render target to a texture, surface.c lines 2837-2848: the
host buffer is released, or the host copy is invalidated, and the texture is current. -/
def BltOverride_textureCurrent (world : BltWorld) (This : Surface) : Surface :=
  let This :=
    if !This.Flags.anyOf world.dst.SFLAG_DONOTFREE then { This with allocatedMemory := 0 }
    else { This with Flags := { This.Flags with INSYSMEM := false } }
  { This with Flags := { This.Flags with INTEXTURE := true } }

/-- The destination rectangle of the blit from a render target to a texture after the swap of
surface.c lines 2791-2796. -/
def BltOverride_drect (rect : WINED3DRECT) : WINED3DRECT :=
  if rect.x1 > rect.x2 then { rect with x1 := rect.x2, x2 := rect.x1 } else rect

/-- The upside-down flag of the blit from a render target to a texture, surface.c lines
2775-2800. -/
def BltOverride_upsideDown (Src : Surface) (rect : WINED3DRECT) (SrcRect : Option RECT) : Bool :=
  let upsideDown := (BltOverride_srect Src SrcRect).2
  let upsideDown := if rect.x1 > rect.x2 then !upsideDown else upsideDown
  if !Src.onSwapchain then !upsideDown else upsideDown

/-- The flag stretchx of surface.c lines 2802-2806: the width of the destination rectangle
differs from the width of the source rectangle. -/
def BltOverride_stretchx (srect drect : WINED3DRECT) : Bool :=
  wrapLong (drect.x2 - drect.x1) != wrapLong (srect.x2 - srect.x1)

/-- The test of surface.c lines 2828-2829 that selects fb_copy_to_texture_direct. -/
def BltOverride_copyIsDirect (Src : Surface) (srect drect : WINED3DRECT) : Bool :=
  !BltOverride_stretchx srect drect || longToU32 (drect.x2 - drect.x1) > Src.Width ||
    longToU32 (drect.y2 - drect.y1) > Src.Height

/-- The blit from a render target to a texture, surface.c lines 2752-2848. -/
def BltOverride_fromTarget (world : BltWorld) (This Src : Surface) (rect : WINED3DRECT)
    (SrcRect : Option RECT) (Flags : BltFlags) : BltResult :=
  if Flags.KEYSRC || Flags.KEYSRCOVERRIDE then
    { hr := HRESULT.WINED3DERR_INVALIDCALL, This := This, Src := some Src,
      SwapEffect := world.SwapEffect }
  else
    let This := IWineD3DSurfaceImpl_PreLoad world.dst This
    let srect := (BltOverride_srect Src SrcRect).1
    let drect := BltOverride_drect rect
    let upsideDown := BltOverride_upsideDown Src rect SrcRect
    if world.dst.offscreen_rendering_mode = ORM.ORM_FBO ∧
        world.dst.gl_info.EXT_FRAMEBUFFER_BLIT then
      { hr := HRESULT.WINED3D_OK, This := BltOverride_textureCurrent world This,
        Src := some Src, SwapEffect := world.SwapEffect,
        calls := [DeviceCall.stretch_rect_fbo srect drect upsideDown] }
    else if BltOverride_copyIsDirect Src srect drect then
      { hr := HRESULT.WINED3D_OK, This := BltOverride_textureCurrent world This,
        Src := some Src, SwapEffect := world.SwapEffect,
        calls := [DeviceCall.fb_copy_to_texture_direct srect drect upsideDown] }
    else
      { hr := HRESULT.WINED3D_OK, This := BltOverride_textureCurrent world This,
        Src := some (fb_copy_to_texture_hwstretch_src world Src),
        SwapEffect := world.SwapEffect,
        calls := [DeviceCall.fb_copy_to_texture_hwstretch srect drect upsideDown] }

/-- The source rectangle of the blit from an offscreen surface to a render target, surface.c
lines 2858-2868. -/
def BltOverride_SourceRectangle (Src : Surface) (SrcRect : Option RECT) : RECT :=
  match SrcRect with
  | some r => r
  | none => { left := 0, right := (Src.Width : Int), top := 0, bottom := (Src.Height : Int) }

/-- The location flags of the destination after the blit from an offscreen surface to a
render target, surface.c lines 2985-2996. -/
def BltOverride_drawableCurrent (world : BltWorld) (This : Surface) : Surface :=
  let This := { This with Flags := { This.Flags with INSYSMEM := false } }
  if This.onSwapchain || world.dst.offscreen_rendering_mode ≠ ORM.ORM_FBO then
    { This with Flags := { This.Flags with INDRAWABLE := true, INTEXTURE := false } }
  else
    { This with Flags := { This.Flags with INTEXTURE := true } }

/-- The colour key parameters for the load of the source in the blit from an offscreen
surface to a render target, surface.c lines 2884-2894: the destination and the source as the
code leaves them right before IWineD3DSurface_PreLoad of the source. -/
def BltOverride_keyed (This Src : Surface) (Flags : BltFlags) (DDBltFx : WINEDDBLTFX) :
    Surface × Surface :=
  if Flags.KEYSRC then (This, Src)
  else if Flags.KEYSRCOVERRIDE then
    ({ This with SrcBltCKey := DDBltFx.ddckSrcColorkey }, { Src with CKSRCBLT := true })
  else (This, { Src with CKSRCBLT := false })

/-- The blit from an offscreen surface to a render target, surface.c lines 2849-2999.  The
colour key parameters are changed for the load of the source and restored afterwards. -/
def BltOverride_toTarget (world : BltWorld) (This Src : Surface) (rect : WINED3DRECT)
    (SrcRect : Option RECT) (Flags : BltFlags) (DDBltFx : WINEDDBLTFX) : BltResult :=
  let oldCKSRCBLT := Src.CKSRCBLT
  let oldBltCKey := This.SrcBltCKey
  if !world.CalculateTexRect Src (BltOverride_SourceRectangle Src SrcRect) then
    { hr := HRESULT.WINED3DERR_INVALIDCALL, This := This, Src := some Src,
      SwapEffect := world.SwapEffect }
  else
    let keyed := BltOverride_keyed This Src Flags DDBltFx
    let Src := IWineD3DSurfaceImpl_PreLoad world.src keyed.2
    let Src := { Src with CKSRCBLT := oldCKSRCBLT }
    let This := { keyed.1 with SrcBltCKey := oldBltCKey }
    { hr := HRESULT.WINED3D_OK, This := BltOverride_drawableCurrent world This,
      Src := some Src, SwapEffect := world.SwapEffect,
      calls := [DeviceCall.drawQuad rect (Flags.KEYSRC || Flags.KEYSRCOVERRIDE)] }

/-- The colour that the colour fill hands to Clear, surface.c lines 3011-3039; none for a
format it does not handle.  The fill colour of a P8 surface indexes the 256 entries of the
palette; the model reduces it to a byte, and an index of 256 or more is outside what the code
defines. -/
def BltOverride_fillColor (This : Surface) (dwFillColor : Nat) : Option Nat :=
  if This.format = WINED3DFORMAT.P8 then
    match This.palette with
    | some pal =>
      some (4278190080 ||| ((pal (toBYTE dwFillColor)).peRed.val <<< 16) |||
        ((pal (toBYTE dwFillColor)).peGreen.val <<< 8) ||| (pal (toBYTE dwFillColor)).peBlue.val)
    | none => some 4278190080
  else if This.format = WINED3DFORMAT.R5G6B5 then
    if dwFillColor = 65535 then some 4294967295
    else
      some (4278190080 ||| ((dwFillColor &&& 63488) <<< 8) ||| ((dwFillColor &&& 2016) <<< 5) |||
        ((dwFillColor &&& 31) <<< 3))
  else if This.format = WINED3DFORMAT.R8G8B8 ∨ This.format = WINED3DFORMAT.X8R8G8B8 then
    some (4278190080 ||| dwFillColor)
  else if This.format = WINED3DFORMAT.A8R8G8B8 then some dwFillColor
  else none

/-- The draw buffer test of the colour fill, surface.c lines 3041-3054: the destination is
backBuffer[0] of its swapchain, or its front buffer, or render_targets[0]; any other surface
is a higher back buffer. -/
def BltOverride_fillTarget (world : BltWorld) (This : Surface) : Bool :=
  (This.onSwapchain && world.hasBackBuffer && world.dstIsBackBuffer0) ||
  (This.onSwapchain && world.dstIsFrontBuffer) || world.dst.isRenderTarget0

/-- The blit without a source, surface.c lines 3000-3082. -/
def BltOverride_colorfill (world : BltWorld) (This : Surface) (rect : WINED3DRECT)
    (Flags : BltFlags) (DDBltFx : WINEDDBLTFX) : BltResult :=
  if Flags.COLORFILL then
    match BltOverride_fillColor This DDBltFx.dwFillColor with
    | none =>
      { hr := HRESULT.WINED3DERR_INVALIDCALL, This := This, Src := none,
        SwapEffect := world.SwapEffect }
    | some color =>
      if BltOverride_fillTarget world This then
        { hr := HRESULT.WINED3D_OK, This := This, Src := none, SwapEffect := world.SwapEffect,
          calls := [DeviceCall.Clear 1 rect color] }
      else
        { hr := HRESULT.WINED3DERR_INVALIDCALL, This := This, Src := none,
          SwapEffect := world.SwapEffect }
  else
    { hr := HRESULT.WINED3DERR_INVALIDCALL, This := This, Src := none,
      SwapEffect := world.SwapEffect }

/-- IWineD3DSurfaceImpl_BltOverride, surface.c lines 2603-3083. -/
def IWineD3DSurfaceImpl_BltOverride (world : BltWorld) (This : Surface) (DestRect : Option RECT)
    (Src : Option Surface) (SrcRect : Option RECT) (Flags : BltFlags) (DDBltFx : WINEDDBLTFX) :
    BltResult :=
  let notHandled : BltResult :=
    { hr := HRESULT.WINED3DERR_INVALIDCALL, This := This, Src := Src,
      SwapEffect := world.SwapEffect }
  if !This.onSwapchain && !srcOnSwapchain Src && !srcIsRenderTarget0 world Src &&
      !world.dst.isRenderTarget0 then notHandled
  else if Flags.KEYDEST || Flags.KEYDESTOVERRIDE then notHandled
  else
    let rect := BltOverride_rect This DestRect
    match Src with
    | some S =>
      if This.onSwapchain && S.onSwapchain && world.sameSwapchain && world.hasBackBuffer &&
          world.dstIsFrontBuffer && world.srcIsBackBuffer0 then
        BltOverride_flip world This S rect SrcRect Flags
      else if (This.onSwapchain || world.dst.isRenderTarget0) &&
          (S.onSwapchain || world.src.isRenderTarget0) then notHandled
      else if S.onSwapchain || world.src.isRenderTarget0 then
        BltOverride_fromTarget world This S rect SrcRect Flags
      else BltOverride_toTarget world This S rect SrcRect Flags DDBltFx
    | none => BltOverride_colorfill world This rect Flags DDBltFx

/-- IWineD3DSurfaceImpl_Blt, surface.c lines 3085-3111.  The flags isStencilBufferTarget of
the two environments say which surface is myDevice->stencilBufferTarget. -/
def IWineD3DSurfaceImpl_Blt (world : BltWorld) (This : Surface) (DestRect : Option RECT)
    (Src : Option Surface) (SrcRect : Option RECT) (Flags : BltFlags) (DDBltFx : WINEDDBLTFX) :
    BltResult :=
  if world.dst.inScene &&
      (world.dst.isStencilBufferTarget || (Src.isSome && world.src.isStencilBufferTarget)) then
    { hr := HRESULT.WINED3DERR_INVALIDCALL, This := This, Src := Src,
      SwapEffect := world.SwapEffect }
  else
    let usesTarget := This.usageRenderTarget ||
      (match Src with
        | some S => S.usageRenderTarget
        | none => false)
    let r := IWineD3DSurfaceImpl_BltOverride world This DestRect Src SrcRect Flags DDBltFx
    if usesTarget && r.hr = HRESULT.WINED3D_OK then r
    else if usesTarget then
      world.IWineGDISurfaceImpl_Blt r.This DestRect r.Src SrcRect Flags DDBltFx
    else
      world.IWineGDISurfaceImpl_Blt This DestRect Src SrcRect Flags DDBltFx

/-- The four coordinates of the rectangle are values of a 32-bit LONG. -/
def RECT.isLong (r : RECT) : Prop :=
  (-2147483648 ≤ r.left ∧ r.left < 2147483648) ∧ (-2147483648 ≤ r.top ∧ r.top < 2147483648) ∧
  (-2147483648 ≤ r.right ∧ r.right < 2147483648) ∧
  (-2147483648 ≤ r.bottom ∧ r.bottom < 2147483648)

instance (r : RECT) : Decidable r.isLong := by
  unfold RECT.isLong
  infer_instance

/-- The rectangle argument, when there is one, holds LONG values. -/
def rectIsLong (pRect : Option RECT) : Prop :=
  match pRect with
  | none => True
  | some r => r.isLong

instance (pRect : Option RECT) : Decidable (rectIsLong pRect) := by
  unfold rectIsLong
  cases pRect <;> infer_instance

/-- The conditions of a Present in the words of the specification: the source rectangle is
null or the full source surface; the destination rectangle, which is the whole destination
when DestRect is null, has the source's size; DestRect is null or the full destination
surface; and Flags holds nothing but WAIT and DONOTWAIT. -/
def presentConditions (This Src : Surface) (DestRect SrcRect : Option RECT)
    (Flags : BltFlags) : Prop :=
  (SrcRect = none ∨ SrcRect = some ⟨0, 0, (Src.Width : Int), (Src.Height : Int)⟩) ∧
  (match DestRect with
    | none => (This.Width : Int) = (Src.Width : Int) ∧ (This.Height : Int) = (Src.Height : Int)
    | some r =>
      r.right - r.left = (Src.Width : Int) ∧ r.bottom - r.top = (Src.Height : Int)) ∧
  (DestRect = none ∨ DestRect = some ⟨0, 0, (This.Width : Int), (This.Height : Int)⟩) ∧
  (Flags.KEYDEST = false ∧ Flags.KEYDESTOVERRIDE = false ∧ Flags.KEYSRC = false ∧
    Flags.KEYSRCOVERRIDE = false ∧ Flags.COLORFILL = false ∧ Flags.OTHER = false)

instance (This Src : Surface) (DestRect SrcRect : Option RECT) (Flags : BltFlags) :
    Decidable (presentConditions This Src DestRect SrcRect Flags) := by
  unfold presentConditions
  cases DestRect <;> infer_instance

/-! ### Sequences of calls and the dirty rectangle -/

/-- A call of one of the three operations that change the dirty rectangle, with its arguments
and the environment it runs in. -/
inductive SurfaceCall
  | LockRect (env : Env) (pRect : Option RECT) (Flags : LockFlags)
  | UnlockRect (env : Env)
  | AddDirtyRect (pDirtyRect : Option RECT)

/-- The surface after one call. -/
def SurfaceCall.run (This : Surface) : SurfaceCall → Surface
  | SurfaceCall.LockRect env pRect Flags => (IWineD3DSurfaceImpl_LockRect env This pRect Flags).2.2
  | SurfaceCall.UnlockRect env => (IWineD3DSurfaceImpl_UnlockRect env This).2
  | SurfaceCall.AddDirtyRect pDirtyRect => (IWineD3DSurfaceImpl_AddDirtyRect This pDirtyRect).2

/-- The surface after a sequence of calls. -/
def runCalls (This : Surface) (calls : List SurfaceCall) : Surface :=
  calls.foldl SurfaceCall.run This

/-- The four coordinates of the rectangle lie within a surface of the given width and height. -/
def RECT.within (r : RECT) (Width Height : Nat) : Prop :=
  0 ≤ r.left ∧ r.left ≤ (Width : Int) ∧ 0 ≤ r.right ∧ r.right ≤ (Width : Int) ∧
  0 ≤ r.top ∧ r.top ≤ (Height : Int) ∧ 0 ≤ r.bottom ∧ r.bottom ≤ (Height : Int)

instance (r : RECT) (Width Height : Nat) : Decidable (r.within Width Height) := by
  unfold RECT.within
  infer_instance

/-- The rectangle argument of the call, when it has one, lies inside the surface. -/
def SurfaceCall.rectWithin (Width Height : Nat) : SurfaceCall → Prop
  | SurfaceCall.LockRect _ (some r) _ => r.within Width Height
  | SurfaceCall.AddDirtyRect (some r) => r.within Width Height
  | _ => True

/-- The rectangle covers no pixel. -/
def RECT.isEmpty (r : RECT) : Prop := r.right ≤ r.left ∨ r.bottom ≤ r.top

instance (r : RECT) : Decidable r.isEmpty := by
  unfold RECT.isEmpty
  infer_instance

/-- The empty dirty rectangle that UnlockRect leaves: (Width, Height, 0, 0). -/
def emptyDirtyRect (Width Height : Nat) : RECT :=
  { left := (Width : Int), top := (Height : Int), right := 0, bottom := 0 }

/-- Every coordinate of the dirty rectangle lies between 0 and the width (height) of the surface. -/
def Surface.dirtyWithin (s : Surface) : Prop :=
  0 ≤ s.dirtyRect.left ∧ s.dirtyRect.left ≤ (s.Width : Int) ∧
  0 ≤ s.dirtyRect.right ∧ s.dirtyRect.right ≤ (s.Width : Int) ∧
  0 ≤ s.dirtyRect.top ∧ s.dirtyRect.top ≤ (s.Height : Int) ∧
  0 ≤ s.dirtyRect.bottom ∧ s.dirtyRect.bottom ≤ (s.Height : Int)

instance (s : Surface) : Decidable s.dirtyWithin := by
  unfold Surface.dirtyWithin
  infer_instance

/-- The step from s to t keeps the locked rectangle and the size of the surface, and keeps the
dirty rectangle within the surface. -/
def Surface.keeps (s t : Surface) : Prop :=
  t.lockedRect = s.lockedRect ∧ t.Width = s.Width ∧ t.Height = s.Height ∧
  (s.dirtyWithin → t.dirtyWithin)

/-- What a texture load keeps, from the surface s before to the surface t after: the
container, the dirty rectangle and the texture name; the host-copy flag is never newly set, and while it stays set
the host buffer stays; and, where GL_APPLE_client_storage is not supported, the locked and
drawable flags stay, a set texture flag stays set, and a locked surface keeps its host buffer
and host-copy flag when SFLAG_LOCKED is part of SFLAG_DONOTFREE. -/
def Surface.loaded (env : Env) (s t : Surface) : Prop :=
  t.container = s.container ∧ t.dirtyRect = s.dirtyRect ∧ t.textureName = s.textureName ∧
  (t.Flags.INSYSMEM = true → s.Flags.INSYSMEM = true ∧ t.allocatedMemory = s.allocatedMemory) ∧
  (env.gl_info.APPLE_CLIENT_STORAGE = false →
    t.Flags.LOCKED = s.Flags.LOCKED ∧ t.Flags.INDRAWABLE = s.Flags.INDRAWABLE ∧
    (s.Flags.INTEXTURE = true → t.Flags.INTEXTURE = true) ∧
    (s.Flags.LOCKED = true → env.SFLAG_DONOTFREE.LOCKED = true →
      t.allocatedMemory = s.allocatedMemory ∧ t.Flags.INSYSMEM = s.Flags.INSYSMEM))

/-- What an upload shows in the surface, from s before to t after: either the trace of GL
transfers has grown, or the trace, the texture flag, the colour-key flag, the uploaded colour
key and the palette snapshot are the same. -/
def Surface.uploaded (s t : Surface) : Prop :=
  s.gl.length < t.gl.length ∨
  (t.gl.length = s.gl.length ∧ t.Flags.INTEXTURE = s.Flags.INTEXTURE ∧
    t.Flags.GLCKEY = s.Flags.GLCKEY ∧ t.glCKey = s.glCKey ∧ t.palette9 = s.palette9)

/-- The colour-key reload conditions in the words of the specification: the colour-key flag of
the texture differs from the colour-key activation of the surface, or the colour key is active
and the uploaded key differs from the surface's key in its low or high value. -/
def colorKeyReload (s : Surface) : Prop :=
  s.Flags.GLCKEY ≠ s.CKSRCBLT ∨
  (s.CKSRCBLT = true ∧
    (s.glCKey.dwColorSpaceLowValue ≠ s.SrcBltCKey.dwColorSpaceLowValue ∨
     s.glCKey.dwColorSpaceHighValue ≠ s.SrcBltCKey.dwColorSpaceHighValue))

instance (s : Surface) : Decidable (colorKeyReload s) := by
  unfold colorKeyReload
  infer_instance

/-- The palette reload condition in the words of the specification: the format is P8 or A8P8,
no palette is attached, and the current palette of the device differs from the snapshot the
surface last saw (a surface without a snapshot has seen none). -/
def paletteReload (env : Env) (s : Surface) : Prop :=
  (s.format = WINED3DFORMAT.P8 ∨ s.format = WINED3DFORMAT.A8P8) ∧ s.palette.isSome = false ∧
    s.palette9 ≠ some env.devicePalette

instance (env : Env) (s : Surface) : Decidable (paletteReload env s) := by
  unfold paletteReload
  infer_instance

/-- The surfaces for which the copy from the drawable to the texture is not supported: a mip
level other than 0, or one of the formats P8, A8P8, DXT1..DXT5 (surface.c lines 1882-1888). -/
def drawableCopyUnsupported (s : Surface) : Prop :=
  s.level ≠ 0 ∨ s.format = WINED3DFORMAT.P8 ∨ s.format = WINED3DFORMAT.A8P8 ∨
    s.format.isDXT = true

instance (s : Surface) : Decidable (drawableCopyUnsupported s) := by
  unfold drawableCopyUnsupported
  infer_instance

/-- What IWineD3DSurfaceImpl_PreLoad keeps, from the surface s before to the surface t after:
the container; the host-copy flag is never newly set, and while it stays set the host buffer
stays; and, where GL_APPLE_client_storage is not supported, the locked flag stays and a locked
surface keeps its host buffer and host-copy flag when SFLAG_LOCKED is part of
SFLAG_DONOTFREE. -/
def Surface.preloaded (env : Env) (s t : Surface) : Prop :=
  t.container = s.container ∧
  (t.Flags.INSYSMEM = true → s.Flags.INSYSMEM = true ∧ t.allocatedMemory = s.allocatedMemory) ∧
  (env.gl_info.APPLE_CLIENT_STORAGE = false →
    t.Flags.LOCKED = s.Flags.LOCKED ∧
    (s.Flags.LOCKED = true → env.SFLAG_DONOTFREE.LOCKED = true →
      t.allocatedMemory = s.allocatedMemory ∧ t.Flags.INSYSMEM = s.Flags.INSYSMEM))

/-- The container texture never names the texture 0 in IWineD3DBaseTexture_PreLoad: it hands
the surface the name of a texture it has created. -/
def Env.containerKeepsName (env : Env) : Prop :=
  ∀ c ∈ env.containerPreLoad, c ≠ ContainerCall.SetGlTextureDesc 0

instance (env : Env) : Decidable env.containerKeepsName := by
  unfold Env.containerKeepsName
  infer_instance

/-- The set of valid locations of the surface is not empty: one of SFLAG_INSYSMEM,
SFLAG_INTEXTURE, SFLAG_INDRAWABLE is set. -/
def Surface.hasLocation (s : Surface) : Prop :=
  s.Flags.INSYSMEM = true ∨ s.Flags.INTEXTURE = true ∨ s.Flags.INDRAWABLE = true

instance (s : Surface) : Decidable s.hasLocation := by
  unfold Surface.hasLocation
  infer_instance

/-- Whenever SFLAG_INSYSMEM is set the host buffer pointer is not null. -/
def Surface.hostValid (s : Surface) : Prop :=
  s.Flags.INSYSMEM = true → s.allocatedMemory ≠ 0

instance (s : Surface) : Decidable s.hostValid := by
  unfold Surface.hostValid
  infer_instance

/-- The union of the dirty rectangle with a rectangle, as IWineD3DSurfaceImpl_AddDirtyRect
computes it (surface.c lines 2171-2174). -/
def RECT.union (d r : RECT) : RECT :=
  { left := min d.left r.left, top := min d.top r.top,
    right := max d.right r.right, bottom := max d.bottom r.bottom }

/-- The rectangle that LockRect records for its argument: the argument, or the whole surface
for a null pointer (surface.c lines 713-737). -/
def lockedRectOf (s : Surface) (pRect : Option RECT) : RECT :=
  match pRect with
  | none => { left := 0, top := 0, right := (s.Width : Int), bottom := (s.Height : Int) }
  | some r => r

/-- What an upload leaves alone, from the surface s before to the surface t after: the colour
key of the surface and its activation, the format, the palette and the palette snapshot; and,
where GL_APPLE_client_storage is not supported, the texture flag, the colour-key flag and the
uploaded colour key. -/
def Surface.sameKey (env : Env) (s t : Surface) : Prop :=
  t.CKSRCBLT = s.CKSRCBLT ∧ t.SrcBltCKey = s.SrcBltCKey ∧ t.format = s.format ∧
  t.palette = s.palette ∧ t.palette9 = s.palette9 ∧
  (env.gl_info.APPLE_CLIENT_STORAGE = false →
    t.Flags.INTEXTURE = s.Flags.INTEXTURE ∧ t.Flags.GLCKEY = s.Flags.GLCKEY ∧
    t.glCKey = s.glCKey)

/-- The texture of the surface is current: SFLAG_INTEXTURE is set and no reload condition
holds. -/
def Surface.textureCurrent (env : Env) (s : Surface) : Prop :=
  s.Flags.INTEXTURE = true ∧ ¬ colorKeyReload s ∧ ¬ paletteReload env s

instance (env : Env) (s : Surface) : Decidable (s.textureCurrent env) := by
  unfold Surface.textureCurrent
  infer_instance

/-! ### Renderbuffer cache -/

/-- The loop over the list in surface_set_compatible_renderbuffer, surface.c lines 265-271:
the first entry with the requested size. -/
def renderbuffers_lookup :
    List renderbuffer_entry_t → Nat → Nat → Option renderbuffer_entry_t
  | [], _, _ => none
  | entry :: rest, width, height =>
    if entry.width = width ∧ entry.height = height then some entry
    else renderbuffers_lookup rest width height

/-- surface_set_compatible_renderbuffer, surface.c lines 246-290.  The argument
glGenRenderbuffersEXT is the id the driver hands out when the function asks for one.  The
allocation of the list entry is taken to succeed, and the storage of the renderbuffer on the
GL side is outside the model. -/
def surface_set_compatible_renderbuffer (This : Surface)
    (width height glGenRenderbuffersEXT : Nat) : Surface :=
  let src_width := This.pow2Width
  let src_height := This.pow2Height
  if width > src_width || height > src_height then This
  else if width = src_width && height = src_height then
    { This with current_renderbuffer := none }
  else
    let found := renderbuffers_lookup This.renderbuffers width height
    let renderbuffer := match found with
      | some entry => entry.id
      | none => 0
    let This := match found with
      | some entry => { This with current_renderbuffer := some entry }
      | none => This
    if renderbuffer = 0 then
      let entry : renderbuffer_entry_t :=
        { width := width, height := height, id := glGenRenderbuffersEXT }
      { This with renderbuffers := entry :: This.renderbuffers,
                  current_renderbuffer := some entry }
    else This

/-- One call of surface_set_compatible_renderbuffer with the id the driver has ready. -/
structure RenderbufferCall where
  width : Nat
  height : Nat
  glGenRenderbuffersEXT : Nat

/-- One call made on a surface. -/
def RenderbufferCall.run (This : Surface) (c : RenderbufferCall) : Surface :=
  surface_set_compatible_renderbuffer This c.width c.height c.glGenRenderbuffersEXT

/-- A sequence of calls of surface_set_compatible_renderbuffer on one surface. -/
def runRenderbufferCalls (This : Surface) (calls : List RenderbufferCall) : Surface :=
  calls.foldl RenderbufferCall.run This

/-- The renderbuffer list holds at most one entry per size. -/
def Surface.renderbuffersDistinct (s : Surface) : Prop :=
  ∀ width height : Nat,
    s.renderbuffers.countP (fun entry => entry.width = width ∧ entry.height = height) ≤ 1

/-- Every entry of the renderbuffer list has a non-zero id. -/
def Surface.renderbuffersNamed (s : Surface) : Prop :=
  ∀ entry ∈ s.renderbuffers, entry.id ≠ 0

/-! ### Snapshot of a surface -/

/-- The DWORD at a byte offset from the start of the buffer that SaveSnapshot allocates, read
as on a little-endian machine; a negative offset is an address below the buffer. -/
def readDWORD (m : Int → BYTE) (a : Int) : Nat :=
  (m a).val + 256 * (m (a + 1)).val + 65536 * (m (a + 2)).val + 16777216 * (m (a + 3)).val

/-- The four fputc calls for one texel, surface.c lines 2143-2146. -/
def SaveSnapshot_texel (color : Nat) : List BYTE :=
  [toBYTE ((color >>> 16) &&& 0xFF), toBYTE ((color >>> 8) &&& 0xFF),
   toBYTE ((color >>> 0) &&& 0xFF), toBYTE ((color >>> 24) &&& 0xFF)]

/-- The inner loop of SaveSnapshot, lines 2141-2148, for the remaining number of texels of
the row: the bytes written, the offsets read, and textureRow after the loop. -/
def SaveSnapshot_row (m : Int → BYTE) : Nat → Int → List BYTE × List Int × Int
  | 0, textureRow => ([], [], textureRow)
  | n + 1, textureRow =>
    let color := readDWORD m textureRow
    let rest := SaveSnapshot_row m n (textureRow + 4)
    (SaveSnapshot_texel color ++ rest.1, textureRow :: rest.2.1, rest.2.2)

/-- The outer loop of SaveSnapshot, lines 2140-2153, for the remaining number of rows: the
bytes written and the offsets read.  The expression width << 3 is an int. -/
def SaveSnapshot_rows (m : Int → BYTE) (swapChain : Bool) (width : Int) :
    Nat → Int → List BYTE × List Int
  | 0, _ => ([], [])
  | n + 1, textureRow =>
    let row := SaveSnapshot_row m (longToU32 width) textureRow
    let textureRow := if swapChain then row.2.2 - wrapLong (width * 8) else row.2.2
    let rest := SaveSnapshot_rows m swapChain width n textureRow
    (row.1 ++ rest.1, row.2.1 ++ rest.2)

/-- The 18 bytes of the TGA header, lines 2115-2134; fwrite stores the two low bytes of an
int, the lower one first. -/
def SaveSnapshot_header (width height : Int) : List BYTE :=
  [0, 0, 2, 0, 0, 0, 0, 0, 0, 0, 0, 0,
   intToBYTE width, intToBYTE (width >>> (8 : Nat)),
   intToBYTE height, intToBYTE (height >>> (8 : Nat)), 0x20, 0x28]

/-- The offset at which textureRow starts, lines 2136-2139, computed in int. -/
def SaveSnapshot_start (swapChain : Bool) (width height : Int) : Int :=
  if swapChain then wrapLong (wrapLong (width * wrapLong (height - 1)) * 4) else 0

/-- What a call of SaveSnapshot gives and does. -/
structure SnapshotResult where
  hr : HRESULT
  surface : Surface
  /-- The bytes written to the file, in order. -/
  file : List BYTE
  /-- The offsets from the start of the buffer at which a texel is read, in order. -/
  reads : List Int

/-- IWineD3DSurfaceImpl_SaveSnapshot, surface.c lines 2020-2161.  The argument fopen tells
whether the file can be opened; the argument image is the memory at and around the buffer
after glGetTexImage has stored the texture image in it, addressed by the offset from the
start of the buffer.  The allocation of the buffer is taken to succeed. -/
def IWineD3DSurfaceImpl_SaveSnapshot (env : Env) (This : Surface) (fopen : Bool)
    (image : Int → BYTE) : SnapshotResult :=
  let width := toLong This.pow2Width
  let height := toLong This.pow2Height
  let swapChain := This.onSwapchain
  let This :=
    if This.Flags.INDRAWABLE && !This.Flags.INTEXTURE then This
    else IWineD3DSurfaceImpl_PreLoad env This
  if !fopen then
    { hr := HRESULT.WINED3DERR_INVALIDCALL, surface := This, file := [], reads := [] }
  else
    let raster := SaveSnapshot_rows image swapChain width (longToU32 height)
      (SaveSnapshot_start swapChain width height)
    { hr := HRESULT.WINED3D_OK, surface := This,
      file := SaveSnapshot_header width height ++ raster.1, reads := raster.2 }

/-- The texel row that output row k of the snapshot shows, in the words of the description:
row k, and row h-1-k for a surface on a swapchain. -/
def snapshotRow (swapChain : Bool) (h k : Nat) : Nat := if swapChain then h - 1 - k else k

/-- The file of the snapshot in the words of the description: the header with the size as
little-endian 16-bit values, then for each of the w*h pixels the bytes of bits 16-23, 8-15,
0-7 and 24-31 of the texel. -/
def snapshotFile (swapChain : Bool) (w h : Nat) (image : Int → BYTE) : List BYTE :=
  [0, 0, 2, 0, 0, 0, 0, 0, 0, 0, 0, 0, toBYTE w, toBYTE (w / 256), toBYTE h, toBYTE (h / 256),
   0x20, 0x28] ++
  (List.range h).flatMap (fun k => (List.range w).flatMap (fun i =>
    [toBYTE (readDWORD image (4 * ((snapshotRow swapChain h k * w + i : Nat) : Int)) / 65536),
     toBYTE (readDWORD image (4 * ((snapshotRow swapChain h k * w + i : Nat) : Int)) / 256),
     toBYTE (readDWORD image (4 * ((snapshotRow swapChain h k * w + i : Nat) : Int))),
     toBYTE (readDWORD image (4 * ((snapshotRow swapChain h k * w + i : Nat) : Int)) /
       16777216)]))

/-- The offsets of the texels of the snapshot in the words of the description. -/
def snapshotReads (swapChain : Bool) (w h : Nat) : List Int :=
  (List.range h).flatMap (fun k => (List.range w).map (fun i =>
    4 * ((snapshotRow swapChain h k * w + i : Nat) : Int)))

/-! ### Contents of the host buffer after a download -/

/-- The call memcpy(dst + d, src + s, n) between two buffers, each addressed by the offset
from its start. -/
def memcpyAt (dst : Int → BYTE) (d : Int) (src : Int → BYTE) (s : Int) (n : Nat) : Int → BYTE :=
  fun a => if d ≤ a ∧ a < d + n then src (s + (a - d)) else dst a

/-- The repacking loop of surface_download_data, surface.c lines 150-155, for the remaining
number of iterations: src_data and dst_data are the two pointers as offsets into the
temporary buffer mem and into the host buffer. -/
def surface_download_data_repack (src_pitch dst_pitch : Int) (mem : Int → BYTE) :
    Nat → Int → Int → (Int → BYTE) → Int → BYTE
  | 0, _, _, host => host
  | n + 1, src_data, dst_data, host =>
    let src_data := src_data + src_pitch
    let dst_data := dst_data + dst_pitch
    surface_download_data_repack src_pitch dst_pitch mem n src_data dst_data
      (memcpyAt host dst_data mem src_data (longToU32 dst_pitch))

/-- surface_download_data, surface.c lines 57-161, with the contents of the host buffer: the
argument host is the host buffer before the call, the argument image is what the GL stores in
the buffer it is handed, and the result is the host buffer after the call.  The allocation of
the temporary buffer is taken to succeed. -/
def surface_download_data_contents (env : Env) (This : Surface) (image host : Int → BYTE) :
    Int → BYTE :=
  if This.format.isDXT then
    if !env.gl_info.EXT_TEXTURE_COMPRESSION_S3TC then host else image
  else if This.Flags.CONVERTED then host
  else if This.Flags.NONPOW2 then
    let src_pitch := toLong (alignUp env (u32 (This.bytesPerPixel * This.pow2Width)))
    let dst_pitch := toLong (IWineD3DSurfaceImpl_GetPitch env This)
    surface_download_data_repack src_pitch dst_pitch image (This.Height - 1) 0 0 host
  else image

/-! ### The software flip after a read from the framebuffer -/

/-- The loop of the software flip in read_from_framebuffer, surface.c lines 644-650, for the
remaining number of iterations: top and bottom are the two pointers as offsets into mem.  The
buffer row is a separate allocation, of which only the bytes just stored are read. -/
def read_from_framebuffer_flipLoop (pitch off len : Nat) :
    Nat → Int → Int → (Int → BYTE) → Int → BYTE
  | 0, _, _, mem => mem
  | n + 1, top, bottom, mem =>
    let row := memcpyAt (fun _ => 0) 0 mem (top + off) len
    let mem := memcpyAt mem (top + off) mem (bottom + off) len
    let mem := memcpyAt mem (bottom + off) row 0 len
    read_from_framebuffer_flipLoop pitch off len n (top + pitch) (bottom - pitch) mem

/-- The software flip of read_from_framebuffer, surface.c lines 626-652, run when
srcUpsideDown is false: mem is the buffer that glReadPixels has filled, and pitch and bpp are
the values that the switch at the head of the function leaves (three times the pitch and the
bytes per pixel for WINED3DFMT_P8). -/
def read_from_framebuffer_flip (env : Env) (rect : RECT) (pitch bpp : Nat)
    (mem : Int → BYTE) : Int → BYTE :=
  let len := longToU32 (wrapLong (wrapLong (rect.right - rect.left) * bpp))
  let off := longToU32 (wrapLong (rect.left * bpp))
  if env.HeapAlloc len = 0 then mem
  else
    let top : Int := u32 (pitch * longToU32 rect.top)
    let bottom : Int :=
      u32 (pitch * longToU32 (wrapLong (wrapLong (rect.bottom - rect.top) - 1)))
    read_from_framebuffer_flipLoop pitch off len
      (Int.tdiv (wrapLong (rect.bottom - rect.top)) 2).toNat top bottom mem

/-! ### 3D sound parameters (dlls/dsound/sound3d.c) -/

/-- Modelled from the spec: the two result codes that the parameter calls of the 3D sound
interfaces return. -/
inductive DSRESULT
  | DS_OK
  | DSERR_INVALIDPARAM
deriving DecidableEq, Repr

/-- Modelled from the spec: the type D3DVECTOR of the headers, three float values, each held
as its bit pattern. -/
structure D3DVECTOR where
  x : Nat := 0
  y : Nat := 0
  z : Nat := 0
deriving DecidableEq, Repr

/-- Modelled from the spec: the descriptor DS3DBUFFER of the dsound header; float values are
held as their bit patterns. -/
structure DS3DBUFFER where
  dwSize : Nat := 0
  vPosition : D3DVECTOR := {}
  vVelocity : D3DVECTOR := {}
  dwInsideConeAngle : Nat := 0
  dwOutsideConeAngle : Nat := 0
  vConeOrientation : D3DVECTOR := {}
  lConeOutsideVolume : Int := 0
  flMinDistance : Nat := 0
  flMaxDistance : Nat := 0
  dwMode : Nat := 0
deriving DecidableEq, Repr

/-- Modelled from the spec: the descriptor DS3DLISTENER of the dsound header; float values
are held as their bit patterns. -/
structure DS3DLISTENER where
  dwSize : Nat := 0
  vPosition : D3DVECTOR := {}
  vVelocity : D3DVECTOR := {}
  vOrientFront : D3DVECTOR := {}
  vOrientTop : D3DVECTOR := {}
  flDistanceFactor : Nat := 0
  flRolloffFactor : Nat := 0
  flDopplerFactor : Nat := 0
deriving DecidableEq, Repr

/-- The fields lVolume and lPan of the member volpan of a sound buffer. -/
structure VolPan where
  lVolume : Int := 0
  lPan : Int := 0
deriving DecidableEq, Repr

/-- The fields of IDirectSoundBufferImpl that the parameter calls read or write. -/
structure SoundBuffer where
  ds3db_ds3db : DS3DBUFFER := {}
  ds3db_need_recalc : Bool := false
  volpan : VolPan := {}
deriving DecidableEq, Repr

/-- The fields of the device that the parameter calls of the listener read or write. -/
structure SoundDevice where
  ds3dl : DS3DLISTENER := {}
  ds3dl_need_recalc : Bool := false
  buffers : List SoundBuffer := []
deriving DecidableEq, Repr

/-- Constants of the dsound header and the numeric routine of the mixer.  DSOUND_Calc3DBuffer,
sound3d.c lines 154-296, writes the member volpan of the buffer and nothing else; the volume
and pan that its floating-point calculation gives are a parameter here. -/
structure SoundEnv where
  sizeof_DS3DBUFFER : Nat := 64
  sizeof_DS3DLISTENER : Nat := 64
  DS3D_IMMEDIATE : Nat := 0
  DSOUND_Calc3DBuffer : DS3DLISTENER → SoundBuffer → VolPan := fun _ dsb => dsb.volpan

/-- DSOUND_Mix3DBuffer, sound3d.c lines 298-303; ds3dl is the listener of the device of the
buffer. -/
def DSOUND_Mix3DBuffer (env : SoundEnv) (ds3dl : DS3DLISTENER) (dsb : SoundBuffer) :
    SoundBuffer :=
  { dsb with volpan := env.DSOUND_Calc3DBuffer ds3dl dsb }

/-- DSOUND_ChangeListener, sound3d.c lines 305-318. -/
def DSOUND_ChangeListener (env : SoundEnv) (device : SoundDevice) : SoundDevice :=
  { device with
    buffers := device.buffers.map (fun dsb =>
      if dsb.ds3db_need_recalc then DSOUND_Mix3DBuffer env device.ds3dl dsb else dsb) }

/-- IDirectSound3DBufferImpl_GetAllParameters, sound3d.c lines 363-383: the result and the
structure of the caller after the call; none is the null pointer. -/
def IDirectSound3DBufferImpl_GetAllParameters (env : SoundEnv) (dsb : SoundBuffer)
    (lpDs3dBuffer : Option DS3DBUFFER) : DSRESULT × Option DS3DBUFFER :=
  match lpDs3dBuffer with
  | none => (DSRESULT.DSERR_INVALIDPARAM, none)
  | some p =>
    if p.dwSize < env.sizeof_DS3DBUFFER then (DSRESULT.DSERR_INVALIDPARAM, some p)
    else (DSRESULT.DS_OK, some dsb.ds3db_ds3db)

/-- IDirectSound3DBufferImpl_SetAllParameters, sound3d.c lines 477-507. -/
def IDirectSound3DBufferImpl_SetAllParameters (env : SoundEnv) (ds3dl : DS3DLISTENER)
    (dsb : SoundBuffer) (lpcDs3dBuffer : Option DS3DBUFFER) (dwApply : Nat) :
    DSRESULT × SoundBuffer :=
  match lpcDs3dBuffer with
  | none => (DSRESULT.DSERR_INVALIDPARAM, dsb)
  | some p =>
    if p.dwSize ≠ env.sizeof_DS3DBUFFER then (DSRESULT.DSERR_INVALIDPARAM, dsb)
    else
      let dsb := { dsb with ds3db_ds3db := p }
      let dsb := if dwApply = env.DS3D_IMMEDIATE then DSOUND_Mix3DBuffer env ds3dl dsb else dsb
      (DSRESULT.DS_OK, { dsb with ds3db_need_recalc := true })

/-- IDirectSound3DListenerImpl_GetAllParameter, sound3d.c lines 779-799. -/
def IDirectSound3DListenerImpl_GetAllParameter (env : SoundEnv) (device : SoundDevice)
    (lpDS3DL : Option DS3DLISTENER) : DSRESULT × Option DS3DLISTENER :=
  match lpDS3DL with
  | none => (DSRESULT.DSERR_INVALIDPARAM, none)
  | some p =>
    if p.dwSize < env.sizeof_DS3DLISTENER then (DSRESULT.DSERR_INVALIDPARAM, some p)
    else (DSRESULT.DS_OK, some device.ds3dl)

/-- IDirectSound3DListenerImpl_SetAllParameters, sound3d.c lines 864-878.  The function reads
through the pointer without a test: the result none stands for the read through a null
pointer. -/
def IDirectSound3DListenerImpl_SetAllParameters (env : SoundEnv) (device : SoundDevice)
    (lpcDS3DL : Option DS3DLISTENER) (dwApply : Nat) : Option (DSRESULT × SoundDevice) :=
  match lpcDS3DL with
  | none => none
  | some p =>
    let device := { device with ds3dl := p }
    let device :=
      if dwApply = env.DS3D_IMMEDIATE then
        DSOUND_ChangeListener env { device with ds3dl_need_recalc := false }
      else device
    some (DSRESULT.DS_OK, { device with ds3dl_need_recalc := true })

/-! ### Concrete inputs -/

/-- A surface created without a format: 5 texels wide inside an 8 by 8 power-of-two
allocation. -/
def unformattedSurface : Surface :=
  { format := WINED3DFORMAT.UNKNOWN, Width := 5, Height := 5, pow2Width := 8, pow2Height := 8 }

/-- An environment whose format table gives three bytes per pixel. -/
def rgb24Env : Env :=
  { getFormatDescEntry := fun _ => { bpp := 3, glFormat := 7, glInternal := 8, glType := 9 } }

/-- A buffer whose every byte is 7. -/
def bufferOf7 : Mem := fun _ => 7

/-- A buffer whose every byte is 0. -/
def bufferOf0 : Mem := fun _ => 0

/-- A 4x4 image of palette indices with pitch 4: index 10 in the even columns, 3 in the odd ones. -/
def paletteImage : Mem := fun a => if a % 2 = 0 then 10 else 3

/-- A source buffer that holds 10 in its first 2^32 bytes and 3 above them. -/
def farImage : Mem := fun a => if a < 4294967296 then 10 else 3

/-- A palette whose entry i is the grey level i. -/
def greyPalette : Palette := fun i => ⟨i, i, i, 0⟩

/-- A 4x4 surface of format R8G8B8 with an active source colour key and a host buffer. -/
def keyedRgbSurface : Surface :=
  { Flags := { INSYSMEM := true }
    format := WINED3DFORMAT.R8G8B8
    bytesPerPixel := 3
    size := 48
    allocatedMemory := 4096
    Width := 4
    Height := 4
    pow2Width := 4
    pow2Height := 4
    CKSRCBLT := true
    SrcBltCKey := ⟨10, 10⟩ }

/-- A surface with the colour key range [10, 10] and no palette attached. -/
def keyedSurface : Surface := { SrcBltCKey := ⟨10, 10⟩ }

/-- An environment whose device palette is the grey palette. -/
def greyEnv : Env := { devicePalette := greyPalette }

/-- A buffer of 16-bit and 32-bit pixels: byte a holds (37 * a + 200) mod 256. -/
def pixelBuffer : Mem := fun a => toBYTE (37 * a + 200)

/-- A 4x4 surface of a four-byte format in the managed pool: it is lockable, its host buffer
at address 4096 is up to date, it is not locked and its dirty rectangle is empty. -/
def plainSurface : Surface :=
  { Flags := { LOCKABLE := true, INSYSMEM := true }
    format := WINED3DFORMAT.A8R8G8B8
    pool := WINED3DPOOL.MANAGED
    bytesPerPixel := 4
    size := 64
    allocatedMemory := 4096
    Width := 4
    Height := 4
    pow2Width := 4
    pow2Height := 4
    dirtyRect := emptyDirtyRect 4 4 }

/-- A 16x16 DXT1 surface with its host buffer at address 4096. -/
def dxt1Surface : Surface :=
  { Flags := { LOCKABLE := true, INSYSMEM := true }
    format := WINED3DFORMAT.DXT1
    size := 128
    allocatedMemory := 4096
    Width := 16
    Height := 16
    pow2Width := 16
    pow2Height := 16
    dirtyRect := emptyDirtyRect 16 16 }

/-- A 16x16 DXT3 surface with its host buffer at address 4096. -/
def dxt3Surface : Surface := { dxt1Surface with format := WINED3DFORMAT.DXT3, size := 256 }

/-- The default environment: render target locking in mode RTL_AUTO, no GL extension. -/
def plainEnv : Env := {}

/-- The default environment with render target locking disabled. -/
def disabledEnv : Env := { rendertargetlock_mode := RTL.RTL_DISABLE }

/-- A mip level 1 of a texture that is current both in the texture and in the drawable, with
a colour key switched on after the last upload. -/
def mipSurface : Surface :=
  { format := WINED3DFORMAT.A8R8G8B8, bytesPerPixel := 4, Width := 4, Height := 4,
    pow2Width := 4, pow2Height := 4, size := 64, level := 1, textureName := 3,
    CKSRCBLT := true,
    Flags := { INTEXTURE := true, INDRAWABLE := true, ALLOCATED := true } }

/-- The 4x4 surface as a buffer of a swapchain. -/
def swapchainSurface : Surface := { plainSurface with container := Container.swapchain }

/-- The 4x4 surface as a buffer of a swapchain whose content is in the drawable only, with no
host buffer yet. -/
def drawableSurface : Surface :=
  { swapchainSurface with
    allocatedMemory := 0, Flags := { LOCKABLE := true, INDRAWABLE := true } }

/-- The swapchain with a back buffer: the destination is the front buffer and the source is
backBuffer[0]. -/
def flipWorld : BltWorld :=
  { sameSwapchain := true, hasBackBuffer := true, dstIsFrontBuffer := true,
    srcIsBackBuffer0 := true, SwapEffect := 1 }

/-- A swapchain with back buffers of which the destination is neither the first back buffer
nor the front buffer nor render_targets[0]: a higher back buffer. -/
def higherBackBufferWorld : BltWorld := { hasBackBuffer := true }

/-- A swapchain whose first back buffer is the destination. -/
def backBufferWorld : BltWorld := { hasBackBuffer := true, dstIsBackBuffer0 := true }

/-- The 4x4 surface with its content in the texture only: no host buffer, texture 3. -/
def textureOnlySurface : Surface :=
  { plainSurface with
    allocatedMemory := 0, textureName := 3,
    Flags := { LOCKABLE := true, INTEXTURE := true, ALLOCATED := true } }

/-- The 4x4 surface on a buffer that the application handed over with SetMem. -/
def userPtrSurface : Surface :=
  { plainSurface with Flags := { LOCKABLE := true, INSYSMEM := true, USERPTR := true } }

/-- A device inside a BeginScene / EndScene pair whose depth stencil target is the
destination of the blit. -/
def inSceneWorld : BltWorld := { dst := { inScene := true, isStencilBufferTarget := true } }

/-- An 8x8 texture surface of a four-byte format with a valid host buffer. -/
def wideTextureSurface : Surface :=
  { plainSurface with
    Width := 8, Height := 8, pow2Width := 8, pow2Height := 8, dirtyRect := emptyDirtyRect 8 8,
    size := 256 }

/-- The 4x4 offscreen surface with the source colour key (1, 1). -/
def keyedSourceSurface : Surface := { plainSurface with SrcBltCKey := ⟨1, 1⟩ }

/-- A blit descriptor with the override colour key (5, 9). -/
def overrideFx : WINEDDBLTFX := { ddckSrcColorkey := ⟨5, 9⟩ }

/-- The 4x4 surface in the scratch pool: its host buffer is valid, it has never been loaded
into a texture. -/
def scratchSurface : Surface := { plainSurface with pool := WINED3DPOOL.SCRATCH }

/-- A colour-keyed level 0 surface whose content is in the drawable only. -/
def keyedDrawableSurface : Surface :=
  { plainSurface with
    CKSRCBLT := true, Flags := { LOCKABLE := true, INDRAWABLE := true, ALLOCATED := true } }

/-- A 4x4 P8 surface without attached palette, with a valid host buffer, never loaded. -/
def p8Surface : Surface :=
  { plainSurface with format := WINED3DFORMAT.P8, bytesPerPixel := 1, size := 16 }

/-- Four requests on a 4x4 surface: a new size, the same size again, the size of the surface
itself, and a size larger than the surface. -/
def renderbufferCalls : List RenderbufferCall :=
  [⟨2, 2, 7⟩, ⟨2, 2, 8⟩, ⟨4, 4, 9⟩, ⟨8, 8, 5⟩]

/-- A swapchain buffer whose padded size is 2x2. -/
def smallSwapchainSurface : Surface :=
  { swapchainSurface with Width := 2, Height := 2, pow2Width := 2, pow2Height := 2, size := 16 }

/-- A swapchain buffer whose padded size is 32768x32768. -/
def hugeSwapchainSurface : Surface :=
  { swapchainSurface with
    Width := 32768, Height := 32768, pow2Width := 32768, pow2Height := 32768 }

/-- Memory in which every byte holds the low byte of its offset. -/
def rampImage : Int → BYTE := fun a => intToBYTE a

/-- A 3x2 A8R8G8B8 surface whose texture is padded to 4x2. -/
def nonpow2Surface : Surface :=
  { plainSurface with
    Width := 3, Height := 2, pow2Width := 4, pow2Height := 2, size := 24,
    Flags := { LOCKABLE := true, INTEXTURE := true, NONPOW2 := true } }

/-- A host buffer in which every byte is 0xAA. -/
def staleHost : Int → BYTE := fun _ => 0xAA

/-- A listener descriptor whose dwSize is 8, less than the 64 bytes of the structure. -/
def shortListener : DS3DLISTENER := { dwSize := 8, flDistanceFactor := 1065353216 }

/-! ## Part 2: lemmas and theorems -/

/-! ### Byte memory -/

theorem store_same (m : Mem) (a : Nat) (v : BYTE) : m.store a v a = v := by
  simp [Mem.store]

theorem store_other (m : Mem) (a i : Nat) (v : BYTE) (h : i ≠ a) : m.store a v i = m i := by
  simp [Mem.store, h]

/-! ### The loop nest of the conversion engine -/

/-- A pixel loop leaves every byte outside the span it walks over untouched, when each
iteration writes only inside its own pixel. -/
theorem pixelLoop_outside (pixel : Nat → Nat → Mem → Mem) (sstep dstep : Nat)
    (hframe : ∀ s d m a, (a < d ∨ d + dstep ≤ a) → pixel s d m a = m a) :
    ∀ (n s d : Nat) (m : Mem) (a : Nat), (a < d ∨ d + dstep * n ≤ a) →
      pixelLoop pixel sstep dstep n s d m a = m a := by
  intro n
  induction n with
  | zero => intro s d m a _; rfl
  | succ n ih =>
    intro s d m a h
    have hmul : dstep * (n + 1) = dstep + dstep * n := by ring
    rw [pixelLoop, ih (s + sstep) (d + dstep) (pixel s d m) a (by omega)]
    exact hframe s d m a (by
      have : 0 ≤ dstep * n := Nat.zero_le _
      omega)

/-- The byte k of pixel x after a pixel loop is the byte that iteration x wrote there. -/
theorem pixelLoop_inside (pixel : Nat → Nat → Mem → Mem) (sstep dstep : Nat) (val : Nat → Nat → BYTE)
    (hframe : ∀ s d m a, (a < d ∨ d + dstep ≤ a) → pixel s d m a = m a)
    (hval : ∀ s d m k, k < dstep → pixel s d m (d + k) = val s k) :
    ∀ (n s d : Nat) (m : Mem) (x k : Nat), x < n → k < dstep →
      pixelLoop pixel sstep dstep n s d m (d + dstep * x + k) = val (s + sstep * x) k := by
  intro n
  induction n with
  | zero => intro s d m x k hx; omega
  | succ n ih =>
    intro s d m x k hx hk
    rw [pixelLoop]
    cases x with
    | zero =>
      rw [pixelLoop_outside pixel sstep dstep hframe n (s + sstep) (d + dstep) _ _ (by omega)]
      simpa using hval s d m k hk
    | succ x =>
      have e1 : d + dstep * (x + 1) + k = (d + dstep) + dstep * x + k := by ring
      have e2 : s + sstep * (x + 1) = (s + sstep) + sstep * x := by ring
      rw [e1, e2]
      exact ih (s + sstep) (d + dstep) (pixel s d m) x k (by omega) hk

/-- A row loop leaves a byte untouched when none of its rows writes it. -/
theorem rowLoop_outside (row : Nat → Mem → Mem) (a : Nat) :
    ∀ (n y : Nat) (m : Mem), (∀ y1 m1, y ≤ y1 → y1 < y + n → row y1 m1 a = m1 a) →
      rowLoop row n y m a = m a := by
  intro n
  induction n with
  | zero => intro y m _; rfl
  | succ n ih =>
    intro y m h
    rw [rowLoop, ih (y + 1) (row y m) (fun y1 m1 h1 h2 => h y1 m1 (by omega) (by omega))]
    exact h y m (by omega) (by omega)

/-- A byte that row y0 sets to v, and that no later row writes, holds v after the row loop. -/
theorem rowLoop_value (row : Nat → Mem → Mem) (a : Nat) (v : BYTE) (y0 : Nat)
    (hval : ∀ m1, row y0 m1 a = v) :
    ∀ (n y : Nat) (m : Mem), y ≤ y0 → y0 < y + n →
      (∀ y1 m1, y0 < y1 → y1 < y + n → row y1 m1 a = m1 a) →
      rowLoop row n y m a = v := by
  intro n
  induction n with
  | zero => intro y m h1 h2; omega
  | succ n ih =>
    intro y m h1 h2 hframe
    rw [rowLoop]
    by_cases hy : y = y0
    · subst hy
      rw [rowLoop_outside row a n (y + 1) (row y m)
        (fun y1 m1 h3 h4 => hframe y1 m1 (by omega) (by omega))]
      exact hval m
    · exact ih (y + 1) (row y m) (by omega) (by omega)
        (fun y1 m1 h3 h4 => hframe y1 m1 h3 (by omega))

/-- The loop nest of a conversion mode: when destination rows do not overlap
(dstep * width ≤ outpitch) and the row offsets fit in 32 bits, byte k of destination pixel
(x, y) is the byte that the loop body computes from source pixel (x, y). -/
theorem convertLoops_pixel (pixel : Nat → Nat → Mem → Mem) (sstep dstep : Nat) (val : Nat → Nat → BYTE)
    (hframe : ∀ s d m a, (a < d ∨ d + dstep ≤ a) → pixel s d m a = m a)
    (hval : ∀ s d m k, k < dstep → pixel s d m (d + k) = val s k)
    (pitch width height outpitch : Nat) (dst : Mem)
    (hrow : dstep * width ≤ outpitch)
    (hsrc : pitch * (height - 1) < 4294967296) (hdst : outpitch * (height - 1) < 4294967296)
    (x y k : Nat) (hx : x < width) (hy : y < height) (hk : k < dstep) :
    convertLoops pixel sstep dstep pitch width height outpitch dst (outpitch * y + dstep * x + k)
      = val (pitch * y + sstep * x) k := by
  have nowrap0 : ∀ p y1 : Nat, p * (height - 1) < 4294967296 → y1 < height →
      u32 (p * y1) = p * y1 := by
    intro p y1 hp hy1
    have h1 : p * y1 ≤ p * (height - 1) := Nat.mul_le_mul_left p (by omega)
    unfold u32
    exact Nat.mod_eq_of_lt (by omega)
  have hxk : dstep * x + k < dstep * width := by
    have : dstep * (x + 1) ≤ dstep * width := Nat.mul_le_mul_left dstep (by omega)
    linarith [this, Nat.mul_succ dstep x]
  unfold convertLoops
  apply rowLoop_value _ _ _ y
  · intro m1
    show pixelLoop pixel sstep dstep width (u32 (pitch * y)) (u32 (outpitch * y)) m1 _ = _
    rw [nowrap0 pitch y hsrc hy, nowrap0 outpitch y hdst hy]
    exact pixelLoop_inside pixel sstep dstep val hframe hval width _ _ m1 x k hx hk
  · omega
  · omega
  · intro y1 m1 h1 h2
    show pixelLoop pixel sstep dstep width (u32 (pitch * y1)) (u32 (outpitch * y1)) m1 _ = _
    rw [nowrap0 outpitch y1 hdst (by omega)]
    apply pixelLoop_outside pixel sstep dstep hframe
    left
    have : outpitch * (y + 1) ≤ outpitch * y1 := Nat.mul_le_mul_left outpitch (by omega)
    linarith [this, Nat.mul_succ outpitch y]

/-! ### Bit-level facts -/

theorem ldiff_255 (m : Nat) : Nat.ldiff 255 m = 255 - m % 256 := by
  apply Nat.eq_of_testBit_eq
  intro i
  have h1 : (255 : Nat) = 2 ^ 8 - 1 := by norm_num
  have h2 : 255 - m % 256 = 2 ^ 8 - (m % 2 ^ 8 + 1) := by omega
  rw [Nat.testBit_ldiff, h2, Nat.testBit_two_pow_sub_succ (Nat.mod_lt _ (by norm_num)), h1,
    Nat.testBit_two_pow_sub_one, Nat.testBit_mod_two_pow]
  cases decide (i < 8) <;> simp

/-- On a two's complement integer, x & 0xff is the residue of x modulo 256. -/
theorem land_255 (x : Int) : Int.land x 255 = x % 256 := by
  cases x with
  | ofNat m =>
    show ((m &&& 255 : Nat) : Int) = _
    have : m &&& 255 = m % 256 := Nat.and_pow_two_sub_one_eq_mod m 8
    rw [this]
    norm_cast
  | negSucc m =>
    show ((Nat.ldiff 255 m : Nat) : Int) = _
    rw [ldiff_255, Int.negSucc_eq]
    omega

theorem read16_lt (m : Mem) (a : Nat) : m.read16 a < 65536 := by
  have h1 := (m a).isLt
  have h2 := (m (a + 1)).isLt
  unfold Mem.read16
  omega

theorem read16_write16 (m : Mem) (a v : Nat) : (m.write16 a v).read16 a = v % 65536 := by
  simp [Mem.read16, Mem.write16, Mem.store, toBYTE]
  omega

theorem write16_other (m : Mem) (a v i : Nat) (h : i < a ∨ a + 2 ≤ i) : m.write16 a v i = m i := by
  have h1 : i ≠ a := by omega
  have h2 : i ≠ a + 1 := by omega
  simp [Mem.write16, Mem.store, h1, h2]

theorem write16_byte (m : Mem) (a v k : Nat) (hk : k < 2) :
    m.write16 a v (a + k) = toBYTE (v / 256 ^ k) := by
  interval_cases k <;> simp [Mem.write16, Mem.store]

/-- The 16-bit value that CONVERT_CK_565 produces from the source pixel c fits in 16 bits. -/
theorem ck565_lt (c a : Nat) (ha : a < 2) :
    ((c &&& 0xFFC0) ||| ((c &&& 0x1F) <<< 1)) ||| a < 65536 := by
  have h1 : c &&& 0xFFC0 < 2 ^ 16 := Nat.and_lt_two_pow c (by norm_num)
  have h2 : (c &&& 0x1F) <<< 1 < 2 ^ 16 := by
    have : c &&& 0x1F < 2 ^ 5 := Nat.and_lt_two_pow c (by norm_num)
    rw [Nat.shiftLeft_eq]
    omega
  have h3 : a < 2 ^ 16 := by omega
  exact Nat.or_lt_two_pow (Nat.or_lt_two_pow h1 h2) h3

/-! ### Loop bodies of the conversion modes -/

theorem pixel_PALETTED_frame (table : Fin 256 → Nat → BYTE) (src : Mem) (s d : Nat) (m : Mem) (a : Nat)
    (h : a < d ∨ d + 4 ≤ a) : pixel_PALETTED table src s d m a = m a := by
  have h0 : a ≠ d := by omega
  have h1 : a ≠ d + 1 := by omega
  have h2 : a ≠ d + 2 := by omega
  have h3 : a ≠ d + 3 := by omega
  simp [pixel_PALETTED, Mem.store, h0, h1, h2, h3]

theorem pixel_PALETTED_val (table : Fin 256 → Nat → BYTE) (src : Mem) (s d : Nat) (m : Mem) (k : Nat)
    (hk : k < 4) : pixel_PALETTED table src s d m (d + k) = table (src s) k := by
  interval_cases k <;> simp [pixel_PALETTED, Mem.store]

/-- The 16-bit value CONVERT_CK_565 stores for the source pixel c. -/
theorem pixel_CK_565_word (key : WINEDDCOLORKEY) (src : Mem) (s d : Nat) (m : Mem) :
    pixel_CK_565 key src s d m = m.write16 d
      (((src.read16 s &&& 0xFFC0) ||| ((src.read16 s &&& 0x1F) <<< 1)) |||
        (if key.dwColorSpaceLowValue ≤ src.read16 s ∧ src.read16 s ≤ key.dwColorSpaceHighValue
          then 0 else 1)) := by
  have hlt := ck565_lt (src.read16 s) 0 (by omega)
  simp only [Nat.or_zero] at hlt
  unfold pixel_CK_565
  by_cases hc : src.read16 s < key.dwColorSpaceLowValue ∨ src.read16 s > key.dwColorSpaceHighValue
  · have hn : ¬ (key.dwColorSpaceLowValue ≤ src.read16 s ∧ src.read16 s ≤ key.dwColorSpaceHighValue) := by
      omega
    simp only [hc, hn, if_true, if_false]
    rw [read16_write16, Nat.mod_eq_of_lt hlt]
    funext i
    simp only [Mem.write16, Mem.store]
    split_ifs <;> rfl
  · have hn : key.dwColorSpaceLowValue ≤ src.read16 s ∧ src.read16 s ≤ key.dwColorSpaceHighValue := by
      omega
    simp only [hc, hn, if_true, if_false, and_self, Nat.or_zero]

theorem pixel_V8U8_frame (src : Mem) (s d : Nat) (m : Mem) (a : Nat)
    (h : a < d ∨ d + 3 ≤ a) : pixel_V8U8 src s d m a = m a := by
  have h0 : a ≠ d := by omega
  have h1 : a ≠ d + 1 := by omega
  have h2 : a ≠ d + 2 := by omega
  simp [pixel_V8U8, Mem.store, h0, h1, h2]

theorem pixel_Q8W8V8U8_frame (src : Mem) (s d : Nat) (m : Mem) (a : Nat)
    (h : a < d ∨ d + 4 ≤ a) : pixel_Q8W8V8U8 src s d m a = m a := by
  have h0 : a ≠ d := by omega
  have h1 : a ≠ d + 1 := by omega
  have h2 : a ≠ d + 2 := by omega
  have h3 : a ≠ d + 3 := by omega
  simp [pixel_Q8W8V8U8, Mem.store, h0, h1, h2, h3]

theorem pixel_V8U8_val (src : Mem) (s d : Nat) (m : Mem) :
    pixel_V8U8 src s d m d = 0xFF ∧
    (pixel_V8U8 src s d m (d + 1)).val = ((src (s + 1)).val + 128) % 256 ∧
    (pixel_V8U8 src s d m (d + 2)).val = ((src s).val + 128) % 256 := by
  have h1 := (src s).isLt
  have h2 := (src (s + 1)).isLt
  refine ⟨by simp [pixel_V8U8, Mem.store], ?_, ?_⟩
  · simp [pixel_V8U8, Mem.store, intToBYTE, toShort, Mem.read16, Int.shiftRight_eq_div_pow]
    split_ifs <;> omega
  · simp [pixel_V8U8, Mem.store, intToBYTE, toShort, Mem.read16]
    split_ifs <;> omega

theorem pixel_Q8W8V8U8_val (src : Mem) (s d : Nat) (m : Mem) :
    (pixel_Q8W8V8U8 src s d m d).val = ((src (s + 2)).val + 128) % 256 ∧
    (pixel_Q8W8V8U8 src s d m (d + 1)).val = ((src (s + 1)).val + 128) % 256 ∧
    (pixel_Q8W8V8U8 src s d m (d + 2)).val = ((src s).val + 128) % 256 ∧
    (pixel_Q8W8V8U8 src s d m (d + 3)).val = ((src (s + 3)).val + 128) % 256 := by
  have h0 := (src s).isLt
  have h1 := (src (s + 1)).isLt
  have h2 := (src (s + 2)).isLt
  have h3 := (src (s + 3)).isLt
  refine ⟨?_, ?_, ?_, ?_⟩ <;>
    simp [pixel_Q8W8V8U8, Mem.store, intToBYTE, toLong, u32, Mem.read32, land_255,
      Int.shiftRight_eq_div_pow] <;>
    split_ifs <;> omega

/-! ### Theorems about the conversion engine -/

/-- C4, for the buffers it holds for: in the modes CONVERT_PALETTED and CONVERT_PALETTED_CK,
when outpitch is at least 4*width and the row offsets pitch*(height-1) and
outpitch*(height-1) are less than 2^32, for every pixel (x, y) of the
surface with palette index i = src[y*pitch + x], the four destination bytes at
dst[y*outpitch + 4*x ..] are (P[i].red, P[i].green, P[i].blue, A): P is the palette attached to
the surface if there is one and the current palette of the device otherwise, and A is 0x00
exactly when the mode is CONVERT_PALETTED_CK and SrcBltCKey.low <= i <= SrcBltCKey.high, and
0xFF otherwise. -/
theorem d3dfmt_convert_surface_paletted (env : Env) (surf : Surface) (src dst : Mem)
    (pitch width height outpitch : Nat) (convert : CONVERT_TYPES) (P : Palette)
    (hmode : convert = CONVERT_TYPES.CONVERT_PALETTED ∨ convert = CONVERT_TYPES.CONVERT_PALETTED_CK)
    (hP : surf.palette = some P ∨ (surf.palette = none ∧ P = env.devicePalette))
    (hrow : 4 * width ≤ outpitch)
    (hsrc : pitch * (height - 1) < 4294967296) (hdst : outpitch * (height - 1) < 4294967296)
    (x y : Nat) (hx : x < width) (hy : y < height) :
    (d3dfmt_convert_surface env src dst pitch width height outpitch convert surf).2
        (y * outpitch + 4 * x) = (P (src (y * pitch + x))).peRed ∧
    (d3dfmt_convert_surface env src dst pitch width height outpitch convert surf).2
        (y * outpitch + 4 * x + 1) = (P (src (y * pitch + x))).peGreen ∧
    (d3dfmt_convert_surface env src dst pitch width height outpitch convert surf).2
        (y * outpitch + 4 * x + 2) = (P (src (y * pitch + x))).peBlue ∧
    (d3dfmt_convert_surface env src dst pitch width height outpitch convert surf).2
        (y * outpitch + 4 * x + 3) =
      (if convert = CONVERT_TYPES.CONVERT_PALETTED_CK ∧
          surf.SrcBltCKey.dwColorSpaceLowValue ≤ (src (y * pitch + x)).val ∧
          (src (y * pitch + x)).val ≤ surf.SrcBltCKey.dwColorSpaceHighValue
        then 0x00 else 0xFF) := by
  have hpal : conversionPalette env surf = P := by
    unfold conversionPalette
    rcases hP with h | ⟨h, rfl⟩ <;> rw [h]
  have hout : (d3dfmt_convert_surface env src dst pitch width height outpitch convert surf).2 =
      convertLoops (pixel_PALETTED (paletteTable P convert surf.SrcBltCKey) src) 1 4
        pitch width height outpitch dst := by
    rcases hmode with h | h <;> subst h <;> simp [d3dfmt_convert_surface, hpal]
  have key : ∀ k, k < 4 →
      (d3dfmt_convert_surface env src dst pitch width height outpitch convert surf).2
        (y * outpitch + 4 * x + k) = paletteTable P convert surf.SrcBltCKey (src (y * pitch + x)) k := by
    intro k hk
    rw [hout]
    have h := convertLoops_pixel (pixel_PALETTED (paletteTable P convert surf.SrcBltCKey) src) 1 4
      (fun s k => paletteTable P convert surf.SrcBltCKey (src s) k)
      (pixel_PALETTED_frame _ src) (pixel_PALETTED_val _ src)
      pitch width height outpitch dst hrow hsrc hdst x y k hx hy hk
    simpa [Nat.mul_comm] using h
  refine ⟨?_, ?_, ?_, ?_⟩
  · simpa [paletteTable] using key 0 (by omega)
  · simpa [paletteTable] using key 1 (by omega)
  · simpa [paletteTable] using key 2 (by omega)
  · simpa [paletteTable, and_assoc] using key 3 (by omega)

/-- C5, for the buffers it holds for: in mode CONVERT_CK_565, when outpitch is at least
2*width and the row offsets pitch*(height-1) and outpitch*(height-1) are less than 2^32, for
every source 16-bit pixel c at (x, y) the destination
16-bit pixel at the same (x, y), rows addressed by outpitch, is
(c & 0xFFC0) | ((c & 0x1F) << 1) | a, where the alpha bit a is 0 exactly when
SrcBltCKey.low <= c <= SrcBltCKey.high and 1 otherwise. -/
theorem d3dfmt_convert_surface_ck565 (env : Env) (surf : Surface) (src dst : Mem)
    (pitch width height outpitch : Nat)
    (hrow : 2 * width ≤ outpitch)
    (hsrc : pitch * (height - 1) < 4294967296) (hdst : outpitch * (height - 1) < 4294967296)
    (x y : Nat) (hx : x < width) (hy : y < height) :
    ((d3dfmt_convert_surface env src dst pitch width height outpitch
        CONVERT_TYPES.CONVERT_CK_565 surf).2).read16 (y * outpitch + 2 * x) =
      ((src.read16 (y * pitch + 2 * x) &&& 0xFFC0) |||
        ((src.read16 (y * pitch + 2 * x) &&& 0x1F) <<< 1)) |||
      (if surf.SrcBltCKey.dwColorSpaceLowValue ≤ src.read16 (y * pitch + 2 * x) ∧
          src.read16 (y * pitch + 2 * x) ≤ surf.SrcBltCKey.dwColorSpaceHighValue
        then 0 else 1) := by
  have hframe : ∀ s d m a, (a < d ∨ d + 2 ≤ a) → pixel_CK_565 surf.SrcBltCKey src s d m a = m a := by
    intro s d m a h
    rw [pixel_CK_565_word]
    exact write16_other m d _ a h
  have hbyte := fun k hk => convertLoops_pixel (pixel_CK_565 surf.SrcBltCKey src) 2 2
    (fun s k => toBYTE ((((src.read16 s &&& 0xFFC0) ||| ((src.read16 s &&& 0x1F) <<< 1)) |||
        (if surf.SrcBltCKey.dwColorSpaceLowValue ≤ src.read16 s ∧
            src.read16 s ≤ surf.SrcBltCKey.dwColorSpaceHighValue then 0 else 1)) / 256 ^ k))
    hframe
    (fun s d m k hk => by rw [pixel_CK_565_word]; exact write16_byte m d _ k hk)
    pitch width height outpitch dst hrow hsrc hdst x y k hx hy hk
  have h0 := hbyte 0 (by omega)
  have h1 := hbyte 1 (by omega)
  have hlt := ck565_lt (src.read16 (pitch * y + 2 * x))
    (if surf.SrcBltCKey.dwColorSpaceLowValue ≤ src.read16 (pitch * y + 2 * x) ∧
        src.read16 (pitch * y + 2 * x) ≤ surf.SrcBltCKey.dwColorSpaceHighValue then 0 else 1)
    (by split_ifs <;> omega)
  simp only [d3dfmt_convert_surface, Mem.read16]
  rw [Nat.mul_comm y outpitch, Nat.mul_comm y pitch]
  rw [show outpitch * y + 2 * x = outpitch * y + 2 * x + 0 by rfl, h0, h1]
  simp only [toBYTE, Mem.read16, Nat.add_zero, pow_zero, pow_one, Nat.div_one] at hlt ⊢
  omega

theorem pixel_V8U8_shift (src : Mem) (s d : Nat) (m : Mem) (k : Nat) (hk : k < 3) :
    pixel_V8U8 src s d m (d + k) = pixel_V8U8 src s 0 (fun _ => 0) k := by
  interval_cases k <;> simp [pixel_V8U8, Mem.store]

theorem pixel_Q8W8V8U8_shift (src : Mem) (s d : Nat) (m : Mem) (k : Nat) (hk : k < 4) :
    pixel_Q8W8V8U8 src s d m (d + k) = pixel_Q8W8V8U8 src s 0 (fun _ => 0) k := by
  interval_cases k <;> simp [pixel_Q8W8V8U8, Mem.store]

/-- C8, for the buffers it holds for: when the row offsets pitch*(height-1) and
outpitch*(height-1) are less than 2^32, and outpitch is at least 3*width in mode CONVERT_V8U8
and at least 4*width in mode CONVERT_Q8W8V8U8:
in mode CONVERT_V8U8 every 16-bit source pixel with low byte U and high byte V gives
the three destination bytes (0xFF, (V+128) mod 256, (U+128) mod 256); in mode
CONVERT_Q8W8V8U8 every 32-bit source pixel with bytes U, V, W, Q (low to high) gives the four
destination bytes ((W+128) mod 256, (V+128) mod 256, (U+128) mod 256, (Q+128) mod 256).  This
holds for every source value, the sign-extended negative ones included. -/
theorem d3dfmt_convert_surface_bump (env : Env) (surf : Surface) (src dst : Mem)
    (pitch width height outpitch : Nat)
    (hsrc : pitch * (height - 1) < 4294967296) (hdst : outpitch * (height - 1) < 4294967296)
    (x y : Nat) (hx : x < width) (hy : y < height) :
    (3 * width ≤ outpitch →
      (d3dfmt_convert_surface env src dst pitch width height outpitch
          CONVERT_TYPES.CONVERT_V8U8 surf).2 (y * outpitch + 3 * x) = 0xFF ∧
      ((d3dfmt_convert_surface env src dst pitch width height outpitch
          CONVERT_TYPES.CONVERT_V8U8 surf).2 (y * outpitch + 3 * x + 1)).val =
        ((src (y * pitch + 2 * x + 1)).val + 128) % 256 ∧
      ((d3dfmt_convert_surface env src dst pitch width height outpitch
          CONVERT_TYPES.CONVERT_V8U8 surf).2 (y * outpitch + 3 * x + 2)).val =
        ((src (y * pitch + 2 * x)).val + 128) % 256) ∧
    (4 * width ≤ outpitch →
      ((d3dfmt_convert_surface env src dst pitch width height outpitch
          CONVERT_TYPES.CONVERT_Q8W8V8U8 surf).2 (y * outpitch + 4 * x)).val =
        ((src (y * pitch + 4 * x + 2)).val + 128) % 256 ∧
      ((d3dfmt_convert_surface env src dst pitch width height outpitch
          CONVERT_TYPES.CONVERT_Q8W8V8U8 surf).2 (y * outpitch + 4 * x + 1)).val =
        ((src (y * pitch + 4 * x + 1)).val + 128) % 256 ∧
      ((d3dfmt_convert_surface env src dst pitch width height outpitch
          CONVERT_TYPES.CONVERT_Q8W8V8U8 surf).2 (y * outpitch + 4 * x + 2)).val =
        ((src (y * pitch + 4 * x)).val + 128) % 256 ∧
      ((d3dfmt_convert_surface env src dst pitch width height outpitch
          CONVERT_TYPES.CONVERT_Q8W8V8U8 surf).2 (y * outpitch + 4 * x + 3)).val =
        ((src (y * pitch + 4 * x + 3)).val + 128) % 256) := by
  constructor
  · intro hrow
    have hbyte := fun k hk => convertLoops_pixel (pixel_V8U8 src) 2 3
      (fun s k => pixel_V8U8 src s 0 (fun _ => 0) k)
      (pixel_V8U8_frame src) (pixel_V8U8_shift src)
      pitch width height outpitch dst hrow hsrc hdst x y k hx hy hk
    have hv := pixel_V8U8_val src (pitch * y + 2 * x) 0 (fun _ => 0)
    have h0 := hbyte 0 (by omega)
    have h1 := hbyte 1 (by omega)
    have h2 := hbyte 2 (by omega)
    simp only [d3dfmt_convert_surface]
    rw [Nat.mul_comm y outpitch, Nat.mul_comm y pitch]
    rw [show outpitch * y + 3 * x = outpitch * y + 3 * x + 0 by rfl, h0, h1, h2]
    simpa using hv
  · intro hrow
    have hbyte := fun k hk => convertLoops_pixel (pixel_Q8W8V8U8 src) 4 4
      (fun s k => pixel_Q8W8V8U8 src s 0 (fun _ => 0) k)
      (pixel_Q8W8V8U8_frame src) (pixel_Q8W8V8U8_shift src)
      pitch width height outpitch dst hrow hsrc hdst x y k hx hy hk
    have hv := pixel_Q8W8V8U8_val src (pitch * y + 4 * x) 0 (fun _ => 0)
    have h0 := hbyte 0 (by omega)
    have h1 := hbyte 1 (by omega)
    have h2 := hbyte 2 (by omega)
    have h3 := hbyte 3 (by omega)
    simp only [d3dfmt_convert_surface]
    rw [Nat.mul_comm y outpitch, Nat.mul_comm y pitch]
    rw [show outpitch * y + 4 * x = outpitch * y + 4 * x + 0 by rfl, h0, h1, h2, h3]
    simpa using hv

/-- C6 (behaviour of the code): for a mode that d3dfmt_convert_surface does not implement,
here CONVERT_CK_RGB24 and CONVERT_V16U16, the call reports WINED3D_OK and leaves the
destination buffer as it was.  The mode CONVERT_CK_RGB24 is the one that d3dfmt_get_conv
selects for LoadTexture on a colour-keyed R8G8B8 surface. -/
theorem d3dfmt_convert_surface_unsupported_ok (env : Env) (surf : Surface) (src dst : Mem)
    (pitch width height outpitch : Nat) :
    d3dfmt_convert_surface env src dst pitch width height outpitch
      CONVERT_TYPES.CONVERT_CK_RGB24 surf = (HRESULT.WINED3D_OK, dst) ∧
    d3dfmt_convert_surface env src dst pitch width height outpitch
      CONVERT_TYPES.CONVERT_V16U16 surf = (HRESULT.WINED3D_OK, dst) ∧
    (d3dfmt_get_conv env keyedRgbSurface true true).1 = CONVERT_TYPES.CONVERT_CK_RGB24 :=
  ⟨rfl, rfl, rfl⟩

/-- Witness of C4: the 4x4 palette image with key range [10, 10] in mode CONVERT_PALETTED_CK.
Pixel (2, 1) has index 10 and gets alpha 0x00, pixel (3, 1) has index 3 and gets alpha 0xFF. -/
theorem d3dfmt_convert_surface_paletted_witness :
    (4 * 4 ≤ 16 ∧ 4 * 4 ≤ 4294967296 ∧ 16 * 4 ≤ 4294967296 ∧ 2 < 4 ∧ 1 < 4) ∧
    (d3dfmt_convert_surface greyEnv paletteImage bufferOf0 4 4 4 16
        CONVERT_TYPES.CONVERT_PALETTED_CK keyedSurface).2 (1 * 16 + 4 * 2) = 10 ∧
    (d3dfmt_convert_surface greyEnv paletteImage bufferOf0 4 4 4 16
        CONVERT_TYPES.CONVERT_PALETTED_CK keyedSurface).2 (1 * 16 + 4 * 2 + 3) = 0x00 ∧
    (d3dfmt_convert_surface greyEnv paletteImage bufferOf0 4 4 4 16
        CONVERT_TYPES.CONVERT_PALETTED_CK keyedSurface).2 (1 * 16 + 4 * 3 + 3) = 0xFF := by
  have h2 := d3dfmt_convert_surface_paletted greyEnv keyedSurface paletteImage bufferOf0 4 4 4 16
    CONVERT_TYPES.CONVERT_PALETTED_CK greyPalette (Or.inr rfl) (Or.inr ⟨rfl, rfl⟩)
    (by decide) (by decide) (by decide) 2 1 (by decide) (by decide)
  have h3 := d3dfmt_convert_surface_paletted greyEnv keyedSurface paletteImage bufferOf0 4 4 4 16
    CONVERT_TYPES.CONVERT_PALETTED_CK greyPalette (Or.inr rfl) (Or.inr ⟨rfl, rfl⟩)
    (by decide) (by decide) (by decide) 3 1 (by decide) (by decide)
  refine ⟨by decide, ?_, ?_, ?_⟩
  · exact h2.1.trans (by decide)
  · exact h2.2.2.2.trans (by decide)
  · exact h3.2.2.2.trans (by decide)

/-- Witness of C5: pixel (1, 1) of a 2x2 image of 16-bit pixels, pitch 4 and outpitch 8. -/
theorem d3dfmt_convert_surface_ck565_witness :
    (2 * 2 ≤ 8 ∧ 4 * 2 ≤ 4294967296 ∧ 8 * 2 ≤ 4294967296 ∧ 1 < 2 ∧ 1 < 2) ∧
    ((d3dfmt_convert_surface greyEnv pixelBuffer bufferOf0 4 2 2 8
        CONVERT_TYPES.CONVERT_CK_565 keyedSurface).2).read16 (1 * 8 + 2 * 1) =
      ((pixelBuffer.read16 (1 * 4 + 2 * 1) &&& 0xFFC0) |||
        ((pixelBuffer.read16 (1 * 4 + 2 * 1) &&& 0x1F) <<< 1)) |||
      (if keyedSurface.SrcBltCKey.dwColorSpaceLowValue ≤ pixelBuffer.read16 (1 * 4 + 2 * 1) ∧
          pixelBuffer.read16 (1 * 4 + 2 * 1) ≤ keyedSurface.SrcBltCKey.dwColorSpaceHighValue
        then 0 else 1) :=
  ⟨by decide, d3dfmt_convert_surface_ck565 greyEnv keyedSurface pixelBuffer bufferOf0 4 2 2 8
    (by decide) (by decide) (by decide) 1 1 (by decide) (by decide)⟩

/-- Witness of C8: pixel (1, 1) of a 2x2 image with pitch 8 and outpitch 8.  The V8U8 pixel
has U = 0x3A and V = 0x5F; the Q8W8V8U8 pixel has U = 0x84, V = 0xA9, W = 0xCE, Q = 0xF3, all
four negative as signed bytes. -/
theorem d3dfmt_convert_surface_bump_witness :
    (8 * 2 ≤ 4294967296 ∧ 1 < 2 ∧ 3 * 2 ≤ 8 ∧ 4 * 2 ≤ 8) ∧
    ((d3dfmt_convert_surface greyEnv pixelBuffer bufferOf0 8 2 2 8
        CONVERT_TYPES.CONVERT_V8U8 keyedSurface).2 (1 * 8 + 3 * 1) = 0xFF ∧
      ((d3dfmt_convert_surface greyEnv pixelBuffer bufferOf0 8 2 2 8
        CONVERT_TYPES.CONVERT_V8U8 keyedSurface).2 (1 * 8 + 3 * 1 + 1)).val = (0x5F + 128) % 256 ∧
      ((d3dfmt_convert_surface greyEnv pixelBuffer bufferOf0 8 2 2 8
        CONVERT_TYPES.CONVERT_V8U8 keyedSurface).2 (1 * 8 + 3 * 1 + 2)).val = (0x3A + 128) % 256) ∧
    (((d3dfmt_convert_surface greyEnv pixelBuffer bufferOf0 8 2 2 8
        CONVERT_TYPES.CONVERT_Q8W8V8U8 keyedSurface).2 (1 * 8 + 4 * 1)).val = (0xCE + 128) % 256 ∧
      ((d3dfmt_convert_surface greyEnv pixelBuffer bufferOf0 8 2 2 8
        CONVERT_TYPES.CONVERT_Q8W8V8U8 keyedSurface).2 (1 * 8 + 4 * 1 + 1)).val = (0xA9 + 128) % 256 ∧
      ((d3dfmt_convert_surface greyEnv pixelBuffer bufferOf0 8 2 2 8
        CONVERT_TYPES.CONVERT_Q8W8V8U8 keyedSurface).2 (1 * 8 + 4 * 1 + 2)).val = (0x84 + 128) % 256 ∧
      ((d3dfmt_convert_surface greyEnv pixelBuffer bufferOf0 8 2 2 8
        CONVERT_TYPES.CONVERT_Q8W8V8U8 keyedSurface).2 (1 * 8 + 4 * 1 + 3)).val = (0xF3 + 128) % 256) := by
  have h := d3dfmt_convert_surface_bump greyEnv keyedSurface pixelBuffer bufferOf0 8 2 2 8
    (by decide) (by decide) 1 1 (by decide) (by decide)
  exact ⟨by decide, h.1 (by decide), h.2 (by decide)⟩

/-- C4, counterexample: a 2x2 image of palette indices with pitch 2 converted with outpitch 4,
less than the 8 bytes of a destination row.  Pixel (1, 0) has index 3, so the byte at
dst[0*4 + 4*1] should be the red value 3 of palette entry 3; row 1 starts at the same byte,
and after the call it holds the red value 10 of pixel (0, 1).  And a 1x3 image with pitch
2^31: pixel (0, 2) is src[2*2^31] = 3, the row offset 2*2^31 wraps to 0 in 32 bits, and the
byte at dst[2*4] holds the red value 10 of src[0]. -/
theorem d3dfmt_convert_surface_paletted_counterexample :
    (paletteImage (0 * 2 + 1) = 3 ∧ (greyPalette (paletteImage (0 * 2 + 1))).peRed = 3 ∧
      (d3dfmt_convert_surface greyEnv paletteImage bufferOf0 2 2 2 4
          CONVERT_TYPES.CONVERT_PALETTED keyedSurface).2 (0 * 4 + 4 * 1) = 10 ∧
      (d3dfmt_convert_surface greyEnv paletteImage bufferOf0 2 2 2 4
          CONVERT_TYPES.CONVERT_PALETTED keyedSurface).2 (0 * 4 + 4 * 1) ≠
        (greyPalette (paletteImage (0 * 2 + 1))).peRed) ∧
    (farImage (2 * 2147483648 + 0) = 3 ∧
      (greyPalette (farImage (2 * 2147483648 + 0))).peRed = 3 ∧
      (d3dfmt_convert_surface greyEnv farImage bufferOf0 2147483648 1 3 4
          CONVERT_TYPES.CONVERT_PALETTED keyedSurface).2 (2 * 4 + 4 * 0) = 10) := by
  decide

/-- C5, counterexample: a 2x2 image of 16-bit pixels with pitch 4 converted with outpitch 2,
less than the 4 bytes of a destination row.  Source pixel (1, 0) is 0x3712 and should give
0x3725 at dst[0*2 + 2*1]; row 1 starts at the same bytes, and after the call they hold
0x8179, the conversion of source pixel (0, 1) = 0x815C.  And a 1x3 image with pitch 2^31:
pixel (0, 2) is the word 0x0303 at src[2*2^31] and should give 0x0307; the row offset 2*2^31
wraps to 0 in 32 bits, and the word at dst[2*2] is 0x0A15, the conversion of the word 0x0A0A
at src[0]. -/
theorem d3dfmt_convert_surface_ck565_counterexample :
    (pixelBuffer.read16 (0 * 4 + 2 * 1) = 0x3712 ∧ pixelBuffer.read16 (1 * 4 + 2 * 0) = 0x815C ∧
      ((0x3712 &&& 0xFFC0) ||| ((0x3712 &&& 0x1F) <<< 1)) ||| 1 = 0x3725 ∧
      ((d3dfmt_convert_surface greyEnv pixelBuffer bufferOf0 4 2 2 2
          CONVERT_TYPES.CONVERT_CK_565 keyedSurface).2).read16 (0 * 2 + 2 * 1) = 0x8179) ∧
    (farImage.read16 (2 * 2147483648 + 2 * 0) = 0x0303 ∧
      ((0x0303 &&& 0xFFC0) ||| ((0x0303 &&& 0x1F) <<< 1)) ||| 1 = 0x0307 ∧
      ((d3dfmt_convert_surface greyEnv farImage bufferOf0 2147483648 1 3 2
          CONVERT_TYPES.CONVERT_CK_565 keyedSurface).2).read16 (2 * 2 + 2 * 0) = 0x0A15) := by
  decide

/-- C8, counterexample: 2x2 images converted with an outpitch less than a destination row.
In mode CONVERT_V8U8 with pitch 4 and outpitch 3, pixel (1, 0) has V = 0x37 and should give
0xB7 at dst[0*3 + 3*1 + 1]; after the call the byte holds 0x01, from V = 0x81 of pixel (0, 1).
In mode CONVERT_Q8W8V8U8 with pitch 8 and outpitch 4, pixel (1, 0) has W = 0xA6 and should
give 0x26 at dst[0*4 + 4*1]; after the call the byte holds 0xBA, from W = 0x3A of pixel
(0, 1).  And 1x3 images with pitch 2^31: the bytes of pixel (0, 2), at src[2*2^31 ..], are 3
and should give 131; the row offset 2*2^31 wraps to 0 in 32 bits, and the destination bytes
hold 138, from the bytes 10 at src[0 ..]. -/
theorem d3dfmt_convert_surface_bump_counterexample :
    ((pixelBuffer (0 * 4 + 2 * 1 + 1)).val = 0x37 ∧ (0x37 + 128) % 256 = 0xB7 ∧
      ((d3dfmt_convert_surface greyEnv pixelBuffer bufferOf0 4 2 2 3
        CONVERT_TYPES.CONVERT_V8U8 keyedSurface).2 (0 * 3 + 3 * 1 + 1)).val = 0x01) ∧
    ((pixelBuffer (0 * 8 + 4 * 1 + 2)).val = 0xA6 ∧ (0xA6 + 128) % 256 = 0x26 ∧
      ((d3dfmt_convert_surface greyEnv pixelBuffer bufferOf0 8 2 2 4
        CONVERT_TYPES.CONVERT_Q8W8V8U8 keyedSurface).2 (0 * 4 + 4 * 1)).val = 0xBA) ∧
    ((farImage (2 * 2147483648 + 2 * 0 + 1)).val = 3 ∧ (3 + 128) % 256 = 131 ∧
      ((d3dfmt_convert_surface greyEnv farImage bufferOf0 2147483648 1 3 3
        CONVERT_TYPES.CONVERT_V8U8 keyedSurface).2 (2 * 3 + 3 * 0 + 1)).val = 138) ∧
    ((farImage (2 * 2147483648 + 4 * 0 + 2)).val = 3 ∧ (3 + 128) % 256 = 131 ∧
      ((d3dfmt_convert_surface greyEnv farImage bufferOf0 2147483648 1 3 4
        CONVERT_TYPES.CONVERT_Q8W8V8U8 keyedSurface).2 (2 * 4 + 4 * 0)).val = 138) := by
  decide

/-- C7, counterexample: identity mode with pitch 2 and outpitch 4 on two rows.  The source
holds 7 everywhere and the destination 0; after the call the first byte of destination row 1
(at 1 * outpitch) is still 0, while the first byte of source row 1 (at 1 * pitch) is 7. -/
theorem d3dfmt_convert_surface_identity_stride_counterexample :
    (d3dfmt_convert_surface greyEnv bufferOf7 bufferOf0 2 2 2 4
        CONVERT_TYPES.NO_CONVERSION keyedSurface).2 (1 * 4 + 0) = 0 ∧
    bufferOf7 (1 * 2 + 0) = 7 ∧
    (d3dfmt_convert_surface greyEnv bufferOf7 bufferOf0 2 2 2 4
        CONVERT_TYPES.NO_CONVERSION keyedSurface).2 (1 * 4 + 0) ≠ bufferOf7 (1 * 2 + 0) := by
  decide

/-- C7, amended: in identity mode the call copies the first pitch*height bytes of the source
to the start of the destination, leaves the rest of the destination as it was and does not
use outpitch; so destination row y (at y*outpitch) equals source row y (at y*pitch) for every
row when outpitch = pitch. -/
theorem d3dfmt_convert_surface_identity (env : Env) (surf : Surface) (src dst : Mem)
    (pitch width height outpitch : Nat) (hsz : pitch * height < 4294967296) (i y k : Nat) :
    (d3dfmt_convert_surface env src dst pitch width height outpitch
        CONVERT_TYPES.NO_CONVERSION surf).1 = HRESULT.WINED3D_OK ∧
    (i < pitch * height →
      (d3dfmt_convert_surface env src dst pitch width height outpitch
        CONVERT_TYPES.NO_CONVERSION surf).2 i = src i) ∧
    (pitch * height ≤ i →
      (d3dfmt_convert_surface env src dst pitch width height outpitch
        CONVERT_TYPES.NO_CONVERSION surf).2 i = dst i) ∧
    (outpitch = pitch → y < height → k < pitch →
      (d3dfmt_convert_surface env src dst pitch width height outpitch
        CONVERT_TYPES.NO_CONVERSION surf).2 (y * outpitch + k) = src (y * pitch + k)) := by
  have hu : u32 (pitch * height) = pitch * height := Nat.mod_eq_of_lt hsz
  refine ⟨rfl, ?_, ?_, ?_⟩
  · intro h
    simp [d3dfmt_convert_surface, memcpy, hu, h]
  · intro h
    have : ¬ i < pitch * height := by omega
    simp [d3dfmt_convert_surface, memcpy, hu, this]
  · intro ho hy hk
    subst ho
    have h1 : y * outpitch + outpitch ≤ outpitch * height := by
      have : outpitch * (y + 1) ≤ outpitch * height := Nat.mul_le_mul_left outpitch (by omega)
      linarith [this, Nat.mul_succ outpitch y, Nat.mul_comm y outpitch]
    have : y * outpitch + k < outpitch * height := by omega
    simp [d3dfmt_convert_surface, memcpy, hu, this]

/-- Witness of the amended C7: two rows of pitch 2; with outpitch 2 the second row is copied,
and byte 5 beyond the copied 4 bytes keeps the destination value. -/
theorem d3dfmt_convert_surface_identity_witness :
    (2 * 2 < 4294967296 ∧ 3 < 2 * 2 ∧ 2 * 2 ≤ 5 ∧ 1 < 2) ∧
    (d3dfmt_convert_surface greyEnv bufferOf7 bufferOf0 2 2 2 2
        CONVERT_TYPES.NO_CONVERSION keyedSurface).2 3 = bufferOf7 3 ∧
    (d3dfmt_convert_surface greyEnv bufferOf7 bufferOf0 2 2 2 2
        CONVERT_TYPES.NO_CONVERSION keyedSurface).2 5 = bufferOf0 5 ∧
    (d3dfmt_convert_surface greyEnv bufferOf7 bufferOf0 2 2 2 2
        CONVERT_TYPES.NO_CONVERSION keyedSurface).2 (1 * 2 + 1) = bufferOf7 (1 * 2 + 1) :=
  ⟨by decide,
    (d3dfmt_convert_surface_identity greyEnv keyedSurface bufferOf7 bufferOf0 2 2 2 2
      (by decide) 3 1 1).2.1 (by decide),
    (d3dfmt_convert_surface_identity greyEnv keyedSurface bufferOf7 bufferOf0 2 2 2 2
      (by decide) 5 1 1).2.2.1 (by decide),
    (d3dfmt_convert_surface_identity greyEnv keyedSurface bufferOf7 bufferOf0 2 2 2 2
      (by decide) 3 1 1).2.2.2 rfl (by decide) (by decide)⟩

/-! ### What the helpers of the lock manager keep -/

theorem keeps_refl (s : Surface) : s.keeps s := ⟨rfl, rfl, rfl, id⟩

theorem keeps_trans {s t u : Surface} (h1 : s.keeps t) (h2 : t.keeps u) : s.keeps u :=
  ⟨h2.1.trans h1.1, h2.2.1.trans h1.2.1, h2.2.2.1.trans h1.2.2.1, fun h => h2.2.2.2 (h1.2.2.2 h)⟩

/-- A step that leaves the two rectangles and the size alone keeps the geometry. -/
theorem keeps_of_eq {s t : Surface} (h1 : t.lockedRect = s.lockedRect)
    (h2 : t.dirtyRect = s.dirtyRect) (h3 : t.Width = s.Width) (h4 : t.Height = s.Height) :
    s.keeps t := by
  refine ⟨h1, h3, h4, ?_⟩
  unfold Surface.dirtyWithin
  rw [h2, h3, h4]
  exact id

theorem AddDirtyRect_none_keeps (s : Surface) :
    s.keeps (IWineD3DSurfaceImpl_AddDirtyRect s none).2 := by
  refine ⟨rfl, rfl, rfl, fun _ => ?_⟩
  simp [IWineD3DSurfaceImpl_AddDirtyRect, Surface.dirtyWithin]

theorem AddDirtyRect_some_keeps (s : Surface) (r : RECT) (hr : r.within s.Width s.Height) :
    s.keeps (IWineD3DSurfaceImpl_AddDirtyRect s (some r)).2 := by
  refine ⟨rfl, rfl, rfl, fun h => ?_⟩
  unfold RECT.within at hr
  unfold Surface.dirtyWithin at h
  simp only [IWineD3DSurfaceImpl_AddDirtyRect, Surface.dirtyWithin]
  omega

theorem SetGlTextureDesc_keeps (s : Surface) (n : Nat) :
    s.keeps (IWineD3DSurfaceImpl_SetGlTextureDesc s n) := by
  unfold IWineD3DSurfaceImpl_SetGlTextureDesc
  split_ifs
  · refine ⟨rfl, rfl, rfl, fun _ => ?_⟩
    simp [IWineD3DSurfaceImpl_AddDirtyRect, Surface.dirtyWithin]
  · exact keeps_of_eq rfl rfl rfl rfl

theorem surface_allocate_surface_keeps (env : Env) (s : Surface) :
    s.keeps (surface_allocate_surface env s) := by
  unfold surface_allocate_surface
  split_ifs <;> exact keeps_of_eq rfl rfl rfl rfl

theorem surface_upload_data_keeps (env : Env) (s : Surface) :
    s.keeps (surface_upload_data env s) := by
  unfold surface_upload_data
  split_ifs <;> exact keeps_of_eq rfl rfl rfl rfl

theorem surface_download_data_keeps (env : Env) (s : Surface) :
    s.keeps (surface_download_data env s) := by
  unfold surface_download_data
  split_ifs <;> exact keeps_of_eq rfl rfl rfl rfl

theorem read_from_framebuffer_keeps (env : Env) (s : Surface) :
    s.keeps (read_from_framebuffer env s) := by
  unfold read_from_framebuffer
  split_ifs <;> exact keeps_of_eq rfl rfl rfl rfl

theorem palette9_changed_keeps (env : Env) (s : Surface) :
    s.keeps (palette9_changed env s).2 := by
  unfold palette9_changed
  split_ifs
  · exact keeps_refl s
  · cases s.palette9 with
    | none => exact keeps_of_eq rfl rfl rfl rfl
    | some p9 =>
      simp only
      split_ifs <;> exact keeps_of_eq rfl rfl rfl rfl

theorem keeps_ite {s : Surface} {c : Prop} [Decidable c] {a b : Surface}
    (ha : s.keeps a) (hb : s.keeps b) : s.keeps (if c then a else b) := by
  split_ifs <;> assumption

theorem keeps_ite_pair {α : Type} {s : Surface} {c : Prop} [Decidable c] {a b : α × Surface}
    (ha : s.keeps a.2) (hb : s.keeps b.2) : s.keeps (if c then a else b).2 := by
  split_ifs <;> assumption

theorem LoadTexture_upload_keeps (env : Env) (s : Surface) (mem : Nat) :
    s.keeps (LoadTexture_upload env s mem).2 := by
  have h1 : s.keeps (if !s.Flags.ALLOCATED then surface_allocate_surface env s else s) :=
    keeps_ite (surface_allocate_surface_keeps env s) (keeps_refl s)
  have h2 : ∀ t : Surface, t.keeps (if mem ≠ 0 then surface_upload_data env t else t) :=
    fun t => keeps_ite (surface_upload_data_keeps env t) (keeps_refl t)
  have h12 := keeps_trans h1 (h2 _)
  unfold LoadTexture_upload
  exact keeps_ite_pair (keeps_trans h12 (keeps_of_eq rfl rfl rfl rfl)) h12

theorem LoadTexture_fromDrawable_keeps (env : Env) (s : Surface) :
    s.keeps (LoadTexture_fromDrawable env s).2 := by
  have h1 : s.keeps (if !s.Flags.ALLOCATED then surface_allocate_surface env s else s) :=
    keeps_ite (surface_allocate_surface_keeps env s) (keeps_refl s)
  unfold LoadTexture_fromDrawable
  exact keeps_ite_pair (keeps_refl s)
    (keeps_ite_pair (keeps_refl s) (keeps_trans h1 (keeps_of_eq rfl rfl rfl rfl)))

theorem LoadTexture_fromSysmem_keeps (env : Env) (s : Surface) (conv : CONVERT_TYPES × Nat) :
    s.keeps (LoadTexture_fromSysmem env s conv).2 := by
  have h0 : s.keeps (if s.CKSRCBLT then
      { s with Flags := { s.Flags with GLCKEY := true }, glCKey := s.SrcBltCKey }
    else { s with Flags := { s.Flags with GLCKEY := false } }) :=
    keeps_ite (keeps_of_eq rfl rfl rfl rfl) (keeps_of_eq rfl rfl rfl rfl)
  have hup : ∀ (t u : Surface) (mem : Nat), t.lockedRect = u.lockedRect → t.dirtyRect = u.dirtyRect →
      t.Width = u.Width → t.Height = u.Height → u.keeps (LoadTexture_upload env t mem).2 :=
    fun t u mem e1 e2 e3 e4 => keeps_trans (keeps_of_eq e1 e2 e3 e4) (LoadTexture_upload_keeps env t mem)
  unfold LoadTexture_fromSysmem
  refine keeps_trans h0 ?_
  exact keeps_ite_pair
    (keeps_ite_pair (keeps_refl _) (hup _ _ _ rfl rfl rfl rfl))
    (keeps_ite_pair (hup _ _ _ rfl rfl rfl rfl) (hup _ _ _ rfl rfl rfl rfl))

theorem LoadTexture_needsReload_keeps (env : Env) (s : Surface) :
    s.keeps (LoadTexture_needsReload env s).2 := by
  unfold LoadTexture_needsReload
  exact keeps_ite_pair (keeps_refl s) (keeps_ite_pair (keeps_refl s) (palette9_changed_keeps env s))

theorem LoadTexture_keeps (env : Env) (s : Surface) :
    s.keeps (IWineD3DSurfaceImpl_LoadTexture env s).2 := by
  have h0 := LoadTexture_needsReload_keeps env s
  unfold IWineD3DSurfaceImpl_LoadTexture
  refine keeps_ite_pair h0 (keeps_trans h0 ?_)
  unfold LoadTexture_load
  refine keeps_trans (keeps_of_eq (t := { (LoadTexture_needsReload env s).2 with
    Flags := { (LoadTexture_needsReload env s).2.Flags with INTEXTURE := true } }) rfl rfl rfl rfl) ?_
  exact keeps_ite_pair (keeps_refl _)
    (keeps_ite_pair (LoadTexture_fromDrawable_keeps env _) (LoadTexture_fromSysmem_keeps env _ _))

theorem ContainerCall_run_keeps (env : Env) (s : Surface) (c : ContainerCall) :
    s.keeps (c.run env s) := by
  cases c with
  | SetGlTextureDesc n => exact SetGlTextureDesc_keeps s n
  | LoadTexture => exact LoadTexture_keeps env s

theorem containerPreLoad_keeps (env : Env) (calls : List ContainerCall) :
    ∀ s : Surface, s.keeps (calls.foldl (fun s c => c.run env s) s) := by
  induction calls with
  | nil => intro s; exact keeps_refl s
  | cons c cs ih =>
    intro s
    exact keeps_trans (ContainerCall_run_keeps env s c) (ih _)

theorem PreLoad_keeps (env : Env) (s : Surface) :
    s.keeps (IWineD3DSurfaceImpl_PreLoad env s) := by
  unfold IWineD3DSurfaceImpl_PreLoad
  refine keeps_ite (containerPreLoad_keeps env _ s) (keeps_ite ?_ (keeps_refl s))
  exact keeps_trans
    (keeps_ite (c := s.textureName = 0) (a := { s with textureName := env.glGenTextures })
      (keeps_of_eq rfl rfl rfl rfl) (keeps_refl s))
    (LoadTexture_keeps env _)

theorem flush_to_framebuffer_drawpixels_keeps (env : Env) (s : Surface) :
    s.keeps (flush_to_framebuffer_drawpixels env s) := by
  unfold flush_to_framebuffer_drawpixels
  exact keeps_ite (keeps_refl s) (keeps_of_eq rfl rfl rfl rfl)

theorem flush_to_framebuffer_texture_keeps (env : Env) (s : Surface) :
    s.keeps (flush_to_framebuffer_texture env s) := by
  unfold flush_to_framebuffer_texture
  exact keeps_trans (PreLoad_keeps env s) (keeps_of_eq rfl rfl rfl rfl)

/-! ### Theorems about the lock manager -/

theorem longToU32_eq_iff (i : Int) (n : Nat) (hi : -2147483648 ≤ i ∧ i < 2147483648)
    (hn : n < 2147483648) : longToU32 i = n ↔ i = (n : Int) := by
  unfold longToU32
  omega

theorem toLong_of_lt (n : Nat) (hn : n < 2147483648) : toLong n = (n : Int) := by
  unfold toLong u32
  have : n % 4294967296 = n := by omega
  simp [this, hn]

theorem wrapLong_of_nat (n : Nat) (hn : n < 2147483648) : wrapLong (n : Int) = (n : Int) := by
  unfold wrapLong
  have : longToU32 (n : Int) = n := by unfold longToU32; omega
  rw [this, toLong_of_lt n hn]

theorem wrapLong_of_range (i : Int) (h : -2147483648 ≤ i ∧ i < 2147483648) :
    wrapLong i = i := by
  unfold wrapLong longToU32 toLong u32
  split_ifs <;> omega

theorem longToU32_of_range (i : Int) (h : 0 ≤ i ∧ i < 4294967296) :
    ((longToU32 i : Nat) : Int) = i := by
  unfold longToU32
  omega

theorem isDXT2345_iff (f : WINED3DFORMAT) :
    f.isDXT2345 = true ↔
      (f = WINED3DFORMAT.DXT2 ∨ f = WINED3DFORMAT.DXT3 ∨ f = WINED3DFORMAT.DXT4 ∨
        f = WINED3DFORMAT.DXT5) := by
  cases f <;> simp [WINED3DFORMAT.isDXT2345]

theorem LockRect_allocate_keeps (env : Env) (s : Surface) : s.keeps (LockRect_allocate env s) := by
  unfold LockRect_allocate
  exact keeps_ite (keeps_of_eq rfl rfl rfl rfl) (keeps_of_eq rfl rfl rfl rfl)

/-- The recording step sets the locked rectangle and leaves the size and the dirty rectangle. -/
theorem LockRect_record_spec (env : Env) (s : Surface) (pRect : Option RECT) :
    (LockRect_record env s pRect).lockedRect =
      (match pRect with
        | none => { left := 0, top := 0, right := (s.Width : Int), bottom := (s.Height : Int) }
        | some r => r) ∧
    (LockRect_record env s pRect).Width = s.Width ∧
    (LockRect_record env s pRect).Height = s.Height ∧
    (LockRect_record env s pRect).dirtyRect = s.dirtyRect := by
  unfold LockRect_record
  cases pRect <;> simp only <;> split_ifs <;> exact ⟨rfl, rfl, rfl, rfl⟩

theorem LockRect_download_keeps (env : Env) (s : Surface) (Flags : LockFlags) :
    s.keeps (LockRect_download env s Flags).2 := by
  have hr := read_from_framebuffer_keeps env s
  have hp : s.keeps (if s.textureName ≠ 0 then
      surface_download_data env (IWineD3DSurfaceImpl_PreLoad env s) else s) :=
    keeps_ite (keeps_trans (PreLoad_keeps env s) (surface_download_data_keeps env _)) (keeps_refl s)
  unfold LockRect_download
  refine keeps_ite_pair (keeps_refl s) (keeps_ite_pair
    (keeps_ite_pair (keeps_refl s)
      (keeps_ite_pair (keeps_trans hr (keeps_of_eq rfl rfl rfl rfl)) hr))
    (keeps_ite_pair (keeps_refl s) (keeps_trans hp (keeps_of_eq rfl rfl rfl rfl))))

/-- The label lock_end leaves the locked rectangle and the size alone. -/
theorem LockRect_lock_end_frame (s : Surface) (Flags : LockFlags) :
    (LockRect_lock_end s Flags).lockedRect = s.lockedRect ∧
    (LockRect_lock_end s Flags).Width = s.Width ∧
    (LockRect_lock_end s Flags).Height = s.Height := by
  unfold LockRect_lock_end
  split_ifs
  · exact ⟨rfl, rfl, rfl⟩
  · exact ⟨rfl, rfl, rfl⟩

/-- The surface after LockRect: its locked rectangle is the requested one, or the whole
surface for a null request; the size is unchanged. -/
theorem LockRect_frame (env : Env) (s : Surface) (pRect : Option RECT) (Flags : LockFlags) :
    (IWineD3DSurfaceImpl_LockRect env s pRect Flags).2.2.lockedRect =
      (match pRect with
        | none => { left := 0, top := 0, right := (s.Width : Int), bottom := (s.Height : Int) }
        | some r => r) ∧
    (IWineD3DSurfaceImpl_LockRect env s pRect Flags).2.2.Width = s.Width ∧
    (IWineD3DSurfaceImpl_LockRect env s pRect Flags).2.2.Height = s.Height := by
  have ha := LockRect_allocate_keeps env s
  have hrec := LockRect_record_spec env (LockRect_allocate env s) pRect
  have hd := LockRect_download_keeps env (LockRect_record env (LockRect_allocate env s) pRect) Flags
  have he := LockRect_lock_end_frame
    (LockRect_download env (LockRect_record env (LockRect_allocate env s) pRect) Flags).2 Flags
  rw [ha.2.1, ha.2.2.1] at hrec
  unfold IWineD3DSurfaceImpl_LockRect
  simp only
  split_ifs
  · exact ⟨hd.1.trans hrec.1, hd.2.1.trans hrec.2.1, hd.2.2.1.trans hrec.2.2.1⟩
  · exact ⟨(he.1.trans hd.1).trans hrec.1, (he.2.1.trans hd.2.1).trans hrec.2.1,
      (he.2.2.trans hd.2.2.1).trans hrec.2.2.1⟩

/-- LockRect reports WINED3D_OK on every path. -/
theorem LockRect_status (env : Env) (s : Surface) (pRect : Option RECT) (Flags : LockFlags) :
    (IWineD3DSurfaceImpl_LockRect env s pRect Flags).1 = HRESULT.WINED3D_OK := by
  unfold IWineD3DSurfaceImpl_LockRect
  simp only
  split_ifs <;> rfl

/-- The WINED3DLOCKED_RECT that LockRect fills in. -/
theorem LockRect_locked (env : Env) (s : Surface) (pRect : Option RECT) (Flags : LockFlags) :
    (IWineD3DSurfaceImpl_LockRect env s pRect Flags).2.1 =
      { Pitch := IWineD3DSurfaceImpl_GetPitch env s,
        pBits := LockRect_pBits (LockRect_allocate env s) (IWineD3DSurfaceImpl_GetPitch env s) pRect } := by
  unfold IWineD3DSurfaceImpl_LockRect
  simp only
  split_ifs <;> rfl

/-- C1 (behaviour of the code): LockRect has no test of SFLAG_LOCKED.  It reports WINED3D_OK
for every surface and every argument; on the 4x4 surface locked on (0, 0, 2, 2) a second
LockRect on (1, 1, 3, 3) reports WINED3D_OK and replaces the recorded region of the first
lock by (1, 1, 3, 3). -/
theorem LockRect_relock_succeeds :
    (∀ (env : Env) (This : Surface) (pRect : Option RECT) (Flags : LockFlags),
      (IWineD3DSurfaceImpl_LockRect env This pRect Flags).1 = HRESULT.WINED3D_OK) ∧
    (IWineD3DSurfaceImpl_LockRect plainEnv plainSurface (some ⟨0, 0, 2, 2⟩) {}).2.2.Flags.LOCKED = true ∧
    (IWineD3DSurfaceImpl_LockRect plainEnv plainSurface (some ⟨0, 0, 2, 2⟩) {}).2.2.lockedRect =
      ⟨0, 0, 2, 2⟩ ∧
    (IWineD3DSurfaceImpl_LockRect plainEnv
      (IWineD3DSurfaceImpl_LockRect plainEnv plainSurface (some ⟨0, 0, 2, 2⟩) {}).2.2
      (some ⟨1, 1, 3, 3⟩) {}).1 = HRESULT.WINED3D_OK ∧
    (IWineD3DSurfaceImpl_LockRect plainEnv
      (IWineD3DSurfaceImpl_LockRect plainEnv plainSurface (some ⟨0, 0, 2, 2⟩) {}).2.2
      (some ⟨1, 1, 3, 3⟩) {}).2.2.lockedRect = ⟨1, 1, 3, 3⟩ := by
  refine ⟨LockRect_status, ?_, ?_, ?_, ?_⟩
  · decide
  · exact (LockRect_frame _ _ _ _).1
  · exact LockRect_status _ _ _ _
  · exact (LockRect_frame _ _ _ _).1

/-- C2: on a surface whose locked flag is clear UnlockRect returns WINED3DERR_INVALIDCALL and
changes nothing of the surface (so Flags, lockedRect and dirtyRect keep their values); on a
surface whose locked flag is set it returns WINED3D_OK, with SFLAG_LOCKED cleared and
lockedRect zeroed. -/
theorem UnlockRect_contract (env : Env) (This : Surface) :
    (This.Flags.LOCKED = false →
      IWineD3DSurfaceImpl_UnlockRect env This = (HRESULT.WINED3DERR_INVALIDCALL, This)) ∧
    (This.Flags.LOCKED = true →
      (IWineD3DSurfaceImpl_UnlockRect env This).1 = HRESULT.WINED3D_OK ∧
      (IWineD3DSurfaceImpl_UnlockRect env This).2.Flags.LOCKED = false ∧
      (IWineD3DSurfaceImpl_UnlockRect env This).2.lockedRect = ⟨0, 0, 0, 0⟩) := by
  constructor
  · intro h
    simp [IWineD3DSurfaceImpl_UnlockRect, h]
  · intro h
    unfold IWineD3DSurfaceImpl_UnlockRect
    simp only [h, Bool.not_true, Bool.false_eq_true, if_false]
    split_ifs <;> exact ⟨rfl, rfl, rfl⟩

/-- Witness of C2: the unlocked 4x4 surface, and the same surface after a LockRect. -/
theorem UnlockRect_contract_witness :
    (plainSurface.Flags.LOCKED = false ∧
      (IWineD3DSurfaceImpl_LockRect plainEnv plainSurface none {}).2.2.Flags.LOCKED = true) ∧
    IWineD3DSurfaceImpl_UnlockRect plainEnv plainSurface =
      (HRESULT.WINED3DERR_INVALIDCALL, plainSurface) ∧
    (IWineD3DSurfaceImpl_UnlockRect plainEnv
      (IWineD3DSurfaceImpl_LockRect plainEnv plainSurface none {}).2.2).1 = HRESULT.WINED3D_OK ∧
    (IWineD3DSurfaceImpl_UnlockRect plainEnv
      (IWineD3DSurfaceImpl_LockRect plainEnv plainSurface none {}).2.2).2.Flags.LOCKED = false ∧
    (IWineD3DSurfaceImpl_UnlockRect plainEnv
      (IWineD3DSurfaceImpl_LockRect plainEnv plainSurface none {}).2.2).2.lockedRect = ⟨0, 0, 0, 0⟩ :=
  ⟨⟨by decide, by decide⟩,
    (UnlockRect_contract plainEnv plainSurface).1 (by decide),
    (UnlockRect_contract plainEnv
      (IWineD3DSurfaceImpl_LockRect plainEnv plainSurface none {}).2.2).2 (by decide)⟩

/-- C3, for the rectangles it holds for: for a LockRect call with a rectangle r whose left
and top are not negative and for which the two products of the offset of its format,
Pitch*top and left*2 (DXT1), left*4 (DXT2 to DXT5) or left*bytesPerPixel (other formats), are
below 2^31, the Pitch returned is GetPitch and pBits is the host buffer (allocated by the call when
the surface had none) plus the byte offset Pitch*top/4 + left*2 for DXT1, Pitch*top/4 + left*4
for DXT2, DXT3, DXT4 and DXT5, and Pitch*top + left*bytesPerPixel for every other format; with
a null rectangle pBits is the host buffer itself and the recorded locked rectangle is
(0, 0, Width, Height). -/
theorem LockRect_pBits_offset (env : Env) (This : Surface) (Flags : LockFlags) (r : RECT)
    (hpos : 0 ≤ r.left ∧ 0 ≤ r.top)
    (htop : (IWineD3DSurfaceImpl_GetPitch env This : Int) * r.top < 2147483648)
    (hleft : r.left * (if This.format = WINED3DFORMAT.DXT1 then 2
      else if This.format = WINED3DFORMAT.DXT2 ∨ This.format = WINED3DFORMAT.DXT3 ∨
          This.format = WINED3DFORMAT.DXT4 ∨ This.format = WINED3DFORMAT.DXT5 then 4
      else (This.bytesPerPixel : Int)) < 2147483648) :
    (IWineD3DSurfaceImpl_LockRect env This (some r) Flags).2.1.Pitch =
      IWineD3DSurfaceImpl_GetPitch env This ∧
    (IWineD3DSurfaceImpl_LockRect env This (some r) Flags).2.1.pBits =
      ((if This.allocatedMemory = 0 then env.HeapAlloc (u32 (This.size + 4))
        else This.allocatedMemory : Nat) : Int) +
      (if This.format = WINED3DFORMAT.DXT1 then
        (IWineD3DSurfaceImpl_GetPitch env This : Int) * r.top / 4 + r.left * 2
      else if This.format = WINED3DFORMAT.DXT2 ∨ This.format = WINED3DFORMAT.DXT3 ∨
          This.format = WINED3DFORMAT.DXT4 ∨ This.format = WINED3DFORMAT.DXT5 then
        (IWineD3DSurfaceImpl_GetPitch env This : Int) * r.top / 4 + r.left * 4
      else
        (IWineD3DSurfaceImpl_GetPitch env This : Int) * r.top + r.left * (This.bytesPerPixel : Int)) ∧
    (IWineD3DSurfaceImpl_LockRect env This none Flags).2.1.pBits =
      ((if This.allocatedMemory = 0 then env.HeapAlloc (u32 (This.size + 4))
        else This.allocatedMemory : Nat) : Int) ∧
    (IWineD3DSurfaceImpl_LockRect env This none Flags).2.2.lockedRect =
      ⟨0, 0, (This.Width : Int), (This.Height : Int)⟩ := by
  have hmem : (LockRect_allocate env This).allocatedMemory =
      (if This.allocatedMemory = 0 then env.HeapAlloc (u32 (This.size + 4))
        else This.allocatedMemory) := by
    unfold LockRect_allocate
    simp only
    split_ifs <;> rfl
  have hfmt : (LockRect_allocate env This).format = This.format := by
    unfold LockRect_allocate
    simp only
    split_ifs <;> rfl
  have hbpp : (LockRect_allocate env This).bytesPerPixel = This.bytesPerPixel := by
    unfold LockRect_allocate
    simp only
    split_ifs <;> rfl
  have hP0 : (0 : Int) ≤ (IWineD3DSurfaceImpl_GetPitch env This : Int) := Int.ofNat_nonneg _
  have hprod0 : (0 : Int) ≤ (IWineD3DSurfaceImpl_GetPitch env This : Int) * r.top :=
    mul_nonneg hP0 hpos.2
  have hprod : wrapLong (toLong (IWineD3DSurfaceImpl_GetPitch env This) * r.top) =
      (IWineD3DSurfaceImpl_GetPitch env This : Int) * r.top := by
    by_cases ht : r.top = 0
    · rw [ht, mul_zero, mul_zero]
      decide
    · have h1 : (1 : Int) ≤ r.top := by omega
      have h2 : (IWineD3DSurfaceImpl_GetPitch env This : Int) * 1 ≤
          (IWineD3DSurfaceImpl_GetPitch env This : Int) * r.top :=
        mul_le_mul_of_nonneg_left h1 hP0
      have h3 : IWineD3DSurfaceImpl_GetPitch env This < 2147483648 := by omega
      rw [toLong_of_lt _ h3]
      exact wrapLong_of_range _ ⟨by omega, htop⟩
  have hdiv : Int.tdiv ((IWineD3DSurfaceImpl_GetPitch env This : Int) * r.top) 4 =
      (IWineD3DSurfaceImpl_GetPitch env This : Int) * r.top / 4 :=
    Int.tdiv_eq_ediv hprod0 (by decide)
  refine ⟨?_, ?_, ?_, (LockRect_frame env This none Flags).1⟩
  · rw [LockRect_locked]
  · rw [LockRect_locked]
    simp only [LockRect_pBits, hmem, hfmt, hbpp, hprod, hdiv, isDXT2345_iff]
    split_ifs at hleft ⊢ <;>
      first
        | (rw [wrapLong_of_range (r.left * 2) ⟨by omega, hleft⟩]
           ring)
        | (rw [wrapLong_of_range (r.left * 4) ⟨by omega, hleft⟩]
           ring)
        | (rw [longToU32_of_range (r.left * (This.bytesPerPixel : Int))
            ⟨mul_nonneg hpos.1 (Int.ofNat_nonneg _), by omega⟩]
           ring)
  · rw [LockRect_locked]
    simp only [LockRect_pBits, hmem]

/-- Witness of C3: the 16x16 DXT1 surface locked at left = 4, top = 4 has pitch 32 and pBits
at the host buffer 4096 plus 32*4/4 + 4*2 = 40; the 16x16 DXT3 surface locked at the same
place has pitch 64 and pBits at 4096 plus 64*4/4 + 4*4 = 80; the 4x4 A8R8G8B8 surface locked
at left = 1, top = 2 has pitch 16 and pBits at 4096 plus 16*2 + 1*4 = 36. -/
theorem LockRect_pBits_offset_witness :
    ((IWineD3DSurfaceImpl_LockRect plainEnv dxt1Surface (some ⟨4, 4, 8, 8⟩) {}).2.1.Pitch = 32 ∧
      (IWineD3DSurfaceImpl_LockRect plainEnv dxt1Surface (some ⟨4, 4, 8, 8⟩) {}).2.1.pBits =
        4096 + (32 * 4 / 4 + 4 * 2)) ∧
    ((IWineD3DSurfaceImpl_LockRect plainEnv dxt3Surface (some ⟨4, 4, 8, 8⟩) {}).2.1.Pitch = 64 ∧
      (IWineD3DSurfaceImpl_LockRect plainEnv dxt3Surface (some ⟨4, 4, 8, 8⟩) {}).2.1.pBits =
        4096 + (64 * 4 / 4 + 4 * 4)) ∧
    ((IWineD3DSurfaceImpl_LockRect plainEnv plainSurface (some ⟨1, 2, 2, 3⟩) {}).2.1.Pitch = 16 ∧
      (IWineD3DSurfaceImpl_LockRect plainEnv plainSurface (some ⟨1, 2, 2, 3⟩) {}).2.1.pBits =
        4096 + (16 * 2 + 1 * 4)) := by
  have h1 := LockRect_pBits_offset plainEnv dxt1Surface {} ⟨4, 4, 8, 8⟩ (by decide) (by decide)
    (by decide)
  have h3 := LockRect_pBits_offset plainEnv dxt3Surface {} ⟨4, 4, 8, 8⟩ (by decide) (by decide)
    (by decide)
  have h0 := LockRect_pBits_offset plainEnv plainSurface {} ⟨1, 2, 2, 3⟩ (by decide) (by decide)
    (by decide)
  exact ⟨⟨h1.1.trans (by decide), h1.2.1.trans (by decide)⟩,
    ⟨h3.1.trans (by decide), h3.2.1.trans (by decide)⟩,
    ⟨h0.1.trans (by decide), h0.2.1.trans (by decide)⟩⟩

/-- C3, counterexample: the 4x4 A8R8G8B8 surface has pitch 16; locked on a rectangle with
left = 0 and top = 268435456 the 32-bit product 16 * 268435456 wraps to 0 and pBits is the
host buffer 4096 itself, not 4096 + 16 * 268435456. -/
theorem LockRect_pBits_offset_counterexample :
    (IWineD3DSurfaceImpl_LockRect plainEnv plainSurface
      (some ⟨0, 268435456, 1, 268435457⟩) {}).2.1.Pitch = 16 ∧
    (IWineD3DSurfaceImpl_LockRect plainEnv plainSurface
      (some ⟨0, 268435456, 1, 268435457⟩) {}).2.1.pBits = 4096 ∧
    (4096 : Int) ≠ 4096 + (16 * 268435456 + 0 * 4) := by
  refine ⟨by decide, by decide, by decide⟩

/-! ### Theorems about the dirty rectangle -/

/-- C9: AddDirtyRect clears SFLAG_INTEXTURE and SFLAG_INDRAWABLE and leaves every other flag
and every other field but the dirty rectangle unchanged.  For a rectangle r the new dirty
rectangle is the bounding union of the old one and r (left and top the minimum, right and
bottom the maximum), so it contains both; for a null argument it is (0, 0, Width, Height). -/
theorem AddDirtyRect_contract (This : Surface) (r : RECT) :
    (IWineD3DSurfaceImpl_AddDirtyRect This (some r)).1 = HRESULT.WINED3D_OK ∧
    (IWineD3DSurfaceImpl_AddDirtyRect This none).1 = HRESULT.WINED3D_OK ∧
    (IWineD3DSurfaceImpl_AddDirtyRect This (some r)).2 =
      { This with
        Flags := { This.Flags with INTEXTURE := false, INDRAWABLE := false }
        dirtyRect := ⟨min This.dirtyRect.left r.left, min This.dirtyRect.top r.top,
          max This.dirtyRect.right r.right, max This.dirtyRect.bottom r.bottom⟩ } ∧
    (IWineD3DSurfaceImpl_AddDirtyRect This none).2 =
      { This with
        Flags := { This.Flags with INTEXTURE := false, INDRAWABLE := false }
        dirtyRect := ⟨0, 0, (This.Width : Int), (This.Height : Int)⟩ } ∧
    ((IWineD3DSurfaceImpl_AddDirtyRect This (some r)).2.dirtyRect.left ≤ This.dirtyRect.left ∧
      (IWineD3DSurfaceImpl_AddDirtyRect This (some r)).2.dirtyRect.left ≤ r.left ∧
      (IWineD3DSurfaceImpl_AddDirtyRect This (some r)).2.dirtyRect.top ≤ This.dirtyRect.top ∧
      (IWineD3DSurfaceImpl_AddDirtyRect This (some r)).2.dirtyRect.top ≤ r.top ∧
      This.dirtyRect.right ≤ (IWineD3DSurfaceImpl_AddDirtyRect This (some r)).2.dirtyRect.right ∧
      r.right ≤ (IWineD3DSurfaceImpl_AddDirtyRect This (some r)).2.dirtyRect.right ∧
      This.dirtyRect.bottom ≤ (IWineD3DSurfaceImpl_AddDirtyRect This (some r)).2.dirtyRect.bottom ∧
      r.bottom ≤ (IWineD3DSurfaceImpl_AddDirtyRect This (some r)).2.dirtyRect.bottom) := by
  refine ⟨rfl, rfl, rfl, rfl, ?_⟩
  simp only [IWineD3DSurfaceImpl_AddDirtyRect]
  omega

/-- The surface keeps its size and a dirty rectangle within it over one call whose rectangle
argument lies inside the surface. -/
theorem SurfaceCall_run_dirtyWithin (s : Surface) (c : SurfaceCall)
    (hc : c.rectWithin s.Width s.Height) :
    (c.run s).Width = s.Width ∧ (c.run s).Height = s.Height ∧
    (s.dirtyWithin → (c.run s).dirtyWithin) := by
  cases c with
  | LockRect env pRect Flags =>
    have hf := LockRect_frame env s pRect Flags
    refine ⟨hf.2.1, hf.2.2, fun hs => ?_⟩
    have ha := LockRect_allocate_keeps env s
    have hrec := LockRect_record_spec env (LockRect_allocate env s) pRect
    have hd := LockRect_download_keeps env (LockRect_record env (LockRect_allocate env s) pRect) Flags
    rw [ha.2.1, ha.2.2.1] at hrec
    have hrecW : (LockRect_record env (LockRect_allocate env s) pRect).dirtyWithin := by
      have h1 := ha.2.2.2 hs
      unfold Surface.dirtyWithin at h1 ⊢
      rw [hrec.2.1, hrec.2.2.1, hrec.2.2.2, ← ha.2.1, ← ha.2.2.1]
      exact h1
    have hdW := hd.2.2.2 hrecW
    have hlr : ((LockRect_download env (LockRect_record env (LockRect_allocate env s) pRect)
        Flags).2.lockedRect).within
        (LockRect_download env (LockRect_record env (LockRect_allocate env s) pRect) Flags).2.Width
        (LockRect_download env (LockRect_record env (LockRect_allocate env s) pRect) Flags).2.Height := by
      rw [hd.1, hd.2.1, hd.2.2.1, hrec.1, hrec.2.1, hrec.2.2.1]
      cases pRect with
      | none =>
        simp only [RECT.within]
        omega
      | some r => exact hc
    show (IWineD3DSurfaceImpl_LockRect env s pRect Flags).2.2.dirtyWithin
    unfold IWineD3DSurfaceImpl_LockRect
    simp only
    split_ifs
    · exact hdW
    · unfold LockRect_lock_end
      split_ifs
      · exact hdW
      · exact (AddDirtyRect_some_keeps _ _ hlr).2.2.2 hdW
  | UnlockRect env =>
    have h1 := flush_to_framebuffer_drawpixels_keeps env s
    have h2 := flush_to_framebuffer_texture_keeps env s
    show (IWineD3DSurfaceImpl_UnlockRect env s).2.Width = s.Width ∧
      (IWineD3DSurfaceImpl_UnlockRect env s).2.Height = s.Height ∧
      (s.dirtyWithin → (IWineD3DSurfaceImpl_UnlockRect env s).2.dirtyWithin)
    unfold IWineD3DSurfaceImpl_UnlockRect UnlockRect_unlock_end
    split_ifs
    · exact ⟨rfl, rfl, id⟩
    · exact ⟨rfl, rfl, id⟩
    · exact ⟨rfl, rfl, id⟩
    · cases hm : env.rendertargetlock_mode <;> simp only <;>
        refine ⟨?_, ?_, fun _ => ?_⟩ <;>
        first
        | exact h1.2.1
        | exact h1.2.2.1
        | exact h2.2.1
        | exact h2.2.2.1
        | rfl
        | (simp only [Surface.dirtyWithin]; omega)
        | simp only [Surface.dirtyWithin]
    · exact ⟨rfl, rfl, id⟩
    · exact ⟨rfl, rfl, id⟩
  | AddDirtyRect pDirtyRect =>
    cases pDirtyRect with
    | none =>
      have h := AddDirtyRect_none_keeps s
      exact ⟨h.2.1, h.2.2.1, h.2.2.2⟩
    | some r =>
      have h := AddDirtyRect_some_keeps s r hc
      exact ⟨h.2.1, h.2.2.1, h.2.2.2⟩

/-- Over a sequence of calls whose rectangle arguments lie inside the surface, the size is
unchanged and a dirty rectangle within the surface stays within it. -/
theorem runCalls_dirtyWithin (calls : List SurfaceCall) :
    ∀ s : Surface, (∀ c ∈ calls, c.rectWithin s.Width s.Height) → s.dirtyWithin →
      (runCalls s calls).Width = s.Width ∧ (runCalls s calls).Height = s.Height ∧
      (runCalls s calls).dirtyWithin := by
  induction calls with
  | nil => intro s _ hs; exact ⟨rfl, rfl, hs⟩
  | cons c cs ih =>
    intro s hc hs
    have h1 := SurfaceCall_run_dirtyWithin s c (hc c (List.mem_cons_self c cs))
    have h2 := ih (c.run s) (fun d hd => by
      rw [h1.1, h1.2.1]
      exact hc d (List.mem_cons_of_mem c hd)) (h1.2.2 hs)
    exact ⟨h2.1.trans h1.1, h2.2.1.trans h1.2.1, h2.2.2⟩

/-- C10, counterexample: the 4x4 surface starts with the empty dirty rectangle (4, 4, 0, 0);
after the single call AddDirtyRect((0, 0, 9, 9)) its dirty rectangle is (0, 0, 9, 9), which is
not empty and reaches beyond the width and the height of the surface. -/
theorem dirtyRect_within_counterexample :
    plainSurface.dirtyRect = emptyDirtyRect plainSurface.Width plainSurface.Height ∧
    (runCalls plainSurface [SurfaceCall.AddDirtyRect (some ⟨0, 0, 9, 9⟩)]).dirtyRect = ⟨0, 0, 9, 9⟩ ∧
    ¬ (runCalls plainSurface [SurfaceCall.AddDirtyRect (some ⟨0, 0, 9, 9⟩)]).dirtyRect.isEmpty ∧
    ¬ ((runCalls plainSurface [SurfaceCall.AddDirtyRect (some ⟨0, 0, 9, 9⟩)]).dirtyRect.right ≤
        ((runCalls plainSurface [SurfaceCall.AddDirtyRect (some ⟨0, 0, 9, 9⟩)]).Width : Int)) ∧
    ¬ ((runCalls plainSurface [SurfaceCall.AddDirtyRect (some ⟨0, 0, 9, 9⟩)]).dirtyRect.bottom ≤
        ((runCalls plainSurface [SurfaceCall.AddDirtyRect (some ⟨0, 0, 9, 9⟩)]).Height : Int)) := by
  decide

/-- C10, amended: starting from the empty dirty rectangle (Width, Height, 0, 0), after every
sequence of LockRect, UnlockRect and AddDirtyRect calls whose rectangle arguments have their
coordinates within the surface (left and right in [0, Width], top and bottom in [0, Height]),
the dirty
rectangle is either empty or satisfies 0 <= left < right <= Width and
0 <= top < bottom <= Height; the width and the height are those of the start. -/
theorem dirtyRect_within (s0 : Surface) (calls : List SurfaceCall)
    (h0 : s0.dirtyRect = emptyDirtyRect s0.Width s0.Height)
    (hc : ∀ c ∈ calls, c.rectWithin s0.Width s0.Height) :
    (runCalls s0 calls).Width = s0.Width ∧ (runCalls s0 calls).Height = s0.Height ∧
    ((runCalls s0 calls).dirtyRect.isEmpty ∨
      (0 ≤ (runCalls s0 calls).dirtyRect.left ∧
        (runCalls s0 calls).dirtyRect.left < (runCalls s0 calls).dirtyRect.right ∧
        (runCalls s0 calls).dirtyRect.right ≤ ((runCalls s0 calls).Width : Int) ∧
        0 ≤ (runCalls s0 calls).dirtyRect.top ∧
        (runCalls s0 calls).dirtyRect.top < (runCalls s0 calls).dirtyRect.bottom ∧
        (runCalls s0 calls).dirtyRect.bottom ≤ ((runCalls s0 calls).Height : Int))) := by
  have hs : s0.dirtyWithin := by
    unfold Surface.dirtyWithin
    rw [h0]
    simp only [emptyDirtyRect]
    omega
  have h := runCalls_dirtyWithin calls s0 hc hs
  refine ⟨h.1, h.2.1, ?_⟩
  have hw := h.2.2
  unfold Surface.dirtyWithin at hw
  unfold RECT.isEmpty
  omega

/-- Witness of the amended C10: a lock of the pixel (1, 1), an unlock and a further dirty
rectangle (0, 0, 3, 3) on the 4x4 surface. -/
theorem dirtyRect_within_witness :
    (plainSurface.dirtyRect = emptyDirtyRect plainSurface.Width plainSurface.Height ∧
      (⟨1, 1, 2, 2⟩ : RECT).within plainSurface.Width plainSurface.Height ∧
      (⟨0, 0, 3, 3⟩ : RECT).within plainSurface.Width plainSurface.Height) ∧
    (runCalls plainSurface
      [SurfaceCall.LockRect plainEnv (some ⟨1, 1, 2, 2⟩) {}, SurfaceCall.UnlockRect plainEnv,
        SurfaceCall.AddDirtyRect (some ⟨0, 0, 3, 3⟩)]).dirtyRect = ⟨0, 0, 3, 3⟩ ∧
    (runCalls plainSurface
      [SurfaceCall.LockRect plainEnv (some ⟨1, 1, 2, 2⟩) {}, SurfaceCall.UnlockRect plainEnv,
        SurfaceCall.AddDirtyRect (some ⟨0, 0, 3, 3⟩)]).dirtyRect.right ≤
      ((runCalls plainSurface
        [SurfaceCall.LockRect plainEnv (some ⟨1, 1, 2, 2⟩) {}, SurfaceCall.UnlockRect plainEnv,
          SurfaceCall.AddDirtyRect (some ⟨0, 0, 3, 3⟩)]).Width : Int) := by
  have h := dirtyRect_within plainSurface
    [SurfaceCall.LockRect plainEnv (some ⟨1, 1, 2, 2⟩) {}, SurfaceCall.UnlockRect plainEnv,
      SurfaceCall.AddDirtyRect (some ⟨0, 0, 3, 3⟩)] (by decide)
    (by
      intro c hc
      simp only [List.mem_cons, List.mem_singleton, List.not_mem_nil, or_false] at hc
      rcases hc with rfl | rfl | rfl
      · show (⟨1, 1, 2, 2⟩ : RECT).within 4 4
        decide
      · trivial
      · show (⟨0, 0, 3, 3⟩ : RECT).within 4 4
        decide)
  refine ⟨by decide, by decide, ?_⟩
  rcases h.2.2 with he | hw
  · exact absurd he (by decide)
  · exact hw.2.2.1

/-! ### Theorems about format and size -/

/-- The mask of the alignment: for a power of two, clearing the low bits of a 32-bit value
rounds it down to a multiple. -/
theorem land_alignMask (y k : Nat) (hk : k ≤ 32) (hy : y < 2 ^ 32) :
    y &&& (2 ^ 32 - 2 ^ k) = (y / 2 ^ k) * 2 ^ k := by
  apply Nat.eq_of_testBit_eq
  intro i
  have hpos : 0 < 2 ^ k := Nat.two_pow_pos k
  have hle : 2 ^ k ≤ 2 ^ 32 := Nat.pow_le_pow_right (by norm_num) hk
  have h1 : 2 ^ 32 - 2 ^ k = 2 ^ 32 - ((2 ^ k - 1) + 1) := by omega
  have h2 : 2 ^ k - 1 < 2 ^ 32 := by omega
  rw [Nat.testBit_land, h1, Nat.testBit_two_pow_sub_succ h2, Nat.testBit_two_pow_sub_one,
    ← Nat.shiftRight_eq_div_pow, ← Nat.shiftLeft_eq, Nat.testBit_shiftLeft, Nat.testBit_shiftRight]
  by_cases hik : k ≤ i
  · have e : k + (i - k) = i := by omega
    rw [e]
    by_cases hi : i < 32
    · have : ¬ i < k := by omega
      simp [hik, hi, this]
    · have hf : y.testBit i = false :=
        Nat.testBit_lt_two_pow (lt_of_lt_of_le hy (Nat.pow_le_pow_right (by norm_num) (by omega)))
      simp [hf]
  · have : i < k := by omega
    simp [hik, this]

/-- The rounding of GetPitch and SetFormat: with a power-of-two alignment and no 32-bit
overflow it is the usual round-up to a multiple. -/
theorem alignUp_eq (env : Env) (k x : Nat) (hA : env.SURFACE_ALIGNMENT = 2 ^ k) (hk : k < 32)
    (hx : x + 2 ^ k ≤ 4294967296) :
    alignUp env x = ((x + 2 ^ k - 1) / 2 ^ k) * 2 ^ k := by
  have hpos : 0 < 2 ^ k := Nat.two_pow_pos k
  have hlt : 2 ^ k < 2 ^ 32 := Nat.pow_lt_pow_right (by norm_num) hk
  have h32 : (2 : Nat) ^ 32 = 4294967296 := by norm_num
  unfold alignUp u32
  rw [hA]
  have e1 : (x + 2 ^ k + 4294967295) % 4294967296 = x + 2 ^ k - 1 := by omega
  have e2 : 4294967295 - (2 ^ k + 4294967295) % 4294967296 = 2 ^ 32 - 2 ^ k := by omega
  rw [e1, e2]
  exact land_alignMask _ k (by omega) (by omega)

/-- Rounding up to a multiple of a positive number: the result is a multiple, is not below
the argument, and no smaller multiple is. -/
theorem roundup_spec (a x : Nat) (ha : 0 < a) :
    a ∣ (x + a - 1) / a * a ∧ x ≤ (x + a - 1) / a * a ∧
      ∀ m, a ∣ m → x ≤ m → (x + a - 1) / a * a ≤ m := by
  have hdm := Nat.div_add_mod (x + a - 1) a
  have hml := Nat.mod_lt (x + a - 1) ha
  have hc : (x + a - 1) / a * a = a * ((x + a - 1) / a) := Nat.mul_comm _ _
  refine ⟨Dvd.intro_left _ rfl, by omega, ?_⟩
  rintro m ⟨j, rfl⟩ hxm
  rw [hc]
  apply Nat.mul_le_mul_left
  by_contra hcon
  have hj : j + 1 ≤ (x + a - 1) / a := by omega
  have := Nat.mul_le_mul_left a hj
  rw [Nat.mul_add, Nat.mul_one] at this
  omega

/-- C14: for a format other than UNKNOWN and DXT1..DXT5 with b bytes per pixel, Width at most
pow2Width, SURFACE_ALIGNMENT a power of two and no 32-bit overflow, SetFormat succeeds and
sets size to roundup(pow2Width*b) * pow2Height; GetPitch of the formatted surface is
roundup(Width*b), the smallest multiple of SURFACE_ALIGNMENT that is at least Width*b; and
the size is at least GetPitch * pow2Height. -/
theorem SetFormat_size_holds_pitch (env : Env) (This : Surface) (format : WINED3DFORMAT) (k : Nat)
    (hA : env.SURFACE_ALIGNMENT = 2 ^ k) (hk : k < 32)
    (hu : This.format = WINED3DFORMAT.UNKNOWN) (hf : format ≠ WINED3DFORMAT.UNKNOWN)
    (hd : format.isDXT = false) (hw : This.Width ≤ This.pow2Width)
    (ho1 : This.pow2Width * (env.getFormatDescEntry format).bpp + 2 ^ k ≤ 4294967296)
    (ho2 : (This.pow2Width * (env.getFormatDescEntry format).bpp + 2 ^ k - 1) / 2 ^ k * 2 ^ k
      * This.pow2Height < 4294967296) :
    (IWineD3DSurfaceImpl_SetFormat env This format).1 = HRESULT.WINED3D_OK ∧
    (IWineD3DSurfaceImpl_SetFormat env This format).2.size =
      (This.pow2Width * (env.getFormatDescEntry format).bpp + 2 ^ k - 1) / 2 ^ k * 2 ^ k
        * This.pow2Height ∧
    IWineD3DSurfaceImpl_GetPitch env (IWineD3DSurfaceImpl_SetFormat env This format).2 =
      (This.Width * (env.getFormatDescEntry format).bpp + 2 ^ k - 1) / 2 ^ k * 2 ^ k ∧
    2 ^ k ∣ IWineD3DSurfaceImpl_GetPitch env (IWineD3DSurfaceImpl_SetFormat env This format).2 ∧
    This.Width * (env.getFormatDescEntry format).bpp ≤
      IWineD3DSurfaceImpl_GetPitch env (IWineD3DSurfaceImpl_SetFormat env This format).2 ∧
    (∀ m, 2 ^ k ∣ m → This.Width * (env.getFormatDescEntry format).bpp ≤ m →
      IWineD3DSurfaceImpl_GetPitch env (IWineD3DSurfaceImpl_SetFormat env This format).2 ≤ m) ∧
    IWineD3DSurfaceImpl_GetPitch env (IWineD3DSurfaceImpl_SetFormat env This format).2
        * (IWineD3DSurfaceImpl_SetFormat env This format).2.pow2Height ≤
      (IWineD3DSurfaceImpl_SetFormat env This format).2.size := by
  have hpos : 0 < 2 ^ k := Nat.two_pow_pos k
  have hd1 : format ≠ WINED3DFORMAT.DXT1 := by
    intro h; rw [h] at hd; simp [WINED3DFORMAT.isDXT] at hd
  have hd2 : format.isDXT2345 = false := by
    cases hq : format.isDXT2345
    · rfl
    · simp [WINED3DFORMAT.isDXT, hq] at hd
  have hwb : This.Width * (env.getFormatDescEntry format).bpp ≤
      This.pow2Width * (env.getFormatDescEntry format).bpp := Nat.mul_le_mul_right _ hw
  have hsize : (IWineD3DSurfaceImpl_SetFormat env This format).2.size =
      (This.pow2Width * (env.getFormatDescEntry format).bpp + 2 ^ k - 1) / 2 ^ k * 2 ^ k
        * This.pow2Height := by
    simp only [IWineD3DSurfaceImpl_SetFormat, hu, ne_eq, not_true_eq_false, if_false, hf, hd1, hd2,
      Bool.false_eq_true]
    have e1 : u32 (This.pow2Width * (env.getFormatDescEntry format).bpp) =
        This.pow2Width * (env.getFormatDescEntry format).bpp := by
      unfold u32; omega
    rw [e1, alignUp_eq env k _ hA hk ho1]
    unfold u32; omega
  have hpitch : IWineD3DSurfaceImpl_GetPitch env (IWineD3DSurfaceImpl_SetFormat env This format).2 =
      (This.Width * (env.getFormatDescEntry format).bpp + 2 ^ k - 1) / 2 ^ k * 2 ^ k := by
    simp only [IWineD3DSurfaceImpl_GetPitch, IWineD3DSurfaceImpl_SetFormat, hu, ne_eq,
      not_true_eq_false, if_false, hf, hd1, hd2, Bool.false_eq_true, not_false_eq_true, if_true]
    have e1 : u32 ((env.getFormatDescEntry format).bpp * This.Width) =
        This.Width * (env.getFormatDescEntry format).bpp := by
      unfold u32; rw [Nat.mul_comm]; omega
    rw [e1, alignUp_eq env k _ hA hk (by omega)]
  have hp2 : (IWineD3DSurfaceImpl_SetFormat env This format).2.pow2Height = This.pow2Height := by
    simp [IWineD3DSurfaceImpl_SetFormat, hu]
  have hr := roundup_spec (2 ^ k) (This.Width * (env.getFormatDescEntry format).bpp) hpos
  refine ⟨by simp [IWineD3DSurfaceImpl_SetFormat, hu], hsize, hpitch, ?_, ?_, ?_, ?_⟩
  · rw [hpitch]; exact hr.1
  · rw [hpitch]; exact hr.2.1
  · rw [hpitch]; exact hr.2.2
  · rw [hpitch, hsize, hp2]
    apply Nat.mul_le_mul_right
    apply Nat.mul_le_mul_right
    apply Nat.div_le_div_right
    omega

/-- C14, witness: a 5-texel-wide surface in an 8 by 8 allocation, three bytes per pixel,
alignment 4. -/
theorem SetFormat_size_holds_pitch_witness :
    (IWineD3DSurfaceImpl_SetFormat rgb24Env unformattedSurface WINED3DFORMAT.R8G8B8).2.size = 192 ∧
    IWineD3DSurfaceImpl_GetPitch rgb24Env
      (IWineD3DSurfaceImpl_SetFormat rgb24Env unformattedSurface WINED3DFORMAT.R8G8B8).2 = 16 ∧
    IWineD3DSurfaceImpl_GetPitch rgb24Env
        (IWineD3DSurfaceImpl_SetFormat rgb24Env unformattedSurface WINED3DFORMAT.R8G8B8).2
        * (IWineD3DSurfaceImpl_SetFormat rgb24Env unformattedSurface WINED3DFORMAT.R8G8B8).2.pow2Height ≤
      (IWineD3DSurfaceImpl_SetFormat rgb24Env unformattedSurface WINED3DFORMAT.R8G8B8).2.size := by
  have h := SetFormat_size_holds_pitch rgb24Env unformattedSurface WINED3DFORMAT.R8G8B8 2
    (by decide) (by decide) (by decide) (by decide) (by decide) (by decide) (by decide) (by decide)
  exact ⟨h.2.1, h.2.2.1, h.2.2.2.2.2.2⟩

/-- C17: SetFormat on a surface whose format is not UNKNOWN returns WINED3DERR_INVALIDCALL and
leaves the whole surface (format, size, bytesPerPixel, gl description, flags) unchanged; and
after one successful SetFormat to a format other than UNKNOWN, any sequence of later SetFormat
calls leaves the surface as that first call made it, and a further call fails. -/
theorem SetFormat_once (env env2 : Env) (This : Surface) (format format2 : WINED3DFORMAT)
    (later : List (Env × WINED3DFORMAT)) :
    (This.format ≠ WINED3DFORMAT.UNKNOWN →
      IWineD3DSurfaceImpl_SetFormat env This format = (HRESULT.WINED3DERR_INVALIDCALL, This)) ∧
    (This.format = WINED3DFORMAT.UNKNOWN → format ≠ WINED3DFORMAT.UNKNOWN →
      (IWineD3DSurfaceImpl_SetFormat env This format).1 = HRESULT.WINED3D_OK ∧
      (IWineD3DSurfaceImpl_SetFormat env This format).2.format = format ∧
      setFormats (IWineD3DSurfaceImpl_SetFormat env This format).2 later =
        (IWineD3DSurfaceImpl_SetFormat env This format).2 ∧
      IWineD3DSurfaceImpl_SetFormat env2
          (setFormats (IWineD3DSurfaceImpl_SetFormat env This format).2 later) format2 =
        (HRESULT.WINED3DERR_INVALIDCALL, (IWineD3DSurfaceImpl_SetFormat env This format).2)) := by
  have hfail : ∀ (e : Env) (s : Surface) (f : WINED3DFORMAT), s.format ≠ WINED3DFORMAT.UNKNOWN →
      IWineD3DSurfaceImpl_SetFormat e s f = (HRESULT.WINED3DERR_INVALIDCALL, s) := by
    intro e s f h
    simp [IWineD3DSurfaceImpl_SetFormat, h]
  have hseq : ∀ (cs : List (Env × WINED3DFORMAT)) (s : Surface),
      s.format ≠ WINED3DFORMAT.UNKNOWN → setFormats s cs = s := by
    intro cs
    induction cs with
    | nil => intro s _; rfl
    | cons c cs ih =>
      intro s h
      simp only [setFormats, hfail c.1 s c.2 h]
      exact ih s h
  refine ⟨hfail env This format, fun hu hf => ?_⟩
  have hfmt : (IWineD3DSurfaceImpl_SetFormat env This format).2.format = format := by
    simp [IWineD3DSurfaceImpl_SetFormat, hu]
  have hne : (IWineD3DSurfaceImpl_SetFormat env This format).2.format ≠ WINED3DFORMAT.UNKNOWN := by
    rw [hfmt]; exact hf
  refine ⟨by simp [IWineD3DSurfaceImpl_SetFormat, hu], hfmt, hseq later _ hne, ?_⟩
  rw [hseq later _ hne]
  exact hfail env2 _ format2 hne

/-- C17, witness: a formatted surface refuses a new format, and an unformatted one accepts
R8G8B8 once and refuses every format afterwards. -/
theorem SetFormat_once_witness :
    IWineD3DSurfaceImpl_SetFormat rgb24Env plainSurface WINED3DFORMAT.R5G6B5 =
      (HRESULT.WINED3DERR_INVALIDCALL, plainSurface) ∧
    (IWineD3DSurfaceImpl_SetFormat plainEnv
      (setFormats (IWineD3DSurfaceImpl_SetFormat rgb24Env unformattedSurface WINED3DFORMAT.R8G8B8).2
        [(plainEnv, WINED3DFORMAT.R5G6B5), (rgb24Env, WINED3DFORMAT.UNKNOWN)])
      WINED3DFORMAT.A8R8G8B8).1 = HRESULT.WINED3DERR_INVALIDCALL :=
  ⟨(SetFormat_once rgb24Env plainEnv plainSurface WINED3DFORMAT.R5G6B5 WINED3DFORMAT.UNKNOWN []).1
      (by decide),
    congrArg Prod.fst
      ((SetFormat_once rgb24Env plainEnv unformattedSurface WINED3DFORMAT.R8G8B8
        WINED3DFORMAT.A8R8G8B8
        [(plainEnv, WINED3DFORMAT.R5G6B5), (rgb24Env, WINED3DFORMAT.UNKNOWN)]).2
        rfl (by decide)).2.2.2⟩

/-! ### What a texture load keeps -/

theorem loaded_refl (env : Env) (s : Surface) : s.loaded env s :=
  ⟨rfl, rfl, rfl, fun h => ⟨h, rfl⟩, fun _ => ⟨rfl, rfl, fun h => h, fun _ _ => ⟨rfl, rfl⟩⟩⟩

theorem loaded_trans {env : Env} {s t u : Surface} (h1 : s.loaded env t) (h2 : t.loaded env u) :
    s.loaded env u := by
  obtain ⟨a0, a1, a2, a3, a4⟩ := h1
  obtain ⟨b0, b1, b2, b3, b4⟩ := h2
  refine ⟨b0.trans a0, b1.trans a1, b2.trans a2, fun h => ?_, fun hA => ?_⟩
  · obtain ⟨h3, h4⟩ := b3 h
    obtain ⟨h5, h6⟩ := a3 h3
    exact ⟨h5, h4.trans h6⟩
  · obtain ⟨c1, c2, c3, c4⟩ := a4 hA
    obtain ⟨d1, d2, d3, d4⟩ := b4 hA
    refine ⟨d1.trans c1, d2.trans c2, fun h => d3 (c3 h), fun hl hm => ?_⟩
    obtain ⟨e1, e2⟩ := c4 hl hm
    obtain ⟨f1, f2⟩ := d4 (c1.trans hl) hm
    exact ⟨f1.trans e1, f2.trans e2⟩

theorem loaded_ite {env : Env} {s : Surface} {c : Prop} [Decidable c] {a b : Surface}
    (ha : s.loaded env a) (hb : s.loaded env b) : s.loaded env (if c then a else b) := by
  split_ifs <;> assumption

theorem loaded_ite_pair {α : Type} {env : Env} {s : Surface} {c : Prop} [Decidable c]
    {a b : α × Surface} (ha : s.loaded env a.2) (hb : s.loaded env b.2) :
    s.loaded env (if c then a else b).2 := by
  split_ifs <;> assumption

theorem surface_allocate_surface_loaded (env : Env) (s : Surface) :
    s.loaded env (surface_allocate_surface env s) := by
  unfold surface_allocate_surface
  by_cases hA : env.gl_info.APPLE_CLIENT_STORAGE = true
  · split_ifs <;> first
      | exact loaded_refl env s
      | exact ⟨rfl, rfl, rfl, fun h => by simp [SFlags.andCLIENT] at h, fun h => by simp [hA] at h⟩
  · split_ifs <;> exact loaded_refl env s

theorem surface_upload_data_loaded (env : Env) (s : Surface) :
    s.loaded env (surface_upload_data env s) := by
  unfold surface_upload_data
  split_ifs <;> exact loaded_refl env s

/-- The release of the host buffer at the end of the upload. -/
theorem release_loaded (env : Env) (t : Surface) :
    t.loaded env
      (if !t.Flags.anyOf env.SFLAG_DONOTFREE then
        (HRESULT.WINED3D_OK,
          { t with allocatedMemory := 0, Flags := { t.Flags with INSYSMEM := false } })
      else (HRESULT.WINED3D_OK, t)).2 := by
  split_ifs with hfree
  · refine ⟨rfl, rfl, rfl, fun h => by simp at h,
      fun _ => ⟨rfl, rfl, fun h => h, fun hl hm => ?_⟩⟩
    exfalso
    simp [SFlags.anyOf, hl, hm] at hfree
  · exact loaded_refl env t

theorem LoadTexture_upload_loaded (env : Env) (s : Surface) (mem : Nat) :
    s.loaded env (LoadTexture_upload env s mem).2 := by
  have h1 : s.loaded env (if !s.Flags.ALLOCATED then surface_allocate_surface env s else s) :=
    loaded_ite (surface_allocate_surface_loaded env s) (loaded_refl env s)
  have h2 : ∀ t : Surface, t.loaded env (if mem ≠ 0 then surface_upload_data env t else t) :=
    fun t => loaded_ite (surface_upload_data_loaded env t) (loaded_refl env t)
  have h12 := loaded_trans h1 (h2 _)
  unfold LoadTexture_upload
  exact loaded_trans h12 (release_loaded env _)

theorem LoadTexture_fromDrawable_loaded (env : Env) (s : Surface) :
    s.loaded env (LoadTexture_fromDrawable env s).2 := by
  have h1 : s.loaded env (if !s.Flags.ALLOCATED then surface_allocate_surface env s else s) :=
    loaded_ite (surface_allocate_surface_loaded env s) (loaded_refl env s)
  unfold LoadTexture_fromDrawable
  exact loaded_ite_pair (loaded_refl env s) (loaded_ite_pair (loaded_refl env s) h1)

theorem LoadTexture_fromSysmem_loaded (env : Env) (s : Surface) (conv : CONVERT_TYPES × Nat) :
    s.loaded env (LoadTexture_fromSysmem env s conv).2 := by
  have h0 : s.loaded env (if s.CKSRCBLT then
      { s with Flags := { s.Flags with GLCKEY := true }, glCKey := s.SrcBltCKey }
      else { s with Flags := { s.Flags with GLCKEY := false } }) :=
    loaded_ite (loaded_refl env s) (loaded_refl env s)
  have hup : ∀ (t u : Surface) (mem : Nat), t.loaded env u →
      t.loaded env (LoadTexture_upload env u mem).2 :=
    fun t u mem h => loaded_trans h (LoadTexture_upload_loaded env u mem)
  unfold LoadTexture_fromSysmem
  refine loaded_trans h0 ?_
  exact loaded_ite_pair
    (loaded_ite_pair (loaded_refl env _) (hup _ _ _ (loaded_refl env _)))
    (loaded_ite_pair (hup _ _ _ (loaded_refl env _)) (hup _ _ _ (loaded_refl env _)))

theorem palette9_changed_loaded (env : Env) (s : Surface) :
    s.loaded env (palette9_changed env s).2 := by
  unfold palette9_changed
  split_ifs
  · exact loaded_refl env s
  · cases s.palette9 with
    | none => exact loaded_refl env s
    | some p9 => simp only; split_ifs <;> exact loaded_refl env s

theorem LoadTexture_needsReload_loaded (env : Env) (s : Surface) :
    s.loaded env (LoadTexture_needsReload env s).2 := by
  unfold LoadTexture_needsReload
  exact loaded_ite_pair (loaded_refl env s)
    (loaded_ite_pair (loaded_refl env s) (palette9_changed_loaded env s))

theorem LoadTexture_loaded (env : Env) (s : Surface) :
    s.loaded env (IWineD3DSurfaceImpl_LoadTexture env s).2 := by
  have h0 := LoadTexture_needsReload_loaded env s
  have hset : ∀ t : Surface,
      t.loaded env { t with Flags := { t.Flags with INTEXTURE := true } } :=
    fun t => ⟨rfl, rfl, rfl, fun h => ⟨h, rfl⟩,
      fun _ => ⟨rfl, rfl, fun _ => rfl, fun _ _ => ⟨rfl, rfl⟩⟩⟩
  unfold IWineD3DSurfaceImpl_LoadTexture
  refine loaded_ite_pair h0 (loaded_trans h0 ?_)
  unfold LoadTexture_load
  exact loaded_ite_pair (hset _)
    (loaded_ite_pair
      (loaded_trans (hset _) (LoadTexture_fromDrawable_loaded env _))
      (loaded_trans (hset _) (LoadTexture_fromSysmem_loaded env _ _)))

/-! ### What an upload shows -/

theorem uploaded_refl (s : Surface) : s.uploaded s := Or.inr ⟨rfl, rfl, rfl, rfl, rfl⟩

theorem uploaded_le {s t : Surface} (h : s.uploaded t) : s.gl.length ≤ t.gl.length := by
  rcases h with h | h
  · omega
  · omega

theorem uploaded_trans {s t u : Surface} (h1 : s.uploaded t) (h2 : t.uploaded u) :
    s.uploaded u := by
  have l1 := uploaded_le h1
  have l2 := uploaded_le h2
  rcases h1 with h1 | ⟨a1, a2, a3, a4, a5⟩
  · exact Or.inl (by omega)
  · rcases h2 with h2 | ⟨b1, b2, b3, b4, b5⟩
    · exact Or.inl (by omega)
    · exact Or.inr ⟨b1.trans a1, b2.trans a2, b3.trans a3, b4.trans a4, b5.trans a5⟩

theorem uploaded_ite {s : Surface} {c : Prop} [Decidable c] {a b : Surface}
    (ha : s.uploaded a) (hb : s.uploaded b) : s.uploaded (if c then a else b) := by
  split_ifs <;> assumption

theorem uploaded_ite_pair {α : Type} {s : Surface} {c : Prop} [Decidable c]
    {a b : α × Surface} (ha : s.uploaded a.2) (hb : s.uploaded b.2) :
    s.uploaded (if c then a else b).2 := by
  split_ifs <;> assumption

theorem surface_allocate_surface_grows (env : Env) (s : Surface) (h : s.format.isDXT = false) :
    s.gl.length < (surface_allocate_surface env s).gl.length := by
  unfold surface_allocate_surface
  simp only [h, Bool.false_eq_true, if_false]
  split_ifs <;> simp

theorem surface_allocate_surface_uploaded (env : Env) (s : Surface) :
    s.uploaded (surface_allocate_surface env s) := by
  cases h : s.format.isDXT
  · exact Or.inl (surface_allocate_surface_grows env s h)
  · unfold surface_allocate_surface
    simp only [h, if_true]
    exact uploaded_refl s

theorem surface_upload_data_uploaded (env : Env) (s : Surface) :
    s.uploaded (surface_upload_data env s) := by
  unfold surface_upload_data
  split_ifs <;> first
    | exact uploaded_refl s
    | exact Or.inl (by simp)

theorem LoadTexture_upload_uploaded (env : Env) (s : Surface) (mem : Nat) :
    s.uploaded (LoadTexture_upload env s mem).2 := by
  have h1 : s.uploaded (if !s.Flags.ALLOCATED then surface_allocate_surface env s else s) :=
    uploaded_ite (surface_allocate_surface_uploaded env s) (uploaded_refl s)
  have h2 : ∀ t : Surface, t.uploaded (if mem ≠ 0 then surface_upload_data env t else t) :=
    fun t => uploaded_ite (surface_upload_data_uploaded env t) (uploaded_refl t)
  have h12 := uploaded_trans h1 (h2 _)
  unfold LoadTexture_upload
  exact uploaded_ite_pair (uploaded_trans h12 (Or.inr ⟨rfl, rfl, rfl, rfl, rfl⟩)) h12

theorem LoadTexture_fromDrawable_unsupported (env : Env) (s : Surface)
    (h : drawableCopyUnsupported s) :
    LoadTexture_fromDrawable env s = (HRESULT.WINED3D_OK, s) := by
  unfold LoadTexture_fromDrawable
  by_cases hl : s.level ≠ 0
  · simp [hl]
  · rcases h with h | h | h | h
    · exact absurd h hl
    · simp [h]
    · simp [h]
    · simp [h]

theorem LoadTexture_fromDrawable_supported (env : Env) (s : Surface)
    (h : ¬ drawableCopyUnsupported s) :
    s.gl.length < (LoadTexture_fromDrawable env s).2.gl.length := by
  simp only [drawableCopyUnsupported, not_or, ne_eq, not_not, Bool.not_eq_true] at h
  obtain ⟨h1, h2, h3, h4⟩ := h
  have hle : s.gl.length ≤
      (if !s.Flags.ALLOCATED then surface_allocate_surface env s else s).gl.length :=
    uploaded_le (uploaded_ite (surface_allocate_surface_uploaded env s) (uploaded_refl s))
  unfold LoadTexture_fromDrawable
  simp only [h1, ne_eq, not_true_eq_false, if_false, h2, h3, h4, Bool.false_eq_true, or_self,
    List.length_append, List.length_singleton]
  omega

/-- The load from the host buffer, seen from the surface with the colour key recorded. -/
theorem LoadTexture_fromSysmem_step (env : Env) (s : Surface) (conv : CONVERT_TYPES × Nat) :
    (if s.CKSRCBLT then
        { s with Flags := { s.Flags with GLCKEY := true }, glCKey := s.SrcBltCKey }
      else { s with Flags := { s.Flags with GLCKEY := false } }).uploaded
      (LoadTexture_fromSysmem env s conv).2 := by
  have hup : ∀ (t u : Surface) (mem : Nat), t.uploaded u →
      t.uploaded (LoadTexture_upload env u mem).2 :=
    fun t u mem h => uploaded_trans h (LoadTexture_upload_uploaded env u mem)
  unfold LoadTexture_fromSysmem
  exact uploaded_ite_pair
    (uploaded_ite_pair (uploaded_refl _) (hup _ _ _ (Or.inr ⟨rfl, rfl, rfl, rfl, rfl⟩)))
    (uploaded_ite_pair (hup _ _ _ (Or.inl (by simp)))
      (hup _ _ _ (Or.inr ⟨rfl, rfl, rfl, rfl, rfl⟩)))

/-- The load from the host buffer: the trace grows, or the texture flag and the palette
snapshot are kept and the colour key of the surface is recorded as the uploaded one. -/
theorem LoadTexture_fromSysmem_uploaded (env : Env) (s : Surface) (conv : CONVERT_TYPES × Nat) :
    s.gl.length < (LoadTexture_fromSysmem env s conv).2.gl.length ∨
    ((LoadTexture_fromSysmem env s conv).2.Flags.INTEXTURE = s.Flags.INTEXTURE ∧
      (LoadTexture_fromSysmem env s conv).2.Flags.GLCKEY = s.CKSRCBLT ∧
      (s.CKSRCBLT = true → (LoadTexture_fromSysmem env s conv).2.glCKey = s.SrcBltCKey) ∧
      (LoadTexture_fromSysmem env s conv).2.palette9 = s.palette9) := by
  have h := LoadTexture_fromSysmem_step env s conv
  cases hck : s.CKSRCBLT
  · simp only [hck, Bool.false_eq_true, if_false] at h
    rcases h with h | ⟨_, h2, h3, _, h5⟩
    · exact Or.inl h
    · exact Or.inr ⟨h2, h3, fun hf => by simp at hf, h5⟩
  · simp only [hck, if_true] at h
    rcases h with h | ⟨_, h2, h3, h4, h5⟩
    · exact Or.inl h
    · exact Or.inr ⟨h2, h3, fun _ => h4, h5⟩

/-! ### Theorems about the texture load -/

theorem colorKeyReload_iff (s : Surface) :
    ((s.Flags.GLCKEY && !s.CKSRCBLT) || (!s.Flags.GLCKEY && s.CKSRCBLT) ||
      (s.CKSRCBLT &&
        (s.glCKey.dwColorSpaceLowValue != s.SrcBltCKey.dwColorSpaceLowValue ||
         s.glCKey.dwColorSpaceHighValue != s.SrcBltCKey.dwColorSpaceHighValue))) = true ↔
    colorKeyReload s := by
  unfold colorKeyReload
  cases s.Flags.GLCKEY <;> cases s.CKSRCBLT <;> simp

theorem palette9_changed_eq (env : Env) (s : Surface) :
    palette9_changed env s =
      if paletteReload env s then (true, { s with palette9 := some env.devicePalette })
      else (false, s) := by
  unfold palette9_changed paletteReload
  by_cases h1 : s.palette.isSome = true ∨
      (s.format ≠ WINED3DFORMAT.P8 ∧ s.format ≠ WINED3DFORMAT.A8P8)
  · have h2 : ¬ ((s.format = WINED3DFORMAT.P8 ∨ s.format = WINED3DFORMAT.A8P8) ∧
        s.palette.isSome = false ∧ s.palette9 ≠ some env.devicePalette) := by
      rintro ⟨a, b, _⟩
      rcases h1 with h1 | ⟨h1, h1b⟩
      · rw [b] at h1; exact Bool.false_ne_true h1
      · rcases a with a | a
        · exact h1 a
        · exact h1b a
    rw [if_pos h1, if_neg h2]
  · have h3 : (s.format = WINED3DFORMAT.P8 ∨ s.format = WINED3DFORMAT.A8P8) ∧
        s.palette.isSome = false := by
      simp only [not_or, not_and, Bool.not_eq_true, ne_eq, not_not] at h1
      refine ⟨?_, h1.1⟩
      by_cases hp : s.format = WINED3DFORMAT.P8
      · exact Or.inl hp
      · exact Or.inr (h1.2 hp)
    rw [if_neg h1]
    by_cases hp : s.palette9 = some env.devicePalette
    · rw [if_neg (fun h => h.2.2 hp), hp]
      simp
    · rw [if_pos ⟨h3.1, h3.2, hp⟩]
      split
      · next p9 hq =>
        have he : ¬ p9 = env.devicePalette := fun he => hp (by rw [hq, he])
        rw [if_neg he]
      · rfl

theorem LoadTexture_needsReload_eq (env : Env) (s : Surface) :
    LoadTexture_needsReload env s =
      if s.Flags.INTEXTURE = false ∨ colorKeyReload s then (true, s)
      else if paletteReload env s then (true, { s with palette9 := some env.devicePalette })
      else (false, s) := by
  unfold LoadTexture_needsReload
  rw [palette9_changed_eq]
  by_cases hT : s.Flags.INTEXTURE = true
  · by_cases hck : colorKeyReload s
    · simp [hT, hck, (colorKeyReload_iff s).2 hck]
    · have hb := mt (colorKeyReload_iff s).1 hck
      simp only [hT, Bool.not_true, Bool.false_eq_true, if_false, hb, Bool.true_eq_false,
        hck, or_self]
  · simp [hT]

theorem set_INTEXTURE_eq (s : Surface) (h : s.Flags.INTEXTURE = true) :
    { s with Flags := { s.Flags with INTEXTURE := true } } = s := by
  cases s with
  | mk F _ _ _ _ _ _ _ _ _ _ _ _ _ _ _ _ _ _ _ _ _ _ _ _ _ _ _ _ _ =>
    cases F
    simp only at h
    simp [h]

/-- The load once a reload is decided: it returns the surface with the texture flag set and
nothing else done exactly on the unsupported copy from the drawable; otherwise it fails, or
issues GL transfers, or records the colour key of the surface as the uploaded one. -/
theorem LoadTexture_load_result (env : Env) (t : Surface) :
    (t.pool ≠ WINED3DPOOL.SCRATCH ∧ t.Flags.INDRAWABLE = true ∧ drawableCopyUnsupported t ∧
      LoadTexture_load env t =
        (HRESULT.WINED3D_OK, { t with Flags := { t.Flags with INTEXTURE := true } })) ∨
    (¬ (t.pool ≠ WINED3DPOOL.SCRATCH ∧ t.Flags.INDRAWABLE = true ∧ drawableCopyUnsupported t) ∧
      ((LoadTexture_load env t).1 ≠ HRESULT.WINED3D_OK ∨
        t.gl.length < (LoadTexture_load env t).2.gl.length ∨
        ((LoadTexture_load env t).2.Flags.INTEXTURE = true ∧
          (LoadTexture_load env t).2.Flags.GLCKEY = t.CKSRCBLT ∧
          (t.CKSRCBLT = true → (LoadTexture_load env t).2.glCKey = t.SrcBltCKey) ∧
          (LoadTexture_load env t).2.palette9 = t.palette9))) := by
  by_cases hp : t.pool = WINED3DPOOL.SCRATCH
  · refine Or.inr ⟨fun h => h.1 hp, Or.inl ?_⟩
    simp [LoadTexture_load, hp]
  · by_cases hd : t.Flags.INDRAWABLE = true
    · have e : LoadTexture_load env t =
          LoadTexture_fromDrawable env { t with Flags := { t.Flags with INTEXTURE := true } } := by
        simp [LoadTexture_load, hp, hd]
      by_cases hu : drawableCopyUnsupported t
      · refine Or.inl ⟨hp, hd, hu, ?_⟩
        rw [e]
        exact LoadTexture_fromDrawable_unsupported env _ hu
      · refine Or.inr ⟨fun h => hu h.2.2, Or.inr (Or.inl ?_)⟩
        rw [e]
        exact LoadTexture_fromDrawable_supported env
          { t with Flags := { t.Flags with INTEXTURE := true } } hu
    · have e : LoadTexture_load env t =
          LoadTexture_fromSysmem env { t with Flags := { t.Flags with INTEXTURE := true } }
            (d3dfmt_get_conv env { t with Flags := { t.Flags with INTEXTURE := true } }
              true true) := by
        simp [LoadTexture_load, hp, hd]
      refine Or.inr ⟨fun h => hd h.2.1, Or.inr ?_⟩
      rw [e]
      rcases LoadTexture_fromSysmem_uploaded env
        { t with Flags := { t.Flags with INTEXTURE := true } }
        (d3dfmt_get_conv env { t with Flags := { t.Flags with INTEXTURE := true } } true true)
        with h | ⟨h1, h2, h3, h4⟩
      · exact Or.inl h
      · exact Or.inr ⟨h1, h2, h3, h4⟩

/-- C16, as the code has it: LoadTexture returns WINED3D_OK with the surface and its trace of
GL transfers unchanged if and only if either SFLAG_INTEXTURE is set and no reload condition
holds (colour key or palette), or SFLAG_INTEXTURE and SFLAG_INDRAWABLE are both set, a
colour-key reload condition holds, the pool is not SCRATCH and the copy from the drawable is
not supported for the surface (mip level other than 0, or format P8, A8P8, DXT1..DXT5). -/
theorem LoadTexture_noop_iff (env : Env) (s : Surface) :
    IWineD3DSurfaceImpl_LoadTexture env s = (HRESULT.WINED3D_OK, s) ↔
      (s.Flags.INTEXTURE = true ∧ ¬ colorKeyReload s ∧ ¬ paletteReload env s) ∨
      (s.Flags.INTEXTURE = true ∧ colorKeyReload s ∧ s.pool ≠ WINED3DPOOL.SCRATCH ∧
        s.Flags.INDRAWABLE = true ∧ drawableCopyUnsupported s) := by
  have hne : ∀ (r : HRESULT × Surface) (t : Surface),
      (r.1 ≠ HRESULT.WINED3D_OK ∨ r.2 ≠ t) → r ≠ (HRESULT.WINED3D_OK, t) := by
    rintro r t h rfl
    rcases h with h | h
    · exact h rfl
    · exact h rfl
  unfold IWineD3DSurfaceImpl_LoadTexture
  rw [LoadTexture_needsReload_eq]
  by_cases hT : s.Flags.INTEXTURE = true
  · by_cases hck : colorKeyReload s
    · -- a colour-key reload of a surface that is in the texture
      simp only [hT, hck, or_true, if_true, Bool.not_true, Bool.false_eq_true, if_false,
        not_true_eq_false, false_and, and_false, false_or, true_and]
      rcases LoadTexture_load_result env s with ⟨h1, h2, h3, h4⟩ | ⟨h1, h2⟩
      · rw [h4, set_INTEXTURE_eq s hT]
        exact ⟨fun _ => ⟨h1, h2, h3⟩, fun _ => rfl⟩
      · refine ⟨fun h => ?_, fun h => absurd h h1⟩
        exfalso
        rcases h2 with h2 | h2 | ⟨_, h3, h4, _⟩
        · rw [h] at h2; exact h2 rfl
        · rw [h] at h2; exact Nat.lt_irrefl _ h2
        · rw [h] at h3 h4
          rcases hck with hck | ⟨hc1, hc2⟩
          · exact hck h3
          · have := h4 hc1
            rcases hc2 with hc2 | hc2
            · exact hc2 (by rw [this])
            · exact hc2 (by rw [this])
    · by_cases hpal : paletteReload env s
      · -- a palette reload
        simp only [hT, hck, or_false, Bool.true_eq_false, if_false, hpal, if_true,
          Bool.not_true, Bool.false_eq_true, not_true_eq_false, and_false, false_and, or_self,
          iff_false]
        apply hne
        rcases LoadTexture_load_result env { s with palette9 := some env.devicePalette }
          with ⟨_, _, _, h4⟩ | ⟨_, h2⟩
        · right
          rw [h4]
          intro h
          exact hpal.2.2 (by rw [← h])
        · rcases h2 with h2 | h2 | ⟨_, _, _, h5⟩
          · exact Or.inl h2
          · right
            intro h
            rw [h] at h2
            exact Nat.lt_irrefl _ h2
          · right
            intro h
            rw [h] at h5
            exact hpal.2.2 h5
      · simp [hT, hck, hpal]
  · -- the surface is not in the texture: the load sets the flag or fails
    have hF : s.Flags.INTEXTURE = false := by simpa using hT
    simp only [hF, true_or, if_true, Bool.not_true, Bool.false_eq_true, if_false, false_and,
      or_self, iff_false]
    apply hne
    rcases LoadTexture_load_result env s with ⟨_, _, _, h4⟩ | ⟨_, h2⟩
    · right
      rw [h4]
      intro h
      have : s.Flags.INTEXTURE = true := by rw [← h]
      exact hT this
    · rcases h2 with h2 | h2 | ⟨h3, _⟩
      · exact Or.inl h2
      · right
        intro h
        rw [h] at h2
        exact Nat.lt_irrefl _ h2
      · right
        intro h
        rw [h] at h3
        exact hT h3

/-- C16, counterexample: on a mip level 1 that is in the texture and in the drawable, with a
colour key switched on since the upload, LoadTexture returns WINED3D_OK and changes nothing
although a reload condition holds; so the equivalence of the claim fails from left to right. -/
theorem LoadTexture_noop_counterexample :
    ¬ (IWineD3DSurfaceImpl_LoadTexture plainEnv mipSurface = (HRESULT.WINED3D_OK, mipSurface) ↔
        (mipSurface.Flags.INTEXTURE = true ∧ ¬ colorKeyReload mipSurface ∧
          ¬ paletteReload plainEnv mipSurface)) := by
  intro h
  have h1 : IWineD3DSurfaceImpl_LoadTexture plainEnv mipSurface =
      (HRESULT.WINED3D_OK, mipSurface) := rfl
  exact (h.1 h1).2.1 (by decide)

/-! ### What PreLoad keeps -/

theorem preloaded_refl (env : Env) (s : Surface) : s.preloaded env s :=
  ⟨rfl, fun h => ⟨h, rfl⟩, fun _ => ⟨rfl, fun _ _ => ⟨rfl, rfl⟩⟩⟩

theorem preloaded_trans {env : Env} {s t u : Surface} (h1 : s.preloaded env t)
    (h2 : t.preloaded env u) : s.preloaded env u := by
  obtain ⟨a0, a3, a4⟩ := h1
  obtain ⟨b0, b3, b4⟩ := h2
  refine ⟨b0.trans a0, fun h => ?_, fun hA => ?_⟩
  · obtain ⟨h3, h4⟩ := b3 h
    obtain ⟨h5, h6⟩ := a3 h3
    exact ⟨h5, h4.trans h6⟩
  · obtain ⟨c1, c4⟩ := a4 hA
    obtain ⟨d1, d4⟩ := b4 hA
    refine ⟨d1.trans c1, fun hl hm => ?_⟩
    obtain ⟨e1, e2⟩ := c4 hl hm
    obtain ⟨f1, f2⟩ := d4 (c1.trans hl) hm
    exact ⟨f1.trans e1, f2.trans e2⟩

theorem preloaded_of_loaded {env : Env} {s t : Surface} (h : s.loaded env t) :
    s.preloaded env t :=
  ⟨h.1, h.2.2.2.1, fun hA => ⟨(h.2.2.2.2 hA).1, (h.2.2.2.2 hA).2.2.2⟩⟩

theorem SetGlTextureDesc_preloaded (env : Env) (s : Surface) (n : Nat) :
    s.preloaded env (IWineD3DSurfaceImpl_SetGlTextureDesc s n) := by
  unfold IWineD3DSurfaceImpl_SetGlTextureDesc IWineD3DSurfaceImpl_AddDirtyRect
  split_ifs <;> exact preloaded_refl env s

theorem ContainerCall_run_preloaded (env : Env) (s : Surface) (c : ContainerCall) :
    s.preloaded env (c.run env s) := by
  cases c with
  | SetGlTextureDesc n => exact SetGlTextureDesc_preloaded env s n
  | LoadTexture => exact preloaded_of_loaded (LoadTexture_loaded env s)

theorem containerPreLoad_preloaded (env : Env) (calls : List ContainerCall) :
    ∀ s : Surface, s.preloaded env (calls.foldl (fun s c => c.run env s) s) := by
  induction calls with
  | nil => intro s; exact preloaded_refl env s
  | cons c cs ih =>
    intro s
    exact preloaded_trans (ContainerCall_run_preloaded env s c) (ih _)

theorem PreLoad_preloaded (env : Env) (s : Surface) :
    s.preloaded env (IWineD3DSurfaceImpl_PreLoad env s) := by
  unfold IWineD3DSurfaceImpl_PreLoad
  split_ifs
  · exact containerPreLoad_preloaded env _ s
  · exact preloaded_trans
      (show s.preloaded env { s with textureName := env.glGenTextures } from preloaded_refl env s)
      (preloaded_of_loaded (LoadTexture_loaded env { s with textureName := env.glGenTextures }))
  · exact preloaded_of_loaded (LoadTexture_loaded env s)
  · exact preloaded_refl env s

/-- A call of the container that does not name the texture 0 leaves the dirty rectangle of a
surface with a texture name alone, and the surface keeps a texture name. -/
theorem ContainerCall_run_named (env : Env) (s : Surface) (c : ContainerCall)
    (hc : c ≠ ContainerCall.SetGlTextureDesc 0) (hs : s.textureName ≠ 0) :
    (c.run env s).dirtyRect = s.dirtyRect ∧ (c.run env s).textureName ≠ 0 := by
  cases c with
  | SetGlTextureDesc n =>
    have hn : n ≠ 0 := fun h => hc (by rw [h])
    simp [ContainerCall.run, IWineD3DSurfaceImpl_SetGlTextureDesc, hs, hn]
  | LoadTexture =>
    have h := LoadTexture_loaded env s
    exact ⟨h.2.1, by rw [ContainerCall.run, h.2.2.1]; exact hs⟩

theorem containerPreLoad_named (env : Env) (calls : List ContainerCall)
    (hc : ∀ c ∈ calls, c ≠ ContainerCall.SetGlTextureDesc 0) :
    ∀ s : Surface, s.textureName ≠ 0 →
      (calls.foldl (fun s c => c.run env s) s).dirtyRect = s.dirtyRect := by
  induction calls with
  | nil => intro s _; rfl
  | cons c cs ih =>
    intro s hs
    have h1 := ContainerCall_run_named env s c (hc c (List.mem_cons_self c cs)) hs
    have h2 := ih (fun d hd => hc d (List.mem_cons_of_mem c hd)) (c.run env s) h1.2
    exact h2.trans h1.1

/-- PreLoad leaves the dirty rectangle of a surface with a texture name alone. -/
theorem PreLoad_dirtyRect (env : Env) (s : Surface) (hc : env.containerKeepsName)
    (hs : s.textureName ≠ 0) :
    (IWineD3DSurfaceImpl_PreLoad env s).dirtyRect = s.dirtyRect := by
  unfold IWineD3DSurfaceImpl_PreLoad
  split_ifs
  · exact containerPreLoad_named env _ hc s hs
  · exact (LoadTexture_loaded env s).2.1
  · rfl

/-! ### The stages of LockRect and UnlockRect, flag by flag -/

theorem surface_download_data_gl (env : Env) (s : Surface) :
    ∃ g, surface_download_data env s = { s with gl := g } := by
  unfold surface_download_data
  split_ifs <;> exact ⟨_, rfl⟩

theorem read_from_framebuffer_gl (env : Env) (s : Surface) :
    ∃ g, read_from_framebuffer env s = { s with gl := g } := by
  unfold read_from_framebuffer
  split_ifs <;> exact ⟨_, rfl⟩

theorem flush_to_framebuffer_drawpixels_gl (env : Env) (s : Surface) :
    ∃ g, flush_to_framebuffer_drawpixels env s = { s with gl := g } := by
  unfold flush_to_framebuffer_drawpixels
  split_ifs <;> exact ⟨_, rfl⟩

/-- The head of LockRect: the surface is marked locked and has a host buffer when the heap
gives one; a surface that had a buffer keeps it and its host-copy flag. -/
theorem LockRect_allocate_spec (env : Env) (s : Surface) :
    (LockRect_allocate env s).container = s.container ∧
    (LockRect_allocate env s).dirtyRect = s.dirtyRect ∧
    (LockRect_allocate env s).Flags.LOCKED = true ∧
    (s.allocatedMemory ≠ 0 →
      (LockRect_allocate env s).allocatedMemory = s.allocatedMemory ∧
      (LockRect_allocate env s).Flags.INSYSMEM = s.Flags.INSYSMEM) ∧
    (env.HeapAlloc (u32 (s.size + 4)) ≠ 0 → (LockRect_allocate env s).allocatedMemory ≠ 0) ∧
    ((LockRect_allocate env s).Flags.INSYSMEM = true → s.allocatedMemory ≠ 0) := by
  unfold LockRect_allocate
  by_cases h : s.allocatedMemory = 0
  · simp [h]
  · simp [h]

/-- The recording step changes the locked rectangle, the lock counter and SFLAG_DYNLOCK
only. -/
theorem LockRect_record_flags (env : Env) (s : Surface) (pRect : Option RECT) :
    (LockRect_record env s pRect).container = s.container ∧
    (LockRect_record env s pRect).textureName = s.textureName ∧
    (LockRect_record env s pRect).allocatedMemory = s.allocatedMemory ∧
    (LockRect_record env s pRect).Flags.INSYSMEM = s.Flags.INSYSMEM ∧
    (LockRect_record env s pRect).Flags.LOCKED = s.Flags.LOCKED := by
  unfold LockRect_record
  cases pRect <;> simp only <;> split_ifs <;> exact ⟨rfl, rfl, rfl, rfl, rfl⟩

theorem LockRect_lock_end_flags (s : Surface) (Flags : LockFlags) :
    (LockRect_lock_end s Flags).container = s.container ∧
    (LockRect_lock_end s Flags).allocatedMemory = s.allocatedMemory ∧
    (LockRect_lock_end s Flags).Flags.INSYSMEM = s.Flags.INSYSMEM ∧
    (LockRect_lock_end s Flags).Flags.LOCKED = s.Flags.LOCKED := by
  unfold LockRect_lock_end IWineD3DSurfaceImpl_AddDirtyRect
  split_ifs
  · exact ⟨rfl, rfl, rfl, rfl⟩
  · exact ⟨rfl, rfl, rfl, rfl⟩

/-- The download step keeps the container. -/
theorem LockRect_download_container (env : Env) (s : Surface) (Flags : LockFlags) :
    (LockRect_download env s Flags).2.container = s.container := by
  obtain ⟨g, hg⟩ := read_from_framebuffer_gl env s
  obtain ⟨g2, hg2⟩ := surface_download_data_gl env (IWineD3DSurfaceImpl_PreLoad env s)
  have hp := (PreLoad_preloaded env s).1
  unfold LockRect_download
  rw [hg, hg2]
  dsimp only
  split_ifs <;> first | rfl | exact hp

/-- The download step is skipped for a surface whose host copy is current. -/
theorem LockRect_download_skip (env : Env) (s : Surface) (Flags : LockFlags)
    (h : s.Flags.INSYSMEM = true) : LockRect_download env s Flags = (false, s) := by
  simp [LockRect_download, h]

/-- The download step on a surface that is neither on a swapchain nor the primary render
target: it goes on to the label lock_end, it marks the host copy current unless the lock
discards or the surface is the depth stencil target, and it leaves the dirty rectangle. -/
theorem LockRect_download_ordinary (env : Env) (s : Surface) (Flags : LockFlags)
    (hord : s.container ≠ Container.swapchain) (hrt : env.isRenderTarget0 = false) :
    (LockRect_download env s Flags).1 = false ∧
    (env.isStencilBufferTarget = false → Flags.DISCARD = false →
      (LockRect_download env s Flags).2.Flags.INSYSMEM = true) ∧
    (env.containerKeepsName → (LockRect_download env s Flags).2.dirtyRect = s.dirtyRect) := by
  obtain ⟨g2, hg2⟩ := surface_download_data_gl env (IWineD3DSurfaceImpl_PreLoad env s)
  unfold LockRect_download
  rw [hg2]
  simp only [hord, hrt, Bool.false_eq_true, or_self, if_false]
  refine ⟨?_, ?_, ?_⟩
  · split_ifs <;> rfl
  · intro hs hd
    by_cases hi : s.Flags.INSYSMEM = true
    · simp [hd, hi]
    · simp [hd, hi, hs]
  · intro hc
    split_ifs with h1 h2 h3
    · rfl
    · rfl
    · exact PreLoad_dirtyRect env s hc h3
    · rfl

/-- The download step on a swapchain surface or the primary render target, with render target
locking enabled: it goes on to lock_end, and it marks the host copy current when the locked
rectangle is the whole surface and the lock does not discard. -/
theorem LockRect_download_target (env : Env) (s : Surface) (Flags : LockFlags)
    (htar : s.container = Container.swapchain ∨ env.isRenderTarget0 = true)
    (hmode : env.rendertargetlock_mode ≠ RTL.RTL_DISABLE) :
    (LockRect_download env s Flags).1 = false ∧
    (Flags.DISCARD = false →
      s.lockedRect = ⟨0, 0, (s.Width : Int), (s.Height : Int)⟩ → s.Width < 2147483648 →
      s.Height < 2147483648 →
      (LockRect_download env s Flags).2.Flags.INSYSMEM = true) ∧
    (LockRect_download env s Flags).2.allocatedMemory = s.allocatedMemory := by
  obtain ⟨g, hg⟩ := read_from_framebuffer_gl env s
  unfold LockRect_download
  rw [hg]
  simp only [htar, hmode, if_true, if_false]
  refine ⟨?_, ?_, ?_⟩
  · split_ifs <;> rfl
  · intro hd hl hw hh
    by_cases hi : s.Flags.INSYSMEM = true
    · simp [hd, hi]
    · have e1 : longToU32 (s.Width : Int) = s.Width := by
        unfold longToU32; omega
      have e2 : longToU32 (s.Height : Int) = s.Height := by
        unfold longToU32; omega
      simp [hd, hi, hl, e1, e2]
  · split_ifs <;> rfl

/-- The download step keeps the host buffer of a locked surface where GL_APPLE_client_storage
is not supported and SFLAG_LOCKED is part of SFLAG_DONOTFREE. -/
theorem LockRect_download_memory (env : Env) (s : Surface) (Flags : LockFlags)
    (hA : env.gl_info.APPLE_CLIENT_STORAGE = false) (hm : env.SFLAG_DONOTFREE.LOCKED = true)
    (hl : s.Flags.LOCKED = true) :
    (LockRect_download env s Flags).2.allocatedMemory = s.allocatedMemory := by
  obtain ⟨g, hg⟩ := read_from_framebuffer_gl env s
  obtain ⟨g2, hg2⟩ := surface_download_data_gl env (IWineD3DSurfaceImpl_PreLoad env s)
  have hp := ((PreLoad_preloaded env s).2.2 hA).2 hl hm
  unfold LockRect_download
  rw [hg, hg2]
  dsimp only
  split_ifs <;> first | rfl | exact hp.1

/-! ### LockRect and UnlockRect, flag by flag -/

theorem LockRect_container (env : Env) (s : Surface) (pRect : Option RECT) (Flags : LockFlags) :
    (IWineD3DSurfaceImpl_LockRect env s pRect Flags).2.2.container = s.container := by
  have ha := (LockRect_allocate_spec env s).1
  have hr := (LockRect_record_flags env (LockRect_allocate env s) pRect).1
  have hd := LockRect_download_container env
    (LockRect_record env (LockRect_allocate env s) pRect) Flags
  have he := (LockRect_lock_end_flags
    (LockRect_download env (LockRect_record env (LockRect_allocate env s) pRect) Flags).2 Flags).1
  unfold IWineD3DSurfaceImpl_LockRect
  dsimp only
  split_ifs
  · rw [hd, hr, ha]
  · rw [he, hd, hr, ha]

/-- A surface whose host copy is current and present keeps both through LockRect. -/
theorem LockRect_host_kept (env : Env) (s : Surface) (pRect : Option RECT) (Flags : LockFlags)
    (hi : s.Flags.INSYSMEM = true) (hm : s.allocatedMemory ≠ 0) :
    (IWineD3DSurfaceImpl_LockRect env s pRect Flags).2.2.Flags.INSYSMEM = true ∧
    (IWineD3DSurfaceImpl_LockRect env s pRect Flags).2.2.allocatedMemory = s.allocatedMemory := by
  have ha := (LockRect_allocate_spec env s).2.2.2.1 hm
  have hr := LockRect_record_flags env (LockRect_allocate env s) pRect
  have hi2 : (LockRect_record env (LockRect_allocate env s) pRect).Flags.INSYSMEM = true := by
    rw [hr.2.2.2.1, ha.2, hi]
  have hd := LockRect_download_skip env _ Flags hi2
  have he := LockRect_lock_end_flags (LockRect_record env (LockRect_allocate env s) pRect) Flags
  unfold IWineD3DSurfaceImpl_LockRect
  dsimp only
  rw [hd]
  simp only [Bool.false_eq_true, if_false]
  exact ⟨by rw [he.2.2.1, hi2], by rw [he.2.1, hr.2.2.1, ha.1]⟩

/-- LockRect on a surface that is neither on a swapchain nor the primary render target nor the
depth stencil target marks the host copy current, unless the lock discards. -/
theorem LockRect_ordinary_host (env : Env) (s : Surface) (pRect : Option RECT)
    (Flags : LockFlags) (hord : s.container ≠ Container.swapchain)
    (hrt : env.isRenderTarget0 = false) (hs : env.isStencilBufferTarget = false)
    (hd : Flags.DISCARD = false) :
    (IWineD3DSurfaceImpl_LockRect env s pRect Flags).2.2.Flags.INSYSMEM = true := by
  have ha := (LockRect_allocate_spec env s).1
  have hr := (LockRect_record_flags env (LockRect_allocate env s) pRect).1
  have hord2 : (LockRect_record env (LockRect_allocate env s) pRect).container ≠
      Container.swapchain := by rw [hr, ha]; exact hord
  have h := LockRect_download_ordinary env _ Flags hord2 hrt
  have he := LockRect_lock_end_flags
    (LockRect_download env (LockRect_record env (LockRect_allocate env s) pRect) Flags).2 Flags
  unfold IWineD3DSurfaceImpl_LockRect
  dsimp only
  rw [h.1]
  simp only [Bool.false_eq_true, if_false]
  rw [he.2.2.1]
  exact h.2.1 hs hd

/-- LockRect on a surface that is neither on a swapchain nor the primary render target: the
dirty rectangle grows by the locked rectangle, or stays for a lock without dirty update. -/
theorem LockRect_ordinary_dirtyRect (env : Env) (s : Surface) (pRect : Option RECT)
    (Flags : LockFlags) (hord : s.container ≠ Container.swapchain)
    (hrt : env.isRenderTarget0 = false) (hc : env.containerKeepsName) :
    (IWineD3DSurfaceImpl_LockRect env s pRect Flags).2.2.dirtyRect =
      if Flags.NO_DIRTY_UPDATE || Flags.READONLY then s.dirtyRect
      else s.dirtyRect.union (lockedRectOf s pRect) := by
  have ha := LockRect_allocate_spec env s
  have hr := LockRect_record_flags env (LockRect_allocate env s) pRect
  have hrs := LockRect_record_spec env (LockRect_allocate env s) pRect
  have hak := LockRect_allocate_keeps env s
  have hord2 : (LockRect_record env (LockRect_allocate env s) pRect).container ≠
      Container.swapchain := by rw [hr.1, ha.1]; exact hord
  have h := LockRect_download_ordinary env _ Flags hord2 hrt
  have hk := LockRect_download_keeps env
    (LockRect_record env (LockRect_allocate env s) pRect) Flags
  have hdr := h.2.2 hc
  unfold IWineD3DSurfaceImpl_LockRect
  dsimp only
  rw [h.1]
  simp only [Bool.false_eq_true, if_false]
  unfold LockRect_lock_end
  split_ifs
  · rw [hdr, hrs.2.2.2, ha.2.1]
  · simp only [IWineD3DSurfaceImpl_AddDirtyRect, RECT.union, lockedRectOf]
    rw [hdr, hk.1, hrs.2.2.2, hrs.1, ha.2.1, hak.2.1, hak.2.2.1]

/-- LockRect on a swapchain surface or the primary render target, with render target locking
enabled, on the whole surface and without discarding, marks the host copy current. -/
theorem LockRect_target_host (env : Env) (s : Surface) (pRect : Option RECT) (Flags : LockFlags)
    (htar : s.container = Container.swapchain ∨ env.isRenderTarget0 = true)
    (hmode : env.rendertargetlock_mode ≠ RTL.RTL_DISABLE) (hd : Flags.DISCARD = false)
    (hfull : lockedRectOf s pRect = ⟨0, 0, (s.Width : Int), (s.Height : Int)⟩)
    (hw : s.Width < 2147483648) (hh : s.Height < 2147483648) :
    (IWineD3DSurfaceImpl_LockRect env s pRect Flags).2.2.Flags.INSYSMEM = true := by
  have ha := (LockRect_allocate_spec env s).1
  have hak := LockRect_allocate_keeps env s
  have hr := (LockRect_record_flags env (LockRect_allocate env s) pRect).1
  have hrs := LockRect_record_spec env (LockRect_allocate env s) pRect
  have htar2 : (LockRect_record env (LockRect_allocate env s) pRect).container =
      Container.swapchain ∨ env.isRenderTarget0 = true := by rw [hr, ha]; exact htar
  have h := LockRect_download_target env _ Flags htar2 hmode
  have he := LockRect_lock_end_flags
    (LockRect_download env (LockRect_record env (LockRect_allocate env s) pRect) Flags).2 Flags
  unfold IWineD3DSurfaceImpl_LockRect
  dsimp only
  rw [h.1]
  simp only [Bool.false_eq_true, if_false]
  rw [he.2.2.1]
  refine h.2.1 hd ?_ ?_ ?_
  · rw [hrs.1, hrs.2.1, hrs.2.2.1, hak.2.1, hak.2.2.1]
    exact hfull
  · rw [hrs.2.1, hak.2.1]; exact hw
  · rw [hrs.2.2.1, hak.2.2.1]; exact hh

/-- LockRect leaves the surface with a host buffer when the heap gives one, where
GL_APPLE_client_storage is not supported and SFLAG_LOCKED is part of SFLAG_DONOTFREE. -/
theorem LockRect_memory (env : Env) (s : Surface) (pRect : Option RECT) (Flags : LockFlags)
    (hheap : env.HeapAlloc (u32 (s.size + 4)) ≠ 0)
    (hA : env.gl_info.APPLE_CLIENT_STORAGE = false) (hm : env.SFLAG_DONOTFREE.LOCKED = true) :
    (IWineD3DSurfaceImpl_LockRect env s pRect Flags).2.2.allocatedMemory ≠ 0 := by
  have ha := LockRect_allocate_spec env s
  have hr := LockRect_record_flags env (LockRect_allocate env s) pRect
  have hl : (LockRect_record env (LockRect_allocate env s) pRect).Flags.LOCKED = true := by
    rw [hr.2.2.2.2, ha.2.2.1]
  have hd := LockRect_download_memory env _ Flags hA hm hl
  have he := LockRect_lock_end_flags
    (LockRect_download env (LockRect_record env (LockRect_allocate env s) pRect) Flags).2 Flags
  have hmem : (LockRect_download env (LockRect_record env (LockRect_allocate env s) pRect)
      Flags).2.allocatedMemory ≠ 0 := by
    rw [hd, hr.2.2.1]; exact ha.2.2.2.2.1 hheap
  unfold IWineD3DSurfaceImpl_LockRect
  dsimp only
  split_ifs
  · exact hmem
  · rw [he.2.1]; exact hmem

/-- UnlockRect on a surface that is neither on a swapchain nor the primary render target keeps
the container, the dirty rectangle and the three location flags. -/
theorem UnlockRect_ordinary (env : Env) (s : Surface) (hord : s.container ≠ Container.swapchain)
    (hrt : env.isRenderTarget0 = false) :
    (IWineD3DSurfaceImpl_UnlockRect env s).2.container = s.container ∧
    (IWineD3DSurfaceImpl_UnlockRect env s).2.dirtyRect = s.dirtyRect ∧
    (IWineD3DSurfaceImpl_UnlockRect env s).2.Flags.INSYSMEM = s.Flags.INSYSMEM ∧
    (IWineD3DSurfaceImpl_UnlockRect env s).2.Flags.INTEXTURE = s.Flags.INTEXTURE ∧
    (IWineD3DSurfaceImpl_UnlockRect env s).2.Flags.INDRAWABLE = s.Flags.INDRAWABLE := by
  unfold IWineD3DSurfaceImpl_UnlockRect UnlockRect_unlock_end
  simp only [hord, hrt, Bool.false_eq_true, or_self, if_false]
  split_ifs <;> exact ⟨rfl, rfl, rfl, rfl, rfl⟩

/-- UnlockRect keeps the host-copy flag when render targets are flushed with glDrawPixels or
not at all. -/
theorem UnlockRect_drawpixels_host (env : Env) (s : Surface)
    (hmode : env.rendertargetlock_mode = RTL.RTL_AUTO ∨
      env.rendertargetlock_mode = RTL.RTL_READDRAW ∨
      env.rendertargetlock_mode = RTL.RTL_TEXDRAW ∨
      env.rendertargetlock_mode = RTL.RTL_DISABLE) :
    (IWineD3DSurfaceImpl_UnlockRect env s).2.Flags.INSYSMEM = s.Flags.INSYSMEM := by
  obtain ⟨g, hg⟩ := flush_to_framebuffer_drawpixels_gl env s
  unfold IWineD3DSurfaceImpl_UnlockRect UnlockRect_unlock_end
  rcases hmode with h | h | h | h <;> rw [h] <;> dsimp only <;> (try rw [hg]) <;>
    split_ifs <;> rfl

/-- UnlockRect never empties the set of valid locations. -/
theorem UnlockRect_hasLocation (env : Env) (s : Surface) (h : s.hasLocation) :
    (IWineD3DSurfaceImpl_UnlockRect env s).2.hasLocation := by
  unfold IWineD3DSurfaceImpl_UnlockRect UnlockRect_unlock_end
  split_ifs
  · exact h
  · exact h
  · exact h
  · exact Or.inr (Or.inr rfl)
  · exact h
  · exact h

/-! ### The lock cycle, case by case -/

theorem read_from_framebuffer_eq (env : Env) (s : Surface) :
    read_from_framebuffer env s = { s with gl := (read_from_framebuffer env s).gl } := by
  unfold read_from_framebuffer
  split_ifs <;> rfl

/-- The host-copy flag after the download step of LockRect. -/
theorem LockRect_download_host (env : Env) (s : Surface) (Flags : LockFlags) :
    (LockRect_download env s Flags).2.Flags.INSYSMEM = true ↔
      (s.Flags.INSYSMEM = true ∨
        (Flags.DISCARD = false ∧
          ((s.container ≠ Container.swapchain ∧ env.isRenderTarget0 = false ∧
              env.isStencilBufferTarget = false) ∨
            ((s.container = Container.swapchain ∨ env.isRenderTarget0 = true) ∧
              env.rendertargetlock_mode ≠ RTL.RTL_DISABLE ∧
              (s.lockedRect.left = 0 ∧ s.lockedRect.top = 0 ∧
                longToU32 s.lockedRect.right = s.Width ∧
                longToU32 s.lockedRect.bottom = s.Height))))) := by
  obtain ⟨g2, hg2⟩ := surface_download_data_gl env (IWineD3DSurfaceImpl_PreLoad env s)
  unfold LockRect_download
  rw [read_from_framebuffer_eq, hg2]
  by_cases hi : s.Flags.INSYSMEM = true
  · simp [hi]
  · have hi2 : s.Flags.INSYSMEM = false := by simpa using hi
    cases hd : Flags.DISCARD
    · by_cases hsw : s.container = Container.swapchain
      · by_cases hm : env.rendertargetlock_mode = RTL.RTL_DISABLE
        · simp [hi2, hd, hsw, hm]
        · simp only [hi2, hd, hsw, hm, Bool.or_self, Bool.false_eq_true, if_false, true_or,
            if_true]
          split_ifs with hf
          · simp [hf, hm]
          · simp [hi2, hf, hm]
      · cases hrt : env.isRenderTarget0
        · cases hs : env.isStencilBufferTarget
          · simp [hi2, hd, hsw, hrt, hs]
          · simp [hi2, hd, hsw, hrt, hs]
        · by_cases hm : env.rendertargetlock_mode = RTL.RTL_DISABLE
          · simp [hi2, hd, hsw, hrt, hm]
          · simp only [hi2, hd, hsw, hrt, hm, Bool.or_self, Bool.false_eq_true, if_false,
              or_true, if_true]
            split_ifs with hf
            · simp [hf, hm, hsw]
            · simp [hi2, hf, hm, hsw]
    · simp [hi2, hd]

theorem LockRect_allocate_flags (env : Env) (s : Surface) :
    (LockRect_allocate env s).Flags.INTEXTURE = s.Flags.INTEXTURE ∧
    (LockRect_allocate env s).Flags.INDRAWABLE = s.Flags.INDRAWABLE ∧
    ((LockRect_allocate env s).Flags.INSYSMEM = true ↔
      (s.Flags.INSYSMEM = true ∧ s.allocatedMemory ≠ 0)) := by
  unfold LockRect_allocate
  by_cases h : s.allocatedMemory = 0
  · simp [h]
  · simp [h]

theorem LockRect_record_locations (env : Env) (s : Surface) (pRect : Option RECT) :
    (LockRect_record env s pRect).Flags.INTEXTURE = s.Flags.INTEXTURE ∧
    (LockRect_record env s pRect).Flags.INDRAWABLE = s.Flags.INDRAWABLE := by
  unfold LockRect_record
  cases pRect <;> simp only <;> split_ifs <;> exact ⟨rfl, rfl⟩

/-- The download step on a swapchain surface or the primary render target: it returns before
the label lock_end exactly when the lock does not discard, the host copy is not current and
render target locking is disabled; it leaves the dirty rectangle, the locked rectangle and
the texture, drawable and locked flags. -/
theorem LockRect_download_target_frame (env : Env) (s : Surface) (Flags : LockFlags)
    (htar : s.container = Container.swapchain ∨ env.isRenderTarget0 = true) :
    ((LockRect_download env s Flags).1 = true ↔
      (Flags.DISCARD = false ∧ s.Flags.INSYSMEM = false ∧
        env.rendertargetlock_mode = RTL.RTL_DISABLE)) ∧
    (LockRect_download env s Flags).2.dirtyRect = s.dirtyRect ∧
    (LockRect_download env s Flags).2.lockedRect = s.lockedRect ∧
    (LockRect_download env s Flags).2.Flags.INTEXTURE = s.Flags.INTEXTURE ∧
    (LockRect_download env s Flags).2.Flags.INDRAWABLE = s.Flags.INDRAWABLE ∧
    (LockRect_download env s Flags).2.Flags.LOCKED = s.Flags.LOCKED := by
  unfold LockRect_download
  rw [read_from_framebuffer_eq]
  simp only [htar, if_true]
  cases hd : Flags.DISCARD <;> cases hi : s.Flags.INSYSMEM <;>
    by_cases hm : env.rendertargetlock_mode = RTL.RTL_DISABLE <;>
    simp only [hm, Bool.or_self, Bool.or_true, Bool.true_or, Bool.false_eq_true, if_false,
      if_true, true_and, false_and, and_true, and_false, iff_false, Bool.true_eq_false,
      not_false_eq_true, and_self, iff_true] <;>
    (try split_ifs) <;> simp

/-- The label lock_end: without READONLY or NO_DIRTY_UPDATE the locked rectangle is added to
the dirty rectangle and the texture and drawable flags are cleared. -/
theorem LockRect_lock_end_dirty (s : Surface) (Flags : LockFlags) :
    (LockRect_lock_end s Flags).dirtyRect =
      (if (Flags.NO_DIRTY_UPDATE || Flags.READONLY) = true then s.dirtyRect
        else s.dirtyRect.union s.lockedRect) ∧
    (LockRect_lock_end s Flags).Flags.INTEXTURE =
      (if (Flags.NO_DIRTY_UPDATE || Flags.READONLY) = true then s.Flags.INTEXTURE else false) ∧
    (LockRect_lock_end s Flags).Flags.INDRAWABLE =
      (if (Flags.NO_DIRTY_UPDATE || Flags.READONLY) = true then s.Flags.INDRAWABLE else false) := by
  unfold LockRect_lock_end IWineD3DSurfaceImpl_AddDirtyRect
  split_ifs
  · exact ⟨rfl, rfl, rfl⟩
  · exact ⟨rfl, rfl, rfl⟩

/-- LockRect on a swapchain surface or the primary render target.  The call returns early,
leaving the dirty rectangle and the location flags, exactly when the lock does not discard,
the host copy is not valid and render target locking is disabled; otherwise it reaches the
label lock_end. -/
theorem LockRect_target_fields (env : Env) (s : Surface) (pRect : Option RECT)
    (Flags : LockFlags)
    (htar : s.container = Container.swapchain ∨ env.isRenderTarget0 = true) :
    (IWineD3DSurfaceImpl_LockRect env s pRect Flags).2.2.Flags.LOCKED = true ∧
    ((Flags.DISCARD = false ∧ ¬ (s.Flags.INSYSMEM = true ∧ s.allocatedMemory ≠ 0) ∧
        env.rendertargetlock_mode = RTL.RTL_DISABLE) →
      (IWineD3DSurfaceImpl_LockRect env s pRect Flags).2.2.dirtyRect = s.dirtyRect ∧
      (IWineD3DSurfaceImpl_LockRect env s pRect Flags).2.2.Flags.INTEXTURE =
        s.Flags.INTEXTURE ∧
      (IWineD3DSurfaceImpl_LockRect env s pRect Flags).2.2.Flags.INDRAWABLE =
        s.Flags.INDRAWABLE) ∧
    (¬ (Flags.DISCARD = false ∧ ¬ (s.Flags.INSYSMEM = true ∧ s.allocatedMemory ≠ 0) ∧
        env.rendertargetlock_mode = RTL.RTL_DISABLE) →
      (IWineD3DSurfaceImpl_LockRect env s pRect Flags).2.2.dirtyRect =
        (if (Flags.NO_DIRTY_UPDATE || Flags.READONLY) = true then s.dirtyRect
          else s.dirtyRect.union (lockedRectOf s pRect)) ∧
      (IWineD3DSurfaceImpl_LockRect env s pRect Flags).2.2.Flags.INTEXTURE =
        (if (Flags.NO_DIRTY_UPDATE || Flags.READONLY) = true then s.Flags.INTEXTURE
          else false) ∧
      (IWineD3DSurfaceImpl_LockRect env s pRect Flags).2.2.Flags.INDRAWABLE =
        (if (Flags.NO_DIRTY_UPDATE || Flags.READONLY) = true then s.Flags.INDRAWABLE
          else false)) := by
  have ha := LockRect_allocate_spec env s
  have haf := LockRect_allocate_flags env s
  have hak := LockRect_allocate_keeps env s
  have hr := LockRect_record_flags env (LockRect_allocate env s) pRect
  have hrl := LockRect_record_locations env (LockRect_allocate env s) pRect
  have hrs := LockRect_record_spec env (LockRect_allocate env s) pRect
  have htar2 : (LockRect_record env (LockRect_allocate env s) pRect).container =
      Container.swapchain ∨ env.isRenderTarget0 = true := by rw [hr.1, ha.1]; exact htar
  have hd := LockRect_download_target_frame env
    (LockRect_record env (LockRect_allocate env s) pRect) Flags htar2
  have he := LockRect_lock_end_dirty
    (LockRect_download env (LockRect_record env (LockRect_allocate env s) pRect) Flags).2 Flags
  have hef := LockRect_lock_end_flags
    (LockRect_download env (LockRect_record env (LockRect_allocate env s) pRect) Flags).2 Flags
  have hins : (LockRect_record env (LockRect_allocate env s) pRect).Flags.INSYSMEM = false ↔
      ¬ (s.Flags.INSYSMEM = true ∧ s.allocatedMemory ≠ 0) := by
    rw [hr.2.2.2.1, ← haf.2.2]
    simp
  have hlr : (LockRect_record env (LockRect_allocate env s) pRect).lockedRect =
      lockedRectOf s pRect := by
    rw [hrs.1, hak.2.1, hak.2.2.1]
    cases pRect <;> rfl
  have hdr : (LockRect_record env (LockRect_allocate env s) pRect).dirtyRect = s.dirtyRect := by
    rw [hrs.2.2.2, ha.2.1]
  have hit : (LockRect_record env (LockRect_allocate env s) pRect).Flags.INTEXTURE =
      s.Flags.INTEXTURE := by rw [hrl.1, haf.1]
  have hid : (LockRect_record env (LockRect_allocate env s) pRect).Flags.INDRAWABLE =
      s.Flags.INDRAWABLE := by rw [hrl.2, haf.2.1]
  have hlk : (LockRect_record env (LockRect_allocate env s) pRect).Flags.LOCKED = true := by
    rw [hr.2.2.2.2, ha.2.2.1]
  unfold IWineD3DSurfaceImpl_LockRect
  dsimp only
  by_cases hearly : (LockRect_download env
      (LockRect_record env (LockRect_allocate env s) pRect) Flags).1 = true
  · rw [if_pos hearly]
    have h1 := hd.1.1 hearly
    refine ⟨by rw [hd.2.2.2.2.2, hlk], fun _ => ?_, fun hne => ?_⟩
    · exact ⟨by rw [hd.2.1, hdr], by rw [hd.2.2.2.1, hit], by rw [hd.2.2.2.2.1, hid]⟩
    · exact absurd ⟨h1.1, hins.1 h1.2.1, h1.2.2⟩ hne
  · rw [if_neg hearly]
    refine ⟨by rw [hef.2.2.2, hd.2.2.2.2.2, hlk], fun hy => ?_, fun _ => ?_⟩
    · exact absurd (hd.1.2 ⟨hy.1, hins.2 hy.2.1, hy.2.2⟩) hearly
    · rw [he.1, he.2.1, he.2.2, hd.2.1, hd.2.2.1, hd.2.2.2.1, hd.2.2.2.2.1, hdr, hlr, hit, hid]
      exact ⟨rfl, rfl, rfl⟩

theorem flush_to_framebuffer_drawpixels_eq (env : Env) (s : Surface) :
    flush_to_framebuffer_drawpixels env s =
      { s with gl := (flush_to_framebuffer_drawpixels env s).gl } := by
  unfold flush_to_framebuffer_drawpixels
  split_ifs <;> rfl

/-- UnlockRect of a locked surface.  It flushes the surface and resets the dirty rectangle
exactly when the surface is dirty (neither the drawable nor the texture is current), it is on
a swapchain or is the primary render target, and render target locking is not disabled;
otherwise it leaves the dirty rectangle and the host-copy flag.  It never sets the host-copy
flag. -/
theorem UnlockRect_fields (env : Env) (s : Surface) (hl : s.Flags.LOCKED = true) :
    (IWineD3DSurfaceImpl_UnlockRect env s).2.container = s.container ∧
    ((s.Flags.INDRAWABLE = false ∧ s.Flags.INTEXTURE = false ∧
        (s.container = Container.swapchain ∨ env.isRenderTarget0 = true) ∧
        env.rendertargetlock_mode ≠ RTL.RTL_DISABLE) →
      (IWineD3DSurfaceImpl_UnlockRect env s).2.dirtyRect = emptyDirtyRect s.Width s.Height) ∧
    (¬ (s.Flags.INDRAWABLE = false ∧ s.Flags.INTEXTURE = false ∧
        (s.container = Container.swapchain ∨ env.isRenderTarget0 = true) ∧
        env.rendertargetlock_mode ≠ RTL.RTL_DISABLE) →
      (IWineD3DSurfaceImpl_UnlockRect env s).2.dirtyRect = s.dirtyRect ∧
      (IWineD3DSurfaceImpl_UnlockRect env s).2.Flags.INSYSMEM = s.Flags.INSYSMEM) ∧
    ((IWineD3DSurfaceImpl_UnlockRect env s).2.Flags.INSYSMEM = true →
      s.Flags.INSYSMEM = true) ∧
    (((env.rendertargetlock_mode ≠ RTL.RTL_READTEX ∧
          env.rendertargetlock_mode ≠ RTL.RTL_TEXTEX) ∨
        (env.gl_info.APPLE_CLIENT_STORAGE = false ∧ env.SFLAG_DONOTFREE.LOCKED = true)) →
      (IWineD3DSurfaceImpl_UnlockRect env s).2.Flags.INSYSMEM = s.Flags.INSYSMEM) := by
  have hk := PreLoad_keeps env s
  have hp := PreLoad_preloaded env s
  unfold IWineD3DSurfaceImpl_UnlockRect UnlockRect_unlock_end flush_to_framebuffer_texture
  rw [flush_to_framebuffer_drawpixels_eq]
  simp only [hl, Bool.not_true, Bool.false_eq_true, if_false]
  by_cases hloc : (s.Flags.INDRAWABLE || s.Flags.INTEXTURE) = true
  · have hloc2 : ¬ (s.Flags.INDRAWABLE = false ∧ s.Flags.INTEXTURE = false) := by
      intro h
      rw [h.1, h.2] at hloc
      exact Bool.noConfusion hloc
    rw [if_pos hloc]
    refine ⟨rfl, fun h => absurd ⟨h.1, h.2.1⟩ hloc2, fun _ => ⟨rfl, rfl⟩, fun h => h,
      fun _ => rfl⟩
  · rw [if_neg hloc]
    have hloc3 : s.Flags.INDRAWABLE = false ∧ s.Flags.INTEXTURE = false := by
      cases h1 : s.Flags.INDRAWABLE <;> cases h2 : s.Flags.INTEXTURE <;> simp [h1, h2] at hloc ⊢
    by_cases htar : s.container = Container.swapchain ∨ env.isRenderTarget0 = true
    · rw [if_pos htar]
      by_cases hm : env.rendertargetlock_mode = RTL.RTL_DISABLE
      · rw [if_pos hm]
        refine ⟨rfl, fun h => absurd hm h.2.2.2, fun _ => ⟨rfl, rfl⟩, fun h => h, fun _ => rfl⟩
      · rw [if_neg hm]
        refine ⟨?_, fun _ => ?_, fun h => absurd ⟨hloc3.1, hloc3.2, htar, hm⟩ h, ?_, ?_⟩
        · cases hmode : env.rendertargetlock_mode <;> first | rfl | exact hp.1
        · cases hmode : env.rendertargetlock_mode <;>
            first
              | rfl
              | (show emptyDirtyRect (IWineD3DSurfaceImpl_PreLoad env s).Width
                    (IWineD3DSurfaceImpl_PreLoad env s).Height = emptyDirtyRect s.Width s.Height
                 rw [hk.2.1, hk.2.2.1])
        · cases hmode : env.rendertargetlock_mode <;>
            first
              | exact fun h => h
              | exact fun h => (hp.2.1 h).1
        · intro hkeep
          cases hmode : env.rendertargetlock_mode <;>
            first
              | rfl
              | (rcases hkeep with ⟨h1, h2⟩ | ⟨hA, hD⟩
                 · first
                     | exact absurd hmode h1
                     | exact absurd hmode h2
                 · exact ((hp.2.2 hA).2 hl hD).2)
    · rw [if_neg htar]
      refine ⟨?_, fun h => absurd h.2.2.1 htar, fun _ => ?_, ?_, fun _ => ?_⟩ <;>
        split_ifs <;> first | rfl | exact ⟨rfl, rfl⟩ | exact fun h => h

/-- C11, case by case: starting from the empty dirty rectangle (Width, Height, 0, 0), for a
pixel (x, y) inside the surface: LockRect on (x, y, x+1, y+1) with dirty update, UnlockRect,
then LockRect on any rectangle with READONLY or NO_DIRTY_UPDATE.  The cycle leaves dirtyRect
equal to (x, y, x+1, y+1) on a surface that is neither on a swapchain nor the primary render
target (whose container texture never hands it the texture name 0), and on a swapchain
surface or the primary render target when render target locking is disabled and the first
lock discards or finds a valid host copy.  In every other case the cycle leaves the empty
dirty rectangle (Width, Height, 0, 0), which differs from (x, y, x+1, y+1). -/
theorem LockRect_cycle_dirtyRect (env : Env) (This : Surface) (x y : Nat) (wr ro : LockFlags)
    (pRect : Option RECT) (hx : x < This.Width) (hy : y < This.Height)
    (hempty : This.dirtyRect = emptyDirtyRect This.Width This.Height)
    (hwr : wr.NO_DIRTY_UPDATE = false ∧ wr.READONLY = false)
    (hro : ro.NO_DIRTY_UPDATE = true ∨ ro.READONLY = true)
    (hc : (This.container ≠ Container.swapchain ∧ env.isRenderTarget0 = false) →
      env.containerKeepsName) :
    (((This.container ≠ Container.swapchain ∧ env.isRenderTarget0 = false) ∨
        (env.rendertargetlock_mode = RTL.RTL_DISABLE ∧
          (wr.DISCARD = true ∨ (This.Flags.INSYSMEM = true ∧ This.allocatedMemory ≠ 0)))) →
      (runCalls This
        [SurfaceCall.LockRect env (some ⟨(x : Int), (y : Int), (x : Int) + 1, (y : Int) + 1⟩) wr,
         SurfaceCall.UnlockRect env,
         SurfaceCall.LockRect env pRect ro]).dirtyRect =
        ⟨(x : Int), (y : Int), (x : Int) + 1, (y : Int) + 1⟩) ∧
    (¬ ((This.container ≠ Container.swapchain ∧ env.isRenderTarget0 = false) ∨
        (env.rendertargetlock_mode = RTL.RTL_DISABLE ∧
          (wr.DISCARD = true ∨ (This.Flags.INSYSMEM = true ∧ This.allocatedMemory ≠ 0)))) →
      (runCalls This
        [SurfaceCall.LockRect env (some ⟨(x : Int), (y : Int), (x : Int) + 1, (y : Int) + 1⟩) wr,
         SurfaceCall.UnlockRect env,
         SurfaceCall.LockRect env pRect ro]).dirtyRect =
        emptyDirtyRect This.Width This.Height) ∧
    emptyDirtyRect This.Width This.Height ≠
      ⟨(x : Int), (y : Int), (x : Int) + 1, (y : Int) + 1⟩ := by
  have hro2 : (ro.NO_DIRTY_UPDATE || ro.READONLY) = true := by
    rcases hro with h | h <;> simp [h]
  have hwr2 : ¬ ((wr.NO_DIRTY_UPDATE || wr.READONLY) = true) := by
    rw [hwr.1, hwr.2]; decide
  have hpx : (emptyDirtyRect This.Width This.Height).union
      (lockedRectOf This (some ⟨(x : Int), (y : Int), (x : Int) + 1, (y : Int) + 1⟩)) =
      ⟨(x : Int), (y : Int), (x : Int) + 1, (y : Int) + 1⟩ := by
    simp only [emptyDirtyRect, RECT.union, lockedRectOf]
    have e1 : min (This.Width : Int) (x : Int) = x := by omega
    have e2 : min (This.Height : Int) (y : Int) = y := by omega
    have e3 : max (0 : Int) ((x : Int) + 1) = (x : Int) + 1 := by omega
    have e4 : max (0 : Int) ((y : Int) + 1) = (y : Int) + 1 := by omega
    rw [e1, e2, e3, e4]
  have hne : emptyDirtyRect This.Width This.Height ≠
      ⟨(x : Int), (y : Int), (x : Int) + 1, (y : Int) + 1⟩ := by
    intro h
    have h1 : (emptyDirtyRect This.Width This.Height).left = (x : Int) := by rw [h]
    simp only [emptyDirtyRect] at h1
    omega
  have c1 := LockRect_container env This
    (some ⟨(x : Int), (y : Int), (x : Int) + 1, (y : Int) + 1⟩) wr
  simp only [runCalls, List.foldl, SurfaceCall.run]
  by_cases hord : This.container ≠ Container.swapchain ∧ env.isRenderTarget0 = false
  · have hck := hc hord
    have h1 := LockRect_ordinary_dirtyRect env This
      (some ⟨(x : Int), (y : Int), (x : Int) + 1, (y : Int) + 1⟩) wr hord.1 hord.2 hck
    have hord1 : (IWineD3DSurfaceImpl_LockRect env This
        (some ⟨(x : Int), (y : Int), (x : Int) + 1, (y : Int) + 1⟩) wr).2.2.container ≠
        Container.swapchain := by rw [c1]; exact hord.1
    have h2 := UnlockRect_ordinary env _ hord1 hord.2
    have hord2 : (IWineD3DSurfaceImpl_UnlockRect env (IWineD3DSurfaceImpl_LockRect env This
        (some ⟨(x : Int), (y : Int), (x : Int) + 1, (y : Int) + 1⟩) wr).2.2).2.container ≠
        Container.swapchain := by rw [h2.1]; exact hord1
    have h3 := LockRect_ordinary_dirtyRect env _ pRect ro hord2 hord.2 hck
    refine ⟨fun _ => ?_, fun h => absurd (Or.inl hord) h, hne⟩
    rw [h3, if_pos hro2, h2.2.1, h1, if_neg hwr2, hempty, hpx]
  · have htar : This.container = Container.swapchain ∨ env.isRenderTarget0 = true := by
      by_cases h1 : This.container = Container.swapchain
      · exact Or.inl h1
      · cases h2 : env.isRenderTarget0
        · exact absurd ⟨h1, h2⟩ hord
        · exact Or.inr rfl
    have F1 := LockRect_target_fields env This
      (some ⟨(x : Int), (y : Int), (x : Int) + 1, (y : Int) + 1⟩) wr htar
    have fr1 := LockRect_frame env This
      (some ⟨(x : Int), (y : Int), (x : Int) + 1, (y : Int) + 1⟩) wr
    have htar1 : (IWineD3DSurfaceImpl_LockRect env This
        (some ⟨(x : Int), (y : Int), (x : Int) + 1, (y : Int) + 1⟩) wr).2.2.container =
        Container.swapchain ∨ env.isRenderTarget0 = true := by rw [c1]; exact htar
    have U := UnlockRect_fields env _ F1.1
    have htar2 : (IWineD3DSurfaceImpl_UnlockRect env (IWineD3DSurfaceImpl_LockRect env This
        (some ⟨(x : Int), (y : Int), (x : Int) + 1, (y : Int) + 1⟩) wr).2.2).2.container =
        Container.swapchain ∨ env.isRenderTarget0 = true := by rw [U.1]; exact htar1
    have F3 := LockRect_target_fields env _ pRect ro htar2
    have hfin : (IWineD3DSurfaceImpl_LockRect env (IWineD3DSurfaceImpl_UnlockRect env
        (IWineD3DSurfaceImpl_LockRect env This
          (some ⟨(x : Int), (y : Int), (x : Int) + 1, (y : Int) + 1⟩) wr).2.2).2
        pRect ro).2.2.dirtyRect =
        (IWineD3DSurfaceImpl_UnlockRect env (IWineD3DSurfaceImpl_LockRect env This
          (some ⟨(x : Int), (y : Int), (x : Int) + 1, (y : Int) + 1⟩) wr).2.2).2.dirtyRect := by
      by_cases he3 : ro.DISCARD = false ∧
          ¬ ((IWineD3DSurfaceImpl_UnlockRect env (IWineD3DSurfaceImpl_LockRect env This
            (some ⟨(x : Int), (y : Int), (x : Int) + 1, (y : Int) + 1⟩)
              wr).2.2).2.Flags.INSYSMEM = true ∧
            (IWineD3DSurfaceImpl_UnlockRect env (IWineD3DSurfaceImpl_LockRect env This
            (some ⟨(x : Int), (y : Int), (x : Int) + 1, (y : Int) + 1⟩)
              wr).2.2).2.allocatedMemory ≠ 0) ∧
          env.rendertargetlock_mode = RTL.RTL_DISABLE
      · exact (F3.2.1 he3).1
      · rw [(F3.2.2 he3).1, if_pos hro2]
    rw [hfin]
    by_cases he : wr.DISCARD = false ∧
        ¬ (This.Flags.INSYSMEM = true ∧ This.allocatedMemory ≠ 0) ∧
        env.rendertargetlock_mode = RTL.RTL_DISABLE
    · have hnf : ¬ ((IWineD3DSurfaceImpl_LockRect env This
          (some ⟨(x : Int), (y : Int), (x : Int) + 1, (y : Int) + 1⟩) wr).2.2.Flags.INDRAWABLE =
            false ∧
          (IWineD3DSurfaceImpl_LockRect env This
          (some ⟨(x : Int), (y : Int), (x : Int) + 1, (y : Int) + 1⟩) wr).2.2.Flags.INTEXTURE =
            false ∧
          ((IWineD3DSurfaceImpl_LockRect env This
          (some ⟨(x : Int), (y : Int), (x : Int) + 1, (y : Int) + 1⟩) wr).2.2.container =
            Container.swapchain ∨ env.isRenderTarget0 = true) ∧
          env.rendertargetlock_mode ≠ RTL.RTL_DISABLE) := fun h => h.2.2.2 he.2.2
      refine ⟨fun hcond => ?_, fun _ => ?_, hne⟩
      · rcases hcond with h | ⟨_, h | h⟩
        · exact absurd h hord
        · rw [he.1] at h; exact Bool.noConfusion h
        · exact absurd h he.2.1
      · rw [(U.2.2.1 hnf).1, (F1.2.1 he).1, hempty]
    · have G := F1.2.2 he
      rw [if_neg hwr2, if_neg hwr2, if_neg hwr2] at G
      by_cases hm : env.rendertargetlock_mode = RTL.RTL_DISABLE
      · have hnf : ¬ ((IWineD3DSurfaceImpl_LockRect env This
            (some ⟨(x : Int), (y : Int), (x : Int) + 1, (y : Int) + 1⟩)
              wr).2.2.Flags.INDRAWABLE = false ∧
            (IWineD3DSurfaceImpl_LockRect env This
            (some ⟨(x : Int), (y : Int), (x : Int) + 1, (y : Int) + 1⟩)
              wr).2.2.Flags.INTEXTURE = false ∧
            ((IWineD3DSurfaceImpl_LockRect env This
            (some ⟨(x : Int), (y : Int), (x : Int) + 1, (y : Int) + 1⟩) wr).2.2.container =
              Container.swapchain ∨ env.isRenderTarget0 = true) ∧
            env.rendertargetlock_mode ≠ RTL.RTL_DISABLE) := fun h => h.2.2.2 hm
        refine ⟨fun _ => ?_, fun hcond => ?_, hne⟩
        · rw [(U.2.2.1 hnf).1, G.1, hempty, hpx]
        · exfalso
          apply hcond
          refine Or.inr ⟨hm, ?_⟩
          by_cases hd : wr.DISCARD = true
          · exact Or.inl hd
          · right
            by_contra hv
            exact he ⟨by simpa using hd, hv, hm⟩
      · have hf : (IWineD3DSurfaceImpl_LockRect env This
            (some ⟨(x : Int), (y : Int), (x : Int) + 1, (y : Int) + 1⟩)
              wr).2.2.Flags.INDRAWABLE = false ∧
            (IWineD3DSurfaceImpl_LockRect env This
            (some ⟨(x : Int), (y : Int), (x : Int) + 1, (y : Int) + 1⟩)
              wr).2.2.Flags.INTEXTURE = false ∧
            ((IWineD3DSurfaceImpl_LockRect env This
            (some ⟨(x : Int), (y : Int), (x : Int) + 1, (y : Int) + 1⟩) wr).2.2.container =
              Container.swapchain ∨ env.isRenderTarget0 = true) ∧
            env.rendertargetlock_mode ≠ RTL.RTL_DISABLE :=
          ⟨G.2.2, G.2.1, htar1, hm⟩
        refine ⟨fun hcond => ?_, fun _ => ?_, hne⟩
        · rcases hcond with h | ⟨h, _⟩
          · exact absurd h hord
          · exact absurd h hm
        · rw [U.2.1 hf, fr1.2.1, fr1.2.2]

/-- C11, witness: pixel (1, 2) of the 4x4 managed surface, and pixel (1, 2) of the 4x4
swapchain buffer with a valid host copy when render target locking is disabled. -/
theorem LockRect_cycle_dirtyRect_witness :
    (runCalls plainSurface
      [SurfaceCall.LockRect plainEnv (some ⟨1, 2, 2, 3⟩) {},
       SurfaceCall.UnlockRect plainEnv,
       SurfaceCall.LockRect plainEnv none { READONLY := true }]).dirtyRect = ⟨1, 2, 2, 3⟩ ∧
    (runCalls swapchainSurface
      [SurfaceCall.LockRect disabledEnv (some ⟨1, 2, 2, 3⟩) {},
       SurfaceCall.UnlockRect disabledEnv,
       SurfaceCall.LockRect disabledEnv none { READONLY := true }]).dirtyRect = ⟨1, 2, 2, 3⟩ :=
  ⟨(LockRect_cycle_dirtyRect plainEnv plainSurface 1 2 {} { READONLY := true } none
      (by decide) (by decide) rfl (by decide) (by decide) (fun _ => by decide)).1
      (Or.inl (by decide)),
    (LockRect_cycle_dirtyRect disabledEnv swapchainSurface 1 2 {} { READONLY := true } none
      (by decide) (by decide) rfl (by decide) (by decide) (fun _ => by decide)).1
      (Or.inr ⟨rfl, Or.inr (by decide)⟩)⟩

/-- C11, counterexample: on a buffer of a swapchain, with render target locking in mode
RTL_AUTO, the cycle on pixel (1, 2) ends with the empty dirty rectangle (4, 4, 0, 0), since
UnlockRect flushes the surface and resets the rectangle. -/
theorem LockRect_cycle_dirtyRect_counterexample :
    swapchainSurface.dirtyRect = emptyDirtyRect swapchainSurface.Width swapchainSurface.Height ∧
    (runCalls swapchainSurface
      [SurfaceCall.LockRect plainEnv (some ⟨1, 2, 2, 3⟩) {},
       SurfaceCall.UnlockRect plainEnv,
       SurfaceCall.LockRect plainEnv (some ⟨1, 2, 2, 3⟩) { READONLY := true }]).dirtyRect =
      ⟨4, 4, 0, 0⟩ ∧
    (runCalls swapchainSurface
      [SurfaceCall.LockRect plainEnv (some ⟨1, 2, 2, 3⟩) {},
       SurfaceCall.UnlockRect plainEnv,
       SurfaceCall.LockRect plainEnv (some ⟨1, 2, 2, 3⟩) { READONLY := true }]).dirtyRect ≠
      ⟨1, 2, 2, 3⟩ := by
  refine ⟨rfl, by decide, by decide⟩

/-- The host-copy flag after LockRect: it is set exactly when the host copy was valid before
the call, or the lock does not discard and either the surface is an ordinary one (not on a
swapchain, not the primary render target, not the depth stencil target), or it is a swapchain
surface or the primary render target, render target locking is enabled and the locked
rectangle passes the test for the whole surface. -/
theorem LockRect_host_iff (env : Env) (s : Surface) (pRect : Option RECT) (Flags : LockFlags) :
    (IWineD3DSurfaceImpl_LockRect env s pRect Flags).2.2.Flags.INSYSMEM = true ↔
      ((s.Flags.INSYSMEM = true ∧ s.allocatedMemory ≠ 0) ∨
        (Flags.DISCARD = false ∧
          ((s.container ≠ Container.swapchain ∧ env.isRenderTarget0 = false ∧
              env.isStencilBufferTarget = false) ∨
            ((s.container = Container.swapchain ∨ env.isRenderTarget0 = true) ∧
              env.rendertargetlock_mode ≠ RTL.RTL_DISABLE ∧
              ((lockedRectOf s pRect).left = 0 ∧ (lockedRectOf s pRect).top = 0 ∧
                longToU32 (lockedRectOf s pRect).right = s.Width ∧
                longToU32 (lockedRectOf s pRect).bottom = s.Height))))) := by
  have ha := LockRect_allocate_spec env s
  have haf := LockRect_allocate_flags env s
  have hak := LockRect_allocate_keeps env s
  have hr := LockRect_record_flags env (LockRect_allocate env s) pRect
  have hrs := LockRect_record_spec env (LockRect_allocate env s) pRect
  have hd := LockRect_download_host env
    (LockRect_record env (LockRect_allocate env s) pRect) Flags
  have hef := LockRect_lock_end_flags
    (LockRect_download env (LockRect_record env (LockRect_allocate env s) pRect) Flags).2 Flags
  have hlr : (LockRect_record env (LockRect_allocate env s) pRect).lockedRect =
      lockedRectOf s pRect := by
    rw [hrs.1, hak.2.1, hak.2.2.1]
    cases pRect <;> rfl
  rw [hr.1, ha.1, hr.2.2.2.1, haf.2.2, hlr, hrs.2.1, hrs.2.2.1, hak.2.1, hak.2.2.1] at hd
  have e : (IWineD3DSurfaceImpl_LockRect env s pRect Flags).2.2.Flags.INSYSMEM =
      (LockRect_download env (LockRect_record env (LockRect_allocate env s) pRect)
        Flags).2.Flags.INSYSMEM := by
    unfold IWineD3DSurfaceImpl_LockRect
    dsimp only
    split_ifs
    · rfl
    · exact hef.2.2.1
  rw [e]
  exact hd

/-- The test of LockRect for a lock of the whole surface, for LONG coordinates. -/
theorem lockedRectOf_full_iff (s : Surface) (pRect : Option RECT)
    (hw : s.Width < 2147483648) (hh : s.Height < 2147483648) (hrect : rectIsLong pRect) :
    ((lockedRectOf s pRect).left = 0 ∧ (lockedRectOf s pRect).top = 0 ∧
      longToU32 (lockedRectOf s pRect).right = s.Width ∧
      longToU32 (lockedRectOf s pRect).bottom = s.Height) ↔
    (pRect = none ∨ pRect = some ⟨0, 0, (s.Width : Int), (s.Height : Int)⟩) := by
  cases pRect with
  | none =>
    have e1 : longToU32 (s.Width : Int) = s.Width := by unfold longToU32; omega
    have e2 : longToU32 (s.Height : Int) = s.Height := by unfold longToU32; omega
    simp [lockedRectOf, e1, e2]
  | some r =>
    obtain ⟨l, t, rr, b⟩ := r
    have h1 := longToU32_eq_iff rr s.Width hrect.2.2.1 hw
    have h2 := longToU32_eq_iff b s.Height hrect.2.2.2 hh
    simp only [lockedRectOf, h1, h2, Option.some.injEq, RECT.mk.injEq, false_or,
      reduceCtorEq]

/-- C15, case by case: after LockRect followed by UnlockRect, SFLAG_INSYSMEM is set exactly
when the host copy was valid before the lock (flag set and buffer present), or the lock was
without DISCARD and either the surface is neither on a swapchain nor the primary render
target nor the depth stencil target, or it is a swapchain surface or the primary render
target locked on its whole rectangle (null, or (0, 0, Width, Height)) with render target
locking enabled.  In every other case the flag is not set.  The size and the rectangle are
LONG values, and a flush through the texture (RTL_READTEX, RTL_TEXTEX) is taken without
GL_APPLE_client_storage and with SFLAG_LOCKED part of SFLAG_DONOTFREE. -/
theorem LockRect_UnlockRect_host (env : Env) (This : Surface) (pRect : Option RECT)
    (Flags : LockFlags) (hw : This.Width < 2147483648) (hh : This.Height < 2147483648)
    (hrect : rectIsLong pRect)
    (hflush : (This.container = Container.swapchain ∨ env.isRenderTarget0 = true) →
      ((env.rendertargetlock_mode ≠ RTL.RTL_READTEX ∧
          env.rendertargetlock_mode ≠ RTL.RTL_TEXTEX) ∨
        (env.gl_info.APPLE_CLIENT_STORAGE = false ∧ env.SFLAG_DONOTFREE.LOCKED = true))) :
    (IWineD3DSurfaceImpl_LockRect env This pRect Flags).1 = HRESULT.WINED3D_OK ∧
    ((IWineD3DSurfaceImpl_UnlockRect env
        (IWineD3DSurfaceImpl_LockRect env This pRect Flags).2.2).2.Flags.INSYSMEM = true ↔
      ((This.Flags.INSYSMEM = true ∧ This.allocatedMemory ≠ 0) ∨
        (Flags.DISCARD = false ∧
          ((This.container ≠ Container.swapchain ∧ env.isRenderTarget0 = false ∧
              env.isStencilBufferTarget = false) ∨
            ((This.container = Container.swapchain ∨ env.isRenderTarget0 = true) ∧
              env.rendertargetlock_mode ≠ RTL.RTL_DISABLE ∧
              (pRect = none ∨
                pRect = some ⟨0, 0, (This.Width : Int), (This.Height : Int)⟩)))))) := by
  refine ⟨LockRect_status env This pRect Flags, ?_⟩
  have hL := LockRect_host_iff env This pRect Flags
  rw [lockedRectOf_full_iff This pRect hw hh hrect] at hL
  have c1 := LockRect_container env This pRect Flags
  have hU : (IWineD3DSurfaceImpl_UnlockRect env
      (IWineD3DSurfaceImpl_LockRect env This pRect Flags).2.2).2.Flags.INSYSMEM =
      (IWineD3DSurfaceImpl_LockRect env This pRect Flags).2.2.Flags.INSYSMEM := by
    by_cases hord : This.container ≠ Container.swapchain ∧ env.isRenderTarget0 = false
    · have hord1 : (IWineD3DSurfaceImpl_LockRect env This pRect Flags).2.2.container ≠
          Container.swapchain := by rw [c1]; exact hord.1
      exact (UnlockRect_ordinary env _ hord1 hord.2).2.2.1
    · have htar : This.container = Container.swapchain ∨ env.isRenderTarget0 = true := by
        by_cases h1 : This.container = Container.swapchain
        · exact Or.inl h1
        · cases h2 : env.isRenderTarget0
          · exact absurd ⟨h1, h2⟩ hord
          · exact Or.inr rfl
      have F := LockRect_target_fields env This pRect Flags htar
      exact (UnlockRect_fields env _ F.1).2.2.2.2 (hflush htar)
  rw [hU]
  exact hL

/-- C15, witness: a swapchain buffer whose content is in the drawable only, locked on its
whole rectangle and unlocked; and a swapchain buffer with a valid host copy, locked with
DISCARD on the rectangle (0, 0, 2, 2) and unlocked. -/
theorem LockRect_UnlockRect_host_witness :
    (IWineD3DSurfaceImpl_UnlockRect plainEnv
      (IWineD3DSurfaceImpl_LockRect plainEnv drawableSurface none {}).2.2).2.Flags.INSYSMEM =
      true ∧
    (IWineD3DSurfaceImpl_UnlockRect plainEnv
      (IWineD3DSurfaceImpl_LockRect plainEnv swapchainSurface (some ⟨0, 0, 2, 2⟩)
        { DISCARD := true }).2.2).2.Flags.INSYSMEM = true :=
  ⟨(LockRect_UnlockRect_host plainEnv drawableSurface none {} (by decide) (by decide)
      (by decide) (fun _ => Or.inl (by decide))).2.2
      (Or.inr ⟨rfl, Or.inr ⟨Or.inl rfl, by decide, Or.inl rfl⟩⟩),
    (LockRect_UnlockRect_host plainEnv swapchainSurface (some ⟨0, 0, 2, 2⟩) { DISCARD := true }
      (by decide) (by decide) (by decide) (fun _ => Or.inl (by decide))).2.2
      (Or.inl (by decide))⟩

/-- C15, counterexample: a swapchain buffer whose content is in the drawable only, locked for
writing on the rectangle (0, 0, 2, 2) and unlocked, both calls reporting WINED3D_OK:
SFLAG_INSYSMEM is not set, since only part of the surface was read back. -/
theorem LockRect_UnlockRect_host_counterexample :
    (IWineD3DSurfaceImpl_LockRect plainEnv drawableSurface (some ⟨0, 0, 2, 2⟩) {}).1 =
      HRESULT.WINED3D_OK ∧
    (IWineD3DSurfaceImpl_UnlockRect plainEnv
      (IWineD3DSurfaceImpl_LockRect plainEnv drawableSurface (some ⟨0, 0, 2, 2⟩) {}).2.2).1 =
      HRESULT.WINED3D_OK ∧
    (IWineD3DSurfaceImpl_UnlockRect plainEnv
      (IWineD3DSurfaceImpl_LockRect plainEnv drawableSurface
        (some ⟨0, 0, 2, 2⟩) {}).2.2).2.Flags.INSYSMEM = false := by
  refine ⟨by decide, by decide, by decide⟩

/-! ### Theorems about blits -/

theorem BltOverride_srcFull_iff (Src : Surface) (SrcRect : Option RECT)
    (hsw : Src.Width < 2147483648) (hsh : Src.Height < 2147483648) (hs : rectIsLong SrcRect) :
    BltOverride_srcFull Src SrcRect = true ↔
      (SrcRect = none ∨ SrcRect = some ⟨0, 0, (Src.Width : Int), (Src.Height : Int)⟩) := by
  cases SrcRect with
  | none => simp [BltOverride_srcFull]
  | some r =>
    obtain ⟨l, t, rr, b⟩ := r
    have e1 := longToU32_eq_iff rr Src.Width hs.2.2.1 hsw
    have e2 := longToU32_eq_iff b Src.Height hs.2.2.2 hsh
    simp only [BltOverride_srcFull, Bool.not_eq_true', Bool.or_eq_false_iff,
      bne_eq_false_iff_eq, e1, e2, false_or, Option.some.injEq, RECT.mk.injEq, reduceCtorEq]
    tauto

theorem BltFlags_onlyWait_iff (Flags : BltFlags) :
    Flags.onlyWait = true ↔
      (Flags.KEYDEST = false ∧ Flags.KEYDESTOVERRIDE = false ∧ Flags.KEYSRC = false ∧
        Flags.KEYSRCOVERRIDE = false ∧ Flags.COLORFILL = false ∧ Flags.OTHER = false) := by
  simp only [BltFlags.onlyWait, Bool.not_eq_true', Bool.or_eq_false_iff]
  tauto

theorem BltOverride_rect_long (This : Surface) (DestRect : Option RECT)
    (hw : This.Width < 2147483648) (hh : This.Height < 2147483648) (hd : rectIsLong DestRect) :
    (-2147483648 ≤ (BltOverride_rect This DestRect).x2 ∧
      (BltOverride_rect This DestRect).x2 < 2147483648) ∧
    (-2147483648 ≤ (BltOverride_rect This DestRect).y2 ∧
      (BltOverride_rect This DestRect).y2 < 2147483648) := by
  cases DestRect with
  | none => simp only [BltOverride_rect]; omega
  | some r => exact ⟨hd.2.2.1, hd.2.2.2⟩

theorem BltOverride_dstFull_iff (world : BltWorld) (This Src : Surface) (rect : WINED3DRECT)
    (hclip : This.clipperWindow = false)
    (hw : This.Width < 2147483648) (hh : This.Height < 2147483648)
    (hsw : Src.Width < 2147483648) (hsh : Src.Height < 2147483648)
    (hx : -2147483648 ≤ rect.x2 ∧ rect.x2 < 2147483648)
    (hy : -2147483648 ≤ rect.y2 ∧ rect.y2 < 2147483648) :
    (BltOverride_unstretched Src rect && BltOverride_dstFull world This rect) = true ↔
      ((rect.x2 - rect.x1 = (Src.Width : Int) ∧ rect.y2 - rect.y1 = (Src.Height : Int)) ∧
        rect = ⟨0, 0, (This.Width : Int), (This.Height : Int)⟩) := by
  obtain ⟨x1, y1, x2, y2⟩ := rect
  have e1 := longToU32_eq_iff x2 This.Width hx hw
  have e2 := longToU32_eq_iff y2 This.Height hy hh
  simp only [BltOverride_unstretched, BltOverride_dstFull, hclip, Bool.false_eq_true, if_false,
    toLong_of_lt _ hsw, toLong_of_lt _ hsh, Bool.and_eq_true, Bool.not_eq_true',
    Bool.or_eq_false_iff, bne_eq_false_iff_eq, e1, e2, WINED3DRECT.mk.injEq]
  constructor
  · rintro ⟨⟨hu1, hu2⟩, ⟨⟨hx1, hy1⟩, hx2⟩, hy2⟩
    subst hx1 hy1 hx2 hy2
    rw [Int.sub_zero, wrapLong_of_nat _ hw] at hu1
    rw [Int.sub_zero, wrapLong_of_nat _ hh] at hu2
    exact ⟨⟨by omega, by omega⟩, rfl, rfl, rfl, rfl⟩
  · rintro ⟨⟨hu1, hu2⟩, hx1, hy1, hx2, hy2⟩
    subst hx1 hy1 hx2 hy2
    rw [Int.sub_zero] at hu1 hu2
    refine ⟨⟨?_, ?_⟩, ⟨⟨rfl, rfl⟩, rfl⟩, rfl⟩
    · rw [Int.sub_zero, wrapLong_of_nat _ hw]; omega
    · rw [Int.sub_zero, wrapLong_of_nat _ hh]; omega

/-- The rectangle checks of the Present path say what the specification says, for surfaces
and rectangles whose sizes and coordinates are LONG values and a destination without clipper
window. -/
theorem BltOverride_canPresent_iff (world : BltWorld) (This Src : Surface)
    (DestRect SrcRect : Option RECT) (Flags : BltFlags)
    (hclip : This.clipperWindow = false)
    (hw : This.Width < 2147483648) (hh : This.Height < 2147483648)
    (hsw : Src.Width < 2147483648) (hsh : Src.Height < 2147483648)
    (hd : rectIsLong DestRect) (hs : rectIsLong SrcRect) :
    (BltOverride_canPresent world This Src (BltOverride_rect This DestRect) SrcRect &&
      Flags.onlyWait) = true ↔ presentConditions This Src DestRect SrcRect Flags := by
  have hrect := BltOverride_rect_long This DestRect hw hh hd
  have h1 := BltOverride_srcFull_iff Src SrcRect hsw hsh hs
  have h2 := BltOverride_dstFull_iff world This Src (BltOverride_rect This DestRect) hclip hw hh
    hsw hsh hrect.1 hrect.2
  have h3 := BltFlags_onlyWait_iff Flags
  have e : (BltOverride_canPresent world This Src (BltOverride_rect This DestRect) SrcRect &&
      Flags.onlyWait) =
      (BltOverride_srcFull Src SrcRect &&
        ((BltOverride_unstretched Src (BltOverride_rect This DestRect) &&
          BltOverride_dstFull world This (BltOverride_rect This DestRect)) &&
          Flags.onlyWait)) := by
    unfold BltOverride_canPresent
    simp only [Bool.and_assoc]
  rw [e, Bool.and_eq_true, Bool.and_eq_true, h1, h2, h3]
  unfold presentConditions
  cases DestRect with
  | none =>
    simp only [BltOverride_rect, Int.sub_zero, true_or, and_true, true_and]
  | some r =>
    obtain ⟨l, t, rr, b⟩ := r
    simp only [BltOverride_rect, WINED3DRECT.mk.injEq, Option.some.injEq, RECT.mk.injEq,
      false_or, reduceCtorEq]
    exact ⟨fun ⟨a, ⟨b, c⟩, d⟩ => ⟨a, b, c, d⟩, fun ⟨a, b, c, d⟩ => ⟨a, ⟨b, c⟩, d⟩⟩

/-- C18: with source and destination on the same swapchain, the swapchain having a back
buffer, the destination its front buffer (without clipper window) and the source
backBuffer[0]: when the source rectangle is null or the full source, the destination rectangle
has the source's size and is the full destination, and Flags holds nothing but WAIT and
DONOTWAIT, BltOverride issues exactly one Present (under the swap effect COPY), touches neither
surface, returns WINED3D_OK and leaves the swap effect as it was; when one of the conditions
fails it returns WINED3DERR_INVALIDCALL with no call made and nothing changed. -/
theorem BltOverride_flip_presents (world : BltWorld) (This S : Surface)
    (DestRect SrcRect : Option RECT) (Flags : BltFlags) (DDBltFx : WINEDDBLTFX)
    (hdst : This.container = Container.swapchain) (hsrc : S.container = Container.swapchain)
    (hsame : world.sameSwapchain = true) (hbb : world.hasBackBuffer = true)
    (hfront : world.dstIsFrontBuffer = true) (hback : world.srcIsBackBuffer0 = true)
    (hclip : This.clipperWindow = false)
    (hw : This.Width < 2147483648) (hh : This.Height < 2147483648)
    (hsw : S.Width < 2147483648) (hsh : S.Height < 2147483648)
    (hd : rectIsLong DestRect) (hs : rectIsLong SrcRect) :
    (presentConditions This S DestRect SrcRect Flags →
      IWineD3DSurfaceImpl_BltOverride world This DestRect (some S) SrcRect Flags DDBltFx =
        { hr := HRESULT.WINED3D_OK, This := This, Src := some S,
          SwapEffect := world.SwapEffect,
          calls := [DeviceCall.Present world.WINED3DSWAPEFFECT_COPY] }) ∧
    (¬ presentConditions This S DestRect SrcRect Flags →
      IWineD3DSurfaceImpl_BltOverride world This DestRect (some S) SrcRect Flags DDBltFx =
        { hr := HRESULT.WINED3DERR_INVALIDCALL, This := This, Src := some S,
          SwapEffect := world.SwapEffect, calls := [] }) := by
  have hiff := BltOverride_canPresent_iff world This S DestRect SrcRect Flags hclip hw hh hsw hsh
    hd hs
  have hT : This.onSwapchain = true := by simp [Surface.onSwapchain, hdst]
  have hS : S.onSwapchain = true := by simp [Surface.onSwapchain, hsrc]
  constructor
  · intro hc
    have hk : (Flags.KEYDEST || Flags.KEYDESTOVERRIDE) = false := by
      rw [hc.2.2.2.1, hc.2.2.2.2.1]; rfl
    simp only [IWineD3DSurfaceImpl_BltOverride, hT, hS, srcOnSwapchain, Bool.not_true,
      Bool.false_and, Bool.false_eq_true, if_false, hk, hsame, hbb, hfront, hback,
      Bool.and_self, if_true, BltOverride_flip, hiff.2 hc]
  · intro hc
    have hn : ¬ (BltOverride_canPresent world This S (BltOverride_rect This DestRect) SrcRect &&
        Flags.onlyWait) = true := fun h => hc (hiff.1 h)
    by_cases hk : (Flags.KEYDEST || Flags.KEYDESTOVERRIDE) = true
    · simp only [IWineD3DSurfaceImpl_BltOverride, hT, hS, srcOnSwapchain, Bool.not_true,
        Bool.false_and, Bool.false_eq_true, if_false, hk, if_true]
    · simp only [IWineD3DSurfaceImpl_BltOverride, hT, hS, srcOnSwapchain, Bool.not_true,
        Bool.false_and, Bool.false_eq_true, if_false, hk, hsame, hbb, hfront, hback,
        Bool.and_self, if_true, BltOverride_flip, hn]

/-- C18, witness: a blit of the whole back buffer onto the whole front buffer of the 4x4
swapchain with the flag WAIT presents; with a source rectangle (0, 0, 2, 2), and with a
destination rectangle (0, 0, 2, 2), it does not. -/
theorem BltOverride_flip_presents_witness :
    (IWineD3DSurfaceImpl_BltOverride flipWorld swapchainSurface none (some swapchainSurface)
      none { WAIT := true } {}).calls = [DeviceCall.Present 3] ∧
    (IWineD3DSurfaceImpl_BltOverride flipWorld swapchainSurface none (some swapchainSurface)
      (some ⟨0, 0, 2, 2⟩) { WAIT := true } {}).hr = HRESULT.WINED3DERR_INVALIDCALL ∧
    (IWineD3DSurfaceImpl_BltOverride flipWorld swapchainSurface (some ⟨0, 0, 2, 2⟩)
      (some swapchainSurface) none { WAIT := true } {}).hr = HRESULT.WINED3DERR_INVALIDCALL ∧
    (IWineD3DSurfaceImpl_BltOverride flipWorld swapchainSurface (some ⟨0, 0, 2, 2⟩)
      (some swapchainSurface) none { WAIT := true } {}).calls = [] := by
  have h1 := BltOverride_flip_presents flipWorld swapchainSurface swapchainSurface none none
    { WAIT := true } {} rfl rfl rfl rfl rfl rfl rfl (by decide) (by decide) (by decide)
    (by decide) (by decide) (by decide)
  have h2 := BltOverride_flip_presents flipWorld swapchainSurface swapchainSurface none
    (some ⟨0, 0, 2, 2⟩) { WAIT := true } {} rfl rfl rfl rfl rfl rfl rfl (by decide) (by decide)
    (by decide) (by decide) (by decide) (by decide)
  have h3 := BltOverride_flip_presents flipWorld swapchainSurface swapchainSurface
    (some ⟨0, 0, 2, 2⟩) none { WAIT := true } {} rfl rfl rfl rfl rfl rfl rfl (by decide)
    (by decide) (by decide) (by decide) (by decide) (by decide)
  exact ⟨by rw [h1.1 (by decide)]; rfl, by rw [h2.2 (by decide)], by rw [h3.2 (by decide)],
    by rw [h3.2 (by decide)]⟩

theorem BltOverride_fillTarget_iff (world : BltWorld) (This : Surface) :
    BltOverride_fillTarget world This = true ↔
      ((This.container = Container.swapchain ∧ world.hasBackBuffer = true ∧
          world.dstIsBackBuffer0 = true) ∨
        (This.container = Container.swapchain ∧ world.dstIsFrontBuffer = true) ∨
        world.dst.isRenderTarget0 = true) := by
  simp only [BltOverride_fillTarget, Surface.onSwapchain, Bool.or_eq_true, Bool.and_eq_true,
    decide_eq_true_eq, or_assoc, and_assoc]

/-- C20, case by case: a source-less BltOverride with COLORFILL and without KEYDEST and
KEYDESTOVERRIDE.  On a destination that is backBuffer[0] of its swapchain, its front buffer or
render_targets[0], for the formats P8, R5G6B5, R8G8B8, X8R8G8B8 and A8R8G8B8 it returns
WINED3D_OK and issues exactly one Clear, of one rectangle, the destination rectangle (the full
surface only for a null DestRect), with the colour 0xFFFFFFFF for R5G6B5 and c = 0xFFFF,
0xFF000000 | (c & 0xF800) << 8 | (c & 0x07E0) << 5 | (c & 0x001F) << 3 for another R5G6B5
value, 0xFF000000 | c for R8G8B8 and X8R8G8B8, c for A8R8G8B8, and for P8
0xFF000000 | red << 16 | green << 8 | blue of palette entry c < 256 (0xFF000000 without
palette).  For every other format, on every destination, it returns WINED3DERR_INVALIDCALL
and issues no call.  On every other destination, whatever the format, it returns
WINED3DERR_INVALIDCALL and issues no call. -/
theorem BltOverride_colorfill_clear (world : BltWorld) (This : Surface)
    (DestRect SrcRect : Option RECT) (Flags : BltFlags) (DDBltFx : WINEDDBLTFX)
    (hfill : Flags.COLORFILL = true) (hkd : Flags.KEYDEST = false)
    (hkdo : Flags.KEYDESTOVERRIDE = false) :
    (((This.container = Container.swapchain ∧ world.hasBackBuffer = true ∧
          world.dstIsBackBuffer0 = true) ∨
        (This.container = Container.swapchain ∧ world.dstIsFrontBuffer = true) ∨
        world.dst.isRenderTarget0 = true) →
      ∀ color : Nat,
      ((This.format = WINED3DFORMAT.R5G6B5 ∧ DDBltFx.dwFillColor = 65535 ∧ color = 4294967295) ∨
       (This.format = WINED3DFORMAT.R5G6B5 ∧ DDBltFx.dwFillColor ≠ 65535 ∧
          color = (4278190080 ||| ((DDBltFx.dwFillColor &&& 63488) <<< 8) |||
            ((DDBltFx.dwFillColor &&& 2016) <<< 5) ||| ((DDBltFx.dwFillColor &&& 31) <<< 3))) ∨
       ((This.format = WINED3DFORMAT.R8G8B8 ∨ This.format = WINED3DFORMAT.X8R8G8B8) ∧
          color = (4278190080 ||| DDBltFx.dwFillColor)) ∨
       (This.format = WINED3DFORMAT.A8R8G8B8 ∧ color = DDBltFx.dwFillColor) ∨
       (This.format = WINED3DFORMAT.P8 ∧ This.palette = none ∧ color = 4278190080) ∨
       (This.format = WINED3DFORMAT.P8 ∧ ∃ (pal : Palette) (hc : DDBltFx.dwFillColor < 256),
          This.palette = some pal ∧
          color = (4278190080 ||| ((pal ⟨DDBltFx.dwFillColor, hc⟩).peRed.val <<< 16) |||
            ((pal ⟨DDBltFx.dwFillColor, hc⟩).peGreen.val <<< 8) |||
            (pal ⟨DDBltFx.dwFillColor, hc⟩).peBlue.val))) →
      IWineD3DSurfaceImpl_BltOverride world This DestRect none SrcRect Flags DDBltFx =
        { hr := HRESULT.WINED3D_OK, This := This, Src := none, SwapEffect := world.SwapEffect,
          calls := [DeviceCall.Clear 1
            (match DestRect with
              | some r => { x1 := r.left, y1 := r.top, x2 := r.right, y2 := r.bottom }
              | none => { x1 := 0, y1 := 0, x2 := (This.Width : Int), y2 := (This.Height : Int) })
            color] }) ∧
    (This.format ≠ WINED3DFORMAT.P8 → This.format ≠ WINED3DFORMAT.R5G6B5 →
      This.format ≠ WINED3DFORMAT.R8G8B8 → This.format ≠ WINED3DFORMAT.X8R8G8B8 →
      This.format ≠ WINED3DFORMAT.A8R8G8B8 →
      IWineD3DSurfaceImpl_BltOverride world This DestRect none SrcRect Flags DDBltFx =
        { hr := HRESULT.WINED3DERR_INVALIDCALL, This := This, Src := none,
          SwapEffect := world.SwapEffect, calls := [] }) ∧
    (¬ ((This.container = Container.swapchain ∧ world.hasBackBuffer = true ∧
          world.dstIsBackBuffer0 = true) ∨
        (This.container = Container.swapchain ∧ world.dstIsFrontBuffer = true) ∨
        world.dst.isRenderTarget0 = true) →
      IWineD3DSurfaceImpl_BltOverride world This DestRect none SrcRect Flags DDBltFx =
        { hr := HRESULT.WINED3DERR_INVALIDCALL, This := This, Src := none,
          SwapEffect := world.SwapEffect, calls := [] }) := by
  have hk : (Flags.KEYDEST || Flags.KEYDESTOVERRIDE) = false := by rw [hkd, hkdo]; rfl
  have hrect : BltOverride_rect This DestRect =
      (match DestRect with
        | some r => { x1 := r.left, y1 := r.top, x2 := r.right, y2 := r.bottom }
        | none => { x1 := 0, y1 := 0, x2 := (This.Width : Int), y2 := (This.Height : Int) }) := rfl
  have hrun : IWineD3DSurfaceImpl_BltOverride world This DestRect none SrcRect Flags DDBltFx =
      if (!This.onSwapchain && !srcOnSwapchain none && !srcIsRenderTarget0 world none &&
        !world.dst.isRenderTarget0) = true then
        { hr := HRESULT.WINED3DERR_INVALIDCALL, This := This, Src := none,
          SwapEffect := world.SwapEffect, calls := [] }
      else BltOverride_colorfill world This (BltOverride_rect This DestRect) Flags DDBltFx := by
    unfold IWineD3DSurfaceImpl_BltOverride
    rw [hk]
    simp only [Bool.false_eq_true, if_false]
  have hfail : ∀ (h : BltOverride_fillColor This DDBltFx.dwFillColor = none ∨
        BltOverride_fillTarget world This = false),
      BltOverride_colorfill world This (BltOverride_rect This DestRect) Flags DDBltFx =
        { hr := HRESULT.WINED3DERR_INVALIDCALL, This := This, Src := none,
          SwapEffect := world.SwapEffect, calls := [] } := by
    intro h
    unfold BltOverride_colorfill
    rw [hfill, if_pos rfl]
    rcases h with h | h
    · rw [h]
    · rw [h]
      cases BltOverride_fillColor This DDBltFx.dwFillColor <;> rfl
  refine ⟨?_, ?_, ?_⟩
  · intro htgt color hc
    have htar := (BltOverride_fillTarget_iff world This).2 htgt
    have hearly : (!This.onSwapchain && !srcOnSwapchain none && !srcIsRenderTarget0 world none &&
        !world.dst.isRenderTarget0) = false := by
      unfold BltOverride_fillTarget at htar
      cases h1 : This.onSwapchain <;> cases h2 : world.dst.isRenderTarget0 <;>
        simp [h1, h2] at htar ⊢
    have hcol : BltOverride_fillColor This DDBltFx.dwFillColor = some color := by
      unfold BltOverride_fillColor
      rcases hc with ⟨hf, h1, h2⟩ | ⟨hf, h1, h2⟩ | ⟨hf, h2⟩ | ⟨hf, h2⟩ | ⟨hf, h1, h2⟩ |
        ⟨hf, pal, hlt, h1, h2⟩
      · simp [hf, h1, h2]
      · simp [hf, h1, h2]
      · rcases hf with hf | hf <;> simp [hf, h2]
      · simp [hf, h2]
      · simp [hf, h1, h2]
      · have hb : toBYTE DDBltFx.dwFillColor = ⟨DDBltFx.dwFillColor, hlt⟩ := by
          apply Fin.ext
          simp only [toBYTE]
          omega
        simp [hf, h1, h2, hb]
    rw [hrun, hearly, ← hrect]
    simp only [Bool.false_eq_true, if_false, BltOverride_colorfill, hfill, if_true, hcol, htar]
  · intro h1 h2 h3 h4 h5
    have hcol : BltOverride_fillColor This DDBltFx.dwFillColor = none := by
      simp [BltOverride_fillColor, h1, h2, h3, h4, h5]
    rw [hrun, hfail (Or.inl hcol)]
    split_ifs <;> rfl
  · intro hnt
    have htar : BltOverride_fillTarget world This = false := by
      cases h : BltOverride_fillTarget world This
      · rfl
      · exact absurd ((BltOverride_fillTarget_iff world This).1 h) hnt
    rw [hrun, hfail (Or.inr htar)]
    split_ifs <;> rfl

/-- C20, witness: a fill of the rectangle (1, 1, 3, 2) of the first back buffer, an A8R8G8B8
surface, with the colour 0x00FF00. -/
theorem BltOverride_colorfill_clear_witness :
    IWineD3DSurfaceImpl_BltOverride backBufferWorld swapchainSurface (some ⟨1, 1, 3, 2⟩) none
        none { COLORFILL := true } { dwFillColor := 65280 } =
      { hr := HRESULT.WINED3D_OK, This := swapchainSurface, Src := none, SwapEffect := 1,
        calls := [DeviceCall.Clear 1 ⟨1, 1, 3, 2⟩ 65280] } :=
  (BltOverride_colorfill_clear backBufferWorld swapchainSurface (some ⟨1, 1, 3, 2⟩) none
    { COLORFILL := true } { dwFillColor := 65280 } rfl rfl rfl).1 (Or.inl ⟨rfl, rfl, rfl⟩) 65280
    (Or.inr (Or.inr (Or.inr (Or.inl ⟨rfl, rfl⟩))))

/-- C20, counterexample: the same fill on a higher back buffer of the swapchain, a render
target of a format the fill handles: BltOverride returns WINED3DERR_INVALIDCALL and issues no
Clear. -/
theorem BltOverride_colorfill_counterexample :
    swapchainSurface.format = WINED3DFORMAT.A8R8G8B8 ∧
    (IWineD3DSurfaceImpl_BltOverride higherBackBufferWorld swapchainSurface
      (some ⟨1, 1, 3, 2⟩) none none { COLORFILL := true } { dwFillColor := 65280 }).hr =
      HRESULT.WINED3DERR_INVALIDCALL ∧
    (IWineD3DSurfaceImpl_BltOverride higherBackBufferWorld swapchainSurface
      (some ⟨1, 1, 3, 2⟩) none none { COLORFILL := true } { dwFillColor := 65280 }).calls = [] := by
  refine ⟨rfl, by decide, by decide⟩

/-! ### The location flags and the host buffer -/

theorem hostValid_of_preloaded {env : Env} {s t : Surface} (h : s.preloaded env t)
    (hs : s.hostValid) : t.hostValid := by
  intro ht
  obtain ⟨h1, h2⟩ := h.2.1 ht
  rw [h2]
  exact hs h1

/-- Where GL_APPLE_client_storage is not supported, the load sets the texture flag and it
stays set. -/
theorem LoadTexture_load_INTEXTURE (env : Env) (t : Surface)
    (hA : env.gl_info.APPLE_CLIENT_STORAGE = false) :
    (LoadTexture_load env t).2.Flags.INTEXTURE = true := by
  have h1 := ((LoadTexture_fromDrawable_loaded env
    { t with Flags := { t.Flags with INTEXTURE := true } }).2.2.2.2 hA).2.2.1 rfl
  have h2 := fun conv => ((LoadTexture_fromSysmem_loaded env
    { t with Flags := { t.Flags with INTEXTURE := true } } conv).2.2.2.2 hA).2.2.1 rfl
  unfold LoadTexture_load
  dsimp only
  split_ifs
  · rfl
  · exact h1
  · exact h2 _

theorem LoadTexture_hasLocation (env : Env) (s : Surface)
    (hA : env.gl_info.APPLE_CLIENT_STORAGE = false) (h : s.hasLocation) :
    (IWineD3DSurfaceImpl_LoadTexture env s).2.hasLocation := by
  unfold IWineD3DSurfaceImpl_LoadTexture
  rw [LoadTexture_needsReload_eq]
  dsimp only
  split_ifs <;> first
    | exact Or.inr (Or.inl (LoadTexture_load_INTEXTURE env _ hA))
    | exact h

theorem SetMem_hasLocation (env : Env) (s : Surface) (Mem : Nat) (hC : s.Flags.CLIENT = false)
    (h : s.hasLocation) : (IWineD3DSurfaceImpl_SetMem env s Mem).2.hasLocation := by
  unfold IWineD3DSurfaceImpl_SetMem SetMem_replace SetMem_release
  dsimp only
  split_ifs <;> first
    | exact h
    | exact Or.inl rfl
    | simp_all

theorem SetMem_hostValid (env : Env) (s : Surface) (Mem : Nat)
    (hm : (Mem ≠ 0 ∧ Mem ≠ s.allocatedMemory) ∨ s.Flags.USERPTR = false)
    (h : s.hostValid) : (IWineD3DSurfaceImpl_SetMem env s Mem).2.hostValid := by
  have hrep : Mem ≠ 0 → (SetMem_replace env s Mem).hostValid := by
    intro hM
    unfold SetMem_replace
    dsimp only
    split_ifs
    · exact hostValid_of_preloaded (PreLoad_preloaded env _) (fun _ => hM)
    · exact fun _ => hM
    · exact hostValid_of_preloaded (PreLoad_preloaded env _) (fun _ => hM)
    · exact fun _ => hM
  unfold IWineD3DSurfaceImpl_SetMem
  split_ifs with h1 h2 h3 h4
  · exact h
  · exact h
  · exact hrep h3.1
  · rcases hm with hm | hm
    · exact absurd hm h3
    · rw [hm] at h4; exact absurd h4 (by decide)
  · exact h

theorem BltOverride_textureCurrent_INTEXTURE (world : BltWorld) (t : Surface) :
    (BltOverride_textureCurrent world t).Flags.INTEXTURE = true := by
  unfold BltOverride_textureCurrent
  rfl

theorem BltOverride_textureCurrent_hostValid (world : BltWorld) (t : Surface)
    (h : t.Flags.anyOf world.dst.SFLAG_DONOTFREE = true) :
    (BltOverride_textureCurrent world t).hostValid := by
  unfold BltOverride_textureCurrent
  simp only [h, Bool.not_true, Bool.false_eq_true, if_false]
  intro hi
  simp at hi

theorem BltOverride_drawableCurrent_hasLocation (world : BltWorld) (t : Surface) :
    (BltOverride_drawableCurrent world t).hasLocation := by
  unfold BltOverride_drawableCurrent
  dsimp only
  split_ifs
  · exact Or.inr (Or.inr rfl)
  · exact Or.inr (Or.inl rfl)

theorem BltOverride_fromTarget_This (world : BltWorld) (This S : Surface) (rect : WINED3DRECT)
    (SrcRect : Option RECT) (Flags : BltFlags) :
    (BltOverride_fromTarget world This S rect SrcRect Flags).This = This ∨
    (BltOverride_fromTarget world This S rect SrcRect Flags).This =
      BltOverride_textureCurrent world (IWineD3DSurfaceImpl_PreLoad world.dst This) := by
  unfold BltOverride_fromTarget
  dsimp only
  split_ifs <;> first | exact Or.inl rfl | exact Or.inr rfl

theorem BltOverride_toTarget_hasLocation (world : BltWorld) (This S : Surface)
    (rect : WINED3DRECT) (SrcRect : Option RECT) (Flags : BltFlags) (DDBltFx : WINEDDBLTFX)
    (h : This.hasLocation) :
    (BltOverride_toTarget world This S rect SrcRect Flags DDBltFx).This.hasLocation := by
  unfold BltOverride_toTarget
  dsimp only
  split_ifs <;> first
    | exact h
    | exact BltOverride_drawableCurrent_hasLocation world _

theorem BltOverride_hasLocation (world : BltWorld) (This : Surface) (DestRect : Option RECT)
    (Src : Option Surface) (SrcRect : Option RECT) (Flags : BltFlags) (DDBltFx : WINEDDBLTFX)
    (h : This.hasLocation) :
    (IWineD3DSurfaceImpl_BltOverride world This DestRect Src SrcRect Flags DDBltFx).This.hasLocation := by
  have hft : ∀ S rect, (BltOverride_fromTarget world This S rect SrcRect Flags).This.hasLocation := by
    intro S rect
    rcases BltOverride_fromTarget_This world This S rect SrcRect Flags with e | e
    · rw [e]; exact h
    · rw [e]; exact Or.inr (Or.inl (BltOverride_textureCurrent_INTEXTURE world _))
  have hfl : ∀ S rect, (BltOverride_flip world This S rect SrcRect Flags).This = This := by
    intro S rect
    unfold BltOverride_flip
    split_ifs <;> rfl
  have hcf : ∀ rect, (BltOverride_colorfill world This rect Flags DDBltFx).This = This := by
    intro rect
    unfold BltOverride_colorfill
    cases BltOverride_fillColor This DDBltFx.dwFillColor with
    | none => dsimp only; split_ifs <;> rfl
    | some c => dsimp only; split_ifs <;> rfl
  unfold IWineD3DSurfaceImpl_BltOverride
  dsimp only
  cases Src with
  | none =>
    dsimp only
    split_ifs
    · exact h
    · exact h
    · rw [hcf]; exact h
  | some S =>
    dsimp only
    split_ifs
    · exact h
    · exact h
    · rw [hfl]; exact h
    · exact h
    · exact hft _ _
    · exact BltOverride_toTarget_hasLocation world This S _ SrcRect Flags DDBltFx h

/-- C12, for the operations and states it holds for.  Started with a valid location,
UnlockRect ends with one, and so does the destination of BltOverride; AddDirtyRect,
SetGlTextureDesc and RealizePalette end with one when the host copy is valid at the start
(they only clear the texture and drawable flags); LockRect ends with one when the host copy is
valid and present at the start, or on a surface that is neither on a swapchain nor
render_targets[0] nor the depth stencil target when the lock does not discard; LoadTexture
ends with one where GL_APPLE_client_storage is not supported; SetMem ends with one on a
surface without SFLAG_CLIENT. -/
theorem hasLocation_kept (env : Env) (world : BltWorld) (This : Surface)
    (pDirtyRect pRect DestRect SrcRect : Option RECT) (textureName Mem : Nat)
    (Flags : LockFlags) (bltFlags : BltFlags) (Src : Option Surface) (DDBltFx : WINEDDBLTFX)
    (h : This.hasLocation) :
    (IWineD3DSurfaceImpl_UnlockRect env This).2.hasLocation ∧
    (IWineD3DSurfaceImpl_BltOverride world This DestRect Src SrcRect bltFlags
      DDBltFx).This.hasLocation ∧
    (This.Flags.INSYSMEM = true →
      (IWineD3DSurfaceImpl_AddDirtyRect This pDirtyRect).2.hasLocation ∧
      (IWineD3DSurfaceImpl_SetGlTextureDesc This textureName).hasLocation ∧
      (IWineD3DSurfaceImpl_RealizePalette This).2.hasLocation) ∧
    ((This.Flags.INSYSMEM = true ∧ This.allocatedMemory ≠ 0) ∨
        (This.container ≠ Container.swapchain ∧ env.isRenderTarget0 = false ∧
          env.isStencilBufferTarget = false ∧ Flags.DISCARD = false) →
      (IWineD3DSurfaceImpl_LockRect env This pRect Flags).2.2.hasLocation) ∧
    (env.gl_info.APPLE_CLIENT_STORAGE = false →
      (IWineD3DSurfaceImpl_LoadTexture env This).2.hasLocation) ∧
    (This.Flags.CLIENT = false → (IWineD3DSurfaceImpl_SetMem env This Mem).2.hasLocation) := by
  refine ⟨UnlockRect_hasLocation env This h,
    BltOverride_hasLocation world This DestRect Src SrcRect bltFlags DDBltFx h, ?_, ?_,
    fun hA => LoadTexture_hasLocation env This hA h,
    fun hC => SetMem_hasLocation env This Mem hC h⟩
  · intro hi
    refine ⟨?_, ?_, ?_⟩
    · unfold IWineD3DSurfaceImpl_AddDirtyRect
      cases pDirtyRect <;> exact Or.inl hi
    · unfold IWineD3DSurfaceImpl_SetGlTextureDesc IWineD3DSurfaceImpl_AddDirtyRect
      dsimp only
      split_ifs <;> exact Or.inl hi
    · unfold IWineD3DSurfaceImpl_RealizePalette
      split_ifs <;> exact Or.inl hi
  · rintro (⟨hi, hm⟩ | ⟨hord, hrt, hs, hd⟩)
    · exact Or.inl (LockRect_host_kept env This pRect Flags hi hm).1
    · exact Or.inl (LockRect_ordinary_host env This pRect Flags hord hrt hs hd)

/-- C12, witness: the 4x4 managed surface, whose host copy is valid. -/
theorem hasLocation_kept_witness :
    (IWineD3DSurfaceImpl_UnlockRect plainEnv plainSurface).2.hasLocation ∧
    (IWineD3DSurfaceImpl_AddDirtyRect plainSurface none).2.hasLocation ∧
    (IWineD3DSurfaceImpl_LoadTexture plainEnv plainSurface).2.hasLocation := by
  have h := hasLocation_kept plainEnv flipWorld plainSurface none none none none 0 0 {} {} none
    {} (by decide)
  exact ⟨h.1, (h.2.2.1 rfl).1, h.2.2.2.2.1 rfl⟩

/-- C12, counterexample: on the surface whose only valid location is the texture,
AddDirtyRect, and LockRect with DISCARD, end with no valid location at all. -/
theorem hasLocation_counterexample :
    textureOnlySurface.hasLocation ∧
    ¬ (IWineD3DSurfaceImpl_AddDirtyRect textureOnlySurface none).2.hasLocation ∧
    ¬ (IWineD3DSurfaceImpl_LockRect plainEnv textureOnlySurface none
        { DISCARD := true }).2.2.hasLocation := by
  refine ⟨by decide, by decide, by decide⟩

/-- The choice between the two copy paths in the terms of the code: the differences are taken
with 32-bit wrap-around and compared with the sizes as unsigned values. -/
theorem BltOverride_fromTarget_paths (world : BltWorld) (This S : Surface) (rect : WINED3DRECT)
    (SrcRect : Option RECT) (Flags : BltFlags)
    (hk : Flags.KEYSRC = false ∧ Flags.KEYSRCOVERRIDE = false)
    (hfbo : ¬ (world.dst.offscreen_rendering_mode = ORM.ORM_FBO ∧
      world.dst.gl_info.EXT_FRAMEBUFFER_BLIT = true)) :
    (((wrapLong ((BltOverride_drect rect).x2 - (BltOverride_drect rect).x1) =
          wrapLong ((BltOverride_srect S SrcRect).1.x2 - (BltOverride_srect S SrcRect).1.x1)) ∨
        longToU32 ((BltOverride_drect rect).x2 - (BltOverride_drect rect).x1) > S.Width ∨
        longToU32 ((BltOverride_drect rect).y2 - (BltOverride_drect rect).y1) > S.Height) ↔
      (BltOverride_fromTarget world This S rect SrcRect Flags).calls =
        [DeviceCall.fb_copy_to_texture_direct (BltOverride_srect S SrcRect).1
          (BltOverride_drect rect) (BltOverride_upsideDown S rect SrcRect)]) ∧
    (((wrapLong ((BltOverride_drect rect).x2 - (BltOverride_drect rect).x1) ≠
          wrapLong ((BltOverride_srect S SrcRect).1.x2 - (BltOverride_srect S SrcRect).1.x1)) ∧
        longToU32 ((BltOverride_drect rect).x2 - (BltOverride_drect rect).x1) ≤ S.Width ∧
        longToU32 ((BltOverride_drect rect).y2 - (BltOverride_drect rect).y1) ≤ S.Height) ↔
      (BltOverride_fromTarget world This S rect SrcRect Flags).calls =
        [DeviceCall.fb_copy_to_texture_hwstretch (BltOverride_srect S SrcRect).1
          (BltOverride_drect rect) (BltOverride_upsideDown S rect SrcRect)]) := by
  have hkk : (Flags.KEYSRC || Flags.KEYSRCOVERRIDE) = false := by rw [hk.1, hk.2]; rfl
  have hdir : BltOverride_copyIsDirect S (BltOverride_srect S SrcRect).1 (BltOverride_drect rect)
      = true ↔
      ((wrapLong ((BltOverride_drect rect).x2 - (BltOverride_drect rect).x1) =
          wrapLong ((BltOverride_srect S SrcRect).1.x2 - (BltOverride_srect S SrcRect).1.x1)) ∨
        longToU32 ((BltOverride_drect rect).x2 - (BltOverride_drect rect).x1) > S.Width ∨
        longToU32 ((BltOverride_drect rect).y2 - (BltOverride_drect rect).y1) > S.Height) := by
    simp only [BltOverride_copyIsDirect, BltOverride_stretchx, Bool.or_eq_true,
      Bool.not_eq_true', bne_eq_false_iff_eq, decide_eq_true_eq, or_assoc]
  by_cases hd : BltOverride_copyIsDirect S (BltOverride_srect S SrcRect).1 (BltOverride_drect rect)
      = true
  · have h1 := hdir.1 hd
    have hc : (BltOverride_fromTarget world This S rect SrcRect Flags).calls =
        [DeviceCall.fb_copy_to_texture_direct (BltOverride_srect S SrcRect).1
          (BltOverride_drect rect) (BltOverride_upsideDown S rect SrcRect)] := by
      simp only [BltOverride_fromTarget, hkk, Bool.false_eq_true, if_false, hfbo, hd, if_true]
    rw [hc]
    refine ⟨iff_of_true h1 rfl, iff_of_false (fun h => ?_) (by simp)⟩
    rcases h1 with h1 | h1 | h1
    · exact h.1 h1
    · exact absurd h.2.1 (by omega)
    · exact absurd h.2.2 (by omega)
  · have h1 := mt hdir.2 hd
    have hc : (BltOverride_fromTarget world This S rect SrcRect Flags).calls =
        [DeviceCall.fb_copy_to_texture_hwstretch (BltOverride_srect S SrcRect).1
          (BltOverride_drect rect) (BltOverride_upsideDown S rect SrcRect)] := by
      simp only [BltOverride_fromTarget, hkk, Bool.false_eq_true, if_false, hfbo, hd]
    rw [hc]
    simp only [not_or] at h1
    exact ⟨iff_of_false (fun h => by tauto) (by simp),
      iff_of_true ⟨h1.1, by omega, by omega⟩ rfl⟩

/-- C23, as the code has it: in the blit from a render target to a texture without colour key
flags, when the framebuffer blit is not used, for a destination rectangle (x1, y1, x2, y2) of
width dw = |x2 - x1| and height dh = y2 - y1 and a source rectangle of width sw
(right - left, or the width of the source surface for a null SrcRect), all three within the
range of a LONG: fb_copy_to_texture_direct is called exactly when dw = sw, or dw exceeds the
width of the source surface, or dh exceeds the height of the source surface, or dh is negative
and dh + 2^32 exceeds the height of the source surface (the height is compared as an unsigned
32-bit value); fb_copy_to_texture_hwstretch is called exactly in the remaining case: dw differs
from sw, dw is at most the width of the source surface, dh is at most its height, and dh is
not negative or dh + 2^32 is at most that height. -/
theorem BltOverride_fromTarget_copy (world : BltWorld) (This S : Surface) (rect : WINED3DRECT)
    (SrcRect : Option RECT) (Flags : BltFlags) (dw dh sw : Int)
    (hk : Flags.KEYSRC = false ∧ Flags.KEYSRCOVERRIDE = false)
    (hfbo : ¬ (world.dst.offscreen_rendering_mode = ORM.ORM_FBO ∧
      world.dst.gl_info.EXT_FRAMEBUFFER_BLIT = true))
    (hdw : dw = |rect.x2 - rect.x1|) (hdh : dh = rect.y2 - rect.y1)
    (hsw : sw = match SrcRect with
      | some r => r.right - r.left
      | none => (S.Width : Int))
    (hrange : dw < 2147483648 ∧ (-2147483648 ≤ dh ∧ dh < 2147483648) ∧
      (-2147483648 ≤ sw ∧ sw < 2147483648)) :
    ((dw = sw ∨ dw > (S.Width : Int) ∨ dh > (S.Height : Int) ∨
        (dh < 0 ∧ dh + 4294967296 > (S.Height : Int))) ↔
      ∃ (s d : WINED3DRECT) (u : Bool),
        (BltOverride_fromTarget world This S rect SrcRect Flags).calls =
          [DeviceCall.fb_copy_to_texture_direct s d u]) ∧
    ((dw ≠ sw ∧ dw ≤ (S.Width : Int) ∧ dh ≤ (S.Height : Int) ∧
        (0 ≤ dh ∨ dh + 4294967296 ≤ (S.Height : Int))) ↔
      ∃ (s d : WINED3DRECT) (u : Bool),
        (BltOverride_fromTarget world This S rect SrcRect Flags).calls =
          [DeviceCall.fb_copy_to_texture_hwstretch s d u]) := by
  have key := BltOverride_fromTarget_paths world This S rect SrcRect Flags hk hfbo
  have e1 : (BltOverride_drect rect).x2 - (BltOverride_drect rect).x1 = dw := by
    unfold BltOverride_drect
    rw [hdw]
    split_ifs with h
    · have h0 : rect.x2 - rect.x1 < 0 := by omega
      rw [abs_of_neg h0]
      simp only
      omega
    · have h0 : 0 ≤ rect.x2 - rect.x1 := by omega
      rw [abs_of_nonneg h0]
  have e2 : (BltOverride_drect rect).y2 - (BltOverride_drect rect).y1 = dh := by
    unfold BltOverride_drect
    rw [hdh]
    split_ifs <;> rfl
  have e3 : (BltOverride_srect S SrcRect).1.x2 - (BltOverride_srect S SrcRect).1.x1 = sw := by
    rw [hsw]
    cases SrcRect with
    | none => simp only [BltOverride_srect, Int.sub_zero]
    | some r =>
      simp only [BltOverride_srect]
      split_ifs <;> rfl
  have hdw0 : 0 ≤ dw := by
    rw [hdw]
    exact abs_nonneg _
  rw [e1, e2, e3, wrapLong_of_range dw ⟨by omega, hrange.1⟩, wrapLong_of_range sw hrange.2.2]
    at key
  have e4 := longToU32_of_range dw ⟨hdw0, by omega⟩
  have e5 : (0 ≤ dh ∧ ((longToU32 dh : Nat) : Int) = dh) ∨
      (dh < 0 ∧ ((longToU32 dh : Nat) : Int) = dh + 4294967296) := by
    unfold longToU32
    omega
  obtain ⟨k1, k2⟩ := key
  by_cases hA : dw = sw ∨ longToU32 dw > S.Width ∨ longToU32 dh > S.Height
  · have hc := k1.1 hA
    refine ⟨iff_of_true ?_ ⟨_, _, _, hc⟩, iff_of_false ?_ ?_⟩
    · omega
    · omega
    · rintro ⟨s, d, u, h⟩
      rw [hc] at h
      cases h
  · have hc := k2.1 (by omega)
    refine ⟨iff_of_false ?_ ?_, iff_of_true ?_ ⟨_, _, _, hc⟩⟩
    · omega
    · rintro ⟨s, d, u, h⟩
      rw [hc] at h
      cases h
    · omega

/-- C23, witness: an unscaled copy of the 4x4 swapchain buffer into the 8x8 texture goes the
direct way, and so does a copy of its rectangle (0, 0, 2, 2) onto the destination rectangle
(0, 2, 4, 0), whose height 0 - 2 is negative. -/
theorem BltOverride_fromTarget_copy_witness :
    (∃ (s d : WINED3DRECT) (u : Bool),
      (BltOverride_fromTarget flipWorld wideTextureSurface swapchainSurface ⟨0, 0, 4, 4⟩ none
        {}).calls = [DeviceCall.fb_copy_to_texture_direct s d u]) ∧
    (∃ (s d : WINED3DRECT) (u : Bool),
      (BltOverride_fromTarget flipWorld wideTextureSurface swapchainSurface ⟨0, 2, 4, 0⟩
        (some ⟨0, 0, 2, 2⟩) {}).calls = [DeviceCall.fb_copy_to_texture_direct s d u]) :=
  ⟨(BltOverride_fromTarget_copy flipWorld wideTextureSurface swapchainSurface ⟨0, 0, 4, 4⟩ none {}
      4 4 4 ⟨rfl, rfl⟩ (by decide) (by decide) (by decide) (by decide) (by decide)).1.1
      (Or.inl rfl),
    (BltOverride_fromTarget_copy flipWorld wideTextureSurface swapchainSurface ⟨0, 2, 4, 0⟩
      (some ⟨0, 0, 2, 2⟩) {} 4 (-2) 2 ⟨rfl, rfl⟩ (by decide) (by decide) (by decide)
      (by decide) (by decide)).1.1 (Or.inr (Or.inr (Or.inr (by decide))))⟩

/-- C23, counterexample: without framebuffer blit, a copy of the rectangle (0, 0, 2, 2) of the
4x4 swapchain buffer onto the rectangle (0, 0, 8, 2) of the 8x8 texture scales the width from
2 to 8, and the code calls fb_copy_to_texture_direct, not fb_copy_to_texture_hwstretch, since
the destination rectangle is wider than the source surface. -/
theorem BltOverride_fromTarget_copy_counterexample :
    (flipWorld.dst.offscreen_rendering_mode ≠ ORM.ORM_FBO) ∧
    (IWineD3DSurfaceImpl_BltOverride flipWorld wideTextureSurface (some ⟨0, 0, 8, 2⟩)
      (some swapchainSurface) (some ⟨0, 0, 2, 2⟩) {} {}).hr = HRESULT.WINED3D_OK ∧
    (IWineD3DSurfaceImpl_BltOverride flipWorld wideTextureSurface (some ⟨0, 0, 8, 2⟩)
      (some swapchainSurface) (some ⟨0, 0, 2, 2⟩) {} {}).calls =
      [DeviceCall.fb_copy_to_texture_direct ⟨0, 0, 2, 2⟩ ⟨0, 0, 8, 2⟩ false] := by
  refine ⟨by decide, by decide, by decide⟩

/-- C27 (behaviour of the code): in the blit from an offscreen surface to a render target
with KEYSRCOVERRIDE and without KEYSRC, the source is handed to PreLoad with colour keying
active and with its own source colour key, unchanged; the override key of the descriptor is
stored in the destination instead.  With neither flag the source is handed to PreLoad with
colour keying inactive. -/
theorem BltOverride_keyed_override (world : BltWorld) (This S : Surface) (rect : WINED3DRECT)
    (SrcRect : Option RECT) (Flags : BltFlags) (DDBltFx : WINEDDBLTFX)
    (hks : Flags.KEYSRC = false)
    (htex : world.CalculateTexRect S (BltOverride_SourceRectangle S SrcRect) = true) :
    (BltOverride_toTarget world This S rect SrcRect Flags DDBltFx).Src =
      some { IWineD3DSurfaceImpl_PreLoad world.src (BltOverride_keyed This S Flags DDBltFx).2
        with CKSRCBLT := S.CKSRCBLT } ∧
    (Flags.KEYSRCOVERRIDE = true →
      (BltOverride_keyed This S Flags DDBltFx).2.CKSRCBLT = true ∧
      (BltOverride_keyed This S Flags DDBltFx).2.SrcBltCKey = S.SrcBltCKey ∧
      (BltOverride_keyed This S Flags DDBltFx).1.SrcBltCKey = DDBltFx.ddckSrcColorkey) ∧
    (Flags.KEYSRCOVERRIDE = false →
      (BltOverride_keyed This S Flags DDBltFx).2.CKSRCBLT = false ∧
      (BltOverride_keyed This S Flags DDBltFx).2.SrcBltCKey = S.SrcBltCKey) := by
  refine ⟨?_, fun h => ?_, fun h => ?_⟩
  · simp only [BltOverride_toTarget, htex, Bool.not_true, Bool.false_eq_true, if_false]
  · simp [BltOverride_keyed, hks, h]
  · simp [BltOverride_keyed, hks, h]

/-- C27, witness: a blit of the offscreen surface with colour key (1, 1) with the override key
(5, 9): the source is loaded with the key (1, 1). -/
theorem BltOverride_keyed_override_witness :
    (BltOverride_keyed swapchainSurface keyedSourceSurface { KEYSRCOVERRIDE := true }
      overrideFx).2.SrcBltCKey = ⟨1, 1⟩ ∧
    (BltOverride_keyed swapchainSurface keyedSourceSurface { KEYSRCOVERRIDE := true }
      overrideFx).2.SrcBltCKey ≠ overrideFx.ddckSrcColorkey := by
  have h := (BltOverride_keyed_override backBufferWorld swapchainSurface keyedSourceSurface
    ⟨0, 0, 4, 4⟩ none { KEYSRCOVERRIDE := true } overrideFx rfl rfl).2.1 rfl
  exact ⟨h.2.1, by rw [h.2.1]; decide⟩

/-! ### Conversion modes that are selected and not implemented -/

/-- C28 (behaviour of the code): d3dfmt_get_conv selects a mode without a case in
d3dfmt_convert_surface exactly for a colour-keyed R8G8B8 or X8R8G8B8 surface (modes
CONVERT_CK_RGB24 and CONVERT_RGB32_888, with need_alpha_ck) and for an X8L8V8U8 or V16U16
surface without GL_NV_texture_shader3 (modes CONVERT_X8L8V8U8 and CONVERT_V16U16); for every
such mode d3dfmt_convert_surface takes its default branch: it reports WINED3D_OK and leaves
the destination buffer as it was. -/
theorem d3dfmt_get_conv_unimplemented (env : Env) (surf : Surface)
    (need_alpha_ck use_texturing : Bool) (src dst : Mem) (pitch width height outpitch : Nat)
    (convert : CONVERT_TYPES) :
    ((d3dfmt_get_conv env surf need_alpha_ck use_texturing).1.implemented = false ↔
      (((surf.format = WINED3DFORMAT.R8G8B8 ∨ surf.format = WINED3DFORMAT.X8R8G8B8) ∧
          need_alpha_ck = true ∧ surf.CKSRCBLT = true) ∨
        ((surf.format = WINED3DFORMAT.X8L8V8U8 ∨ surf.format = WINED3DFORMAT.V16U16) ∧
          env.gl_info.NV_TEXTURE_SHADER3 = false))) ∧
    (convert.implemented = false →
      d3dfmt_convert_surface env src dst pitch width height outpitch convert surf =
        (HRESULT.WINED3D_OK, dst)) ∧
    (d3dfmt_get_conv env keyedRgbSurface true true).1 = CONVERT_TYPES.CONVERT_CK_RGB24 := by
  refine ⟨?_, ?_, rfl⟩
  · unfold d3dfmt_get_conv
    cases hf : surf.format <;> cases need_alpha_ck <;> cases hc : surf.CKSRCBLT <;>
      cases hn : env.gl_info.NV_TEXTURE_SHADER3 <;>
      cases env.gl_info.EXT_PALETTED_TEXTURE <;> cases use_texturing <;>
      cases env.gl_info.ATI_ENVMAP_BUMPMAP <;>
      simp [CONVERT_TYPES.implemented]
  · intro h
    cases convert <;> first
      | rfl
      | exact absurd h (by decide)

/-! ### Repeated and failing texture loads -/

theorem sameKey_refl (env : Env) (s : Surface) : s.sameKey env s :=
  ⟨rfl, rfl, rfl, rfl, rfl, fun _ => ⟨rfl, rfl, rfl⟩⟩

theorem sameKey_trans {env : Env} {s t u : Surface} (h1 : s.sameKey env t)
    (h2 : t.sameKey env u) : s.sameKey env u := by
  obtain ⟨a1, a2, a3, a4, a5, a6⟩ := h1
  obtain ⟨b1, b2, b3, b4, b5, b6⟩ := h2
  refine ⟨b1.trans a1, b2.trans a2, b3.trans a3, b4.trans a4, b5.trans a5, fun hA => ?_⟩
  obtain ⟨c1, c2, c3⟩ := a6 hA
  obtain ⟨d1, d2, d3⟩ := b6 hA
  exact ⟨d1.trans c1, d2.trans c2, d3.trans c3⟩

theorem sameKey_ite {env : Env} {s : Surface} {c : Prop} [Decidable c] {a b : Surface}
    (ha : s.sameKey env a) (hb : s.sameKey env b) : s.sameKey env (if c then a else b) := by
  split_ifs <;> assumption

theorem sameKey_ite_pair {α : Type} {env : Env} {s : Surface} {c : Prop} [Decidable c]
    {a b : α × Surface} (ha : s.sameKey env a.2) (hb : s.sameKey env b.2) :
    s.sameKey env (if c then a else b).2 := by
  split_ifs <;> assumption

theorem surface_allocate_surface_sameKey (env : Env) (s : Surface) :
    s.sameKey env (surface_allocate_surface env s) := by
  unfold surface_allocate_surface
  by_cases hA : env.gl_info.APPLE_CLIENT_STORAGE = true
  · split_ifs <;> first
      | exact sameKey_refl env s
      | exact ⟨rfl, rfl, rfl, rfl, rfl, fun h => by simp [hA] at h⟩
  · split_ifs <;> exact sameKey_refl env s

theorem surface_upload_data_sameKey (env : Env) (s : Surface) :
    s.sameKey env (surface_upload_data env s) := by
  unfold surface_upload_data
  split_ifs <;> exact sameKey_refl env s

theorem LoadTexture_upload_sameKey (env : Env) (s : Surface) (mem : Nat) :
    s.sameKey env (LoadTexture_upload env s mem).2 := by
  have h1 : s.sameKey env (if !s.Flags.ALLOCATED then surface_allocate_surface env s else s) :=
    sameKey_ite (surface_allocate_surface_sameKey env s) (sameKey_refl env s)
  have h2 : ∀ t : Surface, t.sameKey env (if mem ≠ 0 then surface_upload_data env t else t) :=
    fun t => sameKey_ite (surface_upload_data_sameKey env t) (sameKey_refl env t)
  have h12 := sameKey_trans h1 (h2 _)
  unfold LoadTexture_upload
  exact sameKey_ite_pair (sameKey_trans h12 (sameKey_refl env _)) h12

theorem LoadTexture_fromDrawable_sameKey (env : Env) (s : Surface) :
    s.sameKey env (LoadTexture_fromDrawable env s).2 := by
  have h1 : s.sameKey env (if !s.Flags.ALLOCATED then surface_allocate_surface env s else s) :=
    sameKey_ite (surface_allocate_surface_sameKey env s) (sameKey_refl env s)
  unfold LoadTexture_fromDrawable
  exact sameKey_ite_pair (sameKey_refl env s) (sameKey_ite_pair (sameKey_refl env s) h1)

/-- The load from the host buffer leaves the surface with its colour key recorded as the
uploaded one. -/
theorem LoadTexture_fromSysmem_sameKey (env : Env) (s : Surface) (conv : CONVERT_TYPES × Nat) :
    (if s.CKSRCBLT then
        { s with Flags := { s.Flags with GLCKEY := true }, glCKey := s.SrcBltCKey }
      else { s with Flags := { s.Flags with GLCKEY := false } }).sameKey env
      (LoadTexture_fromSysmem env s conv).2 := by
  have hup : ∀ (t u : Surface) (mem : Nat), t.sameKey env u →
      t.sameKey env (LoadTexture_upload env u mem).2 :=
    fun t u mem h => sameKey_trans h (LoadTexture_upload_sameKey env u mem)
  unfold LoadTexture_fromSysmem
  exact sameKey_ite_pair
    (sameKey_ite_pair (sameKey_refl env _) (hup _ _ _ (sameKey_refl env _)))
    (sameKey_ite_pair (hup _ _ _ (sameKey_refl env _)) (hup _ _ _ (sameKey_refl env _)))

/-- A surface whose texture is current is returned as it is. -/
theorem LoadTexture_of_textureCurrent (env : Env) (s : Surface) (h : s.textureCurrent env) :
    IWineD3DSurfaceImpl_LoadTexture env s = (HRESULT.WINED3D_OK, s) := by
  unfold IWineD3DSurfaceImpl_LoadTexture
  rw [LoadTexture_needsReload_eq]
  simp [h.1, h.2.1, h.2.2]

theorem sameKey_textureCurrent {env : Env} {s t : Surface} (h : s.sameKey env t)
    (hA : env.gl_info.APPLE_CLIENT_STORAGE = false) (hs : s.textureCurrent env) :
    t.textureCurrent env := by
  obtain ⟨a1, a2, a3, a4, a5, a6⟩ := h
  obtain ⟨b1, b2, b3⟩ := a6 hA
  unfold Surface.textureCurrent colorKeyReload paletteReload at hs ⊢
  rw [a1, a2, a3, a4, a5, b1, b2, b3]
  exact hs

/-- The load itself, once decided, leaves a surface that a second LoadTexture returns as it
is: where GL_APPLE_client_storage is not supported, for a surface whose palette snapshot is
current, and which is not a colour-key reload of a surface in the drawable that the copy from
the drawable supports. -/
theorem LoadTexture_load_twice (env : Env) (d : Surface)
    (hok : (LoadTexture_load env d).1 = HRESULT.WINED3D_OK)
    (hA : env.gl_info.APPLE_CLIENT_STORAGE = false) (hpal : ¬ paletteReload env d)
    (hdraw : d.Flags.INDRAWABLE = false ∨ ¬ colorKeyReload d ∨ drawableCopyUnsupported d) :
    IWineD3DSurfaceImpl_LoadTexture env (LoadTexture_load env d).2 =
      (HRESULT.WINED3D_OK, (LoadTexture_load env d).2) := by
  by_cases hp : d.pool = WINED3DPOOL.SCRATCH
  · exfalso
    simp [LoadTexture_load, hp] at hok
  · by_cases hd : d.Flags.INDRAWABLE = true
    · have e : LoadTexture_load env d =
          LoadTexture_fromDrawable env { d with Flags := { d.Flags with INTEXTURE := true } } := by
        simp [LoadTexture_load, hp, hd]
      by_cases hu : drawableCopyUnsupported d
      · have e2 : LoadTexture_load env d =
            (HRESULT.WINED3D_OK, { d with Flags := { d.Flags with INTEXTURE := true } }) := by
          rw [e]; exact LoadTexture_fromDrawable_unsupported env _ hu
        rw [e2]
        by_cases hck : colorKeyReload d
        · have hn : LoadTexture_needsReload env
              { d with Flags := { d.Flags with INTEXTURE := true } } =
              (true, { d with Flags := { d.Flags with INTEXTURE := true } }) := by
            rw [LoadTexture_needsReload_eq]
            have hck2 : colorKeyReload { d with Flags := { d.Flags with INTEXTURE := true } } := hck
            simp [hck2]
          unfold IWineD3DSurfaceImpl_LoadTexture
          rw [hn]
          simp only [Bool.not_true, Bool.false_eq_true, if_false]
          rcases LoadTexture_load_result env
            { d with Flags := { d.Flags with INTEXTURE := true } } with ⟨_, _, _, h4⟩ | ⟨h1, _⟩
          · rw [h4]
          · exact absurd ⟨hp, hd, hu⟩ h1
        · exact LoadTexture_of_textureCurrent env _ ⟨rfl, hck, hpal⟩
      · have hck : ¬ colorKeyReload d := by
          rcases hdraw with h | h | h
          · rw [h] at hd; exact absurd hd (by decide)
          · exact h
          · exact absurd h hu
        rw [e]
        exact LoadTexture_of_textureCurrent env _
          (sameKey_textureCurrent (LoadTexture_fromDrawable_sameKey env _) hA ⟨rfl, hck, hpal⟩)
    · have e : LoadTexture_load env d =
          LoadTexture_fromSysmem env { d with Flags := { d.Flags with INTEXTURE := true } }
            (d3dfmt_get_conv env { d with Flags := { d.Flags with INTEXTURE := true } }
              true true) := by
        simp [LoadTexture_load, hp, hd]
      rw [e]
      refine LoadTexture_of_textureCurrent env _
        (sameKey_textureCurrent (LoadTexture_fromSysmem_sameKey env _ _) hA ?_)
      refine ⟨?_, ?_, ?_⟩
      · dsimp only
        split_ifs <;> rfl
      · unfold colorKeyReload
        cases hc : d.CKSRCBLT <;> simp [hc]
      · unfold paletteReload at hpal ⊢
        dsimp only
        split_ifs <;> exact hpal

/-- C29, for the surfaces it holds for: where GL_APPLE_client_storage is not supported, after
LoadTexture has returned WINED3D_OK a second LoadTexture returns WINED3D_OK with the surface
and its trace of GL transfers unchanged, provided that the palette snapshot of the surface was
current before the first call or the first call was made for the palette alone, and that the
first call was not a colour-key reload of a surface in the drawable that the copy from the
drawable supports. -/
theorem LoadTexture_twice (env : Env) (s : Surface)
    (hok : (IWineD3DSurfaceImpl_LoadTexture env s).1 = HRESULT.WINED3D_OK)
    (hA : env.gl_info.APPLE_CLIENT_STORAGE = false)
    (hpal : ¬ paletteReload env s ∨ (s.Flags.INTEXTURE = true ∧ ¬ colorKeyReload s))
    (hdraw : s.Flags.INDRAWABLE = false ∨ ¬ colorKeyReload s ∨ drawableCopyUnsupported s) :
    IWineD3DSurfaceImpl_LoadTexture env (IWineD3DSurfaceImpl_LoadTexture env s).2 =
      (HRESULT.WINED3D_OK, (IWineD3DSurfaceImpl_LoadTexture env s).2) := by
  have hn := LoadTexture_needsReload_eq env s
  by_cases h1 : s.Flags.INTEXTURE = false ∨ colorKeyReload s
  · rw [if_pos h1] at hn
    have e : IWineD3DSurfaceImpl_LoadTexture env s = LoadTexture_load env s := by
      unfold IWineD3DSurfaceImpl_LoadTexture
      rw [hn]
      simp
    have hp : ¬ paletteReload env s := by
      rcases hpal with h | ⟨ha, hb⟩
      · exact h
      · rcases h1 with h1 | h1
        · rw [ha] at h1; exact absurd h1 (by decide)
        · exact absurd h1 hb
    rw [e] at hok ⊢
    exact LoadTexture_load_twice env s hok hA hp hdraw
  · rw [if_neg h1] at hn
    by_cases h2 : paletteReload env s
    · rw [if_pos h2] at hn
      have e : IWineD3DSurfaceImpl_LoadTexture env s =
          LoadTexture_load env { s with palette9 := some env.devicePalette } := by
        unfold IWineD3DSurfaceImpl_LoadTexture
        rw [hn]
        simp
      rw [e] at hok ⊢
      refine LoadTexture_load_twice env _ hok hA ?_ hdraw
      unfold paletteReload
      simp
    · rw [if_neg h2] at hn
      have e : IWineD3DSurfaceImpl_LoadTexture env s = (HRESULT.WINED3D_OK, s) := by
        unfold IWineD3DSurfaceImpl_LoadTexture
        rw [hn]
        simp
      rw [e]
      exact e

/-- C29, witness: the 4x4 managed surface with a valid host buffer is loaded once. -/
theorem LoadTexture_twice_witness :
    IWineD3DSurfaceImpl_LoadTexture plainEnv (IWineD3DSurfaceImpl_LoadTexture plainEnv plainSurface).2 =
      (HRESULT.WINED3D_OK, (IWineD3DSurfaceImpl_LoadTexture plainEnv plainSurface).2) :=
  LoadTexture_twice plainEnv plainSurface (by decide) rfl (Or.inl (by decide))
    (Or.inl rfl)

/-- C29, counterexample: on a colour-keyed level 0 surface in the drawable, and on a P8
surface without attached palette loaded from its host buffer, LoadTexture returns WINED3D_OK
and a second LoadTexture right after it issues a GL transfer again. -/
theorem LoadTexture_twice_counterexample :
    ((IWineD3DSurfaceImpl_LoadTexture plainEnv keyedDrawableSurface).1 = HRESULT.WINED3D_OK ∧
      (IWineD3DSurfaceImpl_LoadTexture plainEnv keyedDrawableSurface).2.gl =
        [GLCall.glCopyTexSubImage2D] ∧
      (IWineD3DSurfaceImpl_LoadTexture plainEnv
        (IWineD3DSurfaceImpl_LoadTexture plainEnv keyedDrawableSurface).2).2.gl =
        [GLCall.glCopyTexSubImage2D, GLCall.glCopyTexSubImage2D]) ∧
    ((IWineD3DSurfaceImpl_LoadTexture plainEnv p8Surface).1 = HRESULT.WINED3D_OK ∧
      (IWineD3DSurfaceImpl_LoadTexture plainEnv p8Surface).2.gl =
        [GLCall.glTexImage2D, GLCall.glTexSubImage2D] ∧
      (IWineD3DSurfaceImpl_LoadTexture plainEnv
        (IWineD3DSurfaceImpl_LoadTexture plainEnv p8Surface).2).2.gl =
        [GLCall.glTexImage2D, GLCall.glTexSubImage2D, GLCall.glTexSubImage2D]) := by
  refine ⟨⟨rfl, rfl, rfl⟩, ⟨rfl, rfl, rfl⟩⟩

/-- C30, as the code behaves: for a surface in the scratch pool that needs a load or reload,
LoadTexture returns WINED3DERR_INVALIDCALL with the colour-key snapshot and the host buffer
as they were, but with SFLAG_INTEXTURE set in the flags: a surface that did not have the
flag before the call has other flags after it. -/
theorem LoadTexture_scratch (env : Env) (s : Surface) (hp : s.pool = WINED3DPOOL.SCRATCH)
    (hr : (LoadTexture_needsReload env s).1 = true) :
    (IWineD3DSurfaceImpl_LoadTexture env s).1 = HRESULT.WINED3DERR_INVALIDCALL ∧
    (IWineD3DSurfaceImpl_LoadTexture env s).2.Flags = { s.Flags with INTEXTURE := true } ∧
    (IWineD3DSurfaceImpl_LoadTexture env s).2.glCKey = s.glCKey ∧
    (IWineD3DSurfaceImpl_LoadTexture env s).2.allocatedMemory = s.allocatedMemory ∧
    (s.Flags.INTEXTURE = false → (IWineD3DSurfaceImpl_LoadTexture env s).2.Flags ≠ s.Flags) := by
  have hn := LoadTexture_needsReload_eq env s
  have key : ∀ d : Surface, LoadTexture_needsReload env s = (true, d) → d.pool = s.pool →
      d.Flags = s.Flags → d.glCKey = s.glCKey → d.allocatedMemory = s.allocatedMemory →
      (IWineD3DSurfaceImpl_LoadTexture env s).1 = HRESULT.WINED3DERR_INVALIDCALL ∧
      (IWineD3DSurfaceImpl_LoadTexture env s).2.Flags = { s.Flags with INTEXTURE := true } ∧
      (IWineD3DSurfaceImpl_LoadTexture env s).2.glCKey = s.glCKey ∧
      (IWineD3DSurfaceImpl_LoadTexture env s).2.allocatedMemory = s.allocatedMemory ∧
      (s.Flags.INTEXTURE = false →
        (IWineD3DSurfaceImpl_LoadTexture env s).2.Flags ≠ s.Flags) := by
    intro d hd h1 h2 h3 h4
    have e : IWineD3DSurfaceImpl_LoadTexture env s =
        (HRESULT.WINED3DERR_INVALIDCALL, { d with Flags := { d.Flags with INTEXTURE := true } }) := by
      unfold IWineD3DSurfaceImpl_LoadTexture
      rw [hd]
      simp [LoadTexture_load, h1, hp]
    rw [e]
    refine ⟨rfl, ?_, h3, h4, ?_⟩
    · show ({ d.Flags with INTEXTURE := true } : SFlags) = { s.Flags with INTEXTURE := true }
      rw [h2]
    · intro hf hEq
      have h5 : ({ d.Flags with INTEXTURE := true } : SFlags).INTEXTURE = s.Flags.INTEXTURE :=
        congrArg SFlags.INTEXTURE hEq
      rw [hf] at h5
      exact Bool.noConfusion h5
  by_cases h1 : s.Flags.INTEXTURE = false ∨ colorKeyReload s
  · rw [if_pos h1] at hn
    exact key s hn rfl rfl rfl rfl
  · rw [if_neg h1] at hn
    by_cases h2 : paletteReload env s
    · rw [if_pos h2] at hn
      exact key _ hn rfl rfl rfl rfl
    · rw [if_neg h2] at hn
      rw [hn] at hr
      exact Bool.noConfusion hr

/-- C30, witness: the never loaded 4x4 scratch surface gets WINED3DERR_INVALIDCALL and
SFLAG_INTEXTURE, and a second LoadTexture then returns WINED3D_OK. -/
theorem LoadTexture_scratch_witness :
    ((IWineD3DSurfaceImpl_LoadTexture plainEnv scratchSurface).1 = HRESULT.WINED3DERR_INVALIDCALL ∧
      (IWineD3DSurfaceImpl_LoadTexture plainEnv scratchSurface).2.Flags =
        { scratchSurface.Flags with INTEXTURE := true } ∧
      (IWineD3DSurfaceImpl_LoadTexture plainEnv scratchSurface).2.glCKey = scratchSurface.glCKey ∧
      (IWineD3DSurfaceImpl_LoadTexture plainEnv scratchSurface).2.allocatedMemory =
        scratchSurface.allocatedMemory ∧
      (scratchSurface.Flags.INTEXTURE = false →
        (IWineD3DSurfaceImpl_LoadTexture plainEnv scratchSurface).2.Flags ≠ scratchSurface.Flags)) ∧
    scratchSurface.Flags.INTEXTURE = false ∧
    (IWineD3DSurfaceImpl_LoadTexture plainEnv
      (IWineD3DSurfaceImpl_LoadTexture plainEnv scratchSurface).2).1 = HRESULT.WINED3D_OK :=
  ⟨LoadTexture_scratch plainEnv scratchSurface rfl rfl, rfl, rfl⟩

/-! ### Renderbuffer cache -/

theorem renderbuffers_lookup_some {l : List renderbuffer_entry_t} {width height : Nat}
    {e : renderbuffer_entry_t} (h : renderbuffers_lookup l width height = some e) :
    e ∈ l ∧ e.width = width ∧ e.height = height := by
  induction l with
  | nil => simp [renderbuffers_lookup] at h
  | cons a rest ih =>
    unfold renderbuffers_lookup at h
    by_cases ha : a.width = width ∧ a.height = height
    · rw [if_pos ha] at h
      cases h
      exact ⟨List.mem_cons_self _ _, ha⟩
    · rw [if_neg ha] at h
      exact ⟨List.mem_cons_of_mem _ (ih h).1, (ih h).2⟩

theorem renderbuffers_lookup_none {l : List renderbuffer_entry_t} {width height : Nat}
    (h : renderbuffers_lookup l width height = none) :
    ∀ e ∈ l, ¬ (e.width = width ∧ e.height = height) := by
  induction l with
  | nil => intro e he; cases he
  | cons a rest ih =>
    unfold renderbuffers_lookup at h
    by_cases ha : a.width = width ∧ a.height = height
    · rw [if_pos ha] at h
      cases h
    · rw [if_neg ha] at h
      intro e he
      rcases List.mem_cons.1 he with rfl | he
      · exact ha
      · exact ih h e he

theorem renderbuffers_lookup_of_mem {l : List renderbuffer_entry_t} {width height : Nat}
    (h : ∃ e ∈ l, e.width = width ∧ e.height = height) :
    ∃ e, renderbuffers_lookup l width height = some e := by
  cases hl : renderbuffers_lookup l width height with
  | some e => exact ⟨e, rfl⟩
  | none =>
    obtain ⟨e, he, hs⟩ := h
    exact absurd hs (renderbuffers_lookup_none hl e he)

/-- The call by cases, for a list whose entries have non-zero ids. -/
theorem surface_set_compatible_renderbuffer_eq (s : Surface) (width height g : Nat)
    (hn : s.renderbuffersNamed) :
    surface_set_compatible_renderbuffer s width height g =
      if width > s.pow2Width ∨ height > s.pow2Height then s
      else if width = s.pow2Width ∧ height = s.pow2Height then
        { s with current_renderbuffer := none }
      else match renderbuffers_lookup s.renderbuffers width height with
        | some e => { s with current_renderbuffer := some e }
        | none =>
          { s with renderbuffers := ⟨width, height, g⟩ :: s.renderbuffers,
                   current_renderbuffer := some ⟨width, height, g⟩ } := by
  unfold surface_set_compatible_renderbuffer
  by_cases h1 : width > s.pow2Width ∨ height > s.pow2Height
  · rw [if_pos h1]
    simp [h1]
  · rw [if_neg h1]
    by_cases h2 : width = s.pow2Width ∧ height = s.pow2Height
    · rw [if_pos h2]
      simp [h1, h2]
    · rw [if_neg h2]
      cases hl : renderbuffers_lookup s.renderbuffers width height with
      | none => simp [h1, h2, hl]
      | some e =>
        have he := hn e (renderbuffers_lookup_some hl).1
        simp [h1, h2, hl, he]

/-- One call keeps the two properties of the list. -/
theorem surface_set_compatible_renderbuffer_inv (s : Surface) (width height g : Nat)
    (hd : s.renderbuffersDistinct) (hn : s.renderbuffersNamed) (hg : g ≠ 0) :
    (surface_set_compatible_renderbuffer s width height g).renderbuffersDistinct ∧
    (surface_set_compatible_renderbuffer s width height g).renderbuffersNamed := by
  rw [surface_set_compatible_renderbuffer_eq s width height g hn]
  split_ifs
  · exact ⟨hd, hn⟩
  · exact ⟨hd, hn⟩
  · cases hl : renderbuffers_lookup s.renderbuffers width height with
    | some e => exact ⟨hd, hn⟩
    | none =>
      refine ⟨?_, ?_⟩
      · intro w h
        show (List.countP (fun entry => decide (entry.width = w ∧ entry.height = h))
          ((⟨width, height, g⟩ : renderbuffer_entry_t) :: s.renderbuffers)) ≤ 1
        rw [List.countP_cons]
        by_cases hwh : width = w ∧ height = h
        · have h0 : List.countP (fun entry => decide (entry.width = w ∧ entry.height = h))
              s.renderbuffers = 0 := by
            rw [List.countP_eq_zero]
            intro e he
            obtain ⟨rfl, rfl⟩ := hwh
            simpa using renderbuffers_lookup_none hl e he
          rw [h0]
          split_ifs <;> omega
        · have := hd w h
          simp only [hwh, decide_False, Bool.false_eq_true, if_false, Nat.add_zero]
          exact this
      · intro e he
        rcases List.mem_cons.1 he with rfl | he
        · exact hg
        · exact hn e he

theorem runRenderbufferCalls_inv (calls : List RenderbufferCall) :
    ∀ s : Surface, s.renderbuffersDistinct → s.renderbuffersNamed →
      (∀ x ∈ calls, x.glGenRenderbuffersEXT ≠ 0) →
      (runRenderbufferCalls s calls).renderbuffersDistinct ∧
      (runRenderbufferCalls s calls).renderbuffersNamed := by
  induction calls with
  | nil => intro s hd hn _; exact ⟨hd, hn⟩
  | cons c rest ih =>
    intro s hd hn hc
    have h1 := surface_set_compatible_renderbuffer_inv s c.width c.height
      c.glGenRenderbuffersEXT hd hn (hc c (List.mem_cons_self _ _))
    exact ih (c.run s) h1.1 h1.2 (fun x hx => hc x (List.mem_cons_of_mem _ hx))

/-- C26: on a surface whose renderbuffer list holds at most one entry per size and only
non-zero ids (the empty list of a new surface is such a list), after every sequence of calls
for which the driver hands out non-zero ids the list again holds at most one entry per size;
a further call keeps the list as a tail of the new list; with a width above pow2Width or a
height above pow2Height it changes nothing; with the size of the surface itself it only sets
current_renderbuffer to none; and with any other size it leaves current_renderbuffer at an
entry of the list with the requested size, the list being unchanged if it had an entry of
that size and having one new entry at its head otherwise. -/
theorem surface_set_compatible_renderbuffer_calls (s : Surface) (calls : List RenderbufferCall)
    (c : RenderbufferCall) (hd : s.renderbuffersDistinct) (hn : s.renderbuffersNamed)
    (hcalls : ∀ x ∈ calls, x.glGenRenderbuffersEXT ≠ 0) (hc : c.glGenRenderbuffersEXT ≠ 0) :
    (runRenderbufferCalls s calls).renderbuffersDistinct ∧
    (c.run (runRenderbufferCalls s calls)).renderbuffersDistinct ∧
    (∃ added, (c.run (runRenderbufferCalls s calls)).renderbuffers =
      added ++ (runRenderbufferCalls s calls).renderbuffers) ∧
    (c.width > (runRenderbufferCalls s calls).pow2Width ∨
      c.height > (runRenderbufferCalls s calls).pow2Height →
      c.run (runRenderbufferCalls s calls) = runRenderbufferCalls s calls) ∧
    (c.width = (runRenderbufferCalls s calls).pow2Width ∧
      c.height = (runRenderbufferCalls s calls).pow2Height →
      c.run (runRenderbufferCalls s calls) =
        { runRenderbufferCalls s calls with current_renderbuffer := none }) ∧
    (¬ (c.width > (runRenderbufferCalls s calls).pow2Width ∨
        c.height > (runRenderbufferCalls s calls).pow2Height) →
      ¬ (c.width = (runRenderbufferCalls s calls).pow2Width ∧
        c.height = (runRenderbufferCalls s calls).pow2Height) →
      ∃ e, (c.run (runRenderbufferCalls s calls)).current_renderbuffer = some e ∧
        e ∈ (c.run (runRenderbufferCalls s calls)).renderbuffers ∧
        e.width = c.width ∧ e.height = c.height ∧
        ((∃ x ∈ (runRenderbufferCalls s calls).renderbuffers,
            x.width = c.width ∧ x.height = c.height) →
          (c.run (runRenderbufferCalls s calls)).renderbuffers =
            (runRenderbufferCalls s calls).renderbuffers) ∧
        ((¬ ∃ x ∈ (runRenderbufferCalls s calls).renderbuffers,
            x.width = c.width ∧ x.height = c.height) →
          (c.run (runRenderbufferCalls s calls)).renderbuffers =
            ⟨c.width, c.height, c.glGenRenderbuffersEXT⟩ ::
              (runRenderbufferCalls s calls).renderbuffers)) := by
  obtain ⟨td, tn⟩ := runRenderbufferCalls_inv calls s hd hn hcalls
  generalize runRenderbufferCalls s calls = t at td tn ⊢
  have hinv := surface_set_compatible_renderbuffer_inv t c.width c.height
    c.glGenRenderbuffersEXT td tn hc
  have e := surface_set_compatible_renderbuffer_eq t c.width c.height
    c.glGenRenderbuffersEXT tn
  refine ⟨td, hinv.1, ?_, ?_, ?_, ?_⟩
  · unfold RenderbufferCall.run
    rw [e]
    split_ifs
    · exact ⟨[], rfl⟩
    · exact ⟨[], rfl⟩
    · cases hl : renderbuffers_lookup t.renderbuffers c.width c.height with
      | some x => exact ⟨[], rfl⟩
      | none => exact ⟨[⟨c.width, c.height, c.glGenRenderbuffersEXT⟩], rfl⟩
  · intro h1
    unfold RenderbufferCall.run
    rw [e, if_pos h1]
  · intro h2
    have h1 : ¬ (c.width > t.pow2Width ∨ c.height > t.pow2Height) := by
      rw [h2.1, h2.2]
      simp
    unfold RenderbufferCall.run
    rw [e, if_neg h1, if_pos h2]
  · intro h1 h2
    unfold RenderbufferCall.run
    rw [e, if_neg h1, if_neg h2]
    cases hl : renderbuffers_lookup t.renderbuffers c.width c.height with
    | some x =>
      obtain ⟨hx, hw, hh⟩ := renderbuffers_lookup_some hl
      refine ⟨x, rfl, hx, hw, hh, fun _ => rfl, fun hno => absurd ⟨x, hx, hw, hh⟩ hno⟩
    | none =>
      refine ⟨⟨c.width, c.height, c.glGenRenderbuffersEXT⟩, rfl, List.mem_cons_self _ _,
        rfl, rfl, ?_, fun _ => rfl⟩
      rintro ⟨x, hx, hs⟩
      exact absurd hs (renderbuffers_lookup_none hl x hx)

/-- C26, witness: on the new 4x4 surface, after a request for 2x2, the same request again,
a request for 4x4 and a request for 8x8, a request for 3x3 adds a second entry. -/
theorem surface_set_compatible_renderbuffer_calls_witness :
    (runRenderbufferCalls plainSurface renderbufferCalls).renderbuffers = [⟨2, 2, 7⟩] ∧
    (runRenderbufferCalls plainSurface renderbufferCalls).current_renderbuffer = none ∧
    (RenderbufferCall.run (runRenderbufferCalls plainSurface renderbufferCalls)
      ⟨3, 3, 6⟩).renderbuffersDistinct ∧
    (RenderbufferCall.run (runRenderbufferCalls plainSurface renderbufferCalls)
      ⟨3, 3, 6⟩).renderbuffers = [⟨3, 3, 6⟩, ⟨2, 2, 7⟩] :=
  ⟨rfl, rfl,
    (surface_set_compatible_renderbuffer_calls plainSurface renderbufferCalls ⟨3, 3, 6⟩
      (fun _ _ => Nat.zero_le 1) (fun _ h => nomatch h) (by decide) (by decide)).2.1, rfl⟩
/-! ### Theorems about the snapshot -/

theorem SaveSnapshot_texel_eq (color : Nat) :
    SaveSnapshot_texel color =
      [toBYTE (color / 65536), toBYTE (color / 256), toBYTE color, toBYTE (color / 16777216)] := by
  have h : ∀ x : Nat, toBYTE (x &&& 0xFF) = toBYTE x := by
    intro x
    have : x &&& 255 = x % 256 := Nat.and_pow_two_sub_one_eq_mod x 8
    unfold toBYTE
    simp [this]
  unfold SaveSnapshot_texel
  rw [h, h, h, h]
  simp [Nat.shiftRight_eq_div_pow]

/-- The bytes of one row of texels that starts at offset q. -/
theorem SaveSnapshot_row_eq (m : Int → BYTE) (n : Nat) : ∀ q : Int,
    SaveSnapshot_row m n q =
      ((List.range n).flatMap (fun i => SaveSnapshot_texel (readDWORD m (q + 4 * (i : Int)))),
       (List.range n).map (fun i : Nat => q + 4 * (i : Int)), q + 4 * (n : Int)) := by
  induction n with
  | zero => intro q; simp [SaveSnapshot_row]
  | succ n ih =>
    intro q
    unfold SaveSnapshot_row
    dsimp only
    rw [ih (q + 4), List.range_succ_eq_map, List.flatMap_cons, List.flatMap_map, List.map_cons,
      List.map_map]
    refine Prod.ext ?_ (Prod.ext ?_ ?_)
    · simp only [Nat.cast_zero, mul_zero, add_zero]
      congr 1
      apply List.flatMap_congr
      intro i _
      simp only [Function.comp, Nat.succ_eq_add_one, Nat.cast_add, Nat.cast_one]
      congr 2
      ring
    · simp only [Nat.cast_zero, mul_zero, add_zero]
      congr 1
      apply List.map_congr_left
      intro i _
      simp only [Function.comp, Nat.succ_eq_add_one, Nat.cast_add, Nat.cast_one]
      ring
    · simp only [Nat.cast_add, Nat.cast_one]
      ring

/-- The raster for a pointer that moves by d bytes from one row to the next. -/
theorem SaveSnapshot_rows_eq (m : Int → BYTE) (swapChain : Bool) (w : Nat) (hw : w < 65536)
    (n : Nat) : ∀ p : Int,
    SaveSnapshot_rows m swapChain (w : Int) n p =
      ((List.range n).flatMap (fun k => (List.range w).flatMap (fun i =>
          SaveSnapshot_texel (readDWORD m
            (p + (if swapChain then -(4 * (w : Int)) else 4 * (w : Int)) * (k : Int) +
              4 * (i : Int))))),
       (List.range n).flatMap (fun k : Nat => (List.range w).map (fun i : Nat =>
          p + (if swapChain then -(4 * (w : Int)) else 4 * (w : Int)) * (k : Int) +
            4 * (i : Int)))) := by
  have hlw : longToU32 (w : Int) = w := by unfold longToU32; omega
  have h8 : wrapLong ((w : Int) * 8) = 8 * (w : Int) := by
    have := wrapLong_of_nat (w * 8) (by omega)
    push_cast at this
    rw [this]; ring
  induction n with
  | zero => intro p; simp [SaveSnapshot_rows]
  | succ n ih =>
    intro p
    unfold SaveSnapshot_rows
    dsimp only
    rw [hlw, SaveSnapshot_row_eq, h8]
    dsimp only
    rw [ih, List.range_succ_eq_map, List.flatMap_cons, List.flatMap_map, List.flatMap_cons,
      List.flatMap_map]
    refine Prod.ext ?_ ?_
    · simp only [Nat.cast_zero, mul_zero, add_zero]
      congr 1
      apply List.flatMap_congr
      intro k _
      apply List.flatMap_congr
      intro i _
      simp only [Function.comp, Nat.succ_eq_add_one, Nat.cast_add, Nat.cast_one]
      congr 2
      cases swapChain <;> simp <;> ring
    · simp only [Nat.cast_zero, mul_zero, add_zero]
      congr 1
      apply List.flatMap_congr
      intro k _
      apply List.map_congr_left
      intro i _
      simp only [Function.comp, Nat.succ_eq_add_one, Nat.cast_add, Nat.cast_one]
      cases swapChain <;> simp <;> ring
theorem SaveSnapshot_start_eq (w h : Nat) (h1 : 0 < h) (hh : h < 65536)
    (hs : 4 * w * h < 2147483648) :
    SaveSnapshot_start true (w : Int) (h : Int) = 4 * (w : Int) * ((h : Int) - 1) := by
  obtain ⟨j, rfl⟩ : ∃ j, h = j + 1 := ⟨h - 1, by omega⟩
  have hj : 4 * (w * j) < 2147483648 := by
    have : 4 * w * (j + 1) = 4 * (w * j) + 4 * w := by ring
    omega
  have e1 : ((j + 1 : Nat) : Int) - 1 = (j : Int) := by push_cast; ring
  have e2 : wrapLong (j : Int) = (j : Int) := wrapLong_of_nat j (by omega)
  have e3 : wrapLong ((w : Int) * (j : Int)) = ((w * j : Nat) : Int) := by
    rw [← Nat.cast_mul]
    exact wrapLong_of_nat (w * j) (by omega)
  have e4 : wrapLong (((w * j : Nat) : Int) * 4) = ((w * j * 4 : Nat) : Int) := by
    have := wrapLong_of_nat (w * j * 4) (by omega)
    rw [← this]
    push_cast
    rfl
  unfold SaveSnapshot_start
  rw [if_pos rfl, e1, e2, e3, e4]
  push_cast
  ring

theorem intToBYTE_natCast (n : Nat) : intToBYTE (n : Int) = toBYTE n := by
  unfold intToBYTE toBYTE
  apply Fin.ext
  simp only
  omega

theorem intToBYTE_natCast_shift (n : Nat) : intToBYTE ((n : Int) >>> (8 : Nat)) = toBYTE (n / 256) := by
  unfold intToBYTE toBYTE
  apply Fin.ext
  simp only [Int.shiftRight_eq_div_pow]
  omega
theorem length_flatMap_const {α β : Type} (f : α → List β) (c : Nat) (hf : ∀ a, (f a).length = c)
    (l : List α) : (l.flatMap f).length = l.length * c := by
  induction l with
  | nil => simp
  | cons a rest ih =>
    rw [List.flatMap_cons, List.length_append, ih, hf, List.length_cons]
    ring

theorem snapshotRow_lt (swapChain : Bool) (h k : Nat) (hk : k < h) :
    snapshotRow swapChain h k < h := by
  unfold snapshotRow
  split_ifs <;> omega

/-- The loops give the raster and read the texels that the description names. -/
theorem SaveSnapshot_rows_snapshot (m : Int → BYTE) (swapChain : Bool) (w h : Nat)
    (hw : w < 65536) (hh : h < 65536) (hs : 4 * w * h < 2147483648) :
    SaveSnapshot_rows m swapChain (w : Int) h (SaveSnapshot_start swapChain (w : Int) (h : Int)) =
      ((List.range h).flatMap (fun k => (List.range w).flatMap (fun i =>
        SaveSnapshot_texel
          (readDWORD m (4 * ((snapshotRow swapChain h k * w + i : Nat) : Int))))),
       snapshotReads swapChain w h) := by
  have key : ∀ k, k < h → ∀ i : Nat,
      SaveSnapshot_start swapChain (w : Int) (h : Int) +
        (if swapChain then -(4 * (w : Int)) else 4 * (w : Int)) * (k : Int) + 4 * (i : Int) =
      4 * ((snapshotRow swapChain h k * w + i : Nat) : Int) := by
    intro k hk i
    cases swapChain with
    | false =>
      simp only [SaveSnapshot_start, snapshotRow, Bool.false_eq_true, if_false]
      push_cast
      ring
    | true =>
      rw [SaveSnapshot_start_eq w h (by omega) hh hs]
      simp only [snapshotRow, if_true]
      have hr : ((h - 1 - k : Nat) : Int) = (h : Int) - 1 - (k : Int) := by omega
      push_cast
      rw [hr]
      ring
  rw [SaveSnapshot_rows_eq m swapChain w hw h]
  unfold snapshotReads
  refine Prod.ext ?_ ?_
  · apply List.flatMap_congr
    intro k hk
    apply List.flatMap_congr
    intro i _
    rw [key k (List.mem_range.1 hk) i]
  · apply List.flatMap_congr
    intro k hk
    apply List.map_congr_left
    intro i _
    rw [key k (List.mem_range.1 hk) i]

theorem snapshotFile_length (swapChain : Bool) (w h : Nat) (image : Int → BYTE) :
    (snapshotFile swapChain w h image).length = 18 + 4 * w * h := by
  unfold snapshotFile
  rw [List.length_append, length_flatMap_const _ (w * 4), List.length_range]
  · simp only [List.length_cons, List.length_nil]
    ring
  · intro k
    rw [length_flatMap_const _ 4, List.length_range]
    intro i
    rfl

theorem snapshotReads_within (swapChain : Bool) (w h : Nat) :
    ∀ a ∈ snapshotReads swapChain w h, 0 ≤ a ∧ a + 4 ≤ 4 * (w : Int) * (h : Int) := by
  intro a ha
  unfold snapshotReads at ha
  rw [List.mem_flatMap] at ha
  obtain ⟨k, hk, ha⟩ := ha
  rw [List.mem_map] at ha
  obtain ⟨i, hi, rfl⟩ := ha
  have hr := snapshotRow_lt swapChain h k (List.mem_range.1 hk)
  have hi2 := List.mem_range.1 hi
  refine ⟨by positivity, ?_⟩
  have h1 : snapshotRow swapChain h k * w + i + 1 ≤ w * h := by
    calc snapshotRow swapChain h k * w + i + 1 ≤ snapshotRow swapChain h k * w + w := by omega
      _ = (snapshotRow swapChain h k + 1) * w := by ring
      _ ≤ h * w := Nat.mul_le_mul_right w hr
      _ = w * h := by ring
  have h2 : ((snapshotRow swapChain h k * w + i + 1 : Nat) : Int) ≤ ((w * h : Nat) : Int) :=
    Int.ofNat_le.2 h1
  push_cast at h2 ⊢
  linarith

theorem SaveSnapshot_rows_head (m : Int → BYTE) (swapChain : Bool) (width : Int) (n : Nat)
    (p : Int) (hn : 0 < n) (hk : 0 < longToU32 width) :
    (SaveSnapshot_rows m swapChain width n p).2.head? = some p := by
  obtain ⟨n, rfl⟩ : ∃ j, n = j + 1 := ⟨n - 1, by omega⟩
  obtain ⟨k, hk⟩ : ∃ j, longToU32 width = j + 1 := ⟨longToU32 width - 1, by omega⟩
  unfold SaveSnapshot_rows
  dsimp only
  rw [hk]
  unfold SaveSnapshot_row
  rfl

/-- The first texel that SaveSnapshot reads is the one at the start offset. -/
theorem SaveSnapshot_reads_head (env : Env) (s : Surface) (image : Int → BYTE)
    (hw : 0 < longToU32 (toLong s.pow2Width)) (hh : 0 < longToU32 (toLong s.pow2Height)) :
    (IWineD3DSurfaceImpl_SaveSnapshot env s true image).reads.head? =
      some (SaveSnapshot_start s.onSwapchain (toLong s.pow2Width) (toLong s.pow2Height)) := by
  unfold IWineD3DSurfaceImpl_SaveSnapshot
  simp only [Bool.not_true, Bool.false_eq_true, if_false]
  exact SaveSnapshot_rows_head image _ _ _ _ hh hw

/-- C21, for the sizes it holds for: for a surface with padded size w x h, both below 65536
and with 4*w*h below 2^31, whose file can be opened, SaveSnapshot returns WINED3D_OK and
writes the 18 + 4*w*h bytes of the description: the header with w and h as little-endian
16-bit values, then for output row k and column i the bytes of bits 16-23, 8-15, 0-7 and
24-31 of the texel at row k (row h-1-k on a swapchain) and column i; every texel is read at
an offset within the 4*w*h bytes of the buffer. -/
theorem SaveSnapshot_file (env : Env) (s : Surface) (image : Int → BYTE)
    (hw : s.pow2Width < 65536) (hh : s.pow2Height < 65536)
    (hs : 4 * s.pow2Width * s.pow2Height < 2147483648) :
    (IWineD3DSurfaceImpl_SaveSnapshot env s true image).hr = HRESULT.WINED3D_OK ∧
    (IWineD3DSurfaceImpl_SaveSnapshot env s true image).file =
      snapshotFile s.onSwapchain s.pow2Width s.pow2Height image ∧
    (IWineD3DSurfaceImpl_SaveSnapshot env s true image).file.length =
      18 + 4 * s.pow2Width * s.pow2Height ∧
    (IWineD3DSurfaceImpl_SaveSnapshot env s true image).reads =
      snapshotReads s.onSwapchain s.pow2Width s.pow2Height ∧
    (∀ a ∈ (IWineD3DSurfaceImpl_SaveSnapshot env s true image).reads,
      0 ≤ a ∧ a + 4 ≤ 4 * (s.pow2Width : Int) * (s.pow2Height : Int)) := by
  have e1 : toLong s.pow2Width = (s.pow2Width : Int) := toLong_of_lt _ (by omega)
  have e2 : toLong s.pow2Height = (s.pow2Height : Int) := toLong_of_lt _ (by omega)
  have e3 : longToU32 (s.pow2Height : Int) = s.pow2Height := by unfold longToU32; omega
  have hfile : (IWineD3DSurfaceImpl_SaveSnapshot env s true image).file =
      snapshotFile s.onSwapchain s.pow2Width s.pow2Height image := by
    unfold IWineD3DSurfaceImpl_SaveSnapshot
    simp only [Bool.not_true, Bool.false_eq_true, if_false]
    rw [e1, e2, e3, SaveSnapshot_rows_snapshot image s.onSwapchain _ _ hw hh hs]
    unfold snapshotFile SaveSnapshot_header
    rw [intToBYTE_natCast, intToBYTE_natCast, intToBYTE_natCast_shift, intToBYTE_natCast_shift]
    simp only [SaveSnapshot_texel_eq]
  have hreads : (IWineD3DSurfaceImpl_SaveSnapshot env s true image).reads =
      snapshotReads s.onSwapchain s.pow2Width s.pow2Height := by
    unfold IWineD3DSurfaceImpl_SaveSnapshot
    simp only [Bool.not_true, Bool.false_eq_true, if_false]
    rw [e1, e2, e3, SaveSnapshot_rows_snapshot image s.onSwapchain _ _ hw hh hs]
  refine ⟨rfl, hfile, ?_, hreads, ?_⟩
  · rw [hfile, snapshotFile_length]
  · rw [hreads]
    exact snapshotReads_within _ _ _

/-- C21, witness: the snapshot of the 2x2 swapchain buffer over memory whose bytes hold their
offsets has 34 bytes and shows texel row 1 before texel row 0. -/
theorem SaveSnapshot_file_witness :
    (IWineD3DSurfaceImpl_SaveSnapshot plainEnv smallSwapchainSurface true rampImage).file.length =
      18 + 4 * smallSwapchainSurface.pow2Width * smallSwapchainSurface.pow2Height ∧
    (IWineD3DSurfaceImpl_SaveSnapshot plainEnv smallSwapchainSurface true rampImage).file =
      [0, 0, 2, 0, 0, 0, 0, 0, 0, 0, 0, 0, 2, 0, 2, 0, 0x20, 0x28,
       10, 9, 8, 11, 14, 13, 12, 15, 2, 1, 0, 3, 6, 5, 4, 7] ∧
    (IWineD3DSurfaceImpl_SaveSnapshot plainEnv smallSwapchainSurface true rampImage).reads =
      [8, 12, 0, 4] :=
  ⟨(SaveSnapshot_file plainEnv smallSwapchainSurface rampImage (by decide) (by decide)
      (by decide)).2.2.1, by decide, by decide⟩

/-- C21, counterexample: for the swapchain buffer with padded size 32768x32768 the first
texel is read 131072 bytes below the start of the buffer. -/
theorem SaveSnapshot_file_counterexample :
    hugeSwapchainSurface.pow2Width < 65536 ∧ hugeSwapchainSurface.pow2Height < 65536 ∧
    (IWineD3DSurfaceImpl_SaveSnapshot plainEnv hugeSwapchainSurface true rampImage).reads.head? =
      some (-131072) := by
  refine ⟨by decide, by decide, ?_⟩
  rw [SaveSnapshot_reads_head plainEnv hugeSwapchainSurface rampImage (by decide) (by decide)]
  decide
/-! ### Theorems about the download of a texture -/

/-- The repacking loop writes nothing below the second row and nothing above the last row. -/
theorem surface_download_data_repack_outside (sp dp : Int) (mem : Int → BYTE)
    (hdp : 0 ≤ dp ∧ dp < 2147483648) (n : Nat) : ∀ (s0 d0 : Int) (host : Int → BYTE) (a : Int),
    a < d0 + dp ∨ d0 + ((n : Int) + 1) * dp ≤ a →
    surface_download_data_repack sp dp mem n s0 d0 host a = host a := by
  have hl : ((longToU32 dp : Nat) : Int) = dp := by unfold longToU32; omega
  induction n with
  | zero => intro s0 d0 host a _; rfl
  | succ n ih =>
    intro s0 d0 host a ha
    unfold surface_download_data_repack
    dsimp only
    have hn : (0 : Int) ≤ (n : Int) * dp := mul_nonneg (Int.ofNat_nonneg n) hdp.1
    rw [ih]
    · unfold memcpyAt
      rw [hl, if_neg]
      rintro ⟨h1, h2⟩
      rcases ha with ha | ha
      · omega
      · push_cast at ha
        nlinarith
    · rcases ha with ha | ha
      · left; omega
      · right
        push_cast at ha
        nlinarith

/-- The repacking loop copies rows 1 to n. -/
theorem surface_download_data_repack_row (sp dp : Int) (mem : Int → BYTE)
    (hdp : 0 ≤ dp ∧ dp < 2147483648) (n : Nat) :
    ∀ (s0 d0 : Int) (host : Int → BYTE) (y i : Int), 1 ≤ y → y ≤ n → 0 ≤ i → i < dp →
    surface_download_data_repack sp dp mem n s0 d0 host (d0 + y * dp + i) =
      mem (s0 + y * sp + i) := by
  have hl : ((longToU32 dp : Nat) : Int) = dp := by unfold longToU32; omega
  induction n with
  | zero => intro s0 d0 host y i h1 h2; omega
  | succ n ih =>
    intro s0 d0 host y i h1 h2 h3 h4
    unfold surface_download_data_repack
    dsimp only
    by_cases hy : y = 1
    · subst hy
      rw [surface_download_data_repack_outside sp dp mem hdp n _ _ _ _ (Or.inl (by omega))]
      unfold memcpyAt
      rw [hl, if_pos (by omega)]
      congr 1
      ring
    · have e := ih (s0 + sp) (d0 + dp) (memcpyAt host (d0 + dp) mem (s0 + sp) (longToU32 dp))
        (y - 1) i (by omega) (by push_cast at h2; omega) h3 h4
      have e1 : d0 + dp + (y - 1) * dp + i = d0 + y * dp + i := by ring
      have e2 : s0 + sp + (y - 1) * sp + i = s0 + y * sp + i := by ring
      rw [e1, e2] at e
      exact e

/-- C24, as the code behaves: for a padded surface that is neither compressed nor flagged
converted, with pitches below 2^31, after surface_download_data every row y with
1 <= y < Height of the host buffer holds the first dst_pitch bytes of row y of the image
retrieved from the texture, and row 0 of the host buffer holds what it held before the call,
not the texture's row 0. -/
theorem surface_download_data_rows (env : Env) (s : Surface) (image host : Int → BYTE)
    (hf : s.format.isDXT = false) (hc : s.Flags.CONVERTED = false)
    (hn : s.Flags.NONPOW2 = true)
    (hsp : alignUp env (u32 (s.bytesPerPixel * s.pow2Width)) < 2147483648)
    (hdp : IWineD3DSurfaceImpl_GetPitch env s < 2147483648) :
    (∀ y i : Nat, 1 ≤ y → y < s.Height → i < IWineD3DSurfaceImpl_GetPitch env s →
      surface_download_data_contents env s image host
          ((y : Int) * (IWineD3DSurfaceImpl_GetPitch env s : Int) + (i : Int)) =
        image ((y : Int) * (alignUp env (u32 (s.bytesPerPixel * s.pow2Width)) : Int) +
          (i : Int))) ∧
    (∀ i : Nat, i < IWineD3DSurfaceImpl_GetPitch env s →
      surface_download_data_contents env s image host (i : Int) = host (i : Int)) := by
  have e : surface_download_data_contents env s image host =
      surface_download_data_repack
        (alignUp env (u32 (s.bytesPerPixel * s.pow2Width)) : Int)
        (IWineD3DSurfaceImpl_GetPitch env s : Int) image (s.Height - 1) 0 0 host := by
    unfold surface_download_data_contents
    rw [hf, hc, hn, toLong_of_lt _ hsp, toLong_of_lt _ hdp]
    simp
  have hd : (0 : Int) ≤ (IWineD3DSurfaceImpl_GetPitch env s : Int) ∧
      (IWineD3DSurfaceImpl_GetPitch env s : Int) < 2147483648 := by omega
  rw [e]
  refine ⟨?_, ?_⟩
  · intro y i h1 h2 h3
    have h := surface_download_data_repack_row
      (alignUp env (u32 (s.bytesPerPixel * s.pow2Width)) : Int)
      (IWineD3DSurfaceImpl_GetPitch env s : Int) image hd (s.Height - 1) 0 0 host
      (y : Int) (i : Int) (by omega) (by omega) (by omega) (by omega)
    simp only [zero_add] at h
    exact h
  · intro i h1
    exact surface_download_data_repack_outside _ _ image hd (s.Height - 1) 0 0 host (i : Int)
      (Or.inl (by omega))

/-- C24, witness: for the 3x2 surface padded to 4x2 over a host buffer of bytes 0xAA, row 1
of the host buffer is row 1 of the image and row 0 keeps the bytes 0xAA, while the image has
0 as its first byte. -/
theorem surface_download_data_rows_witness :
    ((∀ y i : Nat, 1 ≤ y → y < nonpow2Surface.Height →
        i < IWineD3DSurfaceImpl_GetPitch plainEnv nonpow2Surface →
        surface_download_data_contents plainEnv nonpow2Surface rampImage staleHost
            ((y : Int) * (IWineD3DSurfaceImpl_GetPitch plainEnv nonpow2Surface : Int) +
              (i : Int)) =
          rampImage ((y : Int) *
            (alignUp plainEnv (u32 (nonpow2Surface.bytesPerPixel * nonpow2Surface.pow2Width)) :
              Int) + (i : Int))) ∧
      (∀ i : Nat, i < IWineD3DSurfaceImpl_GetPitch plainEnv nonpow2Surface →
        surface_download_data_contents plainEnv nonpow2Surface rampImage staleHost (i : Int) =
          staleHost (i : Int))) ∧
    IWineD3DSurfaceImpl_GetPitch plainEnv nonpow2Surface = 12 ∧
    alignUp plainEnv (u32 (nonpow2Surface.bytesPerPixel * nonpow2Surface.pow2Width)) = 16 ∧
    surface_download_data_contents plainEnv nonpow2Surface rampImage staleHost 0 = 0xAA ∧
    rampImage 0 = 0 ∧
    surface_download_data_contents plainEnv nonpow2Surface rampImage staleHost 12 = 16 :=
  ⟨surface_download_data_rows plainEnv nonpow2Surface rampImage staleHost (by decide)
      (by decide) (by decide) (by decide) (by decide),
    by decide, by decide, by decide, by decide, by decide⟩

/-! ### Theorems about the software flip -/

/-- A copy of a range onto itself through the row buffer leaves the memory as it is. -/
theorem memcpyAt_swap_self (mem : Int → BYTE) (d : Int) (len : Nat) :
    memcpyAt (memcpyAt mem d mem d len) d (memcpyAt (fun _ => 0) 0 mem d len) 0 len = mem := by
  funext a
  unfold memcpyAt
  by_cases h : d ≤ a ∧ a < d + (len : Int)
  · rw [if_pos h, if_pos (by omega)]
    congr 1
    omega
  · rw [if_neg h, if_neg h]

/-- One iteration of the flip exchanges two ranges that do not overlap. -/
theorem memcpyAt_swap (mem : Int → BYTE) (t b : Int) (len : Nat) (a : Int) :
    memcpyAt (memcpyAt mem t mem b len) b (memcpyAt (fun _ => 0) 0 mem t len) 0 len a =
      if b ≤ a ∧ a < b + (len : Int) then mem (a - b + t)
      else if t ≤ a ∧ a < t + (len : Int) then mem (a - t + b)
      else mem a := by
  unfold memcpyAt
  by_cases h1 : b ≤ a ∧ a < b + (len : Int)
  · rw [if_pos h1, if_pos h1, if_pos (by omega)]
    congr 1
    omega
  · rw [if_neg h1, if_neg h1]
    by_cases h2 : t ≤ a ∧ a < t + (len : Int)
    · rw [if_pos h2, if_pos h2]
      congr 1
      omega
    · rw [if_neg h2, if_neg h2]

/-- The flip loop, started with the two pointers far enough apart, exchanges row i from the
top with row i from the bottom for each of its n iterations and changes nothing else. -/
theorem read_from_framebuffer_flipLoop_spec (pitch off len : Nat) (hlen : len ≤ pitch) (n : Nat) :
    ∀ (top bottom : Int) (mem : Int → BYTE),
      top + (n : Int) * pitch ≤ bottom - ((n : Int) - 1) * pitch →
      (∀ i j : Nat, i < n → j < len →
        read_from_framebuffer_flipLoop pitch off len n top bottom mem
            (top + off + (i : Int) * pitch + j) = mem (bottom + off - (i : Int) * pitch + j)) ∧
      (∀ i j : Nat, i < n → j < len →
        read_from_framebuffer_flipLoop pitch off len n top bottom mem
            (bottom + off - (i : Int) * pitch + j) = mem (top + off + (i : Int) * pitch + j)) ∧
      (∀ a : Int,
        (∀ i : Nat, i < n → ¬ (top + off + (i : Int) * pitch ≤ a ∧
          a < top + off + (i : Int) * pitch + len)) →
        (∀ i : Nat, i < n → ¬ (bottom + off - (i : Int) * pitch ≤ a ∧
          a < bottom + off - (i : Int) * pitch + len)) →
        read_from_framebuffer_flipLoop pitch off len n top bottom mem a = mem a) := by
  induction n with
  | zero =>
    intro top bottom mem _
    refine ⟨fun i j hi => absurd hi (Nat.not_lt_zero i), fun i j hi => absurd hi (Nat.not_lt_zero i),
      fun a _ _ => rfl⟩
  | succ n ih =>
    intro top bottom mem hsep
    have hp : (0 : Int) ≤ (pitch : Int) := Int.ofNat_nonneg pitch
    have hnp : (0 : Int) ≤ (n : Int) * pitch := mul_nonneg (Int.ofNat_nonneg n) hp
    have hl : (len : Int) ≤ (pitch : Int) := Int.ofNat_le.2 hlen
    have hsep2 : top + ((n : Int) + 1) * pitch ≤ bottom - (n : Int) * pitch := by
      push_cast at hsep
      linarith
    have hdis : top + off + (len : Int) ≤ bottom + off := by nlinarith
    obtain ⟨ih1, ih2, ih3⟩ := ih (top + pitch) (bottom - pitch)
      (memcpyAt (memcpyAt mem (top + off) mem (bottom + off) len) (bottom + off)
        (memcpyAt (fun _ => 0) 0 mem (top + off) len) 0 len) (by linarith)
    have hmul : ∀ i : Nat, i < n → ((i : Int) + 1) * pitch ≤ (n : Int) * pitch := by
      intro i hi
      have : ((i : Int) + 1) ≤ (n : Int) := by omega
      exact mul_le_mul_of_nonneg_right this hp
    have hmul0 : ∀ i : Nat, (0 : Int) ≤ (i : Int) * pitch :=
      fun i => mul_nonneg (Int.ofNat_nonneg i) hp
    have unf : ∀ a, read_from_framebuffer_flipLoop pitch off len (n + 1) top bottom mem a =
        read_from_framebuffer_flipLoop pitch off len n (top + pitch) (bottom - pitch)
          (memcpyAt (memcpyAt mem (top + off) mem (bottom + off) len) (bottom + off)
            (memcpyAt (fun _ => 0) 0 mem (top + off) len) 0 len) a := fun a => rfl
    refine ⟨?_, ?_, ?_⟩
    · intro i j hi hj
      rw [unf]
      have hj2 : (j : Int) < (len : Int) := Int.ofNat_lt.2 hj
      cases i with
      | zero =>
        rw [ih3, memcpyAt_swap mem _ _ len]
        · rw [if_neg (by push_cast; omega), if_pos (by push_cast; omega)]
          congr 1
          push_cast
          ring
        · intro k hk
          have := hmul0 k
          push_cast
          intro hh
          linarith [hh.2]
        · intro k hk
          have := hmul k hk
          push_cast
          intro hh
          linarith [hh.1]
      | succ i =>
        have hi2 : i < n := by omega
        have e := ih1 i j hi2 hj
        have ea : top + pitch + off + (i : Int) * pitch + j =
            top + off + ((i + 1 : Nat) : Int) * pitch + j := by push_cast; ring
        rw [ea] at e
        rw [e, memcpyAt_swap mem _ _ len]
        have := hmul i hi2
        have := hmul0 i
        rw [if_neg (by intro hh; linarith [hh.1]), if_neg (by intro hh; linarith [hh.2])]
        congr 1
        push_cast
        ring
    · intro i j hi hj
      rw [unf]
      have hj2 : (j : Int) < (len : Int) := Int.ofNat_lt.2 hj
      cases i with
      | zero =>
        rw [ih3, memcpyAt_swap mem _ _ len]
        · rw [if_pos (by push_cast; omega)]
          congr 1
          push_cast
          ring
        · intro k hk
          have := hmul0 k
          have := hmul k hk
          push_cast
          intro hh
          linarith [hh.2]
        · intro k hk
          have := hmul0 k
          push_cast
          intro hh
          linarith [hh.2]
      | succ i =>
        have hi2 : i < n := by omega
        have e := ih2 i j hi2 hj
        have ea : bottom - pitch + off - (i : Int) * pitch + j =
            bottom + off - ((i + 1 : Nat) : Int) * pitch + j := by push_cast; ring
        rw [ea] at e
        rw [e, memcpyAt_swap mem _ _ len]
        have := hmul i hi2
        have := hmul0 i
        rw [if_neg (by intro hh; linarith [hh.1]), if_neg (by intro hh; linarith [hh.2])]
        congr 1
        push_cast
        ring
    · intro a h1 h2
      rw [unf, ih3, memcpyAt_swap mem _ _ len]
      · have t0 := h1 0 (Nat.succ_pos n)
        have b0 := h2 0 (Nat.succ_pos n)
        simp only [Nat.cast_zero, zero_mul, add_zero, sub_zero] at t0 b0
        rw [if_neg b0, if_neg t0]
      · intro k hk
        have := h1 (k + 1) (by omega)
        push_cast at this
        intro hh
        apply this
        constructor <;> linarith [hh.1, hh.2]
      · intro k hk
        have := h2 (k + 1) (by omega)
        push_cast at this
        intro hh
        apply this
        constructor <;> linarith [hh.1, hh.2]
theorem longToU32_natCast (n : Nat) (hn : n < 4294967296) : longToU32 (n : Int) = n := by
  unfold longToU32
  omega

/-- The flip as the loop, for a rectangle with top = 0 that lies in the first 2^31 columns and
rows of a buffer whose rows hold it. -/
theorem read_from_framebuffer_flip_top0_eq (env : Env) (l r h pitch bpp : Nat)
    (mem : Int → BYTE) (hlr : l ≤ r) (hrow : r * bpp ≤ pitch) (hr : r < 2147483648)
    (hp : pitch < 2147483648) (hh : 0 < h) (hh2 : h < 2147483648)
    (hfit : pitch * h < 4294967296)
    (halloc : env.HeapAlloc ((r - l) * bpp) ≠ 0) :
    read_from_framebuffer_flip env ⟨(l : Int), 0, (r : Int), (h : Int)⟩ pitch bpp mem =
      read_from_framebuffer_flipLoop pitch (l * bpp) ((r - l) * bpp) (h / 2) 0
        ((pitch * (h - 1) : Nat) : Int) mem := by
  have hlen : (r - l) * bpp ≤ r * bpp := Nat.mul_le_mul_right bpp (Nat.sub_le r l)
  have hoff : l * bpp ≤ r * bpp := Nat.mul_le_mul_right bpp hlr
  have e1 : wrapLong ((r : Int) - (l : Int)) = ((r - l : Nat) : Int) := by
    rw [← Nat.cast_sub hlr]
    exact wrapLong_of_nat _ (by omega)
  have e2 : wrapLong (((r - l : Nat) : Int) * (bpp : Int)) = (((r - l) * bpp : Nat) : Int) := by
    rw [← Nat.cast_mul]
    exact wrapLong_of_nat _ (by omega)
  have e3 : longToU32 ((((r - l) * bpp : Nat)) : Int) = (r - l) * bpp :=
    longToU32_natCast _ (by omega)
  have e4 : wrapLong ((l : Int) * (bpp : Int)) = ((l * bpp : Nat) : Int) := by
    rw [← Nat.cast_mul]
    exact wrapLong_of_nat _ (by omega)
  have e5 : longToU32 ((l * bpp : Nat) : Int) = l * bpp := longToU32_natCast _ (by omega)
  have e6 : wrapLong ((h : Int) - 0) = (h : Int) := by
    rw [sub_zero]
    exact wrapLong_of_nat _ hh2
  have e7 : wrapLong ((h : Int) - 1) = ((h - 1 : Nat) : Int) := by
    have : (h : Int) - 1 = ((h - 1 : Nat) : Int) := by omega
    rw [this]
    exact wrapLong_of_nat _ (by omega)
  have e8 : longToU32 ((h - 1 : Nat) : Int) = h - 1 := longToU32_natCast _ (by omega)
  have e9 : longToU32 0 = 0 := by decide
  have hle : pitch * (h - 1) ≤ pitch * h := Nat.mul_le_mul_left pitch (Nat.sub_le h 1)
  have e10 : u32 (pitch * (h - 1)) = pitch * (h - 1) := by unfold u32; omega
  have e11 : u32 (pitch * 0) = 0 := by rw [Nat.mul_zero]; rfl
  have e12 : (Int.tdiv (h : Int) 2).toNat = h / 2 := by
    rw [Int.tdiv_eq_ediv (Int.ofNat_nonneg h) (by decide)]
    omega
  unfold read_from_framebuffer_flip
  dsimp only
  rw [e1, e2, e3, e4, e5, e6, e7, e8, e9, e10, e11, e12, if_neg halloc]
  rfl
/-- For a rectangle with top = 0 the software flip reverses the order of the rows of the
rectangle and changes nothing outside it. -/
theorem read_from_framebuffer_flip_top0 (env : Env) (l r h pitch bpp : Nat)
    (mem : Int → BYTE) (hlr : l ≤ r) (hrow : r * bpp ≤ pitch) (hr : r < 2147483648)
    (hp : pitch < 2147483648) (hh2 : h < 2147483648) (hfit : pitch * h < 4294967296)
    (halloc : env.HeapAlloc ((r - l) * bpp) ≠ 0) :
    (∀ y j : Nat, y < h → j < (r - l) * bpp →
      read_from_framebuffer_flip env ⟨(l : Int), 0, (r : Int), (h : Int)⟩ pitch bpp mem
          ((y : Int) * (pitch : Int) + ((l * bpp : Nat) : Int) + (j : Int)) =
        mem (((h : Int) - 1 - (y : Int)) * (pitch : Int) + ((l * bpp : Nat) : Int) +
          (j : Int))) ∧
    (∀ a : Int,
      (∀ y : Nat, y < h → ¬ ((y : Int) * (pitch : Int) + ((l * bpp : Nat) : Int) ≤ a ∧
        a < (y : Int) * (pitch : Int) + ((l * bpp : Nat) : Int) +
          (((r - l) * bpp : Nat) : Int))) →
      read_from_framebuffer_flip env ⟨(l : Int), 0, (r : Int), (h : Int)⟩ pitch bpp mem a =
        mem a) := by
  rcases Nat.eq_zero_or_pos h with h0 | hh
  · subst h0
    have e : read_from_framebuffer_flip env ⟨(l : Int), 0, (r : Int), ((0 : Nat) : Int)⟩
        pitch bpp mem = mem := by
      have hc : (Int.tdiv (wrapLong (((0 : Nat) : Int) - 0)) 2).toNat = 0 := by decide
      unfold read_from_framebuffer_flip
      dsimp only
      rw [hc]
      split_ifs <;> rfl
    rw [e]
    exact ⟨fun y j hy => absurd hy (Nat.not_lt_zero y), fun a _ => rfl⟩
  · have hlenle : (r - l) * bpp ≤ pitch := by
      have : (r - l) * bpp ≤ r * bpp := Nat.mul_le_mul_right bpp (Nat.sub_le r l)
      omega
    have hoffle : l * bpp + (r - l) * bpp ≤ pitch := by
      have : l * bpp + (r - l) * bpp = r * bpp := by
        rw [← Nat.add_mul]
        congr 1
        omega
      omega
    have hpz : (0 : Int) ≤ (pitch : Int) := Int.ofNat_nonneg pitch
    have hmono : ∀ a b : Int, a ≤ b → a * (pitch : Int) ≤ b * (pitch : Int) :=
      fun a b hab => mul_le_mul_of_nonneg_right hab hpz
    have hB : ((pitch * (h - 1) : Nat) : Int) = ((h : Int) - 1) * (pitch : Int) := by
      have : ((h - 1 : Nat) : Int) = (h : Int) - 1 := by omega
      rw [Nat.cast_mul, this]
      ring
    have hn : 2 * ((h / 2 : Nat) : Int) ≤ (h : Int) := by omega
    have hn2 : (h : Int) - 1 ≤ 2 * ((h / 2 : Nat) : Int) := by omega
    have hsep := hmono (2 * ((h / 2 : Nat) : Int) - 1) ((h : Int) - 1) (by omega)
    rw [read_from_framebuffer_flip_top0_eq env l r h pitch bpp mem hlr hrow hr hp hh hh2 hfit
      halloc, hB]
    obtain ⟨L1, L2, L3⟩ := read_from_framebuffer_flipLoop_spec pitch (l * bpp) ((r - l) * bpp)
      hlenle (h / 2) 0 (((h : Int) - 1) * (pitch : Int)) mem (by linarith)
    have hlenz : (((r - l) * bpp : Nat) : Int) ≤ (pitch : Int) := Int.ofNat_le.2 hlenle
    have hoffz : ((l * bpp : Nat) : Int) + (((r - l) * bpp : Nat) : Int) ≤ (pitch : Int) := by
      have := Int.ofNat_le.2 hoffle
      push_cast at this ⊢
      exact this
    refine ⟨?_, ?_⟩
    · intro y j hy hj
      have hjz : (j : Int) < (((r - l) * bpp : Nat) : Int) := Int.ofNat_lt.2 hj
      by_cases hy1 : y < h / 2
      · have e := L1 y j hy1 hj
        have ea : (0 : Int) + ((l * bpp : Nat) : Int) + (y : Int) * (pitch : Int) + (j : Int) =
            (y : Int) * (pitch : Int) + ((l * bpp : Nat) : Int) + (j : Int) := by ring
        have eb : ((h : Int) - 1) * (pitch : Int) + ((l * bpp : Nat) : Int) -
            (y : Int) * (pitch : Int) + (j : Int) =
            ((h : Int) - 1 - (y : Int)) * (pitch : Int) + ((l * bpp : Nat) : Int) +
              (j : Int) := by ring
        rw [ea, eb] at e
        exact e
      · by_cases hy2 : h - 1 - y < h / 2
        · have e := L2 (h - 1 - y) j hy2 hj
          have hk : ((h - 1 - y : Nat) : Int) = (h : Int) - 1 - (y : Int) := by omega
          rw [hk] at e
          have ea : ((h : Int) - 1) * (pitch : Int) + ((l * bpp : Nat) : Int) -
              ((h : Int) - 1 - (y : Int)) * (pitch : Int) + (j : Int) =
              (y : Int) * (pitch : Int) + ((l * bpp : Nat) : Int) + (j : Int) := by ring
          have eb : (0 : Int) + ((l * bpp : Nat) : Int) +
              ((h : Int) - 1 - (y : Int)) * (pitch : Int) + (j : Int) =
              ((h : Int) - 1 - (y : Int)) * (pitch : Int) + ((l * bpp : Nat) : Int) +
                (j : Int) := by ring
          rw [ea, eb] at e
          exact e
        · have hmid : (h : Int) - 1 - (y : Int) = (y : Int) := by omega
          rw [hmid]
          apply L3
          · intro i hi hh
            have := hmono ((i : Int) + 1) (y : Int) (by omega)
            linarith [hh.2]
          · intro i hi hh
            have := hmono ((y : Int) + 1) ((h : Int) - 1 - (i : Int)) (by omega)
            linarith [hh.1]
    · intro a hout
      apply L3
      · intro i hi hh
        apply hout i (by omega)
        constructor <;> linarith [hh.1, hh.2]
      · intro i hi hh
        apply hout (h - 1 - i) (by omega)
        have hk : ((h - 1 - i : Nat) : Int) = (h : Int) - 1 - (i : Int) := by omega
        rw [hk]
        constructor <;> linarith [hh.1, hh.2]

/-- C25, as the code behaves: for every rectangle with top = 1 and bottom = 3, whatever its
columns, the pitch and the pixel size, the software flip leaves the buffer as it is: the
pointer bottom starts at row bottom - top - 1 = 1, the row at which the pointer top starts,
so that rows 1 and 2 are not exchanged.  With a pitch of 4 bytes and one 4-byte pixel per
row, over memory whose bytes hold their offsets, row 1 still starts with byte 4 after the
flip, where row 2 started with byte 8 before it. -/
theorem read_from_framebuffer_flip_rows_1_2 :
    (∀ (env : Env) (pitch bpp : Nat) (left right : Int) (mem : Int → BYTE),
      read_from_framebuffer_flip env ⟨left, 1, right, 3⟩ pitch bpp mem = mem) ∧
    read_from_framebuffer_flip plainEnv ⟨0, 1, 1, 3⟩ 4 4 rampImage 4 = 4 ∧
    rampImage 8 = 8 := by
  have key : ∀ (env : Env) (pitch bpp : Nat) (left right : Int) (mem : Int → BYTE),
      read_from_framebuffer_flip env ⟨left, 1, right, 3⟩ pitch bpp mem = mem := by
    intro env pitch bpp left right mem
    have h1 : wrapLong ((3 : Int) - 1) = 2 := by decide
    have h2 : wrapLong ((2 : Int) - 1) = 1 := by decide
    have h3 : longToU32 1 = 1 := by decide
    have h4 : (Int.tdiv 2 2).toNat = 1 := by decide
    unfold read_from_framebuffer_flip
    dsimp only
    rw [h1, h2, h3, h4]
    split_ifs
    · rfl
    · unfold read_from_framebuffer_flipLoop
      dsimp only
      unfold read_from_framebuffer_flipLoop
      exact memcpyAt_swap_self mem _ _
  refine ⟨key, ?_, by decide⟩
  rw [key]
  decide

/-! ### Theorems about the 3D sound parameters -/

/-- C22, as the code behaves: GetAllParameters of the buffer and of the listener and
SetAllParameters of the buffer return DSERR_INVALIDPARAM for a null pointer and for a
descriptor whose dwSize is below the size of the structure, and leave the structure of the
caller, the stored parameters and the need-recalc flag as they were.  SetAllParameters of the
listener has neither test: it reads through a null pointer, and for every descriptor, also
one whose dwSize is too small, a deferred call stores the descriptor, sets the need-recalc
flag and returns DS_OK. -/
theorem SetAllParameters_listener_unchecked (env : SoundEnv) (dsb : SoundBuffer)
    (device : SoundDevice) (dwApply : Nat) :
    IDirectSound3DBufferImpl_GetAllParameters env dsb none =
      (DSRESULT.DSERR_INVALIDPARAM, none) ∧
    (∀ p : DS3DBUFFER, p.dwSize < env.sizeof_DS3DBUFFER →
      IDirectSound3DBufferImpl_GetAllParameters env dsb (some p) =
        (DSRESULT.DSERR_INVALIDPARAM, some p)) ∧
    IDirectSound3DBufferImpl_SetAllParameters env device.ds3dl dsb none dwApply =
      (DSRESULT.DSERR_INVALIDPARAM, dsb) ∧
    (∀ p : DS3DBUFFER, p.dwSize < env.sizeof_DS3DBUFFER →
      IDirectSound3DBufferImpl_SetAllParameters env device.ds3dl dsb (some p) dwApply =
        (DSRESULT.DSERR_INVALIDPARAM, dsb)) ∧
    IDirectSound3DListenerImpl_GetAllParameter env device none =
      (DSRESULT.DSERR_INVALIDPARAM, none) ∧
    (∀ p : DS3DLISTENER, p.dwSize < env.sizeof_DS3DLISTENER →
      IDirectSound3DListenerImpl_GetAllParameter env device (some p) =
        (DSRESULT.DSERR_INVALIDPARAM, some p)) ∧
    IDirectSound3DListenerImpl_SetAllParameters env device none dwApply = none ∧
    (∀ p : DS3DLISTENER, dwApply ≠ env.DS3D_IMMEDIATE →
      IDirectSound3DListenerImpl_SetAllParameters env device (some p) dwApply =
        some (DSRESULT.DS_OK, { device with ds3dl := p, ds3dl_need_recalc := true })) ∧
    IDirectSound3DListenerImpl_SetAllParameters {} {} (some shortListener) 1 =
      some (DSRESULT.DS_OK, { ds3dl := shortListener, ds3dl_need_recalc := true }) := by
  refine ⟨rfl, ?_, rfl, ?_, rfl, ?_, rfl, ?_, by decide⟩
  · intro p hp
    simp [IDirectSound3DBufferImpl_GetAllParameters, hp]
  · intro p hp
    have h : p.dwSize ≠ env.sizeof_DS3DBUFFER := by omega
    simp [IDirectSound3DBufferImpl_SetAllParameters, h]
  · intro p hp
    simp [IDirectSound3DListenerImpl_GetAllParameter, hp]
  · intro p hp
    simp [IDirectSound3DListenerImpl_SetAllParameters, hp]

end Wine
